import Mathlib

/-!
# FreeGLUT geometry generation (`src/fg_geometry.c`)

A shallow embedding of the polyhedron catalog, the geometry expander, the draw
dispatcher, the shape caches, the circle table, the Sierpinski sponge and the sphere,
cone, cylinder and torus functions of `fg_geometry.c`, followed by the properties proved
about them.

Conventions of the embedding

* A C `int` (also `GLint`, `GLsizei`) is an `Int`; every arithmetic operation on it is
  reduced to 32-bit two's complement (`iadd`, `imul`, `isub`), an `unsigned int` is a `Nat`
  reduced modulo 2^32 (`toUnsigned`, `umul`), a store into a `GLubyte` keeps the value
  modulo 256 (`toGLubyte`).
* A `GLfloat` is the rational number it denotes: literals are read as exact decimals and
  rounding is not represented. The circle table and the functions built on it are stated
  over any field of numbers, with `sinf`, `cosf`, `sqrtf` and `M_PI` of the C library as
  parameters (`LibM`), so that they can be read over the reals with the real functions.
* Memory reached through a pointer is a `Buffer`: the contents of the cells around the
  base address together with the log of the offsets stored to.
* The OpenGL calls made are collected, in program order, in a list of `GLCall` (array
  drawing) or of `GLImm` (immediate mode).
* What the code asks of its environment is a field of the program state `World`:
  whether the library has been initialised and whether `malloc` succeeds. A failed guard
  or allocation ends the program in `fgError` (`Abort`); `free` is not represented.
* A loop `for (i = lo; i <= hi; i++)` whose bound is `2^31 - 1` does not end, its `int`
  counter wrapping before it passes the bound; a call that enters such a loop has no
  result (`Abort.noReturn`).
* Where the range of a product or the bounds of an array read are the subject, the
  function is embedded a second time with these checked (`ipowChecked`, `Buffer.read` and
  the quadric functions named `...Checked`), and the two embeddings are proved to agree.
-/

namespace FreeGLUT

/-! ## Machine integers and scalar types -/

/-- Reduction of a mathematical integer to the value of a 32-bit two's-complement `int`. -/
def wrapInt (x : Int) : Int := (x + 2147483648) % 4294967296 - 2147483648

/-- The C expression `a + b` on two `int` operands. -/
def iadd (a b : Int) : Int := wrapInt (a + b)

/-- The C expression `a * b` on two `int` operands. -/
def imul (a b : Int) : Int := wrapInt (a * b)

/-- An unsigned byte. -/
abbrev GLubyte := Fin 256

/-- Conversion of an `int` value to `GLubyte` on assignment: the value modulo 256. -/
def toGLubyte (x : Int) : GLubyte := ⟨(x % 256).toNat, by omega⟩

/-- Single-precision values, represented by the rational they denote. -/
abbrev GLfloat := ℚ

/-! ## Memory -/

/-- A region of memory reached through a pointer: `cell p` is the content at offset `p`
from the pointer, `stores` lists the offsets stored to (most recent first) and `size` is
the number of elements the region was declared or allocated with. -/
structure Buffer (α : Type) where
  cell : Int → α
  stores : List Int
  size : Nat

/-- A region of `size` elements all holding `fill`, not yet stored to (a zero-initialised
static array, or the result of a successful allocation). -/
def Buffer.fresh {α : Type} (fill : α) (size : Nat) : Buffer α :=
  { cell := fun _ => fill, stores := [], size := size }

/-- The assignment `b[p] = x`. -/
def Buffer.store {α : Type} (b : Buffer α) (p : Int) (x : α) : Buffer α :=
  { cell := fun q => if q = p then x else b.cell q, stores := p :: b.stores, size := b.size }

/-- The read `xs[i]` from a constant table given as the list of its elements. A read
outside the table yields the default value of the element type. -/
def readArr {α : Type} [Inhabited α] (xs : List α) (i : Int) : α :=
  if 0 ≤ i then xs.getD i.toNat default else default

/-! ## Counted loops -/

/-- The loop `for (i = 0; i < n; i++) s = body i s`, for `n` iterations. -/
def forLoop {σ : Type} (body : Nat → σ → σ) : Nat → σ → σ
  | 0, s => s
  | n + 1, s => body n (forLoop body n s)

/-- The loop `for (i = 0; i < n; i++)` whose body may stop the program (`none`). -/
def forLoopM {σ : Type} (body : Nat → σ → Option σ) : Nat → σ → Option σ
  | 0, s => some s
  | n + 1, s => (forLoopM body n s).bind (body n)

/-! ## OpenGL calls -/

/-- The OpenGL enumerants used by the drawing code. -/
inductive GLenum
  | GL_LINE_LOOP
  | GL_TRIANGLES
  | GL_VERTEX_ARRAY
  | GL_NORMAL_ARRAY
  | GL_FLOAT
  | GL_UNSIGNED_BYTE
  | GL_LINES
  | GL_LINE_STRIP
  | GL_TRIANGLE_FAN
  | GL_QUAD_STRIP
  | GL_QUADS
  deriving DecidableEq, Repr

/-- One call into OpenGL, with its arguments. A pointer argument is represented by the
region it points to, as it is when the call is made. -/
inductive GLCall
  | glEnableClientState (cap : GLenum)
  | glDisableClientState (cap : GLenum)
  | glVertexPointer (size : Int) (type : GLenum) (stride : Int) (pointer : Buffer GLfloat)
  | glNormalPointer (type : GLenum) (stride : Int) (pointer : Buffer GLfloat)
  | glDrawArrays (mode : GLenum) (first : Int) (count : Int)
  | glDrawElements (mode : GLenum) (count : Int) (type : GLenum)
      (indices : Option (Buffer GLubyte))

/-- Whether a call is a draw submission (`glDrawArrays` or `glDrawElements`). -/
def GLCall.isSubmission : GLCall → Bool
  | .glDrawArrays _ _ _ => true
  | .glDrawElements _ _ _ _ => true
  | _ => false

/-- The draw submissions among a sequence of calls, in order. -/
def submissions (calls : List GLCall) : List GLCall :=
  calls.filter GLCall.isSubmission

/-! ## Draw dispatcher (source lines 46-77) -/

/-- Wire-mode drawing: one `GL_LINE_LOOP` per face through `glDrawArrays`. The result
is the sequence of OpenGL calls made. -/
def fghDrawGeometryWire (vertices normals : Buffer GLfloat) (numFaces numEdgePerFace : Int) :
    List GLCall :=
  [GLCall.glEnableClientState GLenum.GL_VERTEX_ARRAY,
   GLCall.glEnableClientState GLenum.GL_NORMAL_ARRAY,
   GLCall.glVertexPointer 3 GLenum.GL_FLOAT 0 vertices,
   GLCall.glNormalPointer GLenum.GL_FLOAT 0 normals]
  ++ forLoop (fun i calls =>
        calls ++ [GLCall.glDrawArrays GLenum.GL_LINE_LOOP (imul i numEdgePerFace) numEdgePerFace])
      numFaces.toNat []
  ++ [GLCall.glDisableClientState GLenum.GL_VERTEX_ARRAY,
      GLCall.glDisableClientState GLenum.GL_NORMAL_ARRAY]

/-- Solid-mode drawing: `glDrawArrays` for triangular faces, `glDrawElements` through
the index array otherwise. The result is the sequence of OpenGL calls made. -/
def fghDrawGeometrySolid (vertices normals : Buffer GLfloat) (vertIdxs : Option (Buffer GLubyte))
    (numVertices numEdgePerFace : Int) : List GLCall :=
  [GLCall.glEnableClientState GLenum.GL_VERTEX_ARRAY,
   GLCall.glEnableClientState GLenum.GL_NORMAL_ARRAY,
   GLCall.glVertexPointer 3 GLenum.GL_FLOAT 0 vertices,
   GLCall.glNormalPointer GLenum.GL_FLOAT 0 normals]
  ++ (if numEdgePerFace = 3 then
        [GLCall.glDrawArrays GLenum.GL_TRIANGLES 0 numVertices]
      else
        [GLCall.glDrawElements GLenum.GL_TRIANGLES numVertices GLenum.GL_UNSIGNED_BYTE vertIdxs])
  ++ [GLCall.glDisableClientState GLenum.GL_VERTEX_ARRAY,
      GLCall.glDisableClientState GLenum.GL_NORMAL_ARRAY]

/-! ## Shape decomposition to triangles (source lines 79-140) -/

/-- Quad: 4 input vertices, 6 output (2 triangles). -/
def vert4Decomp : List GLubyte := [0,1,2, 0,2,3]

/-- Pentagon: 5 input vertices, 9 output (3 triangles). -/
def vert5Decomp : List GLubyte := [0,1,2, 0,2,4, 4,2,3]

/-- The three output arrays of the geometry expander. `vertIdxOut` is `none` when the
caller passed a null pointer. -/
structure GeometryArrays (α : Type) where
  vertOut : Buffer α
  normOut : Buffer α
  vertIdxOut : Option (Buffer GLubyte)

/-- Body of the inner loop over the vertices `j` of face `i` (source lines 117-126):
copies the coordinates of the vertex and the normal of the face. -/
def copyVertexAndNormal {α : Type} [Inhabited α] (numEdgePerFace : Int) (vertices : List α)
    (vertIndices : List GLubyte) (normals : List α) (i j : Nat) (st : GeometryArrays α) :
    GeometryArrays α :=
  let normIdx := imul i 3
  let faceIdxVertIdx := imul i numEdgePerFace
  let outIdx := iadd (imul (imul i numEdgePerFace) 3) (imul j 3)
  let vertIdx := imul ((readArr vertIndices (iadd faceIdxVertIdx j)).val : Int) 3
  { vertOut :=
      ((st.vertOut.store outIdx (readArr vertices vertIdx)).store
        (iadd outIdx 1) (readArr vertices (iadd vertIdx 1))).store
        (iadd outIdx 2) (readArr vertices (iadd vertIdx 2))
    normOut :=
      ((st.normOut.store outIdx (readArr normals normIdx)).store
        (iadd outIdx 1) (readArr normals (iadd normIdx 1))).store
        (iadd outIdx 2) (readArr normals (iadd normIdx 2))
    vertIdxOut := st.vertIdxOut }

/-- Body of the loop generating the vertex indices of face `i` (source line 132). The
store goes through `vertIdxOut`; through a null pointer the program stops. -/
def emitFaceIndex {α : Type} (numEdgePerFace numEdgeIdxPerFace : Int) (vertSamps : List GLubyte)
    (i j : Nat) (st : GeometryArrays α) : Option (GeometryArrays α) :=
  let faceIdxVertIdx := imul i numEdgePerFace
  match st.vertIdxOut with
  | none => none
  | some idx =>
    some { vertOut := st.vertOut
           normOut := st.normOut
           vertIdxOut := some (idx.store (iadd (imul i numEdgeIdxPerFace) j)
             (toGLubyte (iadd faceIdxVertIdx ((readArr vertSamps j).val : Int)))) }

/-- Body of the outer loop over the faces `i` (source lines 113-132). -/
def expandFace {α : Type} [Inhabited α] (numEdgePerFace : Int) (vertices : List α)
    (vertIndices : List GLubyte) (normals : List α) (vertSamps : Option (List GLubyte))
    (numEdgeIdxPerFace : Int) (i : Nat) (st : GeometryArrays α) : Option (GeometryArrays α) :=
  let st1 := forLoop (copyVertexAndNormal numEdgePerFace vertices vertIndices normals i)
    numEdgePerFace.toNat st
  match vertSamps with
  | none => some st1
  | some samps =>
    forLoopM (emitFaceIndex numEdgePerFace numEdgeIdxPerFace samps i) numEdgeIdxPerFace.toNat st1

/-- The geometry expander. `vertSamps` is the decomposition table selected by the
`switch` (null for every value other than 4 and 5), `numEdgeIdxPerFace` is only read
when `vertSamps` is set. The result is `none` when the program stops on a store through
a null `vertIdxOut`. -/
def fghGenerateGeometryWithIndexArray {α : Type} [Inhabited α] (numFaces numEdgePerFace : Int)
    (vertices : List α) (vertIndices : List GLubyte) (normals : List α)
    (vertOut normOut : Buffer α) (vertIdxOut : Option (Buffer GLubyte)) :
    Option (GeometryArrays α) :=
  let vertSamps : Option (List GLubyte) :=
    if numEdgePerFace = 4 then some vert4Decomp
    else if numEdgePerFace = 5 then some vert5Decomp
    else none
  let numEdgeIdxPerFace : Int :=
    if numEdgePerFace = 4 then 6 else if numEdgePerFace = 5 then 9 else 0
  forLoopM (expandFace numEdgePerFace vertices vertIndices normals vertSamps numEdgeIdxPerFace)
    numFaces.toNat { vertOut := vertOut, normOut := normOut, vertIdxOut := vertIdxOut }

/-- The expander called with a null index array. -/
def fghGenerateGeometry {α : Type} [Inhabited α] (numFaces numEdgePerFace : Int)
    (vertices : List α) (vertIndices : List GLubyte) (normals : List α)
    (vertOut normOut : Buffer α) : Option (GeometryArrays α) :=
  fghGenerateGeometryWithIndexArray numFaces numEdgePerFace vertices vertIndices normals
    vertOut normOut none

/-! ## Shape catalog (source lines 172-519) -/

/-! ### Cube -/

/-- Number of vertices of the cube. -/
def CUBE_NUM_VERT : Nat := 8

/-- Number of faces of the cube. -/
def CUBE_NUM_FACES : Nat := 6

/-- Number of edges (and vertices) of each face of the cube. -/
def CUBE_NUM_EDGE_PER_FACE : Nat := 4

/-- Number of entries of the flat arrays of the cube. -/
def CUBE_VERT_PER_OBJ : Nat := CUBE_NUM_FACES*CUBE_NUM_EDGE_PER_FACE

/-- Number of floats of each flat array of the cube. -/
def CUBE_VERT_ELEM_PER_OBJ : Nat := CUBE_VERT_PER_OBJ*3

/-- Number of vertices submitted when the cube is drawn as triangles. -/
def CUBE_VERT_PER_OBJ_TRI : Nat := CUBE_VERT_PER_OBJ+CUBE_NUM_FACES*2

/-- Vertex coordinates of the cube (`cube_v[CUBE_NUM_VERT*3]`). -/
def cube_v : List GLfloat :=
  [0.5, 0.5, 0.5,
   -0.5, 0.5, 0.5,
   -0.5, -0.5, 0.5,
   0.5, -0.5, 0.5,
   0.5, -0.5, -0.5,
   0.5, 0.5, -0.5,
   -0.5, 0.5, -0.5,
   -0.5, -0.5, -0.5]

/-- Normal vectors of the cube (`cube_n[CUBE_NUM_FACES*3]`). -/
def cube_n : List GLfloat :=
  [0.0, 0.0, 1.0,
   1.0, 0.0, 0.0,
   0.0, 1.0, 0.0,
   -1.0, 0.0, 0.0,
   0.0, -1.0, 0.0,
   0.0, 0.0, -1.0]

/-- Vertex indices of the cube (`cube_vi[CUBE_VERT_PER_OBJ]`). -/
def cube_vi : List GLubyte :=
  [0, 1, 2, 3,
   0, 3, 4, 5,
   0, 5, 6, 1,
   1, 6, 7, 2,
   7, 4, 3, 2,
   4, 7, 6, 5]

/-! ### Dodecahedron -/

/-- Number of vertices of the dodecahedron. -/
def DODECAHEDRON_NUM_VERT : Nat := 20

/-- Number of faces of the dodecahedron. -/
def DODECAHEDRON_NUM_FACES : Nat := 12

/-- Number of edges (and vertices) of each face of the dodecahedron. -/
def DODECAHEDRON_NUM_EDGE_PER_FACE : Nat := 5

/-- Number of entries of the flat arrays of the dodecahedron. -/
def DODECAHEDRON_VERT_PER_OBJ : Nat := DODECAHEDRON_NUM_FACES*DODECAHEDRON_NUM_EDGE_PER_FACE

/-- Number of floats of each flat array of the dodecahedron. -/
def DODECAHEDRON_VERT_ELEM_PER_OBJ : Nat := DODECAHEDRON_VERT_PER_OBJ*3

/-- Number of vertices submitted when the dodecahedron is drawn as triangles. -/
def DODECAHEDRON_VERT_PER_OBJ_TRI : Nat := DODECAHEDRON_VERT_PER_OBJ+DODECAHEDRON_NUM_FACES*4

/-- Vertex coordinates of the dodecahedron (`dodecahedron_v[DODECAHEDRON_NUM_VERT*3]`). -/
def dodecahedron_v : List GLfloat :=
  [0.0, 1.61803398875, 0.61803398875,
   -1.0, 1.0, 1.0,
   -0.61803398875, 0.0, 1.61803398875,
   0.61803398875, 0.0, 1.61803398875,
   1.0, 1.0, 1.0,
   0.0, 1.61803398875, -0.61803398875,
   1.0, 1.0, -1.0,
   0.61803398875, 0.0, -1.61803398875,
   -0.61803398875, 0.0, -1.61803398875,
   -1.0, 1.0, -1.0,
   0.0, -1.61803398875, 0.61803398875,
   1.0, -1.0, 1.0,
   -1.0, -1.0, 1.0,
   0.0, -1.61803398875, -0.61803398875,
   -1.0, -1.0, -1.0,
   1.0, -1.0, -1.0,
   1.61803398875, -0.61803398875, 0.0,
   1.61803398875, 0.61803398875, 0.0,
   -1.61803398875, 0.61803398875, 0.0,
   -1.61803398875, -0.61803398875, 0.0]

/-- Normal vectors of the dodecahedron (`dodecahedron_n[DODECAHEDRON_NUM_FACES*3]`). -/
def dodecahedron_n : List GLfloat :=
  [0.0, 0.525731112119, 0.850650808354,
   0.0, 0.525731112119, -0.850650808354,
   0.0, -0.525731112119, 0.850650808354,
   0.0, -0.525731112119, -0.850650808354,
   0.850650808354, 0.0, 0.525731112119,
   -0.850650808354, 0.0, 0.525731112119,
   0.850650808354, 0.0, -0.525731112119,
   -0.850650808354, 0.0, -0.525731112119,
   0.525731112119, 0.850650808354, 0.0,
   0.525731112119, -0.850650808354, 0.0,
   -0.525731112119, 0.850650808354, 0.0,
   -0.525731112119, -0.850650808354, 0.0]

/-- Vertex indices of the dodecahedron (`dodecahedron_vi[DODECAHEDRON_VERT_PER_OBJ]`). -/
def dodecahedron_vi : List GLubyte :=
  [0, 1, 2, 3, 4,
   5, 6, 7, 8, 9,
   10, 11, 3, 2, 12,
   13, 14, 8, 7, 15,
   3, 11, 16, 17, 4,
   2, 1, 18, 19, 12,
   7, 6, 17, 16, 15,
   8, 14, 19, 18, 9,
   17, 6, 5, 0, 4,
   16, 11, 10, 13, 15,
   18, 1, 0, 5, 9,
   19, 14, 13, 10, 12]

/-! ### Icosahedron -/

/-- Number of vertices of the icosahedron. -/
def ICOSAHEDRON_NUM_VERT : Nat := 12

/-- Number of faces of the icosahedron. -/
def ICOSAHEDRON_NUM_FACES : Nat := 20

/-- Number of edges (and vertices) of each face of the icosahedron. -/
def ICOSAHEDRON_NUM_EDGE_PER_FACE : Nat := 3

/-- Number of entries of the flat arrays of the icosahedron. -/
def ICOSAHEDRON_VERT_PER_OBJ : Nat := ICOSAHEDRON_NUM_FACES*ICOSAHEDRON_NUM_EDGE_PER_FACE

/-- Number of floats of each flat array of the icosahedron. -/
def ICOSAHEDRON_VERT_ELEM_PER_OBJ : Nat := ICOSAHEDRON_VERT_PER_OBJ*3

/-- Number of vertices submitted when the icosahedron is drawn as triangles. -/
def ICOSAHEDRON_VERT_PER_OBJ_TRI : Nat := ICOSAHEDRON_VERT_PER_OBJ

/-- Vertex coordinates of the icosahedron (`icosahedron_v[ICOSAHEDRON_NUM_VERT*3]`). -/
def icosahedron_v : List GLfloat :=
  [1.0, 0.0, 0.0,
   0.447213595500, 0.894427191000, 0.0,
   0.447213595500, 0.276393202252, 0.850650808354,
   0.447213595500, -0.723606797748, 0.525731112119,
   0.447213595500, -0.723606797748, -0.525731112119,
   0.447213595500, 0.276393202252, -0.850650808354,
   -0.447213595500, -0.894427191000, 0.0,
   -0.447213595500, -0.276393202252, 0.850650808354,
   -0.447213595500, 0.723606797748, 0.525731112119,
   -0.447213595500, 0.723606797748, -0.525731112119,
   -0.447213595500, -0.276393202252, -0.850650808354,
   -1.0, 0.0, 0.0]

/-- Normal vectors of the icosahedron (`icosahedron_n[ICOSAHEDRON_NUM_FACES*3]`). -/
def icosahedron_n : List GLfloat :=
  [0.760845213037948, 0.470228201835026, 0.341640786498800,
   0.760845213036861, -0.179611190632978, 0.552786404500000,
   0.760845213033849, -0.581234022404097, 0.0,
   0.760845213036861, -0.179611190632978, -0.552786404500000,
   0.760845213037948, 0.470228201835026, -0.341640786498800,
   0.179611190628666, 0.760845213037948, 0.552786404498399,
   0.179611190634277, -0.290617011204044, 0.894427191000000,
   0.179611190633958, -0.940456403667806, 0.0,
   0.179611190634278, -0.290617011204044, -0.894427191000000,
   0.179611190628666, 0.760845213037948, -0.552786404498399,
   -0.179611190633958, 0.940456403667806, 0.0,
   -0.179611190634277, 0.290617011204044, 0.894427191000000,
   -0.179611190628666, -0.760845213037948, 0.552786404498399,
   -0.179611190628666, -0.760845213037948, -0.552786404498399,
   -0.179611190634277, 0.290617011204044, -0.894427191000000,
   -0.760845213036861, 0.179611190632978, -0.552786404500000,
   -0.760845213033849, 0.581234022404097, 0.0,
   -0.760845213036861, 0.179611190632978, 0.552786404500000,
   -0.760845213037948, -0.470228201835026, 0.341640786498800,
   -0.760845213037948, -0.470228201835026, -0.341640786498800]

/-- Vertex indices of the icosahedron (`icosahedron_vi[ICOSAHEDRON_VERT_PER_OBJ]`). -/
def icosahedron_vi : List GLubyte :=
  [0, 1, 2,
   0, 2, 3,
   0, 3, 4,
   0, 4, 5,
   0, 5, 1,
   1, 8, 2,
   2, 7, 3,
   3, 6, 4,
   4, 10, 5,
   5, 9, 1,
   1, 9, 8,
   2, 8, 7,
   3, 7, 6,
   4, 6, 10,
   5, 10, 9,
   11, 9, 10,
   11, 8, 9,
   11, 7, 8,
   11, 6, 7,
   11, 10, 6]

/-! ### Octahedron -/

/-- Number of vertices of the octahedron. -/
def OCTAHEDRON_NUM_VERT : Nat := 6

/-- Number of faces of the octahedron. -/
def OCTAHEDRON_NUM_FACES : Nat := 8

/-- Number of edges (and vertices) of each face of the octahedron. -/
def OCTAHEDRON_NUM_EDGE_PER_FACE : Nat := 3

/-- Number of entries of the flat arrays of the octahedron. -/
def OCTAHEDRON_VERT_PER_OBJ : Nat := OCTAHEDRON_NUM_FACES*OCTAHEDRON_NUM_EDGE_PER_FACE

/-- Number of floats of each flat array of the octahedron. -/
def OCTAHEDRON_VERT_ELEM_PER_OBJ : Nat := OCTAHEDRON_VERT_PER_OBJ*3

/-- Number of vertices submitted when the octahedron is drawn as triangles. -/
def OCTAHEDRON_VERT_PER_OBJ_TRI : Nat := OCTAHEDRON_VERT_PER_OBJ

/-- Vertex coordinates of the octahedron (`octahedron_v[OCTAHEDRON_NUM_VERT*3]`). -/
def octahedron_v : List GLfloat :=
  [1.0, 0.0, 0.0,
   0.0, 1.0, 0.0,
   0.0, 0.0, 1.0,
   -1.0, 0.0, 0.0,
   0.0, -1.0, 0.0,
   0.0, 0.0, -1.0]

/-- Normal vectors of the octahedron (`octahedron_n[OCTAHEDRON_NUM_FACES*3]`). -/
def octahedron_n : List GLfloat :=
  [0.577350269189, 0.577350269189, 0.577350269189,
   0.577350269189, 0.577350269189, -0.577350269189,
   0.577350269189, -0.577350269189, 0.577350269189,
   0.577350269189, -0.577350269189, -0.577350269189,
   -0.577350269189, 0.577350269189, 0.577350269189,
   -0.577350269189, 0.577350269189, -0.577350269189,
   -0.577350269189, -0.577350269189, 0.577350269189,
   -0.577350269189, -0.577350269189, -0.577350269189]

/-- Vertex indices of the octahedron (`octahedron_vi[OCTAHEDRON_VERT_PER_OBJ]`). -/
def octahedron_vi : List GLubyte :=
  [0, 1, 2,
   0, 5, 1,
   0, 2, 4,
   0, 4, 5,
   3, 2, 1,
   3, 1, 5,
   3, 4, 2,
   3, 5, 4]

/-! ### RhombicDodecahedron -/

/-- Number of vertices of the rhombicdodecahedron. -/
def RHOMBICDODECAHEDRON_NUM_VERT : Nat := 14

/-- Number of faces of the rhombicdodecahedron. -/
def RHOMBICDODECAHEDRON_NUM_FACES : Nat := 12

/-- Number of edges (and vertices) of each face of the rhombicdodecahedron. -/
def RHOMBICDODECAHEDRON_NUM_EDGE_PER_FACE : Nat := 4

/-- Number of entries of the flat arrays of the rhombicdodecahedron. -/
def RHOMBICDODECAHEDRON_VERT_PER_OBJ : Nat := RHOMBICDODECAHEDRON_NUM_FACES*RHOMBICDODECAHEDRON_NUM_EDGE_PER_FACE

/-- Number of floats of each flat array of the rhombicdodecahedron. -/
def RHOMBICDODECAHEDRON_VERT_ELEM_PER_OBJ : Nat := RHOMBICDODECAHEDRON_VERT_PER_OBJ*3

/-- Number of vertices submitted when the rhombicdodecahedron is drawn as triangles. -/
def RHOMBICDODECAHEDRON_VERT_PER_OBJ_TRI : Nat := RHOMBICDODECAHEDRON_VERT_PER_OBJ+RHOMBICDODECAHEDRON_NUM_FACES*2

/-- Vertex coordinates of the rhombicdodecahedron (`rhombicdodecahedron_v[RHOMBICDODECAHEDRON_NUM_VERT*3]`). -/
def rhombicdodecahedron_v : List GLfloat :=
  [0.0, 0.0, 1.0,
   0.707106781187, 0.0, 0.5,
   0.0, 0.707106781187, 0.5,
   -0.707106781187, 0.0, 0.5,
   0.0, -0.707106781187, 0.5,
   0.707106781187, 0.707106781187, 0.0,
   -0.707106781187, 0.707106781187, 0.0,
   -0.707106781187, -0.707106781187, 0.0,
   0.707106781187, -0.707106781187, 0.0,
   0.707106781187, 0.0, -0.5,
   0.0, 0.707106781187, -0.5,
   -0.707106781187, 0.0, -0.5,
   0.0, -0.707106781187, -0.5,
   0.0, 0.0, -1.0]

/-- Normal vectors of the rhombicdodecahedron (`rhombicdodecahedron_n[RHOMBICDODECAHEDRON_NUM_FACES*3]`). -/
def rhombicdodecahedron_n : List GLfloat :=
  [0.353553390594, 0.353553390594, 0.5,
   -0.353553390594, 0.353553390594, 0.5,
   -0.353553390594, -0.353553390594, 0.5,
   0.353553390594, -0.353553390594, 0.5,
   0.0, 1.0, 0.0,
   -1.0, 0.0, 0.0,
   0.0, -1.0, 0.0,
   1.0, 0.0, 0.0,
   0.353553390594, 0.353553390594, -0.5,
   -0.353553390594, 0.353553390594, -0.5,
   -0.353553390594, -0.353553390594, -0.5,
   0.353553390594, -0.353553390594, -0.5]

/-- Vertex indices of the rhombicdodecahedron (`rhombicdodecahedron_vi[RHOMBICDODECAHEDRON_VERT_PER_OBJ]`). -/
def rhombicdodecahedron_vi : List GLubyte :=
  [0, 1, 5, 2,
   0, 2, 6, 3,
   0, 3, 7, 4,
   0, 4, 8, 1,
   5, 10, 6, 2,
   6, 11, 7, 3,
   7, 12, 8, 4,
   8, 9, 5, 1,
   5, 9, 13, 10,
   6, 10, 13, 11,
   7, 11, 13, 12,
   8, 12, 13, 9]

/-! ### Tetrahedron -/

/-- Number of vertices of the tetrahedron. -/
def TETRAHEDRON_NUM_VERT : Nat := 4

/-- Number of faces of the tetrahedron. -/
def TETRAHEDRON_NUM_FACES : Nat := 4

/-- Number of edges (and vertices) of each face of the tetrahedron. -/
def TETRAHEDRON_NUM_EDGE_PER_FACE : Nat := 3

/-- Number of entries of the flat arrays of the tetrahedron. -/
def TETRAHEDRON_VERT_PER_OBJ : Nat := TETRAHEDRON_NUM_FACES*TETRAHEDRON_NUM_EDGE_PER_FACE

/-- Number of floats of each flat array of the tetrahedron. -/
def TETRAHEDRON_VERT_ELEM_PER_OBJ : Nat := TETRAHEDRON_VERT_PER_OBJ*3

/-- Number of vertices submitted when the tetrahedron is drawn as triangles. -/
def TETRAHEDRON_VERT_PER_OBJ_TRI : Nat := TETRAHEDRON_VERT_PER_OBJ

/-- Vertex coordinates of the tetrahedron (`tetrahedron_v[TETRAHEDRON_NUM_VERT*3]`). -/
def tetrahedron_v : List GLfloat :=
  [1.0, 0.0, 0.0,
   -0.333333333333, 0.942809041582, 0.0,
   -0.333333333333, -0.471404520791, 0.816496580928,
   -0.333333333333, -0.471404520791, -0.816496580928]

/-- Normal vectors of the tetrahedron (`tetrahedron_n[TETRAHEDRON_NUM_FACES*3]`). -/
def tetrahedron_n : List GLfloat :=
  [-1.0, 0.0, 0.0,
   0.333333333333, -0.942809041582, 0.0,
   0.333333333333, 0.471404520791, -0.816496580928,
   0.333333333333, 0.471404520791, 0.816496580928]

/-- Vertex indices of the tetrahedron (`tetrahedron_vi[TETRAHEDRON_VERT_PER_OBJ]`). -/
def tetrahedron_vi : List GLubyte :=
  [1, 3, 2,
   0, 2, 3,
   0, 3, 1,
   0, 1, 2]

/-! ## Shape caches (source lines 143-170) -/

/-- The cataloged solids: the `name` argument of the cache and draw templates. -/
inductive Shape
  | cube
  | dodecahedron
  | icosahedron
  | octahedron
  | rhombicdodecahedron
  | tetrahedron
  deriving DecidableEq, Repr

/-- The constants and tables of one solid, as the templates reach them through
`nameCaps##_...` and `name##_...`; `decomposed` tells that the cache of the solid is
declared by `DECLARE_SHAPE_CACHE_DECOMPOSE_TO_TRIANGLE` (with an index array) rather
than by `DECLARE_SHAPE_CACHE`. -/
structure SolidTables where
  NUM_VERT : Nat
  NUM_FACES : Nat
  NUM_EDGE_PER_FACE : Nat
  VERT_PER_OBJ : Nat
  VERT_ELEM_PER_OBJ : Nat
  VERT_PER_OBJ_TRI : Nat
  v : List GLfloat
  n : List GLfloat
  vi : List GLubyte
  decomposed : Bool

/-- The tables each solid is declared with. -/
def Shape.tables : Shape → SolidTables
  | .cube =>
    { NUM_VERT := CUBE_NUM_VERT, NUM_FACES := CUBE_NUM_FACES,
      NUM_EDGE_PER_FACE := CUBE_NUM_EDGE_PER_FACE, VERT_PER_OBJ := CUBE_VERT_PER_OBJ,
      VERT_ELEM_PER_OBJ := CUBE_VERT_ELEM_PER_OBJ, VERT_PER_OBJ_TRI := CUBE_VERT_PER_OBJ_TRI,
      v := cube_v, n := cube_n, vi := cube_vi, decomposed := true }
  | .dodecahedron =>
    { NUM_VERT := DODECAHEDRON_NUM_VERT, NUM_FACES := DODECAHEDRON_NUM_FACES,
      NUM_EDGE_PER_FACE := DODECAHEDRON_NUM_EDGE_PER_FACE,
      VERT_PER_OBJ := DODECAHEDRON_VERT_PER_OBJ,
      VERT_ELEM_PER_OBJ := DODECAHEDRON_VERT_ELEM_PER_OBJ,
      VERT_PER_OBJ_TRI := DODECAHEDRON_VERT_PER_OBJ_TRI,
      v := dodecahedron_v, n := dodecahedron_n, vi := dodecahedron_vi, decomposed := true }
  | .icosahedron =>
    { NUM_VERT := ICOSAHEDRON_NUM_VERT, NUM_FACES := ICOSAHEDRON_NUM_FACES,
      NUM_EDGE_PER_FACE := ICOSAHEDRON_NUM_EDGE_PER_FACE,
      VERT_PER_OBJ := ICOSAHEDRON_VERT_PER_OBJ,
      VERT_ELEM_PER_OBJ := ICOSAHEDRON_VERT_ELEM_PER_OBJ,
      VERT_PER_OBJ_TRI := ICOSAHEDRON_VERT_PER_OBJ_TRI,
      v := icosahedron_v, n := icosahedron_n, vi := icosahedron_vi, decomposed := false }
  | .octahedron =>
    { NUM_VERT := OCTAHEDRON_NUM_VERT, NUM_FACES := OCTAHEDRON_NUM_FACES,
      NUM_EDGE_PER_FACE := OCTAHEDRON_NUM_EDGE_PER_FACE,
      VERT_PER_OBJ := OCTAHEDRON_VERT_PER_OBJ,
      VERT_ELEM_PER_OBJ := OCTAHEDRON_VERT_ELEM_PER_OBJ,
      VERT_PER_OBJ_TRI := OCTAHEDRON_VERT_PER_OBJ_TRI,
      v := octahedron_v, n := octahedron_n, vi := octahedron_vi, decomposed := false }
  | .rhombicdodecahedron =>
    { NUM_VERT := RHOMBICDODECAHEDRON_NUM_VERT, NUM_FACES := RHOMBICDODECAHEDRON_NUM_FACES,
      NUM_EDGE_PER_FACE := RHOMBICDODECAHEDRON_NUM_EDGE_PER_FACE,
      VERT_PER_OBJ := RHOMBICDODECAHEDRON_VERT_PER_OBJ,
      VERT_ELEM_PER_OBJ := RHOMBICDODECAHEDRON_VERT_ELEM_PER_OBJ,
      VERT_PER_OBJ_TRI := RHOMBICDODECAHEDRON_VERT_PER_OBJ_TRI,
      v := rhombicdodecahedron_v, n := rhombicdodecahedron_n, vi := rhombicdodecahedron_vi,
      decomposed := true }
  | .tetrahedron =>
    { NUM_VERT := TETRAHEDRON_NUM_VERT, NUM_FACES := TETRAHEDRON_NUM_FACES,
      NUM_EDGE_PER_FACE := TETRAHEDRON_NUM_EDGE_PER_FACE,
      VERT_PER_OBJ := TETRAHEDRON_VERT_PER_OBJ,
      VERT_ELEM_PER_OBJ := TETRAHEDRON_VERT_ELEM_PER_OBJ,
      VERT_PER_OBJ_TRI := TETRAHEDRON_VERT_PER_OBJ_TRI,
      v := tetrahedron_v, n := tetrahedron_n, vi := tetrahedron_vi, decomposed := false }

/-- The static storage a cache template declares for one solid: the flag
`name##Cached`, the arrays `name##_verts` and `name##_norms`, and, for the decomposed
solids only, the array `name##_vertIdxs`. -/
structure ShapeCache where
  Cached : Bool
  verts : Buffer GLfloat
  norms : Buffer GLfloat
  vertIdxs : Option (Buffer GLubyte)

/-- The static storage of a solid at program start: flag `FALSE`, arrays of the declared
sizes, zero-initialised. -/
def ShapeCache.static (t : SolidTables) : ShapeCache :=
  { Cached := false
    verts := Buffer.fresh 0 t.VERT_ELEM_PER_OBJ
    norms := Buffer.fresh 0 t.VERT_ELEM_PER_OBJ
    vertIdxs := if t.decomposed then some (Buffer.fresh 0 t.VERT_PER_OBJ_TRI) else none }

/-- The routine `fgh##nameICaps##Generate` of the two cache templates: the expander run
from the tables of the solid into its static arrays, with the index array for the
decomposed solids and through `fghGenerateGeometry` for the others. -/
def fghShapeGenerate (t : SolidTables) (c : ShapeCache) : Option ShapeCache :=
  if t.decomposed then
    (fghGenerateGeometryWithIndexArray t.NUM_FACES t.NUM_EDGE_PER_FACE t.v t.vi t.n
      c.verts c.norms c.vertIdxs).map
      (fun out => { Cached := c.Cached, verts := out.vertOut, norms := out.normOut,
                    vertIdxs := out.vertIdxOut })
  else
    (fghGenerateGeometry t.NUM_FACES t.NUM_EDGE_PER_FACE t.v t.vi t.n c.verts c.norms).map
      (fun out => { Cached := c.Cached, verts := out.vertOut, norms := out.normOut,
                    vertIdxs := c.vertIdxs })

/-! ## Program state and internal drawing functions (source lines 625-693) -/

/-- The ways a call does not return: a fatal error raised by the library
(`notInitialised`, `outOfMemory`), a store through a null pointer (`nullStore`), a loop
that does not end (`noReturn`), and, in the functions whose array reads are checked, a
read outside the array (`outOfBounds`). -/
inductive Abort
  | notInitialised (entryPoint : String)
  | outOfMemory (message : String)
  | nullStore
  | outOfBounds
  | noReturn
  deriving DecidableEq, Repr

/-- The state the drawing functions run in: the initialisation flag of the library,
whether allocations succeed, the static cache of every solid and the OpenGL calls made
so far. -/
structure World where
  Initialised : Bool
  mallocOk : Bool
  cache : Shape → ShapeCache
  gl : List GLCall

/-- The state at program start. -/
def World.boot (Initialised mallocOk : Bool) (gl : List GLCall) : World :=
  { Initialised := Initialised, mallocOk := mallocOk,
    cache := fun s => ShapeCache.static s.tables, gl := gl }

/-- Modelled from the spec: the guard `FREEGLUT_EXIT_IF_NOT_INITIALISED` of
`fg_internal.h`, which every entry point starts with. It asserts that the library has
been initialised and otherwise raises a fatal error naming the entry point. -/
def FREEGLUT_EXIT_IF_NOT_INITIALISED (w : World) (entryPoint : String) : Except Abort Unit :=
  if w.Initialised then Except.ok () else Except.error (Abort.notInitialised entryPoint)

/-- The first statement of every internal drawing function: generate the arrays of the
solid unless its flag is set, then set the flag. -/
def ensureCached (s : Shape) (w : World) : Option ShapeCache :=
  if (w.cache s).Cached then some (w.cache s)
  else (fghShapeGenerate s.tables (w.cache s)).map
    (fun c => { Cached := true, verts := c.verts, norms := c.norms, vertIdxs := c.vertIdxs })

/-- The template `_DECLARE_INTERNAL_DRAW_DO_DECLARE`: the function `fgh##nameICaps`. The
index array handed to the solid-mode dispatcher is `name##_vertIdxs` for the decomposed
solids and null for the others. -/
def fghInternalDraw (s : Shape) (useWireMode : Bool) (w : World) : Except Abort World :=
  match ensureCached s w with
  | none => Except.error Abort.nullStore
  | some c =>
    let calls :=
      if useWireMode then
        fghDrawGeometryWire c.verts c.norms s.tables.NUM_FACES s.tables.NUM_EDGE_PER_FACE
      else
        fghDrawGeometrySolid c.verts c.norms c.vertIdxs s.tables.VERT_PER_OBJ_TRI
          s.tables.NUM_EDGE_PER_FACE
    Except.ok { Initialised := w.Initialised, mallocOk := w.mallocOk,
                cache := Function.update w.cache s c, gl := w.gl ++ calls }

/-- The vertex list for a cube of another size: `vertices[i] = dSize*cube_verts[i]` for
every `i` below `CUBE_VERT_ELEM_PER_OBJ`, into a newly allocated array. -/
def scaledCubeVertices (dSize : GLfloat) (cube_verts : Buffer GLfloat) : Buffer GLfloat :=
  forLoop (fun i vertices => vertices.store i (dSize * cube_verts.cell i))
    CUBE_VERT_ELEM_PER_OBJ (Buffer.fresh 0 CUBE_VERT_ELEM_PER_OBJ)

/-- The function `fghCube` (source lines 649-687). -/
def fghCube (dSize : GLfloat) (useWireMode : Bool) (w : World) : Except Abort World :=
  match ensureCached Shape.cube w with
  | none => Except.error Abort.nullStore
  | some c =>
    let allocated : Except Abort (Buffer GLfloat) :=
      if dSize ≠ 1 then
        if w.mallocOk then Except.ok (scaledCubeVertices dSize c.verts)
        else Except.error (Abort.outOfMemory "Failed to allocate memory in fghCube")
      else Except.ok c.verts
    match allocated with
    | Except.error e => Except.error e
    | Except.ok vertices =>
      let calls :=
        if useWireMode then
          fghDrawGeometryWire vertices c.norms CUBE_NUM_FACES CUBE_NUM_EDGE_PER_FACE
        else
          fghDrawGeometrySolid vertices c.norms c.vertIdxs CUBE_VERT_PER_OBJ_TRI
            CUBE_NUM_EDGE_PER_FACE
      Except.ok { Initialised := w.Initialised, mallocOk := w.mallocOk,
                  cache := Function.update w.cache Shape.cube c, gl := w.gl ++ calls }

/-- The function `fghDodecahedron`. -/
def fghDodecahedron (useWireMode : Bool) (w : World) : Except Abort World :=
  fghInternalDraw Shape.dodecahedron useWireMode w

/-- The function `fghIcosahedron`. -/
def fghIcosahedron (useWireMode : Bool) (w : World) : Except Abort World :=
  fghInternalDraw Shape.icosahedron useWireMode w

/-- The function `fghOctahedron`. -/
def fghOctahedron (useWireMode : Bool) (w : World) : Except Abort World :=
  fghInternalDraw Shape.octahedron useWireMode w

/-- The function `fghRhombicDodecahedron`. -/
def fghRhombicDodecahedron (useWireMode : Bool) (w : World) : Except Abort World :=
  fghInternalDraw Shape.rhombicdodecahedron useWireMode w

/-- The function `fghTetrahedron`. -/
def fghTetrahedron (useWireMode : Bool) (w : World) : Except Abort World :=
  fghInternalDraw Shape.tetrahedron useWireMode w

/-! ## Interface functions (source lines 1334-1375) -/

/-- An entry point: the initialisation guard under the name of the entry point, then the
internal function. -/
def entryPoint (name : String) (body : World → Except Abort World) (w : World) :
    Except Abort World :=
  match FREEGLUT_EXIT_IF_NOT_INITIALISED w name with
  | Except.error e => Except.error e
  | Except.ok _ => body w

/-- The function `glutWireCube`; `dSize` is the argument after its conversion to `GLfloat`. -/
def glutWireCube (dSize : GLfloat) (w : World) : Except Abort World :=
  entryPoint "glutWireCube" (fghCube dSize true) w

/-- The function `glutSolidCube`; `dSize` is the argument after its conversion to `GLfloat`. -/
def glutSolidCube (dSize : GLfloat) (w : World) : Except Abort World :=
  entryPoint "glutSolidCube" (fghCube dSize false) w

/-- The function `glutWireDodecahedron`. -/
def glutWireDodecahedron (w : World) : Except Abort World :=
  entryPoint "glutWireDodecahedron" (fghDodecahedron true) w

/-- The function `glutSolidDodecahedron`. -/
def glutSolidDodecahedron (w : World) : Except Abort World :=
  entryPoint "glutSolidDodecahedron" (fghDodecahedron false) w

/-- The function `glutWireIcosahedron`. -/
def glutWireIcosahedron (w : World) : Except Abort World :=
  entryPoint "glutWireIcosahedron" (fghIcosahedron true) w

/-- The function `glutSolidIcosahedron`. -/
def glutSolidIcosahedron (w : World) : Except Abort World :=
  entryPoint "glutSolidIcosahedron" (fghIcosahedron false) w

/-- The function `glutWireOctahedron`. -/
def glutWireOctahedron (w : World) : Except Abort World :=
  entryPoint "glutWireOctahedron" (fghOctahedron true) w

/-- The function `glutSolidOctahedron`. -/
def glutSolidOctahedron (w : World) : Except Abort World :=
  entryPoint "glutSolidOctahedron" (fghOctahedron false) w

/-- The function `glutWireRhombicDodecahedron`. -/
def glutWireRhombicDodecahedron (w : World) : Except Abort World :=
  entryPoint "glutWireRhombicDodecahedron" (fghRhombicDodecahedron true) w

/-- The function `glutSolidRhombicDodecahedron`. -/
def glutSolidRhombicDodecahedron (w : World) : Except Abort World :=
  entryPoint "glutSolidRhombicDodecahedron" (fghRhombicDodecahedron false) w

/-- The function `glutWireTetrahedron`. -/
def glutWireTetrahedron (w : World) : Except Abort World :=
  entryPoint "glutWireTetrahedron" (fghTetrahedron true) w

/-- The function `glutSolidTetrahedron`. -/
def glutSolidTetrahedron (w : World) : Except Abort World :=
  entryPoint "glutSolidTetrahedron" (fghTetrahedron false) w

/-- The public polyhedron draw calls. -/
inductive Call
  | glutWireCube (dSize : GLfloat)
  | glutSolidCube (dSize : GLfloat)
  | glutWireDodecahedron
  | glutSolidDodecahedron
  | glutWireIcosahedron
  | glutSolidIcosahedron
  | glutWireOctahedron
  | glutSolidOctahedron
  | glutWireRhombicDodecahedron
  | glutSolidRhombicDodecahedron
  | glutWireTetrahedron
  | glutSolidTetrahedron

/-- The solid a public polyhedron draw call is about. -/
def Call.shape : Call → Shape
  | .glutWireCube _ => Shape.cube
  | .glutSolidCube _ => Shape.cube
  | .glutWireDodecahedron => Shape.dodecahedron
  | .glutSolidDodecahedron => Shape.dodecahedron
  | .glutWireIcosahedron => Shape.icosahedron
  | .glutSolidIcosahedron => Shape.icosahedron
  | .glutWireOctahedron => Shape.octahedron
  | .glutSolidOctahedron => Shape.octahedron
  | .glutWireRhombicDodecahedron => Shape.rhombicdodecahedron
  | .glutSolidRhombicDodecahedron => Shape.rhombicdodecahedron
  | .glutWireTetrahedron => Shape.tetrahedron
  | .glutSolidTetrahedron => Shape.tetrahedron

/-- Execution of a public polyhedron draw call. -/
def Call.run : Call → World → Except Abort World
  | .glutWireCube dSize => FreeGLUT.glutWireCube dSize
  | .glutSolidCube dSize => FreeGLUT.glutSolidCube dSize
  | .glutWireDodecahedron => FreeGLUT.glutWireDodecahedron
  | .glutSolidDodecahedron => FreeGLUT.glutSolidDodecahedron
  | .glutWireIcosahedron => FreeGLUT.glutWireIcosahedron
  | .glutSolidIcosahedron => FreeGLUT.glutSolidIcosahedron
  | .glutWireOctahedron => FreeGLUT.glutWireOctahedron
  | .glutSolidOctahedron => FreeGLUT.glutSolidOctahedron
  | .glutWireRhombicDodecahedron => FreeGLUT.glutWireRhombicDodecahedron
  | .glutSolidRhombicDodecahedron => FreeGLUT.glutSolidRhombicDodecahedron
  | .glutWireTetrahedron => FreeGLUT.glutWireTetrahedron
  | .glutSolidTetrahedron => FreeGLUT.glutSolidTetrahedron

/-- The states a program can be in: the state at program start, the state after a
public polyhedron draw call that returned, and the state after anything else happened
that leaves the shape caches alone (initialisation of the library, a change of what the
allocator can serve, OpenGL calls made elsewhere). -/
inductive Reachable : World → Prop
  | boot (Initialised mallocOk : Bool) (gl : List GLCall) :
      Reachable (World.boot Initialised mallocOk gl)
  | call {w w1 : World} (c : Call) : Reachable w → c.run w = Except.ok w1 → Reachable w1
  | elsewhere {w : World} (Initialised mallocOk : Bool) (gl : List GLCall) : Reachable w →
      Reachable { Initialised := Initialised, mallocOk := mallocOk, cache := w.cache, gl := gl }

/-! ## Circle table (source lines 567-622) -/

/-- The loop `for (i = lo; i < hi; i++) s = body i s` on `int` bounds. -/
def forRange {σ : Type} (lo hi : Int) (body : Int → σ → σ) (s : σ) : σ :=
  forLoop (fun k => body (lo + k)) (hi - lo).toNat s

/-- The two tables `fghCircleTable` hands back through `*sint` and `*cost`. -/
structure CircleTable (α : Type) where
  sint : Buffer α
  cost : Buffer α

/-- The function `fghCircleTable`, over any field of numbers `α` with the functions
`sinf`, `cosf` and the constant `M_PI` of the C library as parameters. `size` is
`abs(n)` as an `int`. The two allocations ask for `size+1` elements; they fail when
`mallocOk` is false and when `size+1` is negative as an `int` (the byte count is then
beyond the address space), and the program stops in `fgError`. -/
def fghCircleTable {α : Type} [Field α] (sinf cosf : α → α) (M_PI : α) (mallocOk : Bool)
    (n : Int) (halfCircle : Bool) : Except Abort (CircleTable α) :=
  let size : Int := wrapInt |n|
  let angle : α := (if halfCircle then 1 else 2) * M_PI / (((if n = 0 then 1 else n) : Int) : α)
  if mallocOk && decide (0 ≤ iadd size 1) then
    let sint0 : Buffer α := (Buffer.fresh 0 (iadd size 1).toNat).store 0 0
    let cost0 : Buffer α := (Buffer.fresh 0 (iadd size 1).toNat).store 0 1
    let t1 : CircleTable α :=
      forRange 1 size
        (fun i t => { sint := t.sint.store i (sinf (angle * (i : α)))
                      cost := t.cost.store i (cosf (angle * (i : α))) })
        { sint := sint0, cost := cost0 }
    if halfCircle then
      Except.ok { sint := t1.sint.store size 0, cost := t1.cost.store size (-1) }
    else
      Except.ok { sint := t1.sint.store size (t1.sint.cell 0)
                  cost := t1.cost.store size (t1.cost.cell 0) }
  else
    Except.error (Abort.outOfMemory "Failed to allocate memory in fghCircleTable")

/-! ## Sierpinski sponge (source lines 521-565 and 695-728) -/

/-- Double-precision values, represented by the rational they denote. -/
abbrev GLdouble := ℚ

/-- Conversion of an `int` to `unsigned int`: the value modulo 2^32. -/
def toUnsigned (x : Int) : Nat := (x % 4294967296).toNat

/-- The C expression `a * b` on two `unsigned int` operands. -/
def umul (a b : Nat) : Nat := (a * b) % 4294967296

/-- The function `ipow`. Its result is an `unsigned int`, so `x` is converted to that
type where it is returned and where it is multiplied with the result of the recursive
call; the argument `x*x` of that call is a product of two `int`. -/
def ipow (x : Int) (y : Nat) : Nat :=
  if h0 : y = 0 then 1
  else if h1 : y = 1 then toUnsigned x
  else umul (toUnsigned (if y % 2 ≠ 0 then x else 1)) (ipow (imul x x) (y / 2))
termination_by y
decreasing_by omega

/-- The two output arrays of the sponge generator. -/
structure SpongeArrays where
  vertices : Buffer GLfloat
  normals : Buffer GLfloat

/-- Body of the inner loop of the base case (source lines 538-547): vertex `j` of face
`i` of one tetrahedron. `vertices` and `normals` are the offsets of the two pointer
arguments inside their arrays. -/
def spongeFaceVertex (offset : Fin 3 → GLdouble) (scale : GLfloat) (vertices normals : Int)
    (i j : Nat) (st : SpongeArrays) : SpongeArrays :=
  let normIdx := imul i 3
  let faceIdxVertIdx := imul i TETRAHEDRON_NUM_EDGE_PER_FACE
  let outIdx := iadd (imul (imul i TETRAHEDRON_NUM_EDGE_PER_FACE) 3) (imul j 3)
  let vertIdx := imul ((readArr tetrahedron_vi (iadd faceIdxVertIdx j)).val : Int) 3
  { vertices :=
      ((st.vertices.store (vertices + outIdx)
          (offset 0 + scale * readArr tetrahedron_v vertIdx)).store
        (vertices + iadd outIdx 1) (offset 1 + scale * readArr tetrahedron_v (iadd vertIdx 1))).store
        (vertices + iadd outIdx 2) (offset 2 + scale * readArr tetrahedron_v (iadd vertIdx 2))
    normals :=
      ((st.normals.store (normals + outIdx) (readArr tetrahedron_n normIdx)).store
        (normals + iadd outIdx 1) (readArr tetrahedron_n (iadd normIdx 1))).store
        (normals + iadd outIdx 2) (readArr tetrahedron_n (iadd normIdx 2)) }

/-- The function `fghSierpinskiSpongeGenerate`. The pointer arguments `vertices` and
`normals` are given by their offsets inside the two arrays of `st`; `stride` and the
products `i*stride` are `unsigned int`. -/
def fghSierpinskiSpongeGenerate (numLevels : Int) (offset : Fin 3 → GLdouble) (scale : GLfloat)
    (vertices normals : Int) (st : SpongeArrays) : SpongeArrays :=
  if numLevels = 0 then
    forLoop (fun i st =>
        forLoop (fun j st => spongeFaceVertex offset scale vertices normals i j st)
          TETRAHEDRON_NUM_EDGE_PER_FACE st)
      TETRAHEDRON_NUM_FACES st
  else if _ : numLevels > 0 then
    let stride : Nat := umul (ipow 4 (toUnsigned (numLevels - 1))) TETRAHEDRON_VERT_ELEM_PER_OBJ
    let scale : GLfloat := scale / 2
    forLoop (fun i st =>
        let idx := imul i 3
        let local_offset : Fin 3 → GLdouble := fun k =>
          match k with
          | 0 => offset 0 + scale * readArr tetrahedron_v idx
          | 1 => offset 1 + scale * readArr tetrahedron_v (iadd idx 1)
          | 2 => offset 2 + scale * readArr tetrahedron_v (iadd idx 2)
        fghSierpinskiSpongeGenerate (numLevels - 1) local_offset scale
          (vertices + umul (toUnsigned i) stride) (normals + umul (toUnsigned i) stride) st)
      TETRAHEDRON_NUM_FACES st
  else st
termination_by numLevels.toNat
decreasing_by omega

/-- The function `fghSierpinskiSponge`. The two allocations ask for `numVert*3` elements;
they fail when `mallocOk` is false and when `numVert*3` is negative as an `int`. -/
def fghSierpinskiSponge (numLevels : Int) (offset : Fin 3 → GLdouble) (scale : GLfloat)
    (useWireMode : Bool) (w : World) : Except Abort World :=
  let numTetr : Int := if numLevels < 0 then 0 else wrapInt (ipow 4 (toUnsigned numLevels))
  let numVert : Int := imul numTetr TETRAHEDRON_VERT_PER_OBJ
  let numFace : Int := imul numTetr TETRAHEDRON_NUM_FACES
  if numTetr ≠ 0 then
    if w.mallocOk && decide (0 ≤ imul numVert 3) then
      let st := fghSierpinskiSpongeGenerate numLevels offset scale 0 0
        { vertices := Buffer.fresh 0 (imul numVert 3).toNat
          normals := Buffer.fresh 0 (imul numVert 3).toNat }
      let calls :=
        if useWireMode then
          fghDrawGeometryWire st.vertices st.normals numFace TETRAHEDRON_NUM_EDGE_PER_FACE
        else
          fghDrawGeometrySolid st.vertices st.normals none numVert TETRAHEDRON_NUM_EDGE_PER_FACE
      Except.ok { Initialised := w.Initialised, mallocOk := w.mallocOk, cache := w.cache,
                  gl := w.gl ++ calls }
    else
      Except.error (Abort.outOfMemory "Failed to allocate memory in fghSierpinskiSponge")
  else
    Except.ok w

/-- The function `glutWireSierpinskiSponge`; `scale` is the argument after its conversion
to `GLfloat`. -/
def glutWireSierpinskiSponge (num_levels : Int) (offset : Fin 3 → GLdouble) (scale : GLfloat)
    (w : World) : Except Abort World :=
  entryPoint "glutWireSierpinskiSponge" (fghSierpinskiSponge num_levels offset scale true) w

/-- The function `glutSolidSierpinskiSponge`; `scale` is the argument after its conversion
to `GLfloat`. -/
def glutSolidSierpinskiSponge (num_levels : Int) (offset : Fin 3 → GLdouble) (scale : GLfloat)
    (w : World) : Except Abort World :=
  entryPoint "glutSolidSierpinskiSponge" (fghSierpinskiSponge num_levels offset scale false) w

/-! ## Quadrics in immediate mode (source lines 733-1170) -/

/-- The immediate-mode OpenGL calls made by the sphere, cone, cylinder and torus
functions, with their arguments, over the numbers `α`. The pointer argument of
`glNormal3fv` and `glVertex3fv` is given by the region it points into and its offset from
the start of the region. -/
inductive GLImm (α : Type)
  | glBegin (mode : GLenum)
  | glEnd
  | glNormal3f (nx ny nz : α)
  | glNormal3d (nx ny nz : α)
  | glVertex3f (x y z : α)
  | glVertex3d (x y z : α)
  | glNormal3fv (v : Buffer α) (offset : Int)
  | glVertex3fv (v : Buffer α) (offset : Int)
  | glPushMatrix
  | glPopMatrix

/-- The functions and the constant of the C library that the quadric functions use. -/
structure LibM (α : Type) where
  sinf : α → α
  cosf : α → α
  sqrtf : α → α
  M_PI : α

/-- The C expression `a - b` on two `int` operands. -/
def isub (a b : Int) : Int := wrapInt (a - b)

/-- The loop `for (i = lo; i <= hi; i++) s = body i s` on `int` bounds, for a bound `hi`
below `2^31 - 1`: the rounds `lo, ..., hi`. At `hi = 2^31 - 1` the `int` counter of the C
loop cannot pass the bound and the loop does not end; no function below enters the loop
with that bound: where the bound is `slices`, or `stacks` in `glutWireSphere`, the circle
table of `hi + 1` entries has been allocated before, which fails for `hi = 2^31 - 1`, and
the loops over `stacks` of `glutSolidCylinder` and `glutWireCylinder` are entered only
for `stacks` other than `2^31 - 1`, the call not returning otherwise. -/
def forRangeIncl {σ : Type} (lo hi : Int) (body : Int → σ → σ) (s : σ) : σ :=
  forRange lo (hi + 1) body s

/-- The loop `for (i = hi; i >= lo; i--) s = body i s` on `int` bounds. -/
def forDown {σ : Type} (hi lo : Int) (body : Int → σ → σ) (s : σ) : σ :=
  forLoop (fun k => body (hi - k)) (hi - lo + 1).toNat s

/-- The local variables of `glutSolidSphere` and `glutSolidCone` that change from stack
to stack, together with the OpenGL calls made so far. -/
structure Locals (α : Type) where
  z0 : α
  z1 : α
  r0 : α
  r1 : α
  gl : List (GLImm α)

/-- The local variables of `glutWireCone` that change from stack to stack, together with
the OpenGL calls made so far. -/
structure WireLocals (α : Type) where
  z : α
  r : α
  gl : List (GLImm α)

/-- The local variables of `glutSolidCylinder` that change from stack to stack, together
with the OpenGL calls made so far. -/
structure CylinderLocals (α : Type) where
  z0 : α
  z1 : α
  gl : List (GLImm α)

/-- The local variable of `glutWireCylinder` that changes from stack to stack, together
with the OpenGL calls made so far. -/
structure WireCylinderLocals (α : Type) where
  z : α
  gl : List (GLImm α)

/-- Body of the loop of `glutSolidSphere` over the stacks `i` (source lines 780-796): one
quad strip between the ring reached before and the ring at entry `i+1`. -/
def solidSphereStack {α : Type} [Field α] (sint1 cost1 sint2 cost2 : Int → α) (radf : α)
    (slices : Int) (i : Int) (s : Locals α) : Locals α :=
  let z0 := s.z1
  let z1 := cost2 (iadd i 1)
  let r0 := s.r1
  let r1 := sint2 (iadd i 1)
  let gl := s.gl ++ [GLImm.glBegin GLenum.GL_QUAD_STRIP]
  let gl := forRangeIncl 0 slices
    (fun j gl => gl ++
      [GLImm.glNormal3d (cost1 j * r1) (sint1 j * r1) z1,
       GLImm.glVertex3d (cost1 j * r1 * radf) (sint1 j * r1 * radf) (z1 * radf),
       GLImm.glNormal3d (cost1 j * r0) (sint1 j * r0) z0,
       GLImm.glVertex3d (cost1 j * r0 * radf) (sint1 j * r0 * radf) (z0 * radf)]) gl
  { z0 := z0, z1 := z1, r0 := r0, r1 := r1, gl := gl ++ [GLImm.glEnd] }

/-- The function `glutSolidSphere`; `radius` is the argument, taken as equal to its
conversion `radf` to `GLfloat`, and `stacks'` is the parameter `stacks`. The result is the
sequence of OpenGL calls made. -/
def glutSolidSphere {α : Type} [Field α] (m : LibM α) (w : World) (radius : α)
    (slices stacks' : Int) : Except Abort (List (GLImm α)) :=
  let radf : α := radius
  match FREEGLUT_EXIT_IF_NOT_INITIALISED w "glutSolidSphere" with
  | Except.error e => Except.error e
  | Except.ok _ =>
  match fghCircleTable m.sinf m.cosf m.M_PI w.mallocOk (wrapInt (-slices)) false with
  | Except.error e => Except.error e
  | Except.ok t1 =>
  match fghCircleTable m.sinf m.cosf m.M_PI w.mallocOk stacks' true with
  | Except.error e => Except.error e
  | Except.ok t2 =>
    let sint1 := t1.sint.cell
    let cost1 := t1.cost.cell
    let sint2 := t2.sint.cell
    let cost2 := t2.cost.cell
    let z0 : α := 1
    let z1 : α := cost2 (if stacks' > 0 then 1 else 0)
    let r0 : α := 0
    let r1 : α := sint2 (if stacks' > 0 then 1 else 0)
    let gl : List (GLImm α) :=
      [GLImm.glBegin GLenum.GL_TRIANGLE_FAN, GLImm.glNormal3f 0 0 1, GLImm.glVertex3f 0 0 radf]
    let gl := forDown slices 0
      (fun j gl => gl ++
        [GLImm.glNormal3f (cost1 j * r1) (sint1 j * r1) z1,
         GLImm.glVertex3f (cost1 j * r1 * radf) (sint1 j * r1 * radf) (z1 * radf)]) gl
    let gl := gl ++ [GLImm.glEnd]
    let s : Locals α := forRange 1 (isub stacks' 1)
      (solidSphereStack sint1 cost1 sint2 cost2 radf slices)
      { z0 := z0, z1 := z1, r0 := r0, r1 := r1, gl := gl }
    let z0 := s.z1
    let r0 := s.r1
    let gl := s.gl ++
      [GLImm.glBegin GLenum.GL_TRIANGLE_FAN, GLImm.glNormal3d 0 0 (-1),
       GLImm.glVertex3d 0 0 (-radius)]
    let gl := forRangeIncl 0 slices
      (fun j gl => gl ++
        [GLImm.glNormal3d (cost1 j * r0) (sint1 j * r0) z0,
         GLImm.glVertex3d (cost1 j * r0 * radf) (sint1 j * r0 * radf) (z0 * radf)]) gl
    Except.ok (gl ++ [GLImm.glEnd])

/-- The function `glutWireSphere`; `radius` is the argument, taken as equal to its
conversion `radf` to `GLfloat`, and `stacks'` is the parameter `stacks`. The result is the
sequence of OpenGL calls made. -/
def glutWireSphere {α : Type} [Field α] (m : LibM α) (w : World) (radius : α)
    (slices stacks' : Int) : Except Abort (List (GLImm α)) :=
  let radf : α := radius
  match FREEGLUT_EXIT_IF_NOT_INITIALISED w "glutWireSphere" with
  | Except.error e => Except.error e
  | Except.ok _ =>
  match fghCircleTable m.sinf m.cosf m.M_PI w.mallocOk (wrapInt (-slices)) false with
  | Except.error e => Except.error e
  | Except.ok t1 =>
  match fghCircleTable m.sinf m.cosf m.M_PI w.mallocOk stacks' true with
  | Except.error e => Except.error e
  | Except.ok t2 =>
    let sint1 := t1.sint.cell
    let cost1 := t1.cost.cell
    let sint2 := t2.sint.cell
    let cost2 := t2.cost.cell
    let gl : List (GLImm α) := forRange 1 stacks'
      (fun i gl =>
        let z := cost2 i
        let r := sint2 i
        let gl := gl ++ [GLImm.glBegin GLenum.GL_LINE_LOOP]
        let gl := forRangeIncl 0 slices
          (fun j gl =>
            let x := cost1 j
            let y := sint1 j
            gl ++ [GLImm.glNormal3f x y z,
                   GLImm.glVertex3f (x * r * radf) (y * r * radf) (z * radf)]) gl
        gl ++ [GLImm.glEnd]) []
    let gl := forRange 0 slices
      (fun i gl =>
        let gl := gl ++ [GLImm.glBegin GLenum.GL_LINE_STRIP]
        let gl := forRangeIncl 0 stacks'
          (fun j gl =>
            let x := cost1 i * sint2 j
            let y := sint1 i * sint2 j
            let z := cost2 j
            gl ++ [GLImm.glNormal3f x y z,
                   GLImm.glVertex3f (x * radf) (y * radf) (z * radf)]) gl
        gl ++ [GLImm.glEnd]) gl
    Except.ok gl

/-- Body of the loop of `glutSolidCone` over the stacks (source lines 942-957): one quad
strip, then the step in `z` and in the radius. -/
def solidConeStack {α : Type} [Field α] (sint cost : Int → α) (zStep rStep cosn sinn : α)
    (slices : Int) (s : Locals α) : Locals α :=
  let gl := s.gl ++ [GLImm.glBegin GLenum.GL_QUAD_STRIP]
  let gl := forRangeIncl 0 slices
    (fun j gl => gl ++
      [GLImm.glNormal3f (cost j * cosn) (sint j * cosn) sinn,
       GLImm.glVertex3f (cost j * s.r0) (sint j * s.r0) s.z0,
       GLImm.glVertex3f (cost j * s.r1) (sint j * s.r1) s.z1]) gl
  { z0 := s.z1, z1 := s.z1 + zStep, r0 := s.r1, r1 := s.r1 - rStep, gl := gl ++ [GLImm.glEnd] }

/-- The function `glutSolidCone`; `base` and `height` are the arguments, taken as equal to
their conversions to `GLfloat`, and `stacks'` is the parameter `stacks`. The result is the
sequence of OpenGL calls made. -/
def glutSolidCone {α : Type} [Field α] (m : LibM α) (w : World) (base height : α)
    (slices stacks' : Int) : Except Abort (List (GLImm α)) :=
  let zStep : α := height / (((if stacks' > 0 then stacks' else 1) : Int) : α)
  let rStep : α := base / (((if stacks' > 0 then stacks' else 1) : Int) : α)
  let cosn : α := height / m.sqrtf (height * height + base * base)
  let sinn : α := base / m.sqrtf (height * height + base * base)
  match FREEGLUT_EXIT_IF_NOT_INITIALISED w "glutSolidCone" with
  | Except.error e => Except.error e
  | Except.ok _ =>
  match fghCircleTable m.sinf m.cosf m.M_PI w.mallocOk (wrapInt (-slices)) false with
  | Except.error e => Except.error e
  | Except.ok t =>
    let sint := t.sint.cell
    let cost := t.cost.cell
    let z0 : α := 0
    let z1 : α := zStep
    let r0 : α := base
    let r1 : α := r0 - rStep
    let gl : List (GLImm α) :=
      [GLImm.glBegin GLenum.GL_TRIANGLE_FAN, GLImm.glNormal3f 0 0 (-1), GLImm.glVertex3f 0 0 z0]
    let gl := forRangeIncl 0 slices
      (fun j gl => gl ++ [GLImm.glVertex3f (cost j * r0) (sint j * r0) z0]) gl
    let gl := gl ++ [GLImm.glEnd]
    let s : Locals α := forRange 0 (isub stacks' 1)
      (fun _ s => solidConeStack sint cost zStep rStep cosn sinn slices s)
      { z0 := z0, z1 := z1, r0 := r0, r1 := r1, gl := gl }
    let gl := s.gl ++
      [GLImm.glBegin GLenum.GL_TRIANGLES, GLImm.glNormal3f (cost 0 * sinn) (sint 0 * sinn) cosn]
    let gl := forRange 0 slices
      (fun j gl => gl ++
        [GLImm.glVertex3f (cost (iadd j 0) * s.r0) (sint (iadd j 0) * s.r0) s.z0,
         GLImm.glVertex3f 0 0 height,
         GLImm.glNormal3f (cost (iadd j 1) * sinn) (sint (iadd j 1) * sinn) cosn,
         GLImm.glVertex3f (cost (iadd j 1) * s.r0) (sint (iadd j 1) * s.r0) s.z0]) gl
    Except.ok (gl ++ [GLImm.glEnd])

/-- Body of the loop of `glutWireCone` over the stacks (source lines 1011-1025): one line
loop, then the step in `z` and in the radius. -/
def wireConeStack {α : Type} [Field α] (sint cost : Int → α) (zStep rStep cosn sinn : α)
    (slices : Int) (s : WireLocals α) : WireLocals α :=
  let gl := s.gl ++ [GLImm.glBegin GLenum.GL_LINE_LOOP]
  let gl := forRange 0 slices
    (fun j gl => gl ++
      [GLImm.glNormal3f (cost j * sinn) (sint j * sinn) cosn,
       GLImm.glVertex3f (cost j * s.r) (sint j * s.r) s.z]) gl
  { z := s.z + zStep, r := s.r - rStep, gl := gl ++ [GLImm.glEnd] }

/-- The function `glutWireCone`; `base` and `height` are the arguments, taken as equal to
their conversions to `GLfloat`, and `stacks'` is the parameter `stacks`. The result is the
sequence of OpenGL calls made. -/
def glutWireCone {α : Type} [Field α] (m : LibM α) (w : World) (base height : α)
    (slices stacks' : Int) : Except Abort (List (GLImm α)) :=
  let zStep : α := height / (((if stacks' > 0 then stacks' else 1) : Int) : α)
  let rStep : α := base / (((if stacks' > 0 then stacks' else 1) : Int) : α)
  let cosn : α := height / m.sqrtf (height * height + base * base)
  let sinn : α := base / m.sqrtf (height * height + base * base)
  match FREEGLUT_EXIT_IF_NOT_INITIALISED w "glutWireCone" with
  | Except.error e => Except.error e
  | Except.ok _ =>
  match fghCircleTable m.sinf m.cosf m.M_PI w.mallocOk (wrapInt (-slices)) false with
  | Except.error e => Except.error e
  | Except.ok t =>
    let sint := t.sint.cell
    let cost := t.cost.cell
    let s : WireLocals α := forRange 0 stacks'
      (fun _ s => wireConeStack sint cost zStep rStep cosn sinn slices s)
      { z := 0, r := base, gl := [] }
    let r : α := base
    let gl := s.gl ++ [GLImm.glBegin GLenum.GL_LINES]
    let gl := forRange 0 slices
      (fun j gl => gl ++
        [GLImm.glNormal3f (cost j * sinn) (sint j * sinn) cosn,
         GLImm.glVertex3f (cost j * r) (sint j * r) 0,
         GLImm.glVertex3f 0 0 height]) gl
    Except.ok (gl ++ [GLImm.glEnd])

/-- Body of the loop of `glutSolidCylinder` over the stacks `i` (source lines 1090-1105):
one quad strip from `z0` to `z1`, the latter being `height` itself in the last round. -/
def solidCylinderStack {α : Type} [Field α] (sint cost : Int → α) (radf height zStep : α)
    (slices stacks' : Int) (i : Int) (s : CylinderLocals α) : CylinderLocals α :=
  let z1 := if i = stacks' then height else s.z1
  let gl := s.gl ++ [GLImm.glBegin GLenum.GL_QUAD_STRIP]
  let gl := forRangeIncl 0 slices
    (fun j gl => gl ++
      [GLImm.glNormal3f (cost j) (sint j) 0,
       GLImm.glVertex3f (cost j * radf) (sint j * radf) s.z0,
       GLImm.glVertex3f (cost j * radf) (sint j * radf) z1]) gl
  { z0 := z1, z1 := z1 + zStep, gl := gl ++ [GLImm.glEnd] }

/-- The function `glutSolidCylinder`; `radius` and `height` are the arguments, taken as
equal to their conversions to `GLfloat`, and `stacks'` is the parameter `stacks`. The
result is the sequence of OpenGL calls made. For `stacks = 2^31 - 1` the loop
`for (i = 1; i <= stacks; i++)` does not end, its `int` counter never passing the bound,
and the call does not return. -/
def glutSolidCylinder {α : Type} [Field α] (m : LibM α) (w : World) (radius height : α)
    (slices stacks' : Int) : Except Abort (List (GLImm α)) :=
  let radf : α := radius
  let zStep : α := height / (((if stacks' > 0 then stacks' else 1) : Int) : α)
  match FREEGLUT_EXIT_IF_NOT_INITIALISED w "glutSolidCylinder" with
  | Except.error e => Except.error e
  | Except.ok _ =>
  match fghCircleTable m.sinf m.cosf m.M_PI w.mallocOk (wrapInt (-slices)) false with
  | Except.error e => Except.error e
  | Except.ok t =>
    let sint := t.sint.cell
    let cost := t.cost.cell
    let gl : List (GLImm α) :=
      [GLImm.glBegin GLenum.GL_TRIANGLE_FAN, GLImm.glNormal3f 0 0 (-1), GLImm.glVertex3f 0 0 0]
    let gl := forRangeIncl 0 slices
      (fun j gl => gl ++ [GLImm.glVertex3f (cost j * radf) (sint j * radf) 0]) gl
    let gl := gl ++ [GLImm.glEnd]
    let gl := gl ++
      [GLImm.glBegin GLenum.GL_TRIANGLE_FAN, GLImm.glNormal3f 0 0 1, GLImm.glVertex3f 0 0 height]
    let gl := forDown slices 0
      (fun j gl => gl ++ [GLImm.glVertex3f (cost j * radf) (sint j * radf) height]) gl
    let gl := gl ++ [GLImm.glEnd]
    if stacks' = 2147483647 then Except.error Abort.noReturn
    else
      let s : CylinderLocals α := forRangeIncl 1 stacks'
        (solidCylinderStack sint cost radf height zStep slices stacks')
        { z0 := 0, z1 := zStep, gl := gl }
      Except.ok s.gl

/-- Body of the loop of `glutWireCylinder` over the stacks `i` (source lines 1135-1151):
one line loop at height `z`, which is `height` itself in the last round. -/
def wireCylinderStack {α : Type} [Field α] (sint cost : Int → α) (radf height zStep : α)
    (slices stacks' : Int) (i : Int) (s : WireCylinderLocals α) : WireCylinderLocals α :=
  let z := if i = stacks' then height else s.z
  let gl := s.gl ++ [GLImm.glBegin GLenum.GL_LINE_LOOP]
  let gl := forRange 0 slices
    (fun j gl => gl ++
      [GLImm.glNormal3f (cost j) (sint j) 0,
       GLImm.glVertex3f (cost j * radf) (sint j * radf) z]) gl
  { z := z + zStep, gl := gl ++ [GLImm.glEnd] }

/-- The function `glutWireCylinder`; `radius` and `height` are the arguments, taken as
equal to their conversions to `GLfloat`, and `stacks'` is the parameter `stacks`. The
result is the sequence of OpenGL calls made. For `stacks = 2^31 - 1` the loop
`for (i = 0; i <= stacks; i++)` does not end, its `int` counter never passing the bound,
and the call does not return. -/
def glutWireCylinder {α : Type} [Field α] (m : LibM α) (w : World) (radius height : α)
    (slices stacks' : Int) : Except Abort (List (GLImm α)) :=
  let radf : α := radius
  let zStep : α := height / (((if stacks' > 0 then stacks' else 1) : Int) : α)
  match FREEGLUT_EXIT_IF_NOT_INITIALISED w "glutWireCylinder" with
  | Except.error e => Except.error e
  | Except.ok _ =>
  match fghCircleTable m.sinf m.cosf m.M_PI w.mallocOk (wrapInt (-slices)) false with
  | Except.error e => Except.error e
  | Except.ok t =>
    let sint := t.sint.cell
    let cost := t.cost.cell
    if stacks' = 2147483647 then Except.error Abort.noReturn
    else
      let s : WireCylinderLocals α := forRangeIncl 0 stacks'
        (wireCylinderStack sint cost radf height zStep slices stacks')
        { z := 0, gl := [] }
      let gl := s.gl ++ [GLImm.glBegin GLenum.GL_LINES]
      let gl := forRange 0 slices
        (fun j gl => gl ++
          [GLImm.glNormal3f (cost j) (sint j) 0,
           GLImm.glVertex3f (cost j * radf) (sint j * radf) 0,
           GLImm.glVertex3f (cost j * radf) (sint j * radf) height]) gl
      Except.ok (gl ++ [GLImm.glEnd])

/-! ## Torus (source lines 1172-1329) -/

/-- The arrays and the angles of the sample loops of the torus functions. -/
structure TorusLocals (α : Type) where
  vertex : Buffer α
  normal : Buffer α
  phi : α
  psi : α

/-- Body of the loop over the sides `i` of ring `j` (source lines 1204-1216 and
1290-1302): the sample at the angles `psi` and `phi`, then the step in `phi`. -/
def torusSample {α : Type} [Field α] (m : LibM α) (iradius oradius dphi : α) (nSides : Int)
    (cpsi spsi : α) (j i : Int) (s : TorusLocals α) : TorusLocals α :=
  let offset := imul 3 (iadd (imul j nSides) i)
  let cphi := m.cosf s.phi
  let sphi := m.sinf s.phi
  { vertex :=
      ((s.vertex.store (offset + 0) (cpsi * (oradius + cphi * iradius))).store
        (offset + 1) (spsi * (oradius + cphi * iradius))).store
        (offset + 2) (sphi * iradius)
    normal :=
      ((s.normal.store (offset + 0) (cpsi * cphi)).store
        (offset + 1) (spsi * cphi)).store
        (offset + 2) sphi
    phi := s.phi + dphi
    psi := s.psi }

/-- Body of the loop over the rings `j` (source lines 1198-1219 and 1284-1305): the
samples of one ring, then the step in `psi`. -/
def torusRing {α : Type} [Field α] (m : LibM α) (iradius oradius dpsi dphi : α) (nSides : Int)
    (j : Int) (s : TorusLocals α) : TorusLocals α :=
  let cpsi := m.cosf s.psi
  let spsi := m.sinf s.psi
  let s1 := forRange 0 nSides (torusSample m iradius oradius dphi nSides cpsi spsi j)
    { vertex := s.vertex, normal := s.normal, phi := 0, psi := s.psi }
  { vertex := s1.vertex, normal := s1.normal, phi := s1.phi, psi := s.psi + dpsi }

/-- The function `glutWireTorus`; the radii are the arguments, taken as equal to their
conversions to `GLfloat`. The two arrays are asked of `calloc` with `3 * nSides * nRings`
elements and the result is not checked: where the allocation fails (`mallocOk` false, or
the count negative as an `int`) the first store goes through a null pointer and the
program stops. The result is the sequence of OpenGL calls made. -/
def glutWireTorus {α : Type} [Field α] (m : LibM α) (w : World)
    (dInnerRadius dOuterRadius : α) (nSides nRings : Int) : Except Abort (List (GLImm α)) :=
  let iradius : α := dInnerRadius
  let oradius : α := dOuterRadius
  match FREEGLUT_EXIT_IF_NOT_INITIALISED w "glutWireTorus" with
  | Except.error e => Except.error e
  | Except.ok _ =>
    let nSides : Int := if nSides < 1 then 1 else nSides
    let nRings : Int := if nRings < 1 then 1 else nRings
    if w.mallocOk && decide (0 ≤ imul (imul 3 nSides) nRings) then
      let vertex : Buffer α := Buffer.fresh 0 (imul (imul 3 nSides) nRings).toNat
      let normal : Buffer α := Buffer.fresh 0 (imul (imul 3 nSides) nRings).toNat
      let gl : List (GLImm α) := [GLImm.glPushMatrix]
      let dpsi : α := 2 * m.M_PI / ((nRings : Int) : α)
      let dphi : α := -2 * m.M_PI / ((nSides : Int) : α)
      let s : TorusLocals α := forRange 0 nRings (torusRing m iradius oradius dpsi dphi nSides)
        { vertex := vertex, normal := normal, phi := 0, psi := 0 }
      let gl := forRange 0 nSides
        (fun i gl =>
          let gl := gl ++ [GLImm.glBegin GLenum.GL_LINE_LOOP]
          let gl := forRange 0 nRings
            (fun j gl =>
              let offset := imul 3 (iadd (imul j nSides) i)
              gl ++ [GLImm.glNormal3fv s.normal offset, GLImm.glVertex3fv s.vertex offset]) gl
          gl ++ [GLImm.glEnd]) gl
      let gl := forRange 0 nRings
        (fun j gl =>
          let gl := gl ++ [GLImm.glBegin GLenum.GL_LINE_LOOP]
          let gl := forRange 0 nSides
            (fun i gl =>
              let offset := imul 3 (iadd (imul j nSides) i)
              gl ++ [GLImm.glNormal3fv s.normal offset, GLImm.glVertex3fv s.vertex offset]) gl
          gl ++ [GLImm.glEnd]) gl
      Except.ok (gl ++ [GLImm.glPopMatrix])
    else
      Except.error Abort.nullStore

/-- The function `glutSolidTorus`; the radii are the arguments, taken as equal to their
conversions to `GLfloat`. The two arrays are asked of `calloc` with `3 * nSides * nRings`
elements, for the incremented counts, and the result is not checked: where the allocation
fails the first store goes through a null pointer and the program stops. The result is
the sequence of OpenGL calls made. -/
def glutSolidTorus {α : Type} [Field α] (m : LibM α) (w : World)
    (dInnerRadius dOuterRadius : α) (nSides nRings : Int) : Except Abort (List (GLImm α)) :=
  let iradius : α := dInnerRadius
  let oradius : α := dOuterRadius
  match FREEGLUT_EXIT_IF_NOT_INITIALISED w "glutSolidTorus" with
  | Except.error e => Except.error e
  | Except.ok _ =>
    let nSides : Int := if nSides < 1 then 1 else nSides
    let nRings : Int := if nRings < 1 then 1 else nRings
    let nSides : Int := iadd nSides 1
    let nRings : Int := iadd nRings 1
    if w.mallocOk && decide (0 ≤ imul (imul 3 nSides) nRings) then
      let vertex : Buffer α := Buffer.fresh 0 (imul (imul 3 nSides) nRings).toNat
      let normal : Buffer α := Buffer.fresh 0 (imul (imul 3 nSides) nRings).toNat
      let gl : List (GLImm α) := [GLImm.glPushMatrix]
      let dpsi : α := 2 * m.M_PI / ((isub nRings 1 : Int) : α)
      let dphi : α := -2 * m.M_PI / ((isub nSides 1 : Int) : α)
      let s : TorusLocals α := forRange 0 nRings (torusRing m iradius oradius dpsi dphi nSides)
        { vertex := vertex, normal := normal, phi := 0, psi := 0 }
      let gl := gl ++ [GLImm.glBegin GLenum.GL_QUADS]
      let gl := forRange 0 (isub nSides 1)
        (fun i gl =>
          forRange 0 (isub nRings 1)
            (fun j gl =>
              let offset := imul 3 (iadd (imul j nSides) i)
              gl ++ [GLImm.glNormal3fv s.normal offset,
                     GLImm.glVertex3fv s.vertex offset,
                     GLImm.glNormal3fv s.normal (offset + 3),
                     GLImm.glVertex3fv s.vertex (offset + 3),
                     GLImm.glNormal3fv s.normal (offset + imul 3 nSides + 3),
                     GLImm.glVertex3fv s.vertex (offset + imul 3 nSides + 3),
                     GLImm.glNormal3fv s.normal (offset + imul 3 nSides),
                     GLImm.glVertex3fv s.vertex (offset + imul 3 nSides)]) gl) gl
      let gl := gl ++ [GLImm.glEnd]
      Except.ok (gl ++ [GLImm.glPopMatrix])
    else
      Except.error Abort.nullStore

/-! ## Checked arithmetic and checked reads -/

/-- The function `ipow` (source lines 522-525) with its products checked: the result is
`none` where the product `x*x` of two `int` is outside the range of `int`, or where the
product of the two `unsigned int` operands is not below 2^32. -/
def ipowChecked (x : Int) (y : Nat) : Option Nat :=
  if _ : y = 0 then some 1
  else if _ : y = 1 then some (toUnsigned x)
  else if -2147483648 ≤ x * x ∧ x * x ≤ 2147483647 then
    match ipowChecked (x * x) (y / 2) with
    | none => none
    | some r =>
      if toUnsigned (if y % 2 ≠ 0 then x else 1) * r < 4294967296 then
        some (toUnsigned (if y % 2 ≠ 0 then x else 1) * r)
      else none
  else none
termination_by y
decreasing_by omega

/-- The read `b[i]` with the offset checked against the number of elements of the region:
a read outside the region ends in `Abort.outOfBounds`. -/
def Buffer.read {α : Type} (b : Buffer α) (i : Int) : Except Abort α :=
  if 0 ≤ i ∧ i < (b.size : Int) then Except.ok (b.cell i) else Except.error Abort.outOfBounds

/-- The loop `for (i = 0; i < n; i++)` whose body may end in an `Abort`. -/
def forLoopChecked {σ : Type} (body : Nat → σ → Except Abort σ) : Nat → σ → Except Abort σ
  | 0, s => Except.ok s
  | n + 1, s =>
    match forLoopChecked body n s with
    | Except.error e => Except.error e
    | Except.ok t => body n t

/-- The loop `for (i = lo; i < hi; i++)` whose body may end in an `Abort`. -/
def forRangeChecked {σ : Type} (lo hi : Int) (body : Int → σ → Except Abort σ) (s : σ) :
    Except Abort σ :=
  forLoopChecked (fun k => body (lo + k)) (hi - lo).toNat s

/-- The loop `for (i = lo; i <= hi; i++)` whose body may end in an `Abort`, for a bound
`hi` below `2^31 - 1` as in `forRangeIncl`. -/
def forRangeInclChecked {σ : Type} (lo hi : Int) (body : Int → σ → Except Abort σ) (s : σ) :
    Except Abort σ :=
  forRangeChecked lo (hi + 1) body s

/-- The loop `for (i = hi; i >= lo; i--)` whose body may end in an `Abort`. -/
def forDownChecked {σ : Type} (hi lo : Int) (body : Int → σ → Except Abort σ) (s : σ) :
    Except Abort σ :=
  forLoopChecked (fun k => body (hi - k)) (hi - lo + 1).toNat s

/-- Body of the loop of `glutSolidSphere` over the stacks `i` (source lines 780-796), with
every read of a circle table checked. -/
def solidSphereStackChecked {α : Type} [Field α] (t1 t2 : CircleTable α) (radf : α)
    (slices : Int) (i : Int) (s : Locals α) : Except Abort (Locals α) := do
  let z0 := s.z1
  let z1 ← t2.cost.read (iadd i 1)
  let r0 := s.r1
  let r1 ← t2.sint.read (iadd i 1)
  let gl := s.gl ++ [GLImm.glBegin GLenum.GL_QUAD_STRIP]
  let gl ← forRangeInclChecked 0 slices
    (fun j gl => do
      let c ← t1.cost.read j
      let s ← t1.sint.read j
      pure (gl ++
        [GLImm.glNormal3d (c * r1) (s * r1) z1,
         GLImm.glVertex3d (c * r1 * radf) (s * r1 * radf) (z1 * radf),
         GLImm.glNormal3d (c * r0) (s * r0) z0,
         GLImm.glVertex3d (c * r0 * radf) (s * r0 * radf) (z0 * radf)])) gl
  pure { z0 := z0, z1 := z1, r0 := r0, r1 := r1, gl := gl ++ [GLImm.glEnd] }

/-- The function `glutSolidSphere` (source lines 739-812) with every read of its two
circle tables checked against the number of entries the table was allocated with. An
entry read several times in one loop round is checked once. -/
def glutSolidSphereChecked {α : Type} [Field α] (m : LibM α) (w : World) (radius : α)
    (slices stacks' : Int) : Except Abort (List (GLImm α)) :=
  let radf : α := radius
  match FREEGLUT_EXIT_IF_NOT_INITIALISED w "glutSolidSphere" with
  | Except.error e => Except.error e
  | Except.ok _ =>
  match fghCircleTable m.sinf m.cosf m.M_PI w.mallocOk (wrapInt (-slices)) false with
  | Except.error e => Except.error e
  | Except.ok t1 =>
  match fghCircleTable m.sinf m.cosf m.M_PI w.mallocOk stacks' true with
  | Except.error e => Except.error e
  | Except.ok t2 => do
    let z0 : α := 1
    let z1 ← t2.cost.read (if stacks' > 0 then 1 else 0)
    let r0 : α := 0
    let r1 ← t2.sint.read (if stacks' > 0 then 1 else 0)
    let gl : List (GLImm α) :=
      [GLImm.glBegin GLenum.GL_TRIANGLE_FAN, GLImm.glNormal3f 0 0 1, GLImm.glVertex3f 0 0 radf]
    let gl ← forDownChecked slices 0
      (fun j gl => do
        let c ← t1.cost.read j
        let s ← t1.sint.read j
        pure (gl ++
          [GLImm.glNormal3f (c * r1) (s * r1) z1,
           GLImm.glVertex3f (c * r1 * radf) (s * r1 * radf) (z1 * radf)])) gl
    let gl := gl ++ [GLImm.glEnd]
    let s ← forRangeChecked 1 (isub stacks' 1)
      (solidSphereStackChecked t1 t2 radf slices)
      { z0 := z0, z1 := z1, r0 := r0, r1 := r1, gl := gl }
    let z0 := s.z1
    let r0 := s.r1
    let gl := s.gl ++
      [GLImm.glBegin GLenum.GL_TRIANGLE_FAN, GLImm.glNormal3d 0 0 (-1),
       GLImm.glVertex3d 0 0 (-radius)]
    let gl ← forRangeInclChecked 0 slices
      (fun j gl => do
        let c ← t1.cost.read j
        let s ← t1.sint.read j
        pure (gl ++
          [GLImm.glNormal3d (c * r0) (s * r0) z0,
           GLImm.glVertex3d (c * r0 * radf) (s * r0 * radf) (z0 * radf)])) gl
    pure (gl ++ [GLImm.glEnd])

/-- The function `glutWireSphere` (source lines 827-892) with every read of its two
circle tables checked. -/
def glutWireSphereChecked {α : Type} [Field α] (m : LibM α) (w : World) (radius : α)
    (slices stacks' : Int) : Except Abort (List (GLImm α)) :=
  let radf : α := radius
  match FREEGLUT_EXIT_IF_NOT_INITIALISED w "glutWireSphere" with
  | Except.error e => Except.error e
  | Except.ok _ =>
  match fghCircleTable m.sinf m.cosf m.M_PI w.mallocOk (wrapInt (-slices)) false with
  | Except.error e => Except.error e
  | Except.ok t1 =>
  match fghCircleTable m.sinf m.cosf m.M_PI w.mallocOk stacks' true with
  | Except.error e => Except.error e
  | Except.ok t2 => do
    let gl ← forRangeChecked 1 stacks'
      (fun i gl => do
        let z ← t2.cost.read i
        let r ← t2.sint.read i
        let gl := gl ++ [GLImm.glBegin GLenum.GL_LINE_LOOP]
        let gl ← forRangeInclChecked 0 slices
          (fun j gl => do
            let x ← t1.cost.read j
            let y ← t1.sint.read j
            pure (gl ++ [GLImm.glNormal3f x y z,
                         GLImm.glVertex3f (x * r * radf) (y * r * radf) (z * radf)])) gl
        pure (gl ++ [GLImm.glEnd])) []
    let gl ← forRangeChecked 0 slices
      (fun i gl => do
        let gl := gl ++ [GLImm.glBegin GLenum.GL_LINE_STRIP]
        let gl ← forRangeInclChecked 0 stacks'
          (fun j gl => do
            let c1 ← t1.cost.read i
            let s2 ← t2.sint.read j
            let s1 ← t1.sint.read i
            let c2 ← t2.cost.read j
            let x := c1 * s2
            let y := s1 * s2
            let z := c2
            pure (gl ++ [GLImm.glNormal3f x y z,
                         GLImm.glVertex3f (x * radf) (y * radf) (z * radf)])) gl
        pure (gl ++ [GLImm.glEnd])) gl
    pure gl

/-- Body of the loop of `glutSolidCone` over the stacks (source lines 942-957), with every
read of the circle table checked. -/
def solidConeStackChecked {α : Type} [Field α] (t : CircleTable α) (zStep rStep cosn sinn : α)
    (slices : Int) (s : Locals α) : Except Abort (Locals α) := do
  let gl := s.gl ++ [GLImm.glBegin GLenum.GL_QUAD_STRIP]
  let gl ← forRangeInclChecked 0 slices
    (fun j gl => do
      let c ← t.cost.read j
      let sn ← t.sint.read j
      pure (gl ++
        [GLImm.glNormal3f (c * cosn) (sn * cosn) sinn,
         GLImm.glVertex3f (c * s.r0) (sn * s.r0) s.z0,
         GLImm.glVertex3f (c * s.r1) (sn * s.r1) s.z1])) gl
  pure { z0 := s.z1, z1 := s.z1 + zStep, r0 := s.r1, r1 := s.r1 - rStep,
         gl := gl ++ [GLImm.glEnd] }

/-- The function `glutSolidCone` (source lines 897-979) with every read of its circle
table checked. -/
def glutSolidConeChecked {α : Type} [Field α] (m : LibM α) (w : World) (base height : α)
    (slices stacks' : Int) : Except Abort (List (GLImm α)) :=
  let zStep : α := height / (((if stacks' > 0 then stacks' else 1) : Int) : α)
  let rStep : α := base / (((if stacks' > 0 then stacks' else 1) : Int) : α)
  let cosn : α := height / m.sqrtf (height * height + base * base)
  let sinn : α := base / m.sqrtf (height * height + base * base)
  match FREEGLUT_EXIT_IF_NOT_INITIALISED w "glutSolidCone" with
  | Except.error e => Except.error e
  | Except.ok _ =>
  match fghCircleTable m.sinf m.cosf m.M_PI w.mallocOk (wrapInt (-slices)) false with
  | Except.error e => Except.error e
  | Except.ok t => do
    let z0 : α := 0
    let z1 : α := zStep
    let r0 : α := base
    let r1 : α := r0 - rStep
    let gl : List (GLImm α) :=
      [GLImm.glBegin GLenum.GL_TRIANGLE_FAN, GLImm.glNormal3f 0 0 (-1), GLImm.glVertex3f 0 0 z0]
    let gl ← forRangeInclChecked 0 slices
      (fun j gl => do
        let c ← t.cost.read j
        let sn ← t.sint.read j
        pure (gl ++ [GLImm.glVertex3f (c * r0) (sn * r0) z0])) gl
    let gl := gl ++ [GLImm.glEnd]
    let s ← forRangeChecked 0 (isub stacks' 1)
      (fun _ s => solidConeStackChecked t zStep rStep cosn sinn slices s)
      { z0 := z0, z1 := z1, r0 := r0, r1 := r1, gl := gl }
    let c0 ← t.cost.read 0
    let s0 ← t.sint.read 0
    let gl := s.gl ++
      [GLImm.glBegin GLenum.GL_TRIANGLES, GLImm.glNormal3f (c0 * sinn) (s0 * sinn) cosn]
    let gl ← forRangeChecked 0 slices
      (fun j gl => do
        let ca ← t.cost.read (iadd j 0)
        let sa ← t.sint.read (iadd j 0)
        let cb ← t.cost.read (iadd j 1)
        let sb ← t.sint.read (iadd j 1)
        pure (gl ++
          [GLImm.glVertex3f (ca * s.r0) (sa * s.r0) s.z0,
           GLImm.glVertex3f 0 0 height,
           GLImm.glNormal3f (cb * sinn) (sb * sinn) cosn,
           GLImm.glVertex3f (cb * s.r0) (sb * s.r0) s.z0])) gl
    pure (gl ++ [GLImm.glEnd])

/-- Body of the loop of `glutWireCone` over the stacks (source lines 1011-1025), with
every read of the circle table checked. -/
def wireConeStackChecked {α : Type} [Field α] (t : CircleTable α) (zStep rStep cosn sinn : α)
    (slices : Int) (s : WireLocals α) : Except Abort (WireLocals α) := do
  let gl := s.gl ++ [GLImm.glBegin GLenum.GL_LINE_LOOP]
  let gl ← forRangeChecked 0 slices
    (fun j gl => do
      let c ← t.cost.read j
      let sn ← t.sint.read j
      pure (gl ++
        [GLImm.glNormal3f (c * sinn) (sn * sinn) cosn,
         GLImm.glVertex3f (c * s.r) (sn * s.r) s.z])) gl
  pure { z := s.z + zStep, r := s.r - rStep, gl := gl ++ [GLImm.glEnd] }

/-- The function `glutWireCone` (source lines 984-1046) with every read of its circle
table checked. -/
def glutWireConeChecked {α : Type} [Field α] (m : LibM α) (w : World) (base height : α)
    (slices stacks' : Int) : Except Abort (List (GLImm α)) :=
  let zStep : α := height / (((if stacks' > 0 then stacks' else 1) : Int) : α)
  let rStep : α := base / (((if stacks' > 0 then stacks' else 1) : Int) : α)
  let cosn : α := height / m.sqrtf (height * height + base * base)
  let sinn : α := base / m.sqrtf (height * height + base * base)
  match FREEGLUT_EXIT_IF_NOT_INITIALISED w "glutWireCone" with
  | Except.error e => Except.error e
  | Except.ok _ =>
  match fghCircleTable m.sinf m.cosf m.M_PI w.mallocOk (wrapInt (-slices)) false with
  | Except.error e => Except.error e
  | Except.ok t => do
    let s ← forRangeChecked 0 stacks'
      (fun _ s => wireConeStackChecked t zStep rStep cosn sinn slices s)
      { z := 0, r := base, gl := [] }
    let r : α := base
    let gl := s.gl ++ [GLImm.glBegin GLenum.GL_LINES]
    let gl ← forRangeChecked 0 slices
      (fun j gl => do
        let c ← t.cost.read j
        let sn ← t.sint.read j
        pure (gl ++
          [GLImm.glNormal3f (c * sinn) (sn * sinn) cosn,
           GLImm.glVertex3f (c * r) (sn * r) 0,
           GLImm.glVertex3f 0 0 height])) gl
    pure (gl ++ [GLImm.glEnd])

/-- Body of the loop of `glutSolidCylinder` over the stacks `i` (source lines 1090-1105),
with every read of the circle table checked. -/
def solidCylinderStackChecked {α : Type} [Field α] (t : CircleTable α) (radf height zStep : α)
    (slices stacks' : Int) (i : Int) (s : CylinderLocals α) : Except Abort (CylinderLocals α) := do
  let z1 := if i = stacks' then height else s.z1
  let gl := s.gl ++ [GLImm.glBegin GLenum.GL_QUAD_STRIP]
  let gl ← forRangeInclChecked 0 slices
    (fun j gl => do
      let c ← t.cost.read j
      let sn ← t.sint.read j
      pure (gl ++
        [GLImm.glNormal3f c sn 0,
         GLImm.glVertex3f (c * radf) (sn * radf) s.z0,
         GLImm.glVertex3f (c * radf) (sn * radf) z1])) gl
  pure { z0 := z1, z1 := z1 + zStep, gl := gl ++ [GLImm.glEnd] }

/-- The function `glutSolidCylinder` (source lines 1052-1111) with every read of its
circle table checked. -/
def glutSolidCylinderChecked {α : Type} [Field α] (m : LibM α) (w : World) (radius height : α)
    (slices stacks' : Int) : Except Abort (List (GLImm α)) :=
  let radf : α := radius
  let zStep : α := height / (((if stacks' > 0 then stacks' else 1) : Int) : α)
  match FREEGLUT_EXIT_IF_NOT_INITIALISED w "glutSolidCylinder" with
  | Except.error e => Except.error e
  | Except.ok _ =>
  match fghCircleTable m.sinf m.cosf m.M_PI w.mallocOk (wrapInt (-slices)) false with
  | Except.error e => Except.error e
  | Except.ok t => do
    let gl : List (GLImm α) :=
      [GLImm.glBegin GLenum.GL_TRIANGLE_FAN, GLImm.glNormal3f 0 0 (-1), GLImm.glVertex3f 0 0 0]
    let gl ← forRangeInclChecked 0 slices
      (fun j gl => do
        let c ← t.cost.read j
        let sn ← t.sint.read j
        pure (gl ++ [GLImm.glVertex3f (c * radf) (sn * radf) 0])) gl
    let gl := gl ++ [GLImm.glEnd]
    let gl := gl ++
      [GLImm.glBegin GLenum.GL_TRIANGLE_FAN, GLImm.glNormal3f 0 0 1, GLImm.glVertex3f 0 0 height]
    let gl ← forDownChecked slices 0
      (fun j gl => do
        let c ← t.cost.read j
        let sn ← t.sint.read j
        pure (gl ++ [GLImm.glVertex3f (c * radf) (sn * radf) height])) gl
    let gl := gl ++ [GLImm.glEnd]
    if stacks' = 2147483647 then Except.error Abort.noReturn
    else do
      let s ← forRangeInclChecked 1 stacks'
        (solidCylinderStackChecked t radf height zStep slices stacks')
        { z0 := 0, z1 := zStep, gl := gl }
      pure s.gl

/-- Body of the loop of `glutWireCylinder` over the stacks `i` (source lines 1135-1151),
with every read of the circle table checked. -/
def wireCylinderStackChecked {α : Type} [Field α] (t : CircleTable α) (radf height zStep : α)
    (slices stacks' : Int) (i : Int) (s : WireCylinderLocals α) :
    Except Abort (WireCylinderLocals α) := do
  let z := if i = stacks' then height else s.z
  let gl := s.gl ++ [GLImm.glBegin GLenum.GL_LINE_LOOP]
  let gl ← forRangeChecked 0 slices
    (fun j gl => do
      let c ← t.cost.read j
      let sn ← t.sint.read j
      pure (gl ++
        [GLImm.glNormal3f c sn 0,
         GLImm.glVertex3f (c * radf) (sn * radf) z])) gl
  pure { z := z + zStep, gl := gl ++ [GLImm.glEnd] }

/-- The function `glutWireCylinder` (source lines 1116-1170) with every read of its
circle table checked. -/
def glutWireCylinderChecked {α : Type} [Field α] (m : LibM α) (w : World) (radius height : α)
    (slices stacks' : Int) : Except Abort (List (GLImm α)) :=
  let radf : α := radius
  let zStep : α := height / (((if stacks' > 0 then stacks' else 1) : Int) : α)
  match FREEGLUT_EXIT_IF_NOT_INITIALISED w "glutWireCylinder" with
  | Except.error e => Except.error e
  | Except.ok _ =>
  match fghCircleTable m.sinf m.cosf m.M_PI w.mallocOk (wrapInt (-slices)) false with
  | Except.error e => Except.error e
  | Except.ok t =>
    if stacks' = 2147483647 then Except.error Abort.noReturn
    else do
      let s ← forRangeInclChecked 0 stacks'
        (wireCylinderStackChecked t radf height zStep slices stacks')
        { z := 0, gl := [] }
      let gl := s.gl ++ [GLImm.glBegin GLenum.GL_LINES]
      let gl ← forRangeChecked 0 slices
        (fun j gl => do
          let c ← t.cost.read j
          let sn ← t.sint.read j
          pure (gl ++
            [GLImm.glNormal3f c sn 0,
             GLImm.glVertex3f (c * radf) (sn * radf) 0,
             GLImm.glVertex3f (c * radf) (sn * radf) height])) gl
      pure (gl ++ [GLImm.glEnd])

/-! ## Specification vocabulary -/

/-- The region `b` is the region `old` after the cells at offsets `0, 1, ..., m-1` have
been stored to, once each and in this order, cell `q` receiving `G q`; all other cells
are as in `old`. -/
def FilledTo {α : Type} (G : Nat → α) (old b : Buffer α) (m : Nat) : Prop :=
  b.size = old.size ∧
  b.stores = ((List.range m).reverse.map Int.ofNat) ++ old.stores ∧
  (∀ q : Nat, q < m → b.cell (q : Int) = G q) ∧
  (∀ q : Int, q < 0 ∨ (m : Int) ≤ q → b.cell q = old.cell q)

/-- The value the expander leaves in cell `q` of the flat vertex array: coordinate
`q % 3` of the catalog vertex whose number is entry `q / 3` of the face-index table. -/
def expandedVertex {α : Type} [Inhabited α] (vertices : List α) (vertIndices : List GLubyte)
    (q : Nat) : α :=
  readArr vertices ((3 * (readArr vertIndices ((q / 3 : Nat) : Int)).val + q % 3 : Nat) : Int)

/-- The value the expander leaves in cell `q` of the flat normal array: coordinate
`q % 3` of the normal of face `q / (3 * E)`. -/
def expandedNormal {α : Type} [Inhabited α] (E : Nat) (normals : List α) (q : Nat) : α :=
  readArr normals ((3 * (q / (3 * E)) + q % 3 : Nat) : Int)

/-- The value the expander leaves in cell `q` of the index array, for faces of `E`
vertices decomposed through the table `samps` of `n` entries: entry `q % n` of the table
moved to the block of face `q / n`, as a byte. -/
def expandedIndex (E n : Nat) (samps : List GLubyte) (q : Nat) : GLubyte :=
  toGLubyte ((((q / n) * E + (readArr samps ((q % n : Nat) : Int)).val : Nat)) : Int)

/-- The decomposition table the expander selects for faces of `E` vertices: none for
triangles (and for every `E` other than 4 and 5). The number of indices generated per
face is the length of the table. -/
def decompOf (E : Nat) : Option (List GLubyte) :=
  if E = 4 then some vert4Decomp else if E = 5 then some vert5Decomp else none

/-- The content property of the expander's output for `F` faces of `E` vertices: flat
entry `f * E + j` carries the coordinates of the catalog vertex whose number is entry
`f * E + j` of the face-index table, and the normal of face `f`. -/
def ExpandedContent {α : Type} (F E : Nat) (vertices : List α) (vertIndices : List GLubyte)
    (normals : List α) (out : GeometryArrays α) : Prop :=
  ∀ f j k : Nat, f < F → j < E → k < 3 →
    ∃ v : GLubyte, vertIndices[f * E + j]? = some v ∧
      vertices[3 * v.val + k]? = some (out.vertOut.cell ((3 * (f * E + j) + k : Nat) : Int)) ∧
      normals[3 * f + k]? = some (out.normOut.cell ((3 * (f * E + j) + k : Nat) : Int))

/-- The triangles a decomposition table lists: its entries grouped in threes. -/
def triangles : List GLubyte → List (Nat × Nat × Nat)
  | a :: b :: c :: rest => (a.val, b.val, c.val) :: triangles rest
  | _ => []

/-- The directed edges of a list of triangles, each triangle walked in the order its
vertices are listed. -/
def directedEdges : List (Nat × Nat × Nat) → List (Nat × Nat)
  | [] => []
  | t :: rest => (t.1, t.2.1) :: (t.2.1, t.2.2) :: (t.2.2, t.1) :: directedEdges rest

/-- A triangle lists its three vertices in the cyclic order of the face: it is a
rotation of an increasing triple. -/
def inCyclicOrder (t : Nat × Nat × Nat) : Prop :=
  (t.1 < t.2.1 ∧ t.2.1 < t.2.2) ∨ (t.2.1 < t.2.2 ∧ t.2.2 < t.1) ∨ (t.2.2 < t.1 ∧ t.1 < t.2.1)

/-- The table `T` triangulates a face of `E` vertices numbered `0 .. E-1` in cyclic
order, keeping the winding. -/
def FaceTriangulation (E : Nat) (T : List GLubyte) : Prop :=
  T.length = 3 * (E - 2) ∧
  (∀ x ∈ T, x.val < E) ∧
  (triangles T).length = E - 2 ∧
  (∀ t ∈ triangles T, inCyclicOrder t) ∧
  (∀ k, k < E → (directedEdges (triangles T)).count (k, (k + 1) % E) = 1) ∧
  (∀ e ∈ directedEdges (triangles T), e.2 ≠ (e.1 + 1) % E →
    (e.2, e.1) ∈ directedEdges (triangles T))

/-- The static storage `c` of solid `s` is in one of its two states: as at program
start, or flagged as cached and holding the arrays one run of the generate routine
leaves in the storage as it is at program start. -/
def CacheState (s : Shape) (c : ShapeCache) : Prop :=
  c = ShapeCache.static s.tables ∨
  (c.Cached = true ∧ ∃ g, fghShapeGenerate s.tables (ShapeCache.static s.tables) = some g ∧
    c.verts = g.verts ∧ c.norms = g.norms ∧ c.vertIdxs = g.vertIdxs)

/-- The public call drawing solid `s` in solid mode (`dSize` is only used for the cube). -/
def Call.solid (s : Shape) (dSize : GLfloat) : Call :=
  match s with
  | .cube => Call.glutSolidCube dSize
  | .dodecahedron => Call.glutSolidDodecahedron
  | .icosahedron => Call.glutSolidIcosahedron
  | .octahedron => Call.glutSolidOctahedron
  | .rhombicdodecahedron => Call.glutSolidRhombicDodecahedron
  | .tetrahedron => Call.glutSolidTetrahedron

/-- The region `b` is the region `old` after the cells at offsets
`base, base+1, ..., base+m-1` have been stored to, once each and in this order, the cell
at `base + q` receiving `G q`; all other cells are as in `old`. -/
def FilledFrom {α : Type} (base : Int) (G : Nat → α) (old b : Buffer α) (m : Nat) : Prop :=
  b.size = old.size ∧
  b.stores = ((List.range m).reverse.map (fun q : Nat => base + (q : Int))) ++ old.stores ∧
  (∀ q : Nat, q < m → b.cell (base + (q : Int)) = G q) ∧
  (∀ p : Int, p < base ∨ base + (m : Int) ≤ p → b.cell p = old.cell p)

/-- The offset handed to the `i`-th recursive call of the sponge generator, `scale` being
the halved scale: the parent offset moved towards vertex `i` of the tetrahedron. -/
def childOffset (offset : Fin 3 → GLdouble) (scale : GLfloat) (i : Nat) : Fin 3 → GLdouble :=
  fun k => offset k + scale * readArr tetrahedron_v ((3 * i + k.val : Nat) : Int)

/-- The float expected at position `q` of the vertex array of a sponge of `L` levels:
at level 0 the coordinate `q % 3` of the tetrahedron vertex named by entry `q / 3` of the
index table, scaled and moved; at level `L + 1` the float of the sub-sponge `q / (36*4^L)`
at position `q % (36*4^L)`. -/
def spongeVertex : Nat → (Fin 3 → GLdouble) → GLfloat → Nat → GLfloat
  | 0, offset, scale, q =>
      offset ⟨q % 3, Nat.mod_lt _ (by decide)⟩
        + scale * readArr tetrahedron_v
            ((3 * (readArr tetrahedron_vi ((q / 3 : Nat) : Int)).val + q % 3 : Nat) : Int)
  | L + 1, offset, scale, q =>
      spongeVertex L (childOffset offset (scale / 2) (q / (36 * 4 ^ L))) (scale / 2)
        (q % (36 * 4 ^ L))

/-- The float expected at position `q` of the normal array of a sponge: the coordinate
`q % 3` of the normal of the face `(q % 36) / 9` of the tetrahedron. -/
def spongeNormal (q : Nat) : GLfloat :=
  readArr tetrahedron_n ((3 * ((q % 36) / 9) + q % 3 : Nat) : Int)

/-- A vertex as OpenGL receives it in immediate mode: the position given to `glVertex`
and the normal in force at that call. -/
structure Vertex (α : Type) where
  pos : α × α × α
  normal : α × α × α

/-- A primitive: the mode given to `glBegin` and the vertices issued up to `glEnd`. -/
structure Primitive (α : Type) where
  mode : GLenum
  vertices : List (Vertex α)

/-- What OpenGL keeps between immediate-mode calls: the current normal, the primitive
being specified if any, and the primitives completed so far. -/
structure GLState (α : Type) where
  normal : α × α × α
  current : Option (Primitive α)
  done : List (Primitive α)

/-- The effect of one immediate-mode call: `glNormal` sets the current normal, `glVertex`
adds a vertex with the current normal to the primitive being specified, `glBegin` starts a
primitive and `glEnd` completes it; the `fv` calls read their three numbers at the pointer;
`glPushMatrix` and `glPopMatrix` leave normal and primitives as they are. -/
def GLState.step {α : Type} (s : GLState α) : GLImm α → GLState α
  | GLImm.glBegin mode =>
      { normal := s.normal, current := some { mode := mode, vertices := [] }, done := s.done }
  | GLImm.glEnd =>
      match s.current with
      | some p => { normal := s.normal, current := none, done := s.done ++ [p] }
      | none => s
  | GLImm.glNormal3f nx ny nz =>
      { normal := (nx, ny, nz), current := s.current, done := s.done }
  | GLImm.glNormal3d nx ny nz =>
      { normal := (nx, ny, nz), current := s.current, done := s.done }
  | GLImm.glVertex3f x y z =>
      match s.current with
      | some p =>
          { normal := s.normal
            current := some { mode := p.mode
                              vertices := p.vertices ++ [{ pos := (x, y, z), normal := s.normal }] }
            done := s.done }
      | none => s
  | GLImm.glVertex3d x y z =>
      match s.current with
      | some p =>
          { normal := s.normal
            current := some { mode := p.mode
                              vertices := p.vertices ++ [{ pos := (x, y, z), normal := s.normal }] }
            done := s.done }
      | none => s
  | GLImm.glNormal3fv v offset =>
      { normal := (v.cell offset, v.cell (offset + 1), v.cell (offset + 2))
        current := s.current, done := s.done }
  | GLImm.glVertex3fv v offset =>
      match s.current with
      | some p =>
          { normal := s.normal
            current := some { mode := p.mode
                              vertices := p.vertices ++
                                [{ pos := (v.cell offset, v.cell (offset + 1), v.cell (offset + 2))
                                   normal := s.normal }] }
            done := s.done }
      | none => s
  | GLImm.glPushMatrix => s
  | GLImm.glPopMatrix => s

/-- The primitives specified by a sequence of immediate-mode calls, in order, starting
from the initial current normal `(0, 0, 1)` of OpenGL. -/
def primitives {α : Type} [Field α] (calls : List (GLImm α)) : List (Primitive α) :=
  (calls.foldl GLState.step
    ({ normal := (0, 0, 1), current := none, done := [] } : GLState α)).done

/-- The vertex of the sphere at angle entry `j` of the full-circle table `t1` on ring `k`
of the half-circle table `t2`: its normal is the point of the unit sphere, its position
that point scaled by `radf`. -/
def sphereVertex {α : Type} [Field α] (t1 t2 : CircleTable α) (radf : α) (k j : Int) :
    Vertex α :=
  { pos := (t1.cost.cell j * t2.sint.cell k * radf, t1.sint.cell j * t2.sint.cell k * radf,
            t2.cost.cell k * radf)
    normal := (t1.cost.cell j * t2.sint.cell k, t1.sint.cell j * t2.sint.cell k,
               t2.cost.cell k) }

/-- The vertex that the stack loops of `glutWireSphere` issue at angle entry `j` on ring
`i`: the position is the one of `sphereVertex`, the normal is `(cost1[j], sint1[j],
cost2[i])`. -/
def wireStackVertex {α : Type} [Field α] (t1 t2 : CircleTable α) (radf : α) (i j : Int) :
    Vertex α :=
  { pos := (t1.cost.cell j * t2.sint.cell i * radf, t1.sint.cell j * t2.sint.cell i * radf,
            t2.cost.cell i * radf)
    normal := (t1.cost.cell j, t1.sint.cell j, t2.cost.cell i) }

/-- The height of the boundary `k` between the stacks of a cylinder: `k` steps of `zStep`
above the base, and `height` itself at the top boundary `k = stacks'`. -/
def cylinderZ {α : Type} [Field α] (height zStep : α) (stacks' : Int) (k : Nat) : α :=
  if (k : Int) = stacks' then height else (k : α) * zStep

/-- The vertex on the side of a cylinder at angle entry `j` of the circle table `t` and
height `z`, with its radial normal. -/
def cylinderVertex {α : Type} [Field α] (t : CircleTable α) (radf : α) (j : Int) (z : α) :
    Vertex α :=
  { pos := (t.cost.cell j * radf, t.sint.cell j * radf, z)
    normal := (t.cost.cell j, t.sint.cell j, 0) }

/-- The vertex on the rim of a cap of a cylinder at angle entry `j` of the circle table `t`
and height `z`, with the normal `(0, 0, nz)` of the cap. -/
def capVertex {α : Type} [Field α] (t : CircleTable α) (radf : α) (j : Int) (z nz : α) :
    Vertex α :=
  { pos := (t.cost.cell j * radf, t.sint.cell j * radf, z), normal := (0, 0, nz) }

/-- What a drawing function emitted, primitive by primitive: the mode and the number of
vertices of each primitive specified by its calls, or the error it ended in. -/
def emitted {α : Type} [Field α] (r : Except Abort (List (GLImm α))) :
    Except Abort (List (GLenum × Nat)) :=
  match r with
  | Except.error e => Except.error e
  | Except.ok calls => Except.ok ((primitives calls).map (fun p => (p.mode, p.vertices.length)))

/-- The vector at entry `i` of a flat table of coordinates. -/
def vec3 (xs : List GLfloat) (i : Nat) : GLfloat × GLfloat × GLfloat :=
  (readArr xs ((3 * i : Nat) : Int), readArr xs ((3 * i + 1 : Nat) : Int),
   readArr xs ((3 * i + 2 : Nat) : Int))

/-- The scalar product of two vectors. -/
def dot3 (a b : GLfloat × GLfloat × GLfloat) : GLfloat :=
  a.1 * b.1 + a.2.1 * b.2.1 + a.2.2 * b.2.2

/-- The vector product of two vectors. -/
def cross3 (a b : GLfloat × GLfloat × GLfloat) : GLfloat × GLfloat × GLfloat :=
  (a.2.1 * b.2.2 - a.2.2 * b.2.1, a.2.2 * b.1 - a.1 * b.2.2, a.1 * b.2.1 - a.2.1 * b.1)

/-- The difference of two vectors. -/
def sub3 (a b : GLfloat × GLfloat × GLfloat) : GLfloat × GLfloat × GLfloat :=
  (a.1 - b.1, a.2.1 - b.2.1, a.2.2 - b.2.2)

/-- The catalog vertex at corner `k` of face `f` of a solid, in table order. -/
def SolidTables.corner (t : SolidTables) (f k : Nat) : GLfloat × GLfloat × GLfloat :=
  vec3 t.v (readArr t.vi ((f * t.NUM_EDGE_PER_FACE + k : Nat) : Int)).val

/-- The stated normal of face `f` of a solid. -/
def SolidTables.faceNormal (t : SolidTables) (f : Nat) : GLfloat × GLfloat × GLfloat :=
  vec3 t.n f

/-- The directed edges of face `f` of a solid: the face walked cyclically through its
entries of the face-index table. -/
def SolidTables.faceEdges (t : SolidTables) (f : Nat) : List (Nat × Nat) :=
  (List.range t.NUM_EDGE_PER_FACE).map (fun k =>
    ((readArr t.vi ((f * t.NUM_EDGE_PER_FACE + k : Nat) : Int)).val,
     (readArr t.vi ((f * t.NUM_EDGE_PER_FACE + (k + 1) % t.NUM_EDGE_PER_FACE : Nat) : Int)).val))

/-- The directed edges of all faces of a solid. -/
def SolidTables.edges (t : SolidTables) : List (Nat × Nat) :=
  (List.range t.NUM_FACES).flatMap t.faceEdges

/-- The squared length of the stated normal of face `f` of a solid. -/
def SolidTables.normalSq (t : SolidTables) (f : Nat) : GLfloat :=
  dot3 (t.faceNormal f) (t.faceNormal f)

/-- The number of the tetrahedron that the path `p 0, p 1, ..., p (L-1)` of child numbers
leads to in a sponge of `L` levels, `p 0` being the child taken at the top level:
`p 0 * 4^(L-1) + ... + p (L-1) * 4^0`. -/
def pathIndex : Nat → (Nat → Fin 4) → Nat
  | 0, _ => 0
  | L + 1, p => (p 0).val * 4 ^ L + pathIndex L (fun k => p (k + 1))

/-- The offset of the tetrahedron that the path `p` leads to in a sponge of `L` levels
with offset `o` and scale `s`: `o` plus the sum over the levels `k = 1 .. L` of
`s / 2^k` times the catalog vertex of the tetrahedron chosen at level `k`. -/
def pathOffset (o : Fin 3 → GLdouble) (s : GLfloat) (L : Nat) (p : Nat → Fin 4) :
    Fin 3 → GLdouble :=
  fun c => o c + ((List.range L).map (fun k =>
    s / 2 ^ (k + 1) * readArr tetrahedron_v ((3 * (p k).val + c.val : Nat) : Int))).sum

/-- The height of ring `k` of a cone: `k` steps of `zStep` above the base. -/
def coneZ {α : Type} [Field α] (zStep : α) (k : Nat) : α := (k : α) * zStep

/-- The radius of ring `k` of a cone: `k` steps of `rStep` less than the base radius. -/
def coneR {α : Type} [Field α] (base rStep : α) (k : Nat) : α := base - (k : α) * rStep

/-- The vertex at angle entry `j` of the circle table `t` on the ring of radius `r` at
height `z`, issued under the normal `n`. -/
def coneVertex {α : Type} [Field α] (t : CircleTable α) (r z : α) (j : Int) (n : α × α × α) :
    Vertex α :=
  { pos := (t.cost.cell j * r, t.sint.cell j * r, z), normal := n }

/-- The normal that the quad strips of `glutSolidCone` set for angle entry `j`. -/
def coneStripNormal {α : Type} [Field α] (t : CircleTable α) (cosn sinn : α) (j : Int) :
    α × α × α :=
  (t.cost.cell j * cosn, t.sint.cell j * cosn, sinn)

/-- The normal that the apex triangles of `glutSolidCone` set for angle entry `j`. -/
def coneApexNormal {α : Type} [Field α] (t : CircleTable α) (cosn sinn : α) (j : Int) :
    α × α × α :=
  (t.cost.cell j * sinn, t.sint.cell j * sinn, cosn)

/-- The `k`-fold sum of the step `d`: the angle reached after `k` rounds of `+= d` from 0. -/
def angleSum {α : Type} [Field α] (d : α) : Nat → α
  | 0 => 0
  | k + 1 => angleSum d k + d

/-- The point of the torus at the angle `psi` around the axis and `phi` around the tube. -/
def torusPos {α : Type} [Field α] (m : LibM α) (iradius oradius psi phi : α) : α × α × α :=
  (m.cosf psi * (oradius + m.cosf phi * iradius), m.sinf psi * (oradius + m.cosf phi * iradius),
   m.sinf phi * iradius)

/-- The unit normal of the torus at the angle `psi` around the axis and `phi` around the
tube. -/
def torusNormal {α : Type} [Field α] (m : LibM α) (psi phi : α) : α × α × α :=
  (m.cosf psi * m.cosf phi, m.sinf psi * m.cosf phi, m.sinf phi)

/-- The sample of ring `j` and side `i` of a torus: position and normal at the `j`-fold sum
of the step `dpsi` and the `i`-fold sum of the step `dphi`. -/
def torusVertex {α : Type} [Field α] (m : LibM α) (iradius oradius dpsi dphi : α) (j i : Nat) :
    Vertex α :=
  { pos := torusPos m iradius oradius (angleSum dpsi j) (angleSum dphi i)
    normal := torusNormal m (angleSum dpsi j) (angleSum dphi i) }

/-- Coordinate `k` (0, 1 or 2) of a triple. -/
def coord {α : Type} (v : α × α × α) (k : Nat) : α :=
  if k = 0 then v.1 else if k = 1 then v.2.1 else v.2.2

/-- The float expected at position `q` of the vertex array of a torus with `n` samples in
each ring: coordinate `q % 3` of the position of sample `q / 3`, which is side `q / 3 % n`
of ring `q / 3 / n`. -/
def torusVertexFloat {α : Type} [Field α] (m : LibM α) (iradius oradius dpsi dphi : α)
    (n : Nat) (q : Nat) : α :=
  coord (torusVertex m iradius oradius dpsi dphi (q / 3 / n) (q / 3 % n)).pos (q % 3)

/-- The float expected at position `q` of the normal array of a torus with `n` samples in
each ring. -/
def torusNormalFloat {α : Type} [Field α] (m : LibM α) (iradius oradius dpsi dphi : α)
    (n : Nat) (q : Nat) : α :=
  coord (torusVertex m iradius oradius dpsi dphi (q / 3 / n) (q / 3 % n)).normal (q % 3)

/-- The vertex that `glNormal3fv` and `glVertex3fv` issue from the offset `p` of the
arrays `normal` and `vertex`. -/
def arrayVertex {α : Type} (vertex normal : Buffer α) (p : Int) : Vertex α :=
  { pos := (vertex.cell p, vertex.cell (p + 1), vertex.cell (p + 2))
    normal := (normal.cell p, normal.cell (p + 1), normal.cell (p + 2)) }

/-- The offset of sample `(j, i)` in arrays with `n` samples to the ring, as the loops
compute it in `int` from their counters. -/
def sampleOffset (n : Int) (j i : Nat) : Int :=
  imul 3 (iadd (imul (0 + (j : Int)) n) (0 + (i : Int)))

/-- The calls expected of `glutWireTorus` for `n` sides and `R` rings, given its two
arrays: a line loop for each side, then a line loop for each ring. -/
def wireTorusCalls {α : Type} (V N : Buffer α) (n R : Nat) : List (GLImm α) :=
  [GLImm.glPushMatrix]
    ++ (List.range n).flatMap (fun i : Nat =>
        [GLImm.glBegin GLenum.GL_LINE_LOOP]
        ++ (List.range R).flatMap (fun j : Nat =>
            [GLImm.glNormal3fv N (sampleOffset (n : Int) j i),
             GLImm.glVertex3fv V (sampleOffset (n : Int) j i)])
        ++ [GLImm.glEnd])
    ++ (List.range R).flatMap (fun j : Nat =>
        [GLImm.glBegin GLenum.GL_LINE_LOOP]
        ++ (List.range n).flatMap (fun i : Nat =>
            [GLImm.glNormal3fv N (sampleOffset (n : Int) j i),
             GLImm.glVertex3fv V (sampleOffset (n : Int) j i)])
        ++ [GLImm.glEnd])
    ++ [GLImm.glPopMatrix]

/-- The calls expected of `glutSolidTorus` for `n` sides and `R` rings, given its two
arrays of `n + 1` samples to the ring: the four corners of the quad of each cell. -/
def solidTorusCalls {α : Type} (V N : Buffer α) (n R : Nat) : List (GLImm α) :=
  [GLImm.glPushMatrix, GLImm.glBegin GLenum.GL_QUADS]
    ++ (List.range n).flatMap (fun i : Nat =>
        (List.range R).flatMap (fun j : Nat =>
          [GLImm.glNormal3fv N (sampleOffset ((n + 1 : Nat) : Int) j i),
           GLImm.glVertex3fv V (sampleOffset ((n + 1 : Nat) : Int) j i),
           GLImm.glNormal3fv N (sampleOffset ((n + 1 : Nat) : Int) j i + 3),
           GLImm.glVertex3fv V (sampleOffset ((n + 1 : Nat) : Int) j i + 3),
           GLImm.glNormal3fv N
             (sampleOffset ((n + 1 : Nat) : Int) j i + imul 3 ((n + 1 : Nat) : Int) + 3),
           GLImm.glVertex3fv V
             (sampleOffset ((n + 1 : Nat) : Int) j i + imul 3 ((n + 1 : Nat) : Int) + 3),
           GLImm.glNormal3fv N
             (sampleOffset ((n + 1 : Nat) : Int) j i + imul 3 ((n + 1 : Nat) : Int)),
           GLImm.glVertex3fv V
             (sampleOffset ((n + 1 : Nat) : Int) j i + imul 3 ((n + 1 : Nat) : Int))]))
    ++ [GLImm.glEnd, GLImm.glPopMatrix]

/-- The floats that a call reads through its pointer argument lie inside the region pointed
into: for `glNormal3fv` and `glVertex3fv` these are the three floats from `offset` on. -/
def GLImm.readsInside {α : Type} : GLImm α → Bool
  | GLImm.glNormal3fv v offset => decide (0 ≤ offset ∧ offset + 2 < (v.size : Int))
  | GLImm.glVertex3fv v offset => decide (0 ≤ offset ∧ offset + 2 < (v.size : Int))
  | _ => true

/-- Every store made to the region went to one of its elements. -/
def Buffer.storesInside {α : Type} (b : Buffer α) : Bool :=
  b.stores.all (fun p => decide (0 ≤ p ∧ p < (b.size : Int)))

/-! ## Basic facts -/

theorem wrapInt_of_range {x : Int} (h1 : -2147483648 ≤ x) (h2 : x < 2147483648) :
    wrapInt x = x := by
  unfold wrapInt; omega

theorem iadd_of_range {a b : Int} (h1 : -2147483648 ≤ a + b) (h2 : a + b < 2147483648) :
    iadd a b = a + b := wrapInt_of_range h1 h2

theorem imul_of_range {a b : Int} (h1 : -2147483648 ≤ a * b) (h2 : a * b < 2147483648) :
    imul a b = a * b := wrapInt_of_range h1 h2

theorem forLoop_inv {σ : Type} (body : Nat → σ → σ) (P : Nat → σ → Prop) (n : Nat) (s : σ)
    (h0 : P 0 s) (hs : ∀ i t, i < n → P i t → P (i + 1) (body i t)) :
    P n (forLoop body n s) := by
  have key : ∀ k, k ≤ n → P k (forLoop body k s) := by
    intro k
    induction k with
    | zero => intro _; exact h0
    | succ k ih =>
      intro hk
      exact hs k _ (by omega) (ih (by omega))
  exact key n (le_refl n)

theorem forLoopM_inv {σ : Type} (body : Nat → σ → Option σ) (P : Nat → σ → Prop) (n : Nat)
    (s : σ) (h0 : P 0 s)
    (hs : ∀ i t, i < n → P i t → ∃ t1, body i t = some t1 ∧ P (i + 1) t1) :
    ∃ t, forLoopM body n s = some t ∧ P n t := by
  have key : ∀ k, k ≤ n → ∃ t, forLoopM body k s = some t ∧ P k t := by
    intro k
    induction k with
    | zero => intro _; exact ⟨s, rfl, h0⟩
    | succ k ih =>
      intro hk
      obtain ⟨t, ht, hP⟩ := ih (by omega)
      obtain ⟨t1, ht1, hP1⟩ := hs k t (by omega) hP
      exact ⟨t1, by simp [forLoopM, ht, ht1], hP1⟩
  exact key n (le_refl n)

theorem FilledTo.zero {α : Type} (G : Nat → α) (b : Buffer α) : FilledTo G b b 0 := by
  refine ⟨rfl, by simp, ?_, ?_⟩
  · intro q hq; omega
  · intro q _; rfl

theorem FilledTo.store {α : Type} {G : Nat → α} {old b : Buffer α} {m : Nat}
    (h : FilledTo G old b m) (x : α) (hx : G m = x) :
    FilledTo G old (b.store (m : Int) x) (m + 1) := by
  obtain ⟨hsz, hst, hin, hout⟩ := h
  refine ⟨hsz, ?_, ?_, ?_⟩
  · simp [Buffer.store, hst, List.range_succ]
  · intro q hq
    by_cases hqm : q = m
    · subst hqm; simp [Buffer.store, hx]
    · have : (q : Int) ≠ (m : Int) := by omega
      simp [Buffer.store, this]
      exact hin q (by omega)
  · intro q hq
    have : q ≠ (m : Int) := by omega
    simp [Buffer.store, this]
    exact hout q (by omega)

/-! ## The geometry expander -/

theorem face_slot_bounds {F E i j : Nat} (hi : i < F) (hj : j < E) :
    i * E + j < F * E ∧ i ≤ i * E := by
  have h1 := Nat.mul_le_mul_right E (Nat.succ_le_of_lt hi)
  rw [Nat.succ_mul] at h1
  have h2 : i ≤ i * E := Nat.le_mul_of_pos_right i (by omega)
  exact ⟨by omega, h2⟩

theorem face_of_slot {E i j k : Nat} (hj : j < E) (hk : k < 3) :
    (3 * (i * E + j) + k) / (3 * E) = i := by
  have h : 3 * (i * E + j) + k = (3 * j + k) + (3 * E) * i := by ring
  rw [h, Nat.add_mul_div_left _ _ (by omega : 0 < 3 * E), Nat.div_eq_of_lt (by omega)]
  simp

theorem imul_natCast {a b : Nat} (h : a * b < 2147483648) :
    imul (a : Int) (b : Int) = ((a * b : Nat) : Int) := by
  rw [imul_of_range] <;> push_cast <;> omega

theorem iadd_natCast {a b : Nat} (h : a + b < 2147483648) :
    iadd (a : Int) (b : Int) = ((a + b : Nat) : Int) := by
  rw [iadd_of_range] <;> push_cast <;> omega

theorem slot_arith {F E i j : Nat} (hrange : 3 * (F * E) ≤ 2147483648) (hi : i < F)
    (hj : j < E) :
    imul (i : Int) (E : Int) = ((i * E : Nat) : Int) ∧
    iadd ((i * E : Nat) : Int) (j : Int) = ((i * E + j : Nat) : Int) ∧
    iadd (imul ((i * E : Nat) : Int) 3) (imul (j : Int) 3) = ((3 * (i * E + j) : Nat) : Int) ∧
    iadd ((3 * (i * E + j) : Nat) : Int) 1 = ((3 * (i * E + j) + 1 : Nat) : Int) ∧
    iadd ((3 * (i * E + j) : Nat) : Int) 2 = ((3 * (i * E + j) + 2 : Nat) : Int) ∧
    imul (i : Int) 3 = ((3 * i : Nat) : Int) ∧
    iadd ((3 * i : Nat) : Int) 1 = ((3 * i + 1 : Nat) : Int) ∧
    iadd ((3 * i : Nat) : Int) 2 = ((3 * i + 2 : Nat) : Int) := by
  obtain ⟨hm, hle⟩ := face_slot_bounds hi hj
  have h1 : ((1 : Nat) : Int) = 1 := rfl
  have h2 : ((2 : Nat) : Int) = 2 := rfl
  have h3 : ((3 : Nat) : Int) = 3 := rfl
  refine ⟨imul_natCast (by omega), iadd_natCast (by omega), ?_, ?_, ?_, ?_, ?_, ?_⟩
  · rw [← h3, imul_natCast (by omega), imul_natCast (by omega), iadd_natCast (by omega)]
    congr 1; ring
  · rw [← h1, iadd_natCast (by omega)]
  · rw [← h2, iadd_natCast (by omega)]
  · rw [← h3, imul_natCast (by omega)]; congr 1; ring
  · rw [← h1, iadd_natCast (by omega)]
  · rw [← h2, iadd_natCast (by omega)]

theorem byte_arith (v : GLubyte) :
    imul ((v.val : Nat) : Int) 3 = ((3 * v.val : Nat) : Int) ∧
    iadd ((3 * v.val : Nat) : Int) 1 = ((3 * v.val + 1 : Nat) : Int) ∧
    iadd ((3 * v.val : Nat) : Int) 2 = ((3 * v.val + 2 : Nat) : Int) := by
  have hv := v.isLt
  have h1 : ((1 : Nat) : Int) = 1 := rfl
  have h2 : ((2 : Nat) : Int) = 2 := rfl
  have h3 : ((3 : Nat) : Int) = 3 := rfl
  refine ⟨?_, ?_, ?_⟩
  · rw [← h3, imul_natCast (by omega)]; congr 1; ring
  · rw [← h1, iadd_natCast (by omega)]
  · rw [← h2, iadd_natCast (by omega)]

theorem expandedVertex_slot {α : Type} [Inhabited α] (vertices : List α)
    (vertIndices : List GLubyte) (m k : Nat) (hk : k < 3) :
    expandedVertex vertices vertIndices (3 * m + k)
      = readArr vertices ((3 * (readArr vertIndices (m : Int)).val + k : Nat) : Int) := by
  have d : (3 * m + k) / 3 = m := by omega
  have r : (3 * m + k) % 3 = k := by omega
  simp only [expandedVertex, d, r]

theorem expandedNormal_slot {α : Type} [Inhabited α] (normals : List α) {E i j k : Nat}
    (hj : j < E) (hk : k < 3) :
    expandedNormal E normals (3 * (i * E + j) + k) = readArr normals ((3 * i + k : Nat) : Int) := by
  have r : (3 * (i * E + j) + k) % 3 = k := by omega
  simp only [expandedNormal, face_of_slot hj hk, r]

theorem copyVertexAndNormal_eq {α : Type} [Inhabited α] {F E : Nat} (vertices : List α)
    (vertIndices : List GLubyte) (normals : List α) (hrange : 3 * (F * E) ≤ 2147483648)
    {i j : Nat} (hi : i < F) (hj : j < E) (st : GeometryArrays α) :
    copyVertexAndNormal (E : Int) vertices vertIndices normals i j st =
      { vertOut :=
          ((st.vertOut.store ((3 * (i * E + j) : Nat) : Int)
              (expandedVertex vertices vertIndices (3 * (i * E + j)))).store
            ((3 * (i * E + j) + 1 : Nat) : Int)
              (expandedVertex vertices vertIndices (3 * (i * E + j) + 1))).store
            ((3 * (i * E + j) + 2 : Nat) : Int)
              (expandedVertex vertices vertIndices (3 * (i * E + j) + 2))
        normOut :=
          ((st.normOut.store ((3 * (i * E + j) : Nat) : Int)
              (expandedNormal E normals (3 * (i * E + j)))).store
            ((3 * (i * E + j) + 1 : Nat) : Int)
              (expandedNormal E normals (3 * (i * E + j) + 1))).store
            ((3 * (i * E + j) + 2 : Nat) : Int)
              (expandedNormal E normals (3 * (i * E + j) + 2))
        vertIdxOut := st.vertIdxOut } := by
  obtain ⟨a1, a2, a3, a4, a5, a6, a7, a8⟩ := slot_arith hrange hi hj
  obtain ⟨b1, b2, b3⟩ := byte_arith (readArr vertIndices ((i * E + j : Nat) : Int))
  have v0 := expandedVertex_slot vertices vertIndices (i * E + j) 0 (by decide)
  have v1 := expandedVertex_slot vertices vertIndices (i * E + j) 1 (by decide)
  have v2 := expandedVertex_slot vertices vertIndices (i * E + j) 2 (by decide)
  have n0 := expandedNormal_slot normals (i := i) hj (by decide : 0 < 3)
  have n1 := expandedNormal_slot normals (i := i) hj (by decide : 1 < 3)
  have n2 := expandedNormal_slot normals (i := i) hj (by decide : 2 < 3)
  simp only [Nat.add_zero] at v0 n0
  simp only [copyVertexAndNormal, a1, a2, a3, a4, a5, a6, a7, a8, b1, b2, b3, v0, v1, v2,
    n0, n1, n2]
theorem copyFace_filled {α : Type} [Inhabited α] {F E : Nat} (vertices : List α)
    (vertIndices : List GLubyte) (normals : List α) (hrange : 3 * (F * E) ≤ 2147483648)
    {i : Nat} (hi : i < F) (vo no : Buffer α) (st : GeometryArrays α)
    (hv : FilledTo (expandedVertex vertices vertIndices) vo st.vertOut (3 * (i * E)))
    (hn : FilledTo (expandedNormal E normals) no st.normOut (3 * (i * E))) :
    FilledTo (expandedVertex vertices vertIndices) vo
        (forLoop (copyVertexAndNormal (E : Int) vertices vertIndices normals i) E st).vertOut
        (3 * ((i + 1) * E)) ∧
      FilledTo (expandedNormal E normals) no
        (forLoop (copyVertexAndNormal (E : Int) vertices vertIndices normals i) E st).normOut
        (3 * ((i + 1) * E)) ∧
      (forLoop (copyVertexAndNormal (E : Int) vertices vertIndices normals i) E st).vertIdxOut
        = st.vertIdxOut := by
  have hend : 3 * ((i + 1) * E) = 3 * (i * E + E) := by ring
  rw [hend]
  refine forLoop_inv (copyVertexAndNormal (E : Int) vertices vertIndices normals i)
    (fun j t => FilledTo (expandedVertex vertices vertIndices) vo t.vertOut (3 * (i * E + j)) ∧
      FilledTo (expandedNormal E normals) no t.normOut (3 * (i * E + j)) ∧
      t.vertIdxOut = st.vertIdxOut) E st ⟨hv, hn, rfl⟩ ?_
  intro j t hj ⟨tv, tn, ti⟩
  have hnext : 3 * (i * E + (j + 1)) = 3 * (i * E + j) + 1 + 1 + 1 := by ring
  rw [copyVertexAndNormal_eq vertices vertIndices normals hrange hi hj, hnext]
  exact ⟨((tv.store _ rfl).store _ rfl).store _ rfl, ((tn.store _ rfl).store _ rfl).store _ rfl, ti⟩

theorem index_of_slot {n i e : Nat} (he : e < n) : (i * n + e) / n = i ∧ (i * n + e) % n = e := by
  have hn : 0 < n := by omega
  constructor
  · rw [Nat.add_comm, Nat.add_mul_div_right _ _ hn, Nat.div_eq_of_lt he]; simp
  · rw [Nat.add_comm, Nat.add_mul_mod_self_right, Nat.mod_eq_of_lt he]

theorem emitFaceIndex_eq {α : Type} {F E n i e : Nat} (samps : List GLubyte)
    (hrange : 3 * (F * E) ≤ 2147483648) (hidx : F * n ≤ 2147483648) (hi : i < F) (he : e < n)
    (st : GeometryArrays α) (b : Buffer GLubyte) (hb : st.vertIdxOut = some b) :
    emitFaceIndex (E : Int) (n : Int) samps i e st =
      some { vertOut := st.vertOut, normOut := st.normOut,
             vertIdxOut := some (b.store ((i * n + e : Nat) : Int)
               (expandedIndex E n samps (i * n + e))) } := by
  have h1 := Nat.mul_le_mul_right E (Nat.succ_le_of_lt hi)
  have h2 := Nat.mul_le_mul_right n (Nat.succ_le_of_lt hi)
  rw [Nat.succ_mul] at h1 h2
  have b1 : i * E < 2147483648 := by omega
  have b2 : i * n < 2147483648 := by omega
  have b3 : i * n + e < 2147483648 := by omega
  have b4 : ∀ s : Nat, s < 256 → i * E + s < 2147483648 := fun s hs => by omega
  have a1 : imul (i : Int) (E : Int) = ((i * E : Nat) : Int) := imul_natCast b1
  have a2 : imul (i : Int) (n : Int) = ((i * n : Nat) : Int) := imul_natCast b2
  have a3 : iadd ((i * n : Nat) : Int) (e : Int) = ((i * n + e : Nat) : Int) :=
    iadd_natCast b3
  have a4 : iadd ((i * E : Nat) : Int) (((readArr samps ((e : Nat) : Int)).val : Nat) : Int)
      = ((i * E + (readArr samps ((e : Nat) : Int)).val : Nat) : Int) :=
    iadd_natCast (b4 _ (readArr samps ((e : Nat) : Int)).isLt)
  obtain ⟨d, r⟩ := index_of_slot (i := i) he
  simp only [emitFaceIndex, hb, expandedIndex, a1, a2, a3, a4, d, r]
theorem emitFace_filled {α : Type} {F E n i : Nat} (samps : List GLubyte)
    (hrange : 3 * (F * E) ≤ 2147483648) (hidx : F * n ≤ 2147483648) (hi : i < F)
    (st : GeometryArrays α) (b0 b : Buffer GLubyte) (hb : st.vertIdxOut = some b)
    (hf : FilledTo (expandedIndex E n samps) b0 b (i * n)) :
    ∃ t, forLoopM (emitFaceIndex (E : Int) (n : Int) samps i) n st = some t ∧
      t.vertOut = st.vertOut ∧ t.normOut = st.normOut ∧
      ∃ b1, t.vertIdxOut = some b1 ∧ FilledTo (expandedIndex E n samps) b0 b1 ((i + 1) * n) := by
  have hend : (i + 1) * n = i * n + n := by ring
  rw [hend]
  refine forLoopM_inv (emitFaceIndex (E : Int) (n : Int) samps i)
    (fun e t => t.vertOut = st.vertOut ∧ t.normOut = st.normOut ∧
      ∃ b1, t.vertIdxOut = some b1 ∧ FilledTo (expandedIndex E n samps) b0 b1 (i * n + e))
    n st ⟨rfl, rfl, b, hb, hf⟩ ?_
  intro e t he ⟨tv, tn, b1, tb, tf⟩
  rw [emitFaceIndex_eq samps hrange hidx hi he t b1 tb]
  exact ⟨_, rfl, tv, tn, _, rfl, tf.store _ rfl⟩

theorem expandLoop_spec {α : Type} [Inhabited α] (F E n : Nat) (vertices : List α)
    (vertIndices : List GLubyte) (normals : List α) (vertSamps : Option (List GLubyte))
    (vo no : Buffer α) (io : Option (Buffer GLubyte))
    (hrange : 3 * (F * E) ≤ 2147483648) (hidx : F * n ≤ 2147483648)
    (hnull : vertSamps = none ∨ io ≠ none) :
    ∃ out, forLoopM (expandFace (E : Int) vertices vertIndices normals vertSamps (n : Int)) F
        { vertOut := vo, normOut := no, vertIdxOut := io } = some out ∧
      FilledTo (expandedVertex vertices vertIndices) vo out.vertOut (3 * (F * E)) ∧
      FilledTo (expandedNormal E normals) no out.normOut (3 * (F * E)) ∧
      (vertSamps = none → out.vertIdxOut = io) ∧
      (∀ samps, vertSamps = some samps → ∃ b0 b, io = some b0 ∧ out.vertIdxOut = some b ∧
        FilledTo (expandedIndex E n samps) b0 b (F * n)) := by
  refine forLoopM_inv (expandFace (E : Int) vertices vertIndices normals vertSamps (n : Int))
    (fun i t => FilledTo (expandedVertex vertices vertIndices) vo t.vertOut (3 * (i * E)) ∧
      FilledTo (expandedNormal E normals) no t.normOut (3 * (i * E)) ∧
      (vertSamps = none → t.vertIdxOut = io) ∧
      (∀ samps, vertSamps = some samps → ∃ b0 b, io = some b0 ∧ t.vertIdxOut = some b ∧
        FilledTo (expandedIndex E n samps) b0 b (i * n))) F _ ?_ ?_
  · refine ⟨?_, ?_, fun _ => rfl, ?_⟩
    · simpa using FilledTo.zero _ vo
    · simpa using FilledTo.zero _ no
    · intro samps hs
      rcases hnull with h | h
      · simp [hs] at h
      · obtain ⟨b0, hb0⟩ := Option.ne_none_iff_exists'.mp h
        exact ⟨b0, b0, hb0, hb0, by simpa using FilledTo.zero _ b0⟩
  · intro i t hi ⟨tv, tn, tnone, tsome⟩
    obtain ⟨cv, cn, ci⟩ := copyFace_filled vertices vertIndices normals hrange hi vo no t tv tn
    cases hvs : vertSamps with
    | none =>
      refine ⟨_, by simp only [expandFace, Int.toNat_ofNat], cv, cn, ?_, ?_⟩
      · intro _; rw [ci]; exact tnone hvs
      · intro samps hs; simp at hs
    | some samps =>
      obtain ⟨b0, b, hb0, hb, hf⟩ := tsome samps hvs
      obtain ⟨t1, ht1, h1v, h1n, b1, hb1, hf1⟩ :=
        emitFace_filled samps hrange hidx hi _ b0 b (ci.trans hb) hf
      refine ⟨t1, by simp only [expandFace, Int.toNat_ofNat]; exact ht1, ?_, ?_, ?_, ?_⟩
      · rw [h1v]; exact cv
      · rw [h1n]; exact cn
      · intro h; simp at h
      · intro samps1 hs1
        cases hs1
        exact ⟨b0, b1, hb0, hb1, hf1⟩
theorem generate_spec {α : Type} [Inhabited α] (F E : Nat) (vertices : List α)
    (vertIndices : List GLubyte) (normals : List α) (vo no : Buffer α)
    (io : Option (Buffer GLubyte)) (hrange : 3 * (F * E) ≤ 2147483648)
    (hnull : decompOf E = none ∨ io ≠ none) :
    ∃ out, fghGenerateGeometryWithIndexArray (F : Int) (E : Int) vertices vertIndices normals
        vo no io = some out ∧
      FilledTo (expandedVertex vertices vertIndices) vo out.vertOut (3 * (F * E)) ∧
      FilledTo (expandedNormal E normals) no out.normOut (3 * (F * E)) ∧
      (decompOf E = none → out.vertIdxOut = io) ∧
      (∀ samps, decompOf E = some samps → ∃ b0 b, io = some b0 ∧ out.vertIdxOut = some b ∧
        FilledTo (expandedIndex E samps.length samps) b0 b (F * samps.length)) := by
  by_cases h4 : E = 4
  · subst h4
    have hd : decompOf 4 = some vert4Decomp := rfl
    obtain ⟨out, h, hv, hn, _, hi⟩ := expandLoop_spec F 4 6 vertices vertIndices normals
      (some vert4Decomp) vo no io hrange (by omega) (by simpa [hd] using hnull)
    refine ⟨out, by simpa [fghGenerateGeometryWithIndexArray] using h, hv, hn, ?_, ?_⟩
    · intro h0; simp [hd] at h0
    · intro samps hs
      rw [hd] at hs
      cases hs
      exact hi _ rfl
  · by_cases h5 : E = 5
    · subst h5
      have hd : decompOf 5 = some vert5Decomp := rfl
      obtain ⟨out, h, hv, hn, _, hi⟩ := expandLoop_spec F 5 9 vertices vertIndices normals
        (some vert5Decomp) vo no io hrange (by omega) (by simpa [hd] using hnull)
      refine ⟨out, by simpa [fghGenerateGeometryWithIndexArray] using h, hv, hn, ?_, ?_⟩
      · intro h0; simp [hd] at h0
      · intro samps hs
        rw [hd] at hs
        cases hs
        exact hi _ rfl
    · have hd : decompOf E = none := by simp [decompOf, h4, h5]
      obtain ⟨out, h, hv, hn, hi, _⟩ := expandLoop_spec F E 0 vertices vertIndices normals none
        vo no io hrange (by omega) (Or.inl rfl)
      have e4 : ¬ ((E : Int) = 4) := by omega
      have e5 : ¬ ((E : Int) = 5) := by omega
      refine ⟨out, by simpa [fghGenerateGeometryWithIndexArray, e4, e5] using h, hv, hn,
        fun _ => hi rfl, ?_⟩
      intro samps hs
      simp [hd] at hs

theorem getElem?_readArr {α : Type} [Inhabited α] {xs : List α} {n : Nat}
    (h : n < xs.length) : xs[n]? = some (readArr xs (n : Int)) := by
  simp [readArr, List.getD, List.getElem?_eq_getElem h]

theorem content_of_filled {α : Type} [Inhabited α] {F E : Nat} {vertices : List α}
    {vertIndices : List GLubyte} {normals : List α} {vo no : Buffer α}
    {out : GeometryArrays α}
    (hlen : F * E ≤ vertIndices.length)
    (hvalid : ∀ v ∈ vertIndices.take (F * E), 3 * v.val + 2 < vertices.length)
    (hnorm : 3 * F ≤ normals.length)
    (hv : FilledTo (expandedVertex vertices vertIndices) vo out.vertOut (3 * (F * E)))
    (hn : FilledTo (expandedNormal E normals) no out.normOut (3 * (F * E))) :
    ExpandedContent F E vertices vertIndices normals out := by
  intro f j k hf hj hk
  obtain ⟨hm, _⟩ := face_slot_bounds hf hj
  have hq : 3 * (f * E + j) + k < 3 * (F * E) := by omega
  have hmlen : f * E + j < vertIndices.length := by omega
  have hvi : vertIndices[f * E + j]? = some (readArr vertIndices ((f * E + j : Nat) : Int)) :=
    getElem?_readArr hmlen
  have hmem : readArr vertIndices ((f * E + j : Nat) : Int) ∈ vertIndices.take (F * E) := by
    rw [List.mem_iff_getElem?]
    exact ⟨f * E + j, by rw [List.getElem?_take, if_pos hm]; exact hvi⟩
  have hvv := hvalid _ hmem
  refine ⟨readArr vertIndices ((f * E + j : Nat) : Int), hvi, ?_, ?_⟩
  · rw [hv.2.2.1 _ hq, expandedVertex_slot _ _ _ _ hk]
    exact getElem?_readArr (by omega)
  · rw [hn.2.2.1 _ hq, expandedNormal_slot _ hj hk]
    exact getElem?_readArr (by omega)
theorem wrapInt_lt (x : Int) : wrapInt x < 2147483648 := by
  unfold wrapInt; omega

theorem forLoopM_some_inv {σ : Type} (body : Nat → σ → Option σ) (P : σ → Prop)
    (hs : ∀ i t t1, body i t = some t1 → P t → P t1) :
    ∀ (n : Nat) (s t : σ), P s → forLoopM body n s = some t → P t := by
  intro n
  induction n with
  | zero =>
    intro s t hP h
    simp only [forLoopM, Option.some.injEq] at h
    exact h ▸ hP
  | succ n ih =>
    intro s t hP h
    simp only [forLoopM] at h
    cases hr : forLoopM body n s with
    | none => simp [hr] at h
    | some r =>
      rw [hr] at h
      exact hs n r t h (ih s r hP hr)

theorem copyVertexAndNormal_frame {α : Type} [Inhabited α] (E : Int) (vertices : List α)
    (vertIndices : List GLubyte) (normals : List α) (i j : Nat) (st : GeometryArrays α)
    (q : Int) (hq : 2147483648 ≤ q) :
    (copyVertexAndNormal E vertices vertIndices normals i j st).vertOut.cell q
      = st.vertOut.cell q := by
  have h0 : ∀ a b : Int, q ≠ iadd a b := by
    intro a b
    have := wrapInt_lt (a + b)
    unfold iadd
    omega
  simp [copyVertexAndNormal, Buffer.store, h0]

theorem emitFaceIndex_vertOut {α : Type} (E n : Int) (samps : List GLubyte) (i e : Nat)
    (st t : GeometryArrays α) (h : emitFaceIndex E n samps i e st = some t) :
    t.vertOut = st.vertOut := by
  unfold emitFaceIndex at h
  cases hb : st.vertIdxOut with
  | none => simp [hb] at h
  | some b =>
    simp only [hb, Option.some.injEq] at h
    rw [← h]

theorem expandFace_frame {α : Type} [Inhabited α] (E : Int) (vertices : List α)
    (vertIndices : List GLubyte) (normals : List α) (vertSamps : Option (List GLubyte))
    (n : Int) (vo : Buffer α) (i : Nat) (st t : GeometryArrays α)
    (h : expandFace E vertices vertIndices normals vertSamps n i st = some t)
    (hP : ∀ q : Int, 2147483648 ≤ q → st.vertOut.cell q = vo.cell q) :
    ∀ q : Int, 2147483648 ≤ q → t.vertOut.cell q = vo.cell q := by
  have h1 : ∀ q : Int, 2147483648 ≤ q →
      (forLoop (copyVertexAndNormal E vertices vertIndices normals i) E.toNat st).vertOut.cell q
        = vo.cell q := by
    refine forLoop_inv _
      (fun _ (r : GeometryArrays α) => ∀ q : Int, 2147483648 ≤ q → r.vertOut.cell q = vo.cell q)
      _ _ hP ?_
    intro j r _ hr q hq
    rw [copyVertexAndNormal_frame _ _ _ _ _ _ _ q hq]
    exact hr q hq
  unfold expandFace at h
  cases hvs : vertSamps with
  | none =>
    simp only [hvs, Option.some.injEq] at h
    rw [← h]; exact h1
  | some samps =>
    simp only [hvs] at h
    have h2 := forLoopM_some_inv (emitFaceIndex E n samps i)
      (fun (r : GeometryArrays α) => r.vertOut =
        (forLoop (copyVertexAndNormal E vertices vertIndices normals i) E.toNat st).vertOut)
      (fun e r r1 hr hPr => (emitFaceIndex_vertOut E n samps i e r r1 hr).trans hPr)
      _ _ t rfl h
    intro q hq
    rw [h2]; exact h1 q hq

theorem generate_frame {α : Type} [Inhabited α] (F E : Int) (vertices : List α)
    (vertIndices : List GLubyte) (normals : List α) (vo no : Buffer α)
    (io : Option (Buffer GLubyte)) (out : GeometryArrays α)
    (h : fghGenerateGeometryWithIndexArray F E vertices vertIndices normals vo no io = some out) :
    ∀ q : Int, 2147483648 ≤ q → out.vertOut.cell q = vo.cell q := by
  unfold fghGenerateGeometryWithIndexArray at h
  exact forLoopM_some_inv _
    (fun (r : GeometryArrays α) => ∀ q : Int, 2147483648 ≤ q → r.vertOut.cell q = vo.cell q)
    (fun i r r1 hr hP => expandFace_frame _ _ _ _ _ _ vo i r r1 hr hP) _ _ out
    (fun _ _ => rfl) h

/-- C1 (amended): for every face count `F` and every number `E` of vertices per face (in
particular 3, 4 and 5) whose flat arrays stay within `int` indexing (`3 * F * E ≤ 2^31`),
and every input whose first `F * E` face-index entries are valid vertex numbers,
`fghGenerateGeometryWithIndexArray` called with an index array returns with flat entry
`f * E + j` carrying catalog vertex `vertIndices[f * E + j]` and the normal of face `f`;
`fghGenerateGeometry` does so for `E = 3`. -/
theorem expander_content {α : Type} [Inhabited α] (F E : Nat) (vertices : List α)
    (vertIndices : List GLubyte) (normals : List α) (vertOut normOut : Buffer α)
    (vertIdxOut : Buffer GLubyte)
    (hrange : 3 * (F * E) ≤ 2147483648)
    (hlen : F * E ≤ vertIndices.length)
    (hvalid : ∀ v ∈ vertIndices.take (F * E), 3 * v.val + 2 < vertices.length)
    (hnorm : 3 * F ≤ normals.length) :
    (∃ out, fghGenerateGeometryWithIndexArray (F : Int) (E : Int) vertices vertIndices normals
        vertOut normOut (some vertIdxOut) = some out ∧
      ExpandedContent F E vertices vertIndices normals out) ∧
    (E = 3 → ∃ out, fghGenerateGeometry (F : Int) (E : Int) vertices vertIndices normals
        vertOut normOut = some out ∧
      ExpandedContent F E vertices vertIndices normals out) := by
  constructor
  · obtain ⟨out, h, hv, hn, _, _⟩ := generate_spec F E vertices vertIndices normals vertOut
      normOut (some vertIdxOut) hrange (Or.inr (by simp))
    exact ⟨out, h, content_of_filled hlen hvalid hnorm hv hn⟩
  · intro h3
    obtain ⟨out, h, hv, hn, _, _⟩ := generate_spec F E vertices vertIndices normals vertOut
      normOut none hrange (Or.inl (by subst h3; rfl))
    exact ⟨out, h, content_of_filled hlen hvalid hnorm hv hn⟩

set_option maxRecDepth 100000 in
/-- Witness for C1: the octahedron tables (8 faces of 3 vertices) meet the hypotheses. -/
theorem expander_content_witness :
    (∃ out, fghGenerateGeometryWithIndexArray ((8 : Nat) : Int) ((3 : Nat) : Int) octahedron_v
        octahedron_vi octahedron_n (Buffer.fresh 0 72) (Buffer.fresh 0 72)
        (some (Buffer.fresh 0 0)) = some out ∧
      ExpandedContent 8 3 octahedron_v octahedron_vi octahedron_n out) ∧
    (3 = 3 → ∃ out, fghGenerateGeometry ((8 : Nat) : Int) ((3 : Nat) : Int) octahedron_v
        octahedron_vi octahedron_n (Buffer.fresh 0 72) (Buffer.fresh 0 72) = some out ∧
      ExpandedContent 8 3 octahedron_v octahedron_vi octahedron_n out) :=
  expander_content 8 3 octahedron_v octahedron_vi octahedron_n (Buffer.fresh 0 72)
    (Buffer.fresh 0 72) (Buffer.fresh 0 0) (by decide) (by decide) (by decide) (by decide)

/-- C1 fails as stated, twice. `fghGenerateGeometry` on one quadrilateral face (the
first face of the cube) stops on the store through its null index array and returns
nothing. And for 238609295 triangles the claimed flat position 2147483654 of the last
vertex is beyond every `int` index, so the expander never stores there: with all input
coordinates 0 and the output array preset to 1 the cell still holds 1. -/
theorem expander_content_counterexample :
    fghGenerateGeometry 1 4 cube_v cube_vi cube_n (Buffer.fresh 0 12) (Buffer.fresh 0 12) = none ∧
    ¬ ∃ out, fghGenerateGeometryWithIndexArray ((238609295 : Nat) : Int) ((3 : Nat) : Int)
        ([0, 0, 0] : List GLfloat) (List.replicate 715827885 0) (List.replicate 715827885 0)
        (Buffer.fresh 1 2147483655) (Buffer.fresh 1 2147483655) (some (Buffer.fresh 0 0))
        = some out ∧
      ExpandedContent 238609295 3 ([0, 0, 0] : List GLfloat) (List.replicate 715827885 0)
        (List.replicate 715827885 0) out := by
  refine ⟨rfl, ?_⟩
  rintro ⟨out, hrun, hc⟩
  have hframe := generate_frame _ _ _ _ _ _ _ _ _ hrun 2147483654 (by norm_num)
  obtain ⟨v, hv, hx, _⟩ := hc 238609294 2 2 (by norm_num) (by norm_num) (by norm_num)
  have hpos : ((3 * (238609294 * 3 + 2) + 2 : Nat) : Int) = 2147483654 := by norm_num
  rw [hpos, hframe] at hx
  have hv0 : v = 0 := by
    rw [List.getElem?_replicate] at hv
    split at hv
    · exact (Option.some.inj hv).symm
    · cases hv
  subst hv0
  simp [Buffer.fresh] at hx
theorem toGLubyte_natCast {x : Nat} (h : x < 256) : (toGLubyte (x : Int)).val = x := by
  simp only [toGLubyte]
  omega

theorem decomp_entries (E : Nat) (samps : List GLubyte) (h : decompOf E = some samps) :
    samps.length = 3 * (E - 2) ∧ (∀ e : Nat, e < samps.length → (readArr samps (e : Int)).val < E)
      ∧ ∀ e : Nat, e < samps.length → samps[e]? = some (readArr samps (e : Int)) := by
  unfold decompOf at h
  split at h
  · cases h; subst E; decide
  · split at h
    · cases h; subst E; decide
    · cases h

/-- C2 (amended): for faces of `E = 4` or `E = 5` vertices and every face count `F` with
`F * E ≤ 256` (so that every flat position fits the unsigned-byte index array), the
expander returns with, for every face `f < F` and entry `e < 3 * (E - 2)`, the index
`vertIdxOut[f * 3 * (E - 2) + e]` equal to `f * E + decomp[e]` (`vert4Decomp` for
`E = 4`, `vert5Decomp` for `E = 5`), which lies in the block `[f * E, (f + 1) * E)` of
face `f`. -/
theorem expander_index_locality {α : Type} [Inhabited α] (F E : Nat) (vertices : List α)
    (vertIndices : List GLubyte) (normals : List α) (vertOut normOut : Buffer α)
    (vertIdxOut : Buffer GLubyte)
    (hE : E = 4 ∨ E = 5) (hbyte : F * E ≤ 256) :
    ∃ out idx, fghGenerateGeometryWithIndexArray (F : Int) (E : Int) vertices vertIndices
        normals vertOut normOut (some vertIdxOut) = some out ∧
      out.vertIdxOut = some idx ∧
      ∀ f e : Nat, f < F → e < 3 * (E - 2) →
        ∃ d : GLubyte, (if E = 4 then vert4Decomp else vert5Decomp)[e]? = some d ∧
          (idx.cell ((f * (3 * (E - 2)) + e : Nat) : Int)).val = f * E + d.val ∧
          f * E ≤ (idx.cell ((f * (3 * (E - 2)) + e : Nat) : Int)).val ∧
          (idx.cell ((f * (3 * (E - 2)) + e : Nat) : Int)).val < (f + 1) * E := by
  have hd : decompOf E = some (if E = 4 then vert4Decomp else vert5Decomp) := by
    rcases hE with h | h <;> subst h <;> rfl
  obtain ⟨out, h, _, _, _, hi⟩ := generate_spec F E vertices vertIndices normals vertOut
    normOut (some vertIdxOut) (by omega) (Or.inr (by simp))
  obtain ⟨b0, idx, _, hidx, hf⟩ := hi _ hd
  obtain ⟨hlen, hlt, hget⟩ := decomp_entries E _ hd
  refine ⟨out, idx, h, hidx, ?_⟩
  intro f e hfF he
  rw [← hlen] at he ⊢
  have h1 := Nat.mul_le_mul_right E (Nat.succ_le_of_lt hfF)
  have h2 := Nat.mul_le_mul_right (if E = 4 then vert4Decomp else vert5Decomp).length
    (Nat.succ_le_of_lt hfF)
  rw [Nat.succ_mul] at h1 h2
  have hcell := hf.2.2.1 (f * (if E = 4 then vert4Decomp else vert5Decomp).length + e)
    (by omega)
  obtain ⟨dq, dr⟩ := index_of_slot (i := f) he
  have hdE := hlt e he
  refine ⟨readArr (if E = 4 then vert4Decomp else vert5Decomp) (e : Int), hget e he, ?_⟩
  rw [hcell]
  simp only [expandedIndex, dq, dr]
  generalize (readArr (if E = 4 then vert4Decomp else vert5Decomp) (e : Int)).val = d at hdE ⊢
  have hsmall : f * E + d < 256 := by omega
  rw [toGLubyte_natCast hsmall]
  refine ⟨rfl, by omega, ?_⟩
  rw [Nat.succ_mul]; omega

/-- Witness for C2: the cube (6 faces of 4 vertices, 24 flat positions) meets the
hypotheses. -/
theorem expander_index_locality_witness :
    ∃ out idx, fghGenerateGeometryWithIndexArray ((6 : Nat) : Int) ((4 : Nat) : Int) cube_v
        cube_vi cube_n (Buffer.fresh 0 72) (Buffer.fresh 0 72) (some (Buffer.fresh 0 36))
        = some out ∧
      out.vertIdxOut = some idx ∧
      ∀ f e : Nat, f < 6 → e < 3 * (4 - 2) →
        ∃ d : GLubyte, (if 4 = 4 then vert4Decomp else vert5Decomp)[e]? = some d ∧
          (idx.cell ((f * (3 * (4 - 2)) + e : Nat) : Int)).val = f * 4 + d.val ∧
          f * 4 ≤ (idx.cell ((f * (3 * (4 - 2)) + e : Nat) : Int)).val ∧
          (idx.cell ((f * (3 * (4 - 2)) + e : Nat) : Int)).val < (f + 1) * 4 :=
  expander_index_locality 6 4 cube_v cube_vi cube_n (Buffer.fresh 0 72) (Buffer.fresh 0 72)
    (Buffer.fresh 0 36) (by decide) (by decide)

/-- C2 fails as stated for 65 quadrilateral faces: the first index of face 64 should be
`64 * 4 + vert4Decomp[0] = 256`, but the byte stored is 0, which points into the block
of face 0. -/
theorem expander_index_locality_counterexample :
    ∃ out idx, fghGenerateGeometryWithIndexArray ((65 : Nat) : Int) ((4 : Nat) : Int)
        ([0, 0, 0] : List GLfloat) (List.replicate 260 0) (List.replicate 195 0)
        (Buffer.fresh 0 780) (Buffer.fresh 0 780) (some (Buffer.fresh 0 390)) = some out ∧
      out.vertIdxOut = some idx ∧
      vert4Decomp[0]? = some 0 ∧
      (idx.cell ((64 * (3 * (4 - 2)) + 0 : Nat) : Int)).val = 0 ∧
      (idx.cell ((64 * (3 * (4 - 2)) + 0 : Nat) : Int)).val ≠ 64 * 4 + 0 ∧
      ¬ (64 * 4 ≤ (idx.cell ((64 * (3 * (4 - 2)) + 0 : Nat) : Int)).val) := by
  obtain ⟨out, h, _, _, _, hi⟩ := generate_spec 65 4 ([0, 0, 0] : List GLfloat)
    (List.replicate 260 0) (List.replicate 195 0) (Buffer.fresh 0 780) (Buffer.fresh 0 780)
    (some (Buffer.fresh 0 390)) (by decide) (Or.inr (by simp))
  obtain ⟨b0, idx, _, hidx, hf⟩ := hi vert4Decomp rfl
  have hcell := hf.2.2.1 384 (by decide)
  have hval : expandedIndex 4 vert4Decomp.length vert4Decomp 384 = 0 := by decide
  rw [hval] at hcell
  refine ⟨out, idx, h, hidx, rfl, ?_, ?_, ?_⟩
  · show (idx.cell ((384 : Nat) : Int)).val = 0
    rw [hcell]; rfl
  · show (idx.cell ((384 : Nat) : Int)).val ≠ 256
    rw [hcell]; decide
  · show ¬ (256 ≤ (idx.cell ((384 : Nat) : Int)).val)
    rw [hcell]; decide

/-! ## The shape caches -/

theorem FilledTo.mem_stores {α : Type} {G : Nat → α} {old b : Buffer α} {m : Nat}
    (h : FilledTo G old b m) (ho : old.stores = []) (p : Int) :
    p ∈ b.stores ↔ 0 ≤ p ∧ p < (m : Int) := by
  rw [h.2.1, ho]
  simp only [List.append_nil, List.mem_map, List.mem_reverse, List.mem_range]
  constructor
  · rintro ⟨a, ha, rfl⟩
    exact ⟨Int.ofNat_nonneg a, Int.ofNat_lt.mpr ha⟩
  · rintro ⟨h0, h1⟩
    exact ⟨p.toNat, by omega, by simp [Int.toNat_of_nonneg h0]⟩

theorem FilledTo.nodup_stores {α : Type} {G : Nat → α} {old b : Buffer α} {m : Nat}
    (h : FilledTo G old b m) (ho : old.stores = []) : b.stores.Nodup := by
  rw [h.2.1, ho, List.append_nil]
  refine List.Nodup.map ?_ (List.nodup_reverse.mpr (List.nodup_range m))
  intro a b hab
  exact Int.ofNat.inj hab

/-- What the generate routine of a solid does to the static storage of the solid, for
any tables whose derived constants agree with their face and edge counts. -/
theorem shapeGenerate_of_tables (t : SolidTables)
    (hN : t.VERT_ELEM_PER_OBJ = 3 * (t.NUM_FACES * t.NUM_EDGE_PER_FACE))
    (hdec : t.decomposed = (decompOf t.NUM_EDGE_PER_FACE).isSome)
    (hTRI : ∀ samps, decompOf t.NUM_EDGE_PER_FACE = some samps →
      t.VERT_PER_OBJ_TRI = t.NUM_FACES * samps.length)
    (hrange : 3 * (t.NUM_FACES * t.NUM_EDGE_PER_FACE) ≤ 2147483648) :
    ∃ c, fghShapeGenerate t (ShapeCache.static t) = some c ∧ c.Cached = false ∧
      FilledTo (expandedVertex t.v t.vi) (Buffer.fresh 0 t.VERT_ELEM_PER_OBJ) c.verts
        t.VERT_ELEM_PER_OBJ ∧
      FilledTo (expandedNormal t.NUM_EDGE_PER_FACE t.n) (Buffer.fresh 0 t.VERT_ELEM_PER_OBJ)
        c.norms t.VERT_ELEM_PER_OBJ ∧
      (decompOf t.NUM_EDGE_PER_FACE = none → c.vertIdxs = none) ∧
      (∀ samps, decompOf t.NUM_EDGE_PER_FACE = some samps → ∃ idx, c.vertIdxs = some idx ∧
        FilledTo (expandedIndex t.NUM_EDGE_PER_FACE samps.length samps)
          (Buffer.fresh 0 t.VERT_PER_OBJ_TRI) idx t.VERT_PER_OBJ_TRI) := by
  cases hd : decompOf t.NUM_EDGE_PER_FACE with
  | none =>
    have hfalse : t.decomposed = false := by rw [hdec, hd]; rfl
    obtain ⟨out, h, hv, hn, hi, _⟩ := generate_spec t.NUM_FACES t.NUM_EDGE_PER_FACE t.v t.vi t.n
      (Buffer.fresh 0 t.VERT_ELEM_PER_OBJ) (Buffer.fresh 0 t.VERT_ELEM_PER_OBJ) none hrange
      (Or.inl hd)
    rw [← hN] at hv hn
    refine ⟨{ Cached := false, verts := out.vertOut, norms := out.normOut, vertIdxs := none },
      ?_, rfl, hv, hn, fun _ => rfl, ?_⟩
    · simp [fghShapeGenerate, hfalse, ShapeCache.static, fghGenerateGeometry, h]
    · intro samps hs; cases hs
  | some samps =>
    have htrue : t.decomposed = true := by rw [hdec, hd]; rfl
    obtain ⟨out, h, hv, hn, _, hi⟩ := generate_spec t.NUM_FACES t.NUM_EDGE_PER_FACE t.v t.vi t.n
      (Buffer.fresh 0 t.VERT_ELEM_PER_OBJ) (Buffer.fresh 0 t.VERT_ELEM_PER_OBJ)
      (some (Buffer.fresh 0 t.VERT_PER_OBJ_TRI)) hrange (Or.inr (by simp))
    obtain ⟨b0, idx, hb0, hidx, hf⟩ := hi samps hd
    cases hb0
    rw [← hN] at hv hn
    rw [← hTRI samps hd] at hf
    refine ⟨{ Cached := false, verts := out.vertOut, norms := out.normOut,
              vertIdxs := out.vertIdxOut }, ?_, rfl, hv, hn, ?_, ?_⟩
    · simp [fghShapeGenerate, htrue, ShapeCache.static, h]
    · intro h0; cases h0
    · intro samps1 hs1
      cases hs1
      exact ⟨idx, hidx, hf⟩

theorem shapeGenerate_static (s : Shape) :
    ∃ c, fghShapeGenerate s.tables (ShapeCache.static s.tables) = some c ∧ c.Cached = false ∧
      FilledTo (expandedVertex s.tables.v s.tables.vi)
        (Buffer.fresh 0 s.tables.VERT_ELEM_PER_OBJ) c.verts s.tables.VERT_ELEM_PER_OBJ ∧
      FilledTo (expandedNormal s.tables.NUM_EDGE_PER_FACE s.tables.n)
        (Buffer.fresh 0 s.tables.VERT_ELEM_PER_OBJ) c.norms s.tables.VERT_ELEM_PER_OBJ ∧
      (decompOf s.tables.NUM_EDGE_PER_FACE = none → c.vertIdxs = none) ∧
      (∀ samps, decompOf s.tables.NUM_EDGE_PER_FACE = some samps → ∃ idx,
        c.vertIdxs = some idx ∧
        FilledTo (expandedIndex s.tables.NUM_EDGE_PER_FACE samps.length samps)
          (Buffer.fresh 0 s.tables.VERT_PER_OBJ_TRI) idx s.tables.VERT_PER_OBJ_TRI) := by
  apply shapeGenerate_of_tables
  · cases s <;> rfl
  · cases s <;> rfl
  · intro samps hs
    cases s <;> cases hs <;> rfl
  · cases s <;> decide

/-- C3: for each of the six cataloged solids the generate routine returns having stored
to every offset of, and only offsets of, `[0, F*E*3)` in the flat vertex array and in the
flat normal array, once each, which is the declared size of the cache arrays (cube 72,
dodecahedron 180, icosahedron 180, octahedron 72, rhombic dodecahedron 144, tetrahedron
36); for the non-triangular solids it has stored to exactly the offsets
`[0, F*3*(E-2))` of the index array, which is the declared `VERT_PER_OBJ_TRI` (cube 36,
dodecahedron 108, rhombic dodecahedron 72); the triangular solids have no index array
and nothing is stored through the null pointer. -/
theorem expander_lengths (s : Shape) :
    ∃ c, fghShapeGenerate s.tables (ShapeCache.static s.tables) = some c ∧
      s.tables.VERT_ELEM_PER_OBJ = s.tables.NUM_FACES * s.tables.NUM_EDGE_PER_FACE * 3 ∧
      s.tables.VERT_ELEM_PER_OBJ =
        (match s with
          | .cube => 72 | .dodecahedron => 180 | .icosahedron => 180
          | .octahedron => 72 | .rhombicdodecahedron => 144 | .tetrahedron => 36) ∧
      c.verts.size = s.tables.VERT_ELEM_PER_OBJ ∧
      (∀ p : Int, p ∈ c.verts.stores ↔ 0 ≤ p ∧ p < (s.tables.VERT_ELEM_PER_OBJ : Int)) ∧
      c.verts.stores.Nodup ∧
      c.norms.size = s.tables.VERT_ELEM_PER_OBJ ∧
      (∀ p : Int, p ∈ c.norms.stores ↔ 0 ≤ p ∧ p < (s.tables.VERT_ELEM_PER_OBJ : Int)) ∧
      c.norms.stores.Nodup ∧
      (s.tables.NUM_EDGE_PER_FACE = 3 → c.vertIdxs = none) ∧
      (s.tables.NUM_EDGE_PER_FACE ≠ 3 →
        s.tables.VERT_PER_OBJ_TRI
          = s.tables.NUM_FACES * 3 * (s.tables.NUM_EDGE_PER_FACE - 2) ∧
        (s = Shape.cube → s.tables.VERT_PER_OBJ_TRI = 36) ∧
        (s = Shape.dodecahedron → s.tables.VERT_PER_OBJ_TRI = 108) ∧
        (s = Shape.rhombicdodecahedron → s.tables.VERT_PER_OBJ_TRI = 72) ∧
        ∃ idx, c.vertIdxs = some idx ∧ idx.size = s.tables.VERT_PER_OBJ_TRI ∧
          (∀ p : Int, p ∈ idx.stores ↔ 0 ≤ p ∧ p < (s.tables.VERT_PER_OBJ_TRI : Int)) ∧
          idx.stores.Nodup) := by
  obtain ⟨c, hc, _, hv, hn, hnone, hsome⟩ := shapeGenerate_static s
  refine ⟨c, hc, by cases s <;> rfl, by cases s <;> rfl, hv.1, hv.mem_stores rfl,
    hv.nodup_stores rfl, hn.1, hn.mem_stores rfl, hn.nodup_stores rfl, ?_, ?_⟩
  · intro h3
    apply hnone
    rw [h3]; rfl
  · intro h3
    have hd : ∃ samps, decompOf s.tables.NUM_EDGE_PER_FACE = some samps := by
      cases s
      · exact ⟨_, rfl⟩
      · exact ⟨_, rfl⟩
      · exact absurd rfl h3
      · exact absurd rfl h3
      · exact ⟨_, rfl⟩
      · exact absurd rfl h3
    obtain ⟨samps, hs⟩ := hd
    obtain ⟨idx, hidx, hf⟩ := hsome samps hs
    refine ⟨?_, ?_, ?_, ?_, idx, hidx, hf.1, hf.mem_stores rfl, hf.nodup_stores rfl⟩
    · cases s <;> rfl
    · intro h; subst h; rfl
    · intro h; subst h; rfl
    · intro h; subst h; rfl

/-! ## The catalog and the decomposition tables -/

set_option maxRecDepth 100000 in
/-- C4: for each of the six cataloged solids every entry of the face-vertex-index table
is below the declared vertex count (8, 20, 12, 6, 14, 4), the index table has
`faceCount * edgesPerFace` entries, the vertex table `3 * vertexCount` and the normal
table `3 * faceCount`. -/
theorem catalog_validity (s : Shape) :
    (∀ v ∈ s.tables.vi, v.val < s.tables.NUM_VERT) ∧
    s.tables.NUM_VERT =
      (match s with
        | .cube => 8 | .dodecahedron => 20 | .icosahedron => 12
        | .octahedron => 6 | .rhombicdodecahedron => 14 | .tetrahedron => 4) ∧
    s.tables.vi.length = s.tables.NUM_FACES * s.tables.NUM_EDGE_PER_FACE ∧
    s.tables.v.length = 3 * s.tables.NUM_VERT ∧
    s.tables.n.length = 3 * s.tables.NUM_FACES := by
  cases s <;> exact ⟨by decide, rfl, rfl, rfl, rfl⟩

set_option maxRecDepth 100000 in
/-- C5: `vert4Decomp` and `vert5Decomp` have `3 * (E - 2)` entries, all below `E`; grouped
in threes they are `E - 2` triangles, each listing its vertices in the cyclic order of
the face; every boundary edge `(k, (k+1) mod E)` is a directed edge of exactly one
triangle and every other directed edge used occurs together with its reverse. -/
theorem decomposition_tables :
    FaceTriangulation 4 vert4Decomp ∧ FaceTriangulation 5 vert5Decomp := by
  unfold FaceTriangulation inCyclicOrder
  decide

/-! ## The draw dispatcher -/

theorem wire_loop (E : Int) (n : Nat) :
    forLoop (fun i calls =>
        calls ++ [GLCall.glDrawArrays GLenum.GL_LINE_LOOP (imul i E) E]) n []
      = (List.range n).map
          (fun i : Nat => GLCall.glDrawArrays GLenum.GL_LINE_LOOP (imul (i : Int) E) E) := by
  induction n with
  | zero => rfl
  | succ n ih => simp only [forLoop, ih, List.range_succ, List.map_append, List.map_cons,
      List.map_nil]

theorem submissions_wire (vertices normals : Buffer GLfloat) (F E : Int) :
    submissions (fghDrawGeometryWire vertices normals F E)
      = (List.range F.toNat).map
          (fun i : Nat => GLCall.glDrawArrays GLenum.GL_LINE_LOOP (imul (i : Int) E) E) := by
  simp only [submissions, fghDrawGeometryWire, wire_loop, List.filter_append]
  have h : ∀ l : List Nat, List.filter GLCall.isSubmission
      (l.map (fun i : Nat => GLCall.glDrawArrays GLenum.GL_LINE_LOOP (imul (i : Int) E) E))
      = l.map (fun i : Nat => GLCall.glDrawArrays GLenum.GL_LINE_LOOP (imul (i : Int) E) E) := by
    intro l
    rw [List.filter_eq_self]
    intro c hc
    obtain ⟨i, _, rfl⟩ := List.mem_map.mp hc
    rfl
  rw [h]
  simp [List.filter, GLCall.isSubmission]

theorem submissions_solid (vertices normals : Buffer GLfloat) (vertIdxs : Option (Buffer GLubyte))
    (numVertices E : Int) :
    submissions (fghDrawGeometrySolid vertices normals vertIdxs numVertices E)
      = [if E = 3 then GLCall.glDrawArrays GLenum.GL_TRIANGLES 0 numVertices
         else GLCall.glDrawElements GLenum.GL_TRIANGLES numVertices GLenum.GL_UNSIGNED_BYTE
           vertIdxs] := by
  by_cases h : E = 3 <;> simp [submissions, fghDrawGeometrySolid, h, List.filter,
    GLCall.isSubmission]

theorem wire_calls_of_fit (vertices normals : Buffer GLfloat) (numFaces numEdgePerFace : Int)
    (hfit : ∀ f : Nat, (f : Int) < numFaces →
      -2147483648 ≤ (f : Int) * numEdgePerFace ∧ (f : Int) * numEdgePerFace < 2147483648) :
    fghDrawGeometryWire vertices normals numFaces numEdgePerFace
      = [GLCall.glEnableClientState GLenum.GL_VERTEX_ARRAY,
         GLCall.glEnableClientState GLenum.GL_NORMAL_ARRAY,
         GLCall.glVertexPointer 3 GLenum.GL_FLOAT 0 vertices,
         GLCall.glNormalPointer GLenum.GL_FLOAT 0 normals]
        ++ (List.range (max numFaces 0).toNat).map
            (fun f : Nat => GLCall.glDrawArrays GLenum.GL_LINE_LOOP
              ((f : Int) * numEdgePerFace) numEdgePerFace)
        ++ [GLCall.glDisableClientState GLenum.GL_VERTEX_ARRAY,
            GLCall.glDisableClientState GLenum.GL_NORMAL_ARRAY] ∧
    submissions (fghDrawGeometryWire vertices normals numFaces numEdgePerFace)
      = (List.range (max numFaces 0).toNat).map
          (fun f : Nat => GLCall.glDrawArrays GLenum.GL_LINE_LOOP
            ((f : Int) * numEdgePerFace) numEdgePerFace) ∧
    (submissions (fghDrawGeometryWire vertices normals numFaces numEdgePerFace)).length
      = (max numFaces 0).toNat := by
  have hmax : (max numFaces 0).toNat = numFaces.toNat := by omega
  have hmap : (List.range numFaces.toNat).map
        (fun i : Nat => GLCall.glDrawArrays GLenum.GL_LINE_LOOP (imul (i : Int) numEdgePerFace)
          numEdgePerFace)
      = (List.range numFaces.toNat).map
        (fun f : Nat => GLCall.glDrawArrays GLenum.GL_LINE_LOOP ((f : Int) * numEdgePerFace)
          numEdgePerFace) := by
    apply List.map_congr_left
    intro f hf
    have hlt : (f : Int) < numFaces := by
      have := List.mem_range.mp hf
      omega
    rw [imul_of_range (hfit f hlt).1 (hfit f hlt).2]
  rw [hmax, submissions_wire, hmap]
  refine ⟨?_, rfl, by simp⟩
  simp only [fghDrawGeometryWire, wire_loop, hmap]

/-- C7 (amended): for every `numFaces` and `numEdgePerFace` such that `f * numEdgePerFace`
is an `int` for every face `f < numFaces`, `fghDrawGeometryWire` makes, between setting
and releasing the two array pointers, exactly `max(numFaces, 0)` calls, all
`glDrawArrays(GL_LINE_LOOP, f * numEdgePerFace, numEdgePerFace)`, for `f` ascending from
0: non-indexed line loops, the `f`-th starting at flat vertex `f * numEdgePerFace` and
covering `numEdgePerFace` vertices. It takes no index array. -/
theorem wire_dispatch (vertices normals : Buffer GLfloat) (numFaces numEdgePerFace : Int)
    (hfit : ∀ f : Nat, (f : Int) < numFaces →
      -2147483648 ≤ (f : Int) * numEdgePerFace ∧ (f : Int) * numEdgePerFace < 2147483648) :
    fghDrawGeometryWire vertices normals numFaces numEdgePerFace
      = [GLCall.glEnableClientState GLenum.GL_VERTEX_ARRAY,
         GLCall.glEnableClientState GLenum.GL_NORMAL_ARRAY,
         GLCall.glVertexPointer 3 GLenum.GL_FLOAT 0 vertices,
         GLCall.glNormalPointer GLenum.GL_FLOAT 0 normals]
        ++ (List.range (max numFaces 0).toNat).map
            (fun f : Nat => GLCall.glDrawArrays GLenum.GL_LINE_LOOP
              ((f : Int) * numEdgePerFace) numEdgePerFace)
        ++ [GLCall.glDisableClientState GLenum.GL_VERTEX_ARRAY,
            GLCall.glDisableClientState GLenum.GL_NORMAL_ARRAY] ∧
    submissions (fghDrawGeometryWire vertices normals numFaces numEdgePerFace)
      = (List.range (max numFaces 0).toNat).map
          (fun f : Nat => GLCall.glDrawArrays GLenum.GL_LINE_LOOP
            ((f : Int) * numEdgePerFace) numEdgePerFace) ∧
    (submissions (fghDrawGeometryWire vertices normals numFaces numEdgePerFace)).length
      = (max numFaces 0).toNat :=
  wire_calls_of_fit vertices normals numFaces numEdgePerFace hfit

/-- Witness for C7: the six quadrilateral faces of the cube. -/
theorem wire_dispatch_witness :
    fghDrawGeometryWire (Buffer.fresh 0 72) (Buffer.fresh 0 72) 6 4
      = [GLCall.glEnableClientState GLenum.GL_VERTEX_ARRAY,
         GLCall.glEnableClientState GLenum.GL_NORMAL_ARRAY,
         GLCall.glVertexPointer 3 GLenum.GL_FLOAT 0 (Buffer.fresh 0 72),
         GLCall.glNormalPointer GLenum.GL_FLOAT 0 (Buffer.fresh 0 72)]
        ++ (List.range (max (6 : Int) 0).toNat).map
            (fun f : Nat => GLCall.glDrawArrays GLenum.GL_LINE_LOOP ((f : Int) * 4) 4)
        ++ [GLCall.glDisableClientState GLenum.GL_VERTEX_ARRAY,
            GLCall.glDisableClientState GLenum.GL_NORMAL_ARRAY] ∧
    submissions (fghDrawGeometryWire (Buffer.fresh 0 72) (Buffer.fresh 0 72) 6 4)
      = (List.range (max (6 : Int) 0).toNat).map
          (fun f : Nat => GLCall.glDrawArrays GLenum.GL_LINE_LOOP ((f : Int) * 4) 4) ∧
    (submissions (fghDrawGeometryWire (Buffer.fresh 0 72) (Buffer.fresh 0 72) 6 4)).length
      = (max (6 : Int) 0).toNat :=
  wire_dispatch (Buffer.fresh 0 72) (Buffer.fresh 0 72) 6 4 (fun f hf => by omega)

/-- C7 fails as stated for 3 faces of 1073741824 edges: the third line loop should start
at flat vertex `2 * 1073741824 = 2147483648`, which is no `int`; the call made starts at
`-2147483648`. -/
theorem wire_dispatch_counterexample :
    (submissions (fghDrawGeometryWire (Buffer.fresh 0 0) (Buffer.fresh 0 0) 3 1073741824))[2]?
      = some (GLCall.glDrawArrays GLenum.GL_LINE_LOOP (-2147483648) 1073741824) ∧
    (submissions (fghDrawGeometryWire (Buffer.fresh 0 0) (Buffer.fresh 0 0) 3 1073741824))[2]?
      ≠ some (GLCall.glDrawArrays GLenum.GL_LINE_LOOP (2 * 1073741824) 1073741824) := by
  have h : (submissions
      (fghDrawGeometryWire (Buffer.fresh 0 0) (Buffer.fresh 0 0) 3 1073741824))[2]?
      = some (GLCall.glDrawArrays GLenum.GL_LINE_LOOP (-2147483648) 1073741824) := by
    rw [submissions_wire]
    rfl
  refine ⟨h, ?_⟩
  rw [h]
  intro hc
  have := Option.some.inj hc
  injection this with _ h1 _
  omega

/-! ## The program state and the public calls -/

theorem ensureCached_of_state (s : Shape) (w : World) (h : CacheState s (w.cache s)) :
    ∃ c, ensureCached s w = some c ∧ c.Cached = true ∧
      (∃ g, fghShapeGenerate s.tables (ShapeCache.static s.tables) = some g ∧
        c.verts = g.verts ∧ c.norms = g.norms ∧ c.vertIdxs = g.vertIdxs) ∧
      ((w.cache s).Cached = true → c = w.cache s) := by
  rcases h with h | ⟨hc, g, hg, hv, hn, hi⟩
  · obtain ⟨g, hg, _⟩ := shapeGenerate_static s
    have hcf : (w.cache s).Cached = false := by rw [h]; rfl
    refine ⟨{ Cached := true, verts := g.verts, norms := g.norms, vertIdxs := g.vertIdxs },
      ?_, rfl, ⟨g, hg, rfl, rfl, rfl⟩, ?_⟩
    · unfold ensureCached
      rw [if_neg (by rw [hcf]; simp), h, hg]
      rfl
    · intro ht; rw [hcf] at ht; cases ht
  · exact ⟨w.cache s, by simp [ensureCached, hc], hc, ⟨g, hg, hv, hn, hi⟩, fun _ => rfl⟩

theorem entryPoint_ok {name : String} {body : World → Except Abort World} {w w1 : World}
    (h : entryPoint name body w = Except.ok w1) : w.Initialised = true ∧ body w = Except.ok w1 := by
  unfold entryPoint FREEGLUT_EXIT_IF_NOT_INITIALISED at h
  by_cases hi : w.Initialised = true
  · simp only [hi, if_true] at h
    exact ⟨hi, h⟩
  · simp [hi] at h

theorem entryPoint_of_init {name : String} {body : World → Except Abort World} {w : World}
    (h : w.Initialised = true) : entryPoint name body w = body w := by
  simp [entryPoint, FREEGLUT_EXIT_IF_NOT_INITIALISED, h]

theorem fghInternalDraw_ok {s : Shape} {m : Bool} {w w1 : World}
    (h : fghInternalDraw s m w = Except.ok w1) :
    ∃ c, ensureCached s w = some c ∧ w1.cache = Function.update w.cache s c ∧
      w1.Initialised = w.Initialised ∧ w1.mallocOk = w.mallocOk := by
  unfold fghInternalDraw at h
  cases hc : ensureCached s w with
  | none => simp [hc] at h
  | some c =>
    simp only [hc, Except.ok.injEq] at h
    subst h
    exact ⟨c, rfl, rfl, rfl, rfl⟩

theorem fghCube_ok {d : GLfloat} {m : Bool} {w w1 : World}
    (h : fghCube d m w = Except.ok w1) :
    ∃ c, ensureCached Shape.cube w = some c ∧ w1.cache = Function.update w.cache Shape.cube c ∧
      w1.Initialised = w.Initialised ∧ w1.mallocOk = w.mallocOk := by
  unfold fghCube at h
  cases hc : ensureCached Shape.cube w with
  | none => simp [hc] at h
  | some c =>
    simp only [hc] at h
    split at h
    · cases h
    · simp only [Except.ok.injEq] at h
      subst h
      exact ⟨c, rfl, rfl, rfl, rfl⟩

theorem run_ok {c : Call} {w w1 : World} (h : c.run w = Except.ok w1) :
    w.Initialised = true ∧ ∃ sc, ensureCached c.shape w = some sc ∧
      w1.cache = Function.update w.cache c.shape sc ∧
      w1.Initialised = w.Initialised ∧ w1.mallocOk = w.mallocOk := by
  cases c with
  | glutWireCube d => exact ⟨(entryPoint_ok h).1, fghCube_ok (entryPoint_ok h).2⟩
  | glutSolidCube d => exact ⟨(entryPoint_ok h).1, fghCube_ok (entryPoint_ok h).2⟩
  | glutWireDodecahedron => exact ⟨(entryPoint_ok h).1, fghInternalDraw_ok (entryPoint_ok h).2⟩
  | glutSolidDodecahedron => exact ⟨(entryPoint_ok h).1, fghInternalDraw_ok (entryPoint_ok h).2⟩
  | glutWireIcosahedron => exact ⟨(entryPoint_ok h).1, fghInternalDraw_ok (entryPoint_ok h).2⟩
  | glutSolidIcosahedron => exact ⟨(entryPoint_ok h).1, fghInternalDraw_ok (entryPoint_ok h).2⟩
  | glutWireOctahedron => exact ⟨(entryPoint_ok h).1, fghInternalDraw_ok (entryPoint_ok h).2⟩
  | glutSolidOctahedron => exact ⟨(entryPoint_ok h).1, fghInternalDraw_ok (entryPoint_ok h).2⟩
  | glutWireRhombicDodecahedron =>
    exact ⟨(entryPoint_ok h).1, fghInternalDraw_ok (entryPoint_ok h).2⟩
  | glutSolidRhombicDodecahedron =>
    exact ⟨(entryPoint_ok h).1, fghInternalDraw_ok (entryPoint_ok h).2⟩
  | glutWireTetrahedron => exact ⟨(entryPoint_ok h).1, fghInternalDraw_ok (entryPoint_ok h).2⟩
  | glutSolidTetrahedron => exact ⟨(entryPoint_ok h).1, fghInternalDraw_ok (entryPoint_ok h).2⟩

theorem run_preserves_state {c : Call} {w w1 : World} (h : c.run w = Except.ok w1)
    (hw : ∀ s, CacheState s (w.cache s)) : ∀ s, CacheState s (w1.cache s) := by
  obtain ⟨_, sc, hsc, hcache, _, _⟩ := run_ok h
  obtain ⟨sc', hsc', hflag, hgen, _⟩ := ensureCached_of_state c.shape w (hw c.shape)
  rw [hsc] at hsc'
  cases hsc'
  intro s
  rw [hcache]
  by_cases hs : s = c.shape
  · subst hs
    rw [Function.update_same]
    exact Or.inr ⟨hflag, hgen⟩
  · rw [Function.update_noteq hs]
    exact hw s

theorem reachable_state {w : World} (hw : Reachable w) : ∀ s, CacheState s (w.cache s) := by
  induction hw with
  | boot i m gl => intro s; exact Or.inl rfl
  | call c _ hrun ih => exact run_preserves_state hrun ih
  | elsewhere i m gl _ ih => exact ih

theorem fghInternalDraw_eq {s : Shape} {m : Bool} {w : World} {c : ShapeCache}
    (hc : ensureCached s w = some c) :
    fghInternalDraw s m w = Except.ok
      { Initialised := w.Initialised, mallocOk := w.mallocOk,
        cache := Function.update w.cache s c,
        gl := w.gl ++
          (if m then
            fghDrawGeometryWire c.verts c.norms s.tables.NUM_FACES s.tables.NUM_EDGE_PER_FACE
          else
            fghDrawGeometrySolid c.verts c.norms c.vertIdxs s.tables.VERT_PER_OBJ_TRI
              s.tables.NUM_EDGE_PER_FACE) } := by
  simp only [fghInternalDraw, hc]

theorem fghCube_eq {d : GLfloat} {m : Bool} {w : World} {c : ShapeCache}
    (hc : ensureCached Shape.cube w = some c) (hm : d = 1 ∨ w.mallocOk = true) :
    fghCube d m w = Except.ok
      { Initialised := w.Initialised, mallocOk := w.mallocOk,
        cache := Function.update w.cache Shape.cube c,
        gl := w.gl ++
          (if m then
            fghDrawGeometryWire (if d ≠ 1 then scaledCubeVertices d c.verts else c.verts) c.norms
              CUBE_NUM_FACES CUBE_NUM_EDGE_PER_FACE
          else
            fghDrawGeometrySolid (if d ≠ 1 then scaledCubeVertices d c.verts else c.verts)
              c.norms c.vertIdxs CUBE_VERT_PER_OBJ_TRI CUBE_NUM_EDGE_PER_FACE) } := by
  by_cases hd : d = 1
  · simp [fghCube, hc, hd]
  · have hmem : w.mallocOk = true := by
      rcases hm with h | h
      · exact absurd h hd
      · exact h
    simp [fghCube, hc, hd, hmem]

theorem solid_run_eq (s : Shape) (d : GLfloat) (w : World) (hinit : w.Initialised = true) :
    (Call.solid s d).run w
      = if s = Shape.cube then fghCube d false w else fghInternalDraw s false w := by
  cases s <;>
    simp [Call.solid, Call.run, glutSolidCube, glutSolidDodecahedron, glutSolidIcosahedron,
      glutSolidOctahedron, glutSolidRhombicDodecahedron, glutSolidTetrahedron,
      fghDodecahedron, fghIcosahedron, fghOctahedron, fghRhombicDodecahedron, fghTetrahedron,
      entryPoint_of_init hinit]

/-- C6: `fghDrawGeometrySolid` makes exactly one submission: for `numEdgePerFace = 3` a
non-indexed triangle list from vertex 0 with `numVertices` vertices, otherwise an
indexed triangle list of `numVertices` byte indices read from `vertIdxs`. In every
reachable state of an initialised program the solid-mode call of each cataloged solid
returns, and the one submission it makes has count `F*3*(E-2)` (tetrahedron 12,
octahedron 24, icosahedron 60, non-indexed; cube 36, rhombic dodecahedron 72,
dodecahedron 108, indexed through the index array one run of the generate routine
produces). -/
theorem solid_dispatch (w : World) (hw : Reachable w) (hinit : w.Initialised = true)
    (hmem : w.mallocOk = true) (s : Shape) (dSize : GLfloat) :
    (∀ (vertices normals : Buffer GLfloat) (vertIdxs : Option (Buffer GLubyte))
        (numVertices numEdgePerFace : Int),
      submissions (fghDrawGeometrySolid vertices normals vertIdxs numVertices numEdgePerFace)
        = [if numEdgePerFace = 3 then GLCall.glDrawArrays GLenum.GL_TRIANGLES 0 numVertices
           else GLCall.glDrawElements GLenum.GL_TRIANGLES numVertices GLenum.GL_UNSIGNED_BYTE
             vertIdxs]) ∧
    ∃ w1 calls g, (Call.solid s dSize).run w = Except.ok w1 ∧ w1.gl = w.gl ++ calls ∧
      fghShapeGenerate s.tables (ShapeCache.static s.tables) = some g ∧
      submissions calls
        = [if s.tables.NUM_EDGE_PER_FACE = 3 then
             GLCall.glDrawArrays GLenum.GL_TRIANGLES 0 (s.tables.VERT_PER_OBJ_TRI : Int)
           else
             GLCall.glDrawElements GLenum.GL_TRIANGLES (s.tables.VERT_PER_OBJ_TRI : Int)
               GLenum.GL_UNSIGNED_BYTE g.vertIdxs] ∧
      s.tables.VERT_PER_OBJ_TRI = s.tables.NUM_FACES * 3 * (s.tables.NUM_EDGE_PER_FACE - 2) ∧
      s.tables.VERT_PER_OBJ_TRI =
        (match s with
          | .tetrahedron => 12 | .octahedron => 24 | .icosahedron => 60
          | .cube => 36 | .rhombicdodecahedron => 72 | .dodecahedron => 108) := by
  refine ⟨submissions_solid, ?_⟩
  obtain ⟨c, hc, _, ⟨g, hg, _, _, hi⟩, _⟩ := ensureCached_of_state s w (reachable_state hw s)
  have hE : ((s.tables.NUM_EDGE_PER_FACE : Int) = 3) ↔ s.tables.NUM_EDGE_PER_FACE = 3 := by
    omega
  rw [solid_run_eq s dSize w hinit]
  by_cases hs : s = Shape.cube
  · subst hs
    rw [if_pos rfl, fghCube_eq hc (Or.inr hmem)]
    refine ⟨_, _, g, rfl, rfl, hg, ?_, rfl, rfl⟩
    simp only [Bool.false_eq_true, if_false]
    rw [submissions_solid, hi]
    rfl
  · rw [if_neg hs, fghInternalDraw_eq hc]
    refine ⟨_, _, g, rfl, rfl, hg, ?_, by cases s <;> rfl, by cases s <;> rfl⟩
    simp only [Bool.false_eq_true, if_false]
    rw [submissions_solid, hi]
    simp only [hE]

/-- Witness for C6: the state at program start, initialised, drawing the icosahedron. -/
theorem solid_dispatch_witness :
    (∀ (vertices normals : Buffer GLfloat) (vertIdxs : Option (Buffer GLubyte))
        (numVertices numEdgePerFace : Int),
      submissions (fghDrawGeometrySolid vertices normals vertIdxs numVertices numEdgePerFace)
        = [if numEdgePerFace = 3 then GLCall.glDrawArrays GLenum.GL_TRIANGLES 0 numVertices
           else GLCall.glDrawElements GLenum.GL_TRIANGLES numVertices GLenum.GL_UNSIGNED_BYTE
             vertIdxs]) ∧
    ∃ w1 calls g, (Call.solid Shape.icosahedron 1).run (World.boot true true []) = Except.ok w1 ∧
      w1.gl = (World.boot true true []).gl ++ calls ∧
      fghShapeGenerate Shape.icosahedron.tables (ShapeCache.static Shape.icosahedron.tables)
        = some g ∧
      submissions calls
        = [if Shape.icosahedron.tables.NUM_EDGE_PER_FACE = 3 then
             GLCall.glDrawArrays GLenum.GL_TRIANGLES 0
               (Shape.icosahedron.tables.VERT_PER_OBJ_TRI : Int)
           else
             GLCall.glDrawElements GLenum.GL_TRIANGLES
               (Shape.icosahedron.tables.VERT_PER_OBJ_TRI : Int)
               GLenum.GL_UNSIGNED_BYTE g.vertIdxs] ∧
      Shape.icosahedron.tables.VERT_PER_OBJ_TRI
        = Shape.icosahedron.tables.NUM_FACES * 3
          * (Shape.icosahedron.tables.NUM_EDGE_PER_FACE - 2) ∧
      Shape.icosahedron.tables.VERT_PER_OBJ_TRI = 60 :=
  solid_dispatch (World.boot true true []) (Reachable.boot true true []) rfl rfl
    Shape.icosahedron 1

theorem scaledCubeVertices_cell (d : GLfloat) (src : Buffer GLfloat) (q : Nat)
    (hq : q < CUBE_VERT_ELEM_PER_OBJ) :
    (scaledCubeVertices d src).cell (q : Int) = d * src.cell (q : Int) := by
  unfold scaledCubeVertices
  refine forLoop_inv _
    (fun n (b : Buffer GLfloat) => ∀ q : Nat, q < n → b.cell (q : Int) = d * src.cell (q : Int))
    _ _ (fun q hq => absurd hq (Nat.not_lt_zero q)) ?_ q hq
  intro n b _ hb q hq
  by_cases hqn : q = n
  · subst hqn; simp [Buffer.store]
  · have hne : (q : Int) ≠ (n : Int) := by omega
    simp only [Buffer.store, hne, if_false]
    exact hb q (by omega)

theorem cube_v_entries : ∀ x ∈ cube_v, x = 0.5 ∨ x = -0.5 := by
  simp [cube_v]

set_option maxRecDepth 100000 in
theorem cube_content (g : ShapeCache)
    (hg : fghShapeGenerate Shape.cube.tables (ShapeCache.static Shape.cube.tables) = some g) :
    ∀ f j k : Nat, f < 6 → j < 4 → k < 3 →
      ∃ (v : GLubyte) (x : GLfloat), cube_vi[f * 4 + j]? = some v ∧
        cube_v[3 * v.val + k]? = some x ∧
        g.verts.cell ((3 * (f * 4 + j) + k : Nat) : Int) = x ∧ (x = 0.5 ∨ x = -0.5) := by
  obtain ⟨g', hg', _, hv, hn, _, _⟩ := shapeGenerate_static Shape.cube
  rw [hg] at hg'
  cases hg'
  have hc : ExpandedContent 6 4 cube_v cube_vi cube_n
      { vertOut := g.verts, normOut := g.norms, vertIdxOut := g.vertIdxs } :=
    content_of_filled (by decide) (by decide) (by decide) hv hn
  intro f j k hf hj hk
  obtain ⟨v, h1, h2, _⟩ := hc f j k hf hj hk
  exact ⟨v, _, h1, h2, rfl, cube_v_entries _ (List.getElem?_mem h2)⟩

/-- C8: in every reachable state of an initialised program whose allocations succeed,
`glutWireCube(d)` returns having made, between setting and releasing the vertex and
normal pointers, exactly 6 calls `glDrawArrays(GL_LINE_LOOP, 4*f, 4)`, `f = 0..5`: line
loop `f` covers the flat vertices `4*f .. 4*f+3`, and the three floats of flat vertex
`f*4+j` in the vertex array passed are `d` times the coordinates of catalog vertex
`cube_vi[f*4+j]`, each coordinate `d*0.5` or `d*(-0.5)`; for `d = 2` every float of the
array is 1 or -1, and for `d = 1` the array passed is the cached array itself. -/
theorem wire_cube (w : World) (hw : Reachable w) (hinit : w.Initialised = true)
    (hmem : w.mallocOk = true) (d : GLfloat) :
    ∃ (w1 : World) (vertices normals : Buffer GLfloat),
      glutWireCube d w = Except.ok w1 ∧
      w1.gl = w.gl ++
        ([GLCall.glEnableClientState GLenum.GL_VERTEX_ARRAY,
          GLCall.glEnableClientState GLenum.GL_NORMAL_ARRAY,
          GLCall.glVertexPointer 3 GLenum.GL_FLOAT 0 vertices,
          GLCall.glNormalPointer GLenum.GL_FLOAT 0 normals]
        ++ (List.range 6).map
            (fun f : Nat => GLCall.glDrawArrays GLenum.GL_LINE_LOOP ((f : Int) * 4) 4)
        ++ [GLCall.glDisableClientState GLenum.GL_VERTEX_ARRAY,
            GLCall.glDisableClientState GLenum.GL_NORMAL_ARRAY]) ∧
      (∀ f j k : Nat, f < 6 → j < 4 → k < 3 →
        ∃ (v : GLubyte) (x : GLfloat), cube_vi[f * 4 + j]? = some v ∧
          cube_v[3 * v.val + k]? = some x ∧
          vertices.cell ((3 * (f * 4 + j) + k : Nat) : Int) = d * x ∧
          (x = 0.5 ∨ x = -0.5)) ∧
      (d = 2 → ∀ f j k : Nat, f < 6 → j < 4 → k < 3 →
        vertices.cell ((3 * (f * 4 + j) + k : Nat) : Int) = 1 ∨
        vertices.cell ((3 * (f * 4 + j) + k : Nat) : Int) = -1) ∧
      (d = 1 → vertices = (w1.cache Shape.cube).verts) := by
  obtain ⟨c, hc, _, ⟨g, hg, hcv, _, _⟩, _⟩ :=
    ensureCached_of_state Shape.cube w (reachable_state hw Shape.cube)
  have hcontent := cube_content g hg
  have hwire := (wire_calls_of_fit (if d ≠ 1 then scaledCubeVertices d c.verts else c.verts)
    c.norms 6 4 (fun f hf => by omega)).1
  have hcells : ∀ f j k : Nat, f < 6 → j < 4 → k < 3 →
      ∃ (v : GLubyte) (x : GLfloat), cube_vi[f * 4 + j]? = some v ∧
        cube_v[3 * v.val + k]? = some x ∧
        (if d ≠ 1 then scaledCubeVertices d c.verts else c.verts).cell
          ((3 * (f * 4 + j) + k : Nat) : Int) = d * x ∧
        (x = 0.5 ∨ x = -0.5) := by
    intro f j k hf hj hk
    obtain ⟨v, x, h1, h2, h3, h4⟩ := hcontent f j k hf hj hk
    refine ⟨v, x, h1, h2, ?_, h4⟩
    by_cases hd : d = 1
    · simp only [hd, ne_eq, not_true_eq_false, if_false, one_mul]
      rw [hcv]; exact h3
    · simp only [ne_eq, hd, not_false_eq_true, if_true]
      rw [scaledCubeVertices_cell d c.verts _ (by
        show 3 * (f * 4 + j) + k < 72
        omega), hcv, h3]
  have hsix : (max (6 : Int) 0).toNat = 6 := by decide
  rw [hsix] at hwire
  refine ⟨{ Initialised := w.Initialised, mallocOk := w.mallocOk,
            cache := Function.update w.cache Shape.cube c,
            gl := w.gl ++ fghDrawGeometryWire
              (if d ≠ 1 then scaledCubeVertices d c.verts else c.verts) c.norms 6 4 },
    (if d ≠ 1 then scaledCubeVertices d c.verts else c.verts), c.norms, ?_, ?_,
    hcells, ?_, ?_⟩
  · unfold glutWireCube
    rw [entryPoint_of_init hinit, fghCube_eq hc (Or.inr hmem)]
    rfl
  · exact congrArg (fun l => w.gl ++ l) hwire
  · intro hd f j k hf hj hk
    obtain ⟨v, x, _, _, h3, h4⟩ := hcells f j k hf hj hk
    rw [h3, hd]
    rcases h4 with h | h <;> rw [h] <;> norm_num
  · intro hd
    simp [hd]

/-- Witness for C8: the state at program start, initialised, a cube of size 2. -/
theorem wire_cube_witness :
    ∃ (w1 : World) (vertices normals : Buffer GLfloat),
      glutWireCube 2 (World.boot true true []) = Except.ok w1 ∧
      w1.gl = (World.boot true true []).gl ++
        ([GLCall.glEnableClientState GLenum.GL_VERTEX_ARRAY,
          GLCall.glEnableClientState GLenum.GL_NORMAL_ARRAY,
          GLCall.glVertexPointer 3 GLenum.GL_FLOAT 0 vertices,
          GLCall.glNormalPointer GLenum.GL_FLOAT 0 normals]
        ++ (List.range 6).map
            (fun f : Nat => GLCall.glDrawArrays GLenum.GL_LINE_LOOP ((f : Int) * 4) 4)
        ++ [GLCall.glDisableClientState GLenum.GL_VERTEX_ARRAY,
            GLCall.glDisableClientState GLenum.GL_NORMAL_ARRAY]) ∧
      (∀ f j k : Nat, f < 6 → j < 4 → k < 3 →
        ∃ (v : GLubyte) (x : GLfloat), cube_vi[f * 4 + j]? = some v ∧
          cube_v[3 * v.val + k]? = some x ∧
          vertices.cell ((3 * (f * 4 + j) + k : Nat) : Int) = 2 * x ∧
          (x = 0.5 ∨ x = -0.5)) ∧
      ((2 : GLfloat) = 2 → ∀ f j k : Nat, f < 6 → j < 4 → k < 3 →
        vertices.cell ((3 * (f * 4 + j) + k : Nat) : Int) = 1 ∨
        vertices.cell ((3 * (f * 4 + j) + k : Nat) : Int) = -1) ∧
      ((2 : GLfloat) = 1 → vertices = (w1.cache Shape.cube).verts) :=
  wire_cube (World.boot true true []) (Reachable.boot true true []) rfl rfl 2

theorem ensureCached_cached {s : Shape} {w : World} (h : (w.cache s).Cached = true) :
    ensureCached s w = some (w.cache s) := by
  simp [ensureCached, h]

theorem ensureCached_flag {s : Shape} {w : World} {c : ShapeCache}
    (h : ensureCached s w = some c) : c.Cached = true := by
  unfold ensureCached at h
  by_cases hc : (w.cache s).Cached = true
  · rw [if_pos hc] at h
    cases h
    exact hc
  · rw [if_neg hc] at h
    cases hg : fghShapeGenerate s.tables (w.cache s) with
    | none => simp [hg] at h
    | some g =>
      simp only [hg, Option.map_some', Option.some.injEq] at h
      rw [← h]

theorem run_returns {w : World} (hstate : ∀ s, CacheState s (w.cache s))
    (hinit : w.Initialised = true) (hmem : w.mallocOk = true) (c : Call) :
    ∃ w1, c.run w = Except.ok w1 := by
  obtain ⟨sc, hsc, _⟩ := ensureCached_of_state c.shape w (hstate c.shape)
  cases c with
  | glutWireCube d =>
    exact ⟨_, by
      show glutWireCube d w = _
      unfold glutWireCube
      rw [entryPoint_of_init hinit, fghCube_eq hsc (Or.inr hmem)]⟩
  | glutSolidCube d =>
    exact ⟨_, by
      show glutSolidCube d w = _
      unfold glutSolidCube
      rw [entryPoint_of_init hinit, fghCube_eq hsc (Or.inr hmem)]⟩
  | glutWireDodecahedron =>
    exact ⟨_, by
      show glutWireDodecahedron w = _
      unfold glutWireDodecahedron fghDodecahedron
      rw [entryPoint_of_init hinit]
      exact fghInternalDraw_eq hsc⟩
  | glutSolidDodecahedron =>
    exact ⟨_, by
      show glutSolidDodecahedron w = _
      unfold glutSolidDodecahedron fghDodecahedron
      rw [entryPoint_of_init hinit]
      exact fghInternalDraw_eq hsc⟩
  | glutWireIcosahedron =>
    exact ⟨_, by
      show glutWireIcosahedron w = _
      unfold glutWireIcosahedron fghIcosahedron
      rw [entryPoint_of_init hinit]
      exact fghInternalDraw_eq hsc⟩
  | glutSolidIcosahedron =>
    exact ⟨_, by
      show glutSolidIcosahedron w = _
      unfold glutSolidIcosahedron fghIcosahedron
      rw [entryPoint_of_init hinit]
      exact fghInternalDraw_eq hsc⟩
  | glutWireOctahedron =>
    exact ⟨_, by
      show glutWireOctahedron w = _
      unfold glutWireOctahedron fghOctahedron
      rw [entryPoint_of_init hinit]
      exact fghInternalDraw_eq hsc⟩
  | glutSolidOctahedron =>
    exact ⟨_, by
      show glutSolidOctahedron w = _
      unfold glutSolidOctahedron fghOctahedron
      rw [entryPoint_of_init hinit]
      exact fghInternalDraw_eq hsc⟩
  | glutWireRhombicDodecahedron =>
    exact ⟨_, by
      show glutWireRhombicDodecahedron w = _
      unfold glutWireRhombicDodecahedron fghRhombicDodecahedron
      rw [entryPoint_of_init hinit]
      exact fghInternalDraw_eq hsc⟩
  | glutSolidRhombicDodecahedron =>
    exact ⟨_, by
      show glutSolidRhombicDodecahedron w = _
      unfold glutSolidRhombicDodecahedron fghRhombicDodecahedron
      rw [entryPoint_of_init hinit]
      exact fghInternalDraw_eq hsc⟩
  | glutWireTetrahedron =>
    exact ⟨_, by
      show glutWireTetrahedron w = _
      unfold glutWireTetrahedron fghTetrahedron
      rw [entryPoint_of_init hinit]
      exact fghInternalDraw_eq hsc⟩
  | glutSolidTetrahedron =>
    exact ⟨_, by
      show glutSolidTetrahedron w = _
      unfold glutSolidTetrahedron fghTetrahedron
      rw [entryPoint_of_init hinit]
      exact fghInternalDraw_eq hsc⟩

theorem run_cache {c : Call} {w w1 : World} (h : c.run w = Except.ok w1) (s : Shape) :
    (w1.cache c.shape).Cached = true ∧
    ((w.cache s).Cached = true → w1.cache s = w.cache s) ∧
    (s ≠ c.shape → w1.cache s = w.cache s) := by
  obtain ⟨_, sc, hsc, hcache, _, _⟩ := run_ok h
  rw [hcache]
  refine ⟨?_, ?_, ?_⟩
  · rw [Function.update_same]
    exact ensureCached_flag hsc
  · intro hflag
    by_cases hs : s = c.shape
    · subst hs
      rw [Function.update_same]
      rw [ensureCached_cached hflag] at hsc
      exact (Option.some.inj hsc).symm
    · rw [Function.update_noteq hs]
  · intro hs
    rw [Function.update_noteq hs]

theorem cacheState_nodup {s : Shape} {c : ShapeCache} (h : CacheState s c) :
    c.verts.stores.Nodup ∧ c.norms.stores.Nodup ∧
      ∀ idx, c.vertIdxs = some idx → idx.stores.Nodup := by
  obtain ⟨g', hg', _, hv, hn, hnone, hsome⟩ := shapeGenerate_static s
  rcases h with h | ⟨_, g, hg, hcv, hcn, hci⟩
  · subst h
    refine ⟨List.nodup_nil, List.nodup_nil, ?_⟩
    intro idx hidx
    unfold ShapeCache.static at hidx
    split at hidx
    · cases hidx; exact List.nodup_nil
    · cases hidx
  · rw [hg] at hg'
    cases hg'
    rw [hcv, hcn, hci]
    refine ⟨hv.nodup_stores rfl, hn.nodup_stores rfl, ?_⟩
    intro idx hidx
    cases hd : decompOf s.tables.NUM_EDGE_PER_FACE with
    | none => rw [hnone hd] at hidx; cases hidx
    | some samps =>
      obtain ⟨idx', hidx', hf⟩ := hsome samps hd
      rw [hidx] at hidx'
      cases hidx'
      exact hf.nodup_stores rfl

set_option maxRecDepth 100000 in
theorem shape_content (s : Shape) (g : ShapeCache)
    (hg : fghShapeGenerate s.tables (ShapeCache.static s.tables) = some g) :
    ExpandedContent s.tables.NUM_FACES s.tables.NUM_EDGE_PER_FACE s.tables.v s.tables.vi
      s.tables.n { vertOut := g.verts, normOut := g.norms, vertIdxOut := g.vertIdxs } := by
  obtain ⟨g1, hg1, _, hv, hn, _, _⟩ := shapeGenerate_static s
  rw [hg] at hg1
  cases hg1
  have hN : s.tables.VERT_ELEM_PER_OBJ = 3 * (s.tables.NUM_FACES * s.tables.NUM_EDGE_PER_FACE) := by
    cases s <;> rfl
  rw [hN] at hv hn
  exact content_of_filled (by cases s <;> decide) (by cases s <;> decide)
    (by cases s <;> decide) hv hn

/-- C9: in every state reached through any sequence of public polyhedron draw calls
(wire or solid, any cube size), the static storage of each solid is either untouched
with its flag false, or flagged and holding exactly the arrays one run of its generate
routine leaves, which are the expansion of its catalog (so every cell was stored to at
most once: the routine ran at most once); a call that returns leaves the flag of its solid set, leaves the storage of any
flagged solid and of every other solid as it was, and so a second request for the same
solid sees the same buffers; with the library initialised and allocations succeeding,
every call returns. -/
theorem cache_write_once (w : World) (hw : Reachable w) (s : Shape) :
    (((w.cache s).Cached = false ∧ w.cache s = ShapeCache.static s.tables) ∨
      ((w.cache s).Cached = true ∧
        ∃ g, fghShapeGenerate s.tables (ShapeCache.static s.tables) = some g ∧
          (w.cache s).verts = g.verts ∧ (w.cache s).norms = g.norms ∧
          (w.cache s).vertIdxs = g.vertIdxs ∧
          ExpandedContent s.tables.NUM_FACES s.tables.NUM_EDGE_PER_FACE s.tables.v s.tables.vi
            s.tables.n { vertOut := g.verts, normOut := g.norms, vertIdxOut := g.vertIdxs })) ∧
    ((w.cache s).verts.stores.Nodup ∧ (w.cache s).norms.stores.Nodup ∧
      ∀ idx, (w.cache s).vertIdxs = some idx → idx.stores.Nodup) ∧
    (∀ (c : Call) (w1 : World), c.run w = Except.ok w1 →
      (w1.cache c.shape).Cached = true ∧
      ((w.cache s).Cached = true → w1.cache s = w.cache s) ∧
      (s ≠ c.shape → w1.cache s = w.cache s) ∧
      (∀ (c2 : Call) (w2 : World), c2.run w1 = Except.ok w2 → c2.shape = c.shape →
        w2.cache c.shape = w1.cache c.shape)) ∧
    (w.Initialised = true → w.mallocOk = true → ∀ c : Call, ∃ w1, c.run w = Except.ok w1) := by
  have hstate := reachable_state hw
  refine ⟨?_, cacheState_nodup (hstate s), ?_, fun hinit hmem c => run_returns hstate hinit hmem c⟩
  · rcases hstate s with h | ⟨hflag, g, hg, hv, hn, hi⟩
    · exact Or.inl ⟨by rw [h]; rfl, h⟩
    · exact Or.inr ⟨hflag, g, hg, hv, hn, hi, shape_content s g hg⟩
  · intro c w1 hrun
    obtain ⟨h1, h2, h3⟩ := run_cache hrun s
    refine ⟨h1, h2, h3, ?_⟩
    intro c2 w2 hrun2 hshape
    exact (run_cache hrun2 c.shape).2.1 h1

/-- Witness for C9: the state at program start, initialised, and the cube. -/
theorem cache_write_once_witness :
    (((((World.boot true true []).cache Shape.cube).Cached = false ∧
        (World.boot true true []).cache Shape.cube = ShapeCache.static Shape.cube.tables) ∨
      (((World.boot true true []).cache Shape.cube).Cached = true ∧
        ∃ g, fghShapeGenerate Shape.cube.tables (ShapeCache.static Shape.cube.tables) = some g ∧
          ((World.boot true true []).cache Shape.cube).verts = g.verts ∧
          ((World.boot true true []).cache Shape.cube).norms = g.norms ∧
          ((World.boot true true []).cache Shape.cube).vertIdxs = g.vertIdxs ∧
          ExpandedContent Shape.cube.tables.NUM_FACES Shape.cube.tables.NUM_EDGE_PER_FACE
            Shape.cube.tables.v Shape.cube.tables.vi Shape.cube.tables.n
            { vertOut := g.verts, normOut := g.norms, vertIdxOut := g.vertIdxs })) ∧
    ((((World.boot true true []).cache Shape.cube).verts.stores.Nodup ∧
      ((World.boot true true []).cache Shape.cube).norms.stores.Nodup ∧
      ∀ idx, ((World.boot true true []).cache Shape.cube).vertIdxs = some idx →
        idx.stores.Nodup)) ∧
    (∀ (c : Call) (w1 : World), c.run (World.boot true true []) = Except.ok w1 →
      (w1.cache c.shape).Cached = true ∧
      (((World.boot true true []).cache Shape.cube).Cached = true →
        w1.cache Shape.cube = (World.boot true true []).cache Shape.cube) ∧
      (Shape.cube ≠ c.shape → w1.cache Shape.cube = (World.boot true true []).cache Shape.cube) ∧
      (∀ (c2 : Call) (w2 : World), c2.run w1 = Except.ok w2 → c2.shape = c.shape →
        w2.cache c.shape = w1.cache c.shape)) ∧
    ((World.boot true true []).Initialised = true → (World.boot true true []).mallocOk = true →
      ∀ c : Call, ∃ w1, c.run (World.boot true true []) = Except.ok w1)) :=
  cache_write_once (World.boot true true []) (Reachable.boot true true []) Shape.cube

/-! ## The circle table -/

theorem Buffer.store_cell {α : Type} (b : Buffer α) (p q : Int) (x : α) :
    (b.store p x).cell q = if q = p then x else b.cell q := rfl

theorem circle_loop_entry_zero {α : Type} [Field α] (sinf cosf : α → α) (angle : α)
    (size : Int) (t0 : CircleTable α) :
    (forRange 1 size
        (fun i t => { sint := t.sint.store i (sinf (angle * (i : α)))
                      cost := t.cost.store i (cosf (angle * (i : α))) }) t0).sint.cell 0
      = t0.sint.cell 0 ∧
    (forRange 1 size
        (fun i t => { sint := t.sint.store i (sinf (angle * (i : α)))
                      cost := t.cost.store i (cosf (angle * (i : α))) }) t0).cost.cell 0
      = t0.cost.cell 0 := by
  unfold forRange
  refine forLoop_inv _
    (fun _ (t : CircleTable α) => t.sint.cell 0 = t0.sint.cell 0 ∧ t.cost.cell 0 = t0.cost.cell 0)
    _ _ ⟨rfl, rfl⟩ ?_
  intro k t _ ⟨hs, hc⟩
  have hne : (0 : Int) ≠ 1 + (k : Int) := by omega
  simp only [Buffer.store, hne, if_false]
  exact ⟨hs, hc⟩

theorem circle_size_ne_zero {n : Int} (hint : -2147483648 ≤ n ∧ n < 2147483648) (h : n ≠ 0) :
    (0 : Int) ≠ wrapInt |n| := by
  unfold wrapInt
  rcases abs_cases n with ⟨h1, _⟩ | ⟨h1, _⟩ <;> rw [h1] <;> omega

/-- C10 (amended): for every `int` sample count `n` other than 0 with either value of the
half-circle flag, and for `n = 0` with the flag false, entry 0 of every table returned
by `fghCircleTable` is `(sin = 0, cos = 1)`; and a table is returned whenever its
`|n| + 1` entries can be allocated. -/
theorem circle_entry_zero {α : Type} [Field α] (sinf cosf : α → α) (M_PI : α) (mallocOk : Bool)
    (n : Int) (halfCircle : Bool) (hint : -2147483648 ≤ n ∧ n < 2147483648)
    (h : n ≠ 0 ∨ halfCircle = false) :
    (∀ t, fghCircleTable sinf cosf M_PI mallocOk n halfCircle = Except.ok t →
      t.sint.cell 0 = 0 ∧ t.cost.cell 0 = 1) ∧
    (mallocOk = true → |n| ≤ 2147483646 →
      ∃ t, fghCircleTable sinf cosf M_PI mallocOk n halfCircle = Except.ok t) := by
  constructor
  · intro t ht
    have key := circle_loop_entry_zero sinf cosf
    have hs0 : ((Buffer.fresh (0 : α) (iadd (wrapInt |n|) 1).toNat).store 0 0).cell 0 = 0 := by
      simp [Buffer.store]
    have hc0 : ((Buffer.fresh (0 : α) (iadd (wrapInt |n|) 1).toNat).store 0 1).cell 0 = 1 := by
      simp [Buffer.store]
    unfold fghCircleTable at ht
    simp only [] at ht
    split at ht
    · split at ht
      · rename_i hhalf
        have hn : n ≠ 0 := by
          rcases h with h | h
          · exact h
          · rw [h] at hhalf; cases hhalf
        have hsz := circle_size_ne_zero hint hn
        cases ht
        simp only [Buffer.store_cell, hsz, if_false]
        exact ⟨(key _ _ _).1.trans hs0, (key _ _ _).2.trans hc0⟩
      · cases ht
        simp only [Buffer.store_cell, ite_self]
        exact ⟨(key _ _ _).1.trans hs0, (key _ _ _).2.trans hc0⟩
    · cases ht
  · intro hm hn
    have hcount : 0 ≤ iadd (wrapInt |n|) 1 := by
      have h0 := abs_nonneg n
      rw [wrapInt_of_range (by omega) (by omega), iadd_of_range (by omega) (by omega)]
      omega
    unfold fghCircleTable
    simp only [hm, hcount, decide_True, Bool.and_self, if_true]
    split <;> exact ⟨_, rfl⟩

/-- Witness for C10: four samples around the half circle, over the rationals. -/
theorem circle_entry_zero_witness :
    (∀ t, fghCircleTable (fun x : ℚ => x) (fun x : ℚ => x) 3 true 4 true = Except.ok t →
      t.sint.cell 0 = 0 ∧ t.cost.cell 0 = 1) ∧
    (true = true → |(4 : Int)| ≤ 2147483646 →
      ∃ t, fghCircleTable (fun x : ℚ => x) (fun x : ℚ => x) 3 true 4 true = Except.ok t) :=
  circle_entry_zero (fun x : ℚ => x) (fun x : ℚ => x) 3 true 4 true (by decide)
    (Or.inl (by decide))

/-- C10 fails as stated for `n = 0` with the half-circle flag set: the table has the
single entry 0, which is also the final entry, and the final store leaves
`(sin = 0, cos = -1)` in it. -/
theorem circle_entry_zero_counterexample :
    ∃ t, fghCircleTable (fun x : ℚ => x) (fun x : ℚ => x) 3 true 0 true = Except.ok t ∧
      t.sint.cell 0 = 0 ∧ t.cost.cell 0 = -1 ∧ t.cost.cell 0 ≠ 1 := by
  have hsize : wrapInt |(0 : Int)| = 0 := by decide
  have hcount : iadd 0 1 = 1 := by decide
  refine ⟨_, by
    unfold fghCircleTable
    simp only [hsize, hcount]
    rfl, ?_, ?_, ?_⟩
  · simp [Buffer.store]
  · simp [Buffer.store]
  · simp only [Buffer.store_cell, if_true]
    norm_num


/-- The loop of `fghCircleTable` in closed form: after `m` rounds the entries `1 .. m`
hold the values computed for their own index, stored once each in ascending order, and
every other entry is untouched. -/
theorem circle_loop_spec {α : Type} (f g : Int → α) (t0 : CircleTable α) (m : Nat) :
    (forLoop (fun (k : Nat) (t : CircleTable α) =>
        ({ sint := t.sint.store (1 + (k : Int)) (f (1 + (k : Int)))
           cost := t.cost.store (1 + (k : Int)) (g (1 + (k : Int))) } : CircleTable α)) m t0).sint.size
      = t0.sint.size ∧
    (forLoop (fun (k : Nat) (t : CircleTable α) =>
        ({ sint := t.sint.store (1 + (k : Int)) (f (1 + (k : Int)))
           cost := t.cost.store (1 + (k : Int)) (g (1 + (k : Int))) } : CircleTable α)) m t0).cost.size
      = t0.cost.size ∧
    (forLoop (fun (k : Nat) (t : CircleTable α) =>
        ({ sint := t.sint.store (1 + (k : Int)) (f (1 + (k : Int)))
           cost := t.cost.store (1 + (k : Int)) (g (1 + (k : Int))) } : CircleTable α)) m t0).sint.stores
      = ((List.range m).reverse.map (fun k : Nat => 1 + (k : Int))) ++ t0.sint.stores ∧
    (forLoop (fun (k : Nat) (t : CircleTable α) =>
        ({ sint := t.sint.store (1 + (k : Int)) (f (1 + (k : Int)))
           cost := t.cost.store (1 + (k : Int)) (g (1 + (k : Int))) } : CircleTable α)) m t0).cost.stores
      = ((List.range m).reverse.map (fun k : Nat => 1 + (k : Int))) ++ t0.cost.stores ∧
    (∀ i : Int, 1 ≤ i → i < 1 + (m : Int) →
      (forLoop (fun (k : Nat) (t : CircleTable α) =>
        ({ sint := t.sint.store (1 + (k : Int)) (f (1 + (k : Int)))
           cost := t.cost.store (1 + (k : Int)) (g (1 + (k : Int))) } : CircleTable α)) m t0).sint.cell i
        = f i ∧
      (forLoop (fun (k : Nat) (t : CircleTable α) =>
        ({ sint := t.sint.store (1 + (k : Int)) (f (1 + (k : Int)))
           cost := t.cost.store (1 + (k : Int)) (g (1 + (k : Int))) } : CircleTable α)) m t0).cost.cell i
        = g i) ∧
    (∀ i : Int, i < 1 ∨ 1 + (m : Int) ≤ i →
      (forLoop (fun (k : Nat) (t : CircleTable α) =>
        ({ sint := t.sint.store (1 + (k : Int)) (f (1 + (k : Int)))
           cost := t.cost.store (1 + (k : Int)) (g (1 + (k : Int))) } : CircleTable α)) m t0).sint.cell i
        = t0.sint.cell i ∧
      (forLoop (fun (k : Nat) (t : CircleTable α) =>
        ({ sint := t.sint.store (1 + (k : Int)) (f (1 + (k : Int)))
           cost := t.cost.store (1 + (k : Int)) (g (1 + (k : Int))) } : CircleTable α)) m t0).cost.cell i
        = t0.cost.cell i) := by
  induction m with
  | zero =>
    refine ⟨rfl, rfl, by simp [forLoop], by simp [forLoop], ?_, ?_⟩
    · intro i h1 h2
      simp at h2
      omega
    · intro i _
      exact ⟨rfl, rfl⟩
  | succ m ih =>
    obtain ⟨h1, h2, h3, h4, h5, h6⟩ := ih
    simp only [forLoop]
    refine ⟨h1, h2, ?_, ?_, ?_, ?_⟩
    · show _ :: _ = _
      rw [h3, List.range_succ, List.reverse_append]
      rfl
    · show _ :: _ = _
      rw [h4, List.range_succ, List.reverse_append]
      rfl
    · intro i hi1 hi2
      simp only [Buffer.store_cell]
      by_cases hi : i = 1 + (m : Int)
      · rw [if_pos hi, if_pos hi, hi]
        exact ⟨rfl, rfl⟩
      · rw [if_neg hi, if_neg hi]
        exact h5 i hi1 (by push_cast at hi2; omega)
    · intro i hi
      simp only [Buffer.store_cell]
      have hne : i ≠ 1 + (m : Int) := by push_cast at hi; omega
      rw [if_neg hne, if_neg hne]
      exact h6 i (by push_cast at hi; omega)

/-- The allocation of `fghCircleTable` can only succeed for `|n| ≤ 2^31 - 2`. -/
theorem circle_alloc {n : Int} (hint : -2147483648 ≤ n ∧ n < 2147483648)
    (h : 0 ≤ iadd (wrapInt |n|) 1) : |n| ≤ 2147483646 ∧ wrapInt |n| = |n| ∧ iadd |n| 1 = |n| + 1 := by
  have h0 := abs_nonneg n
  have hle : |n| ≤ 2147483648 := by
    rcases abs_cases n with ⟨h1, _⟩ | ⟨h1, _⟩ <;> omega
  have hb : |n| ≤ 2147483646 := by
    by_contra hc
    have : |n| = 2147483647 ∨ |n| = 2147483648 := by omega
    rcases this with h1 | h1 <;> rw [h1] at h <;> revert h <;> decide
  exact ⟨hb, wrapInt_of_range (by omega) (by omega), iadd_of_range (by omega) (by omega)⟩

/-- Every table returned by `fghCircleTable`, entry by entry. -/
theorem circle_table_spec {α : Type} [Field α] (sinf cosf : α → α) (M_PI : α) (mallocOk : Bool)
    (n : Int) (halfCircle : Bool) (hint : -2147483648 ≤ n ∧ n < 2147483648)
    (t : CircleTable α)
    (ht : fghCircleTable sinf cosf M_PI mallocOk n halfCircle = Except.ok t) :
    |n| ≤ 2147483646 ∧
    ((t.sint.size : Int) = |n| + 1 ∧ (t.cost.size : Int) = |n| + 1) ∧
    (t.sint.stores
        = |n| :: (((List.range (|n| - 1).toNat).reverse.map (fun k : Nat => 1 + (k : Int))) ++ [0]) ∧
      t.cost.stores
        = |n| :: (((List.range (|n| - 1).toNat).reverse.map (fun k : Nat => 1 + (k : Int))) ++ [0])) ∧
    (∀ i : Int, 1 ≤ i → i < |n| →
      t.sint.cell i = sinf ((if halfCircle then 1 else 2) * M_PI / ((n : Int) : α) * (i : α)) ∧
      t.cost.cell i = cosf ((if halfCircle then 1 else 2) * M_PI / ((n : Int) : α) * (i : α))) ∧
    (t.sint.cell |n| = 0 ∧ t.cost.cell |n| = if halfCircle then -1 else 1) ∧
    (n ≠ 0 ∨ halfCircle = false → t.sint.cell 0 = 0 ∧ t.cost.cell 0 = 1) := by
  unfold fghCircleTable at ht
  simp only [] at ht
  by_cases hc : (mallocOk && decide (0 ≤ iadd (wrapInt |n|) 1)) = true
  swap
  · rw [if_neg hc] at ht
    cases ht
  rw [if_pos hc] at ht
  simp only [Bool.and_eq_true, decide_eq_true_eq] at hc
  obtain ⟨hb, hw, hadd⟩ := circle_alloc hint hc.2
  have h0 := abs_nonneg n
  rw [hw, hadd] at ht
  unfold forRange at ht
  have key := circle_loop_spec
    (fun i : Int => sinf ((if halfCircle then 1 else 2) * M_PI /
      (((if n = 0 then 1 else n : Int)) : α) * (i : α)))
    (fun i : Int => cosf ((if halfCircle then 1 else 2) * M_PI /
      (((if n = 0 then 1 else n : Int)) : α) * (i : α)))
    ({ sint := (Buffer.fresh (0 : α) (|n| + 1).toNat).store 0 0
       cost := (Buffer.fresh (0 : α) (|n| + 1).toNat).store 0 1 } : CircleTable α)
    (|n| - 1).toNat
  simp only [] at key
  obtain ⟨k1, k2, k3, k4, k5, k6⟩ := key
  have hs0 : ((Buffer.fresh (0 : α) (|n| + 1).toNat).store 0 0).cell 0 = 0 := by
    simp [Buffer.store]
  have hc0 : ((Buffer.fresh (0 : α) (|n| + 1).toNat).store 0 1).cell 0 = 1 := by
    simp [Buffer.store]
  have hsz : (((|n| + 1).toNat : Nat) : Int) = |n| + 1 := Int.toNat_of_nonneg (by omega)
  have hz := k6 0 (Or.inl (by omega))
  rw [hs0, hc0] at hz
  have hmid : ∀ i : Int, 1 ≤ i → i < |n| → i < 1 + (((|n| - 1).toNat : Nat) : Int) := by
    intro i h1 h2
    rw [Int.toNat_of_nonneg (by omega)]
    omega
  have hn0 : ∀ i : Int, 1 ≤ i → i < |n| → (if n = 0 then 1 else n : Int) = n := by
    intro i h1 h2
    have : n ≠ 0 := by
      rintro rfl
      simp at h2
      omega
    rw [if_neg this]
  refine ⟨hb, ?_⟩
  simp only [] at ht
  generalize hT : forLoop _ (|n| - 1).toNat _ = T at ht k1 k2 k3 k4 k5 k6 hz
  have hfin : t.sint = T.sint.store |n| 0 ∧
      t.cost = T.cost.store |n| (if halfCircle then -1 else 1) := by
    cases halfCircle with
    | true =>
      simp only [if_true] at ht
      cases ht
      exact ⟨rfl, rfl⟩
    | false =>
      simp only [Bool.false_eq_true, if_false] at ht
      cases ht
      simp only [Bool.false_eq_true, if_false]
      rw [hz.1, hz.2]
      exact ⟨rfl, rfl⟩
  obtain ⟨hfs, hfc⟩ := hfin
  rw [hfs, hfc]
  refine ⟨⟨?_, ?_⟩, ⟨?_, ?_⟩, ?_, ?_, ?_⟩
  · show ((T.sint.size : Nat) : Int) = _
    rw [k1]
    exact hsz
  · show ((T.cost.size : Nat) : Int) = _
    rw [k2]
    exact hsz
  · show _ :: T.sint.stores = _
    rw [k3]
    rfl
  · show _ :: T.cost.stores = _
    rw [k4]
    rfl
  · intro i h1 h2
    have hne : i ≠ |n| := by omega
    simp only [Buffer.store_cell, if_neg hne]
    have := k5 i h1 (hmid i h1 h2)
    rw [hn0 i h1 h2] at this
    exact this
  · simp only [Buffer.store_cell, if_true]
    exact ⟨trivial, trivial⟩
  · intro hn
    simp only [Buffer.store_cell]
    by_cases hne : (0 : Int) = |n|
    · have hn0 : n = 0 := abs_eq_zero.mp hne.symm
      have hh : halfCircle = false := by
        rcases hn with h | h
        · exact absurd hn0 h
        · exact h
      rw [if_pos hne, if_pos hne, hh]
      simp
    · rw [if_neg hne, if_neg hne]
      exact hz

/-- The tables are returned whenever their `|n| + 1` entries can be allocated. -/
theorem circle_table_returns {α : Type} [Field α] (sinf cosf : α → α) (M_PI : α)
    (n : Int) (halfCircle : Bool) (hn : |n| ≤ 2147483646) :
    ∃ t, fghCircleTable sinf cosf M_PI true n halfCircle = Except.ok t := by
  have hcount : 0 ≤ iadd (wrapInt |n|) 1 := by
    have h0 := abs_nonneg n
    rw [wrapInt_of_range (by omega) (by omega), iadd_of_range (by omega) (by omega)]
    omega
  unfold fghCircleTable
  simp only [hcount, decide_True, Bool.and_self, if_true]
  split <;> exact ⟨_, rfl⟩

theorem circle_stores_mem (a p : Int) (ha : 0 ≤ a) :
    p ∈ a :: (((List.range (a - 1).toNat).reverse.map (fun k : Nat => 1 + (k : Int))) ++ [0])
      ↔ 0 ≤ p ∧ p ≤ a := by
  simp only [List.mem_cons, List.mem_append, List.mem_map, List.mem_reverse, List.mem_range,
    List.mem_singleton, List.not_mem_nil, or_false]
  constructor
  · rintro (h | ⟨k, hk, rfl⟩ | h)
    · omega
    · omega
    · omega
  · rintro ⟨h1, h2⟩
    by_cases hp : p = a
    · exact Or.inl hp
    · by_cases hp0 : p = 0
      · exact Or.inr (Or.inr hp0)
      · exact Or.inr (Or.inl ⟨(p - 1).toNat, by omega, by omega⟩)

/-- C11: for every `int` sample count `n` and either value of the half-circle flag, the
sine and cosine tables returned by `fghCircleTable` have exactly `|n| + 1` entries each,
the entries stored to are exactly those at the indices `0 .. |n|`, for a full circle the
entry at index `|n|` equals entry 0 (and is `(0, 1)`), and for a half circle the entry at
index `|n|` is `(0, -1)`; the tables are returned whenever their `|n| + 1` entries can be
allocated. -/
theorem circle_length_final {α : Type} [Field α] (sinf cosf : α → α) (M_PI : α)
    (mallocOk : Bool) (n : Int) (halfCircle : Bool)
    (hint : -2147483648 ≤ n ∧ n < 2147483648) :
    (∀ t, fghCircleTable sinf cosf M_PI mallocOk n halfCircle = Except.ok t →
      ((t.sint.size : Int) = |n| + 1 ∧ (t.cost.size : Int) = |n| + 1) ∧
      (∀ p : Int, (p ∈ t.sint.stores ↔ 0 ≤ p ∧ p ≤ |n|) ∧ (p ∈ t.cost.stores ↔ 0 ≤ p ∧ p ≤ |n|)) ∧
      (halfCircle = false →
        t.sint.cell |n| = t.sint.cell 0 ∧ t.cost.cell |n| = t.cost.cell 0 ∧
        t.sint.cell |n| = 0 ∧ t.cost.cell |n| = 1) ∧
      (halfCircle = true → t.sint.cell |n| = 0 ∧ t.cost.cell |n| = -1)) ∧
    (mallocOk = true → |n| ≤ 2147483646 →
      ∃ t, fghCircleTable sinf cosf M_PI mallocOk n halfCircle = Except.ok t) := by
  constructor
  · intro t ht
    obtain ⟨_, hsize, ⟨hs1, hs2⟩, _, ⟨hf1, hf2⟩, hz⟩ :=
      circle_table_spec sinf cosf M_PI mallocOk n halfCircle hint t ht
    refine ⟨hsize, ?_, ?_, ?_⟩
    · intro p
      rw [hs1, hs2]
      exact ⟨circle_stores_mem _ p (abs_nonneg n), circle_stores_mem _ p (abs_nonneg n)⟩
    · intro hh
      obtain ⟨z1, z2⟩ := hz (Or.inr hh)
      rw [hh] at hf2
      simp only [Bool.false_eq_true, if_false] at hf2
      exact ⟨hf1.trans z1.symm, hf2.trans z2.symm, hf1, hf2⟩
    · intro hh
      rw [hh] at hf2
      exact ⟨hf1, hf2⟩
  · intro hm hn
    rw [hm]
    exact circle_table_returns sinf cosf M_PI n halfCircle hn

/-- Witness for C11: `n = 4` gives tables of 5 entries; entry 4 equals entry 0 and is
`(0, 1)` for the full circle, and is `(0, -1)` for the half circle. -/
theorem circle_length_final_witness :
    (∃ t, fghCircleTable (fun x : ℚ => x) (fun x : ℚ => x) 3 true 4 false = Except.ok t ∧
      t.sint.size = 5 ∧ t.cost.size = 5 ∧
      t.sint.cell 4 = t.sint.cell 0 ∧ t.cost.cell 4 = t.cost.cell 0 ∧
      t.sint.cell 4 = 0 ∧ t.cost.cell 4 = 1) ∧
    (∃ t, fghCircleTable (fun x : ℚ => x) (fun x : ℚ => x) 3 true 4 true = Except.ok t ∧
      t.sint.size = 5 ∧ t.cost.size = 5 ∧ t.sint.cell 4 = 0 ∧ t.cost.cell 4 = -1) := by
  have habs : |(4 : Int)| = 4 := by decide
  have hF := circle_length_final (fun x : ℚ => x) (fun x : ℚ => x) 3 true 4 false (by decide)
  have hH := circle_length_final (fun x : ℚ => x) (fun x : ℚ => x) 3 true 4 true (by decide)
  rw [habs] at hF hH
  obtain ⟨tF, htF⟩ := hF.2 rfl (by decide)
  obtain ⟨tH, htH⟩ := hH.2 rfl (by decide)
  obtain ⟨⟨a1, a2⟩, _, a3, _⟩ := hF.1 tF htF
  obtain ⟨⟨b1, b2⟩, _, _, b3⟩ := hH.1 tH htH
  exact ⟨⟨tF, htF, by omega, by omega, (a3 rfl).1, (a3 rfl).2.1, (a3 rfl).2.2.1, (a3 rfl).2.2.2⟩,
    ⟨tH, htH, by omega, by omega, (b3 rfl).1, (b3 rfl).2⟩⟩

/-- C12: for every sample count `n ≥ 1` whose tables can be allocated and every index
`0 ≤ i ≤ n`, the full-circle tables for `-n` and for `n` satisfy
`sin_{-n}[i] = -sin_n[i]` and `cos_{-n}[i] = cos_n[i]`, and each middle entry `0 < i < n`
is evaluated directly as `(sinf (a * i), cosf (a * i))` with `a = 2 * M_PI / n`, the sign
of `n` included; here `sinf` is any odd and `cosf` any even function, as the sine and
cosine are. -/
theorem circle_direction {α : Type} [Field α] (sinf cosf : α → α) (M_PI : α) (n : Int)
    (hn : 1 ≤ n) (hmax : n ≤ 2147483646)
    (hsin : ∀ x, sinf (-x) = -sinf x) (hcos : ∀ x, cosf (-x) = cosf x) :
    ∃ tp tm, fghCircleTable sinf cosf M_PI true n false = Except.ok tp ∧
      fghCircleTable sinf cosf M_PI true (-n) false = Except.ok tm ∧
      ∀ i : Int, 0 ≤ i → i ≤ n →
        (tm.sint.cell i = -tp.sint.cell i ∧ tm.cost.cell i = tp.cost.cell i) ∧
        (0 < i → i < n →
          tp.sint.cell i = sinf (2 * M_PI / ((n : Int) : α) * (i : α)) ∧
          tp.cost.cell i = cosf (2 * M_PI / ((n : Int) : α) * (i : α)) ∧
          tm.sint.cell i = sinf (2 * M_PI / ((-n : Int) : α) * (i : α)) ∧
          tm.cost.cell i = cosf (2 * M_PI / ((-n : Int) : α) * (i : α))) := by
  have habs : |n| = n := abs_of_nonneg (by omega)
  have habsm : |(-n)| = n := by rw [abs_neg]; exact habs
  obtain ⟨tp, hp⟩ := circle_table_returns sinf cosf M_PI n false (by rw [habs]; exact hmax)
  obtain ⟨tm, hm⟩ := circle_table_returns sinf cosf M_PI (-n) false (by rw [habsm]; exact hmax)
  obtain ⟨_, _, _, pmid, pfin, pz⟩ :=
    circle_table_spec sinf cosf M_PI true n false (by omega) tp hp
  obtain ⟨_, _, _, mmid, mfin, mz⟩ :=
    circle_table_spec sinf cosf M_PI true (-n) false (by omega) tm hm
  rw [habs] at pmid pfin
  rw [habsm] at mmid mfin
  simp only [Bool.false_eq_true, if_false] at pmid pfin mmid mfin
  have pz := pz (Or.inr rfl)
  have mz := mz (Or.inr rfl)
  have hang : ∀ i : Int, 2 * M_PI / ((-n : Int) : α) * (i : α)
      = -(2 * M_PI / ((n : Int) : α) * (i : α)) := by
    intro i
    rw [Int.cast_neg, div_neg, neg_mul]
  refine ⟨tp, tm, hp, hm, ?_⟩
  intro i hi0 hin
  by_cases hz : i = 0
  · subst hz
    refine ⟨?_, fun h => absurd h (lt_irrefl _)⟩
    rw [pz.1, pz.2, mz.1, mz.2]
    simp
  by_cases hl : i = n
  · subst hl
    refine ⟨?_, fun _ h => absurd h (lt_irrefl _)⟩
    rw [pfin.1, pfin.2, mfin.1, mfin.2]
    simp
  have h1 : 1 ≤ i := by omega
  have h2 : i < n := by omega
  obtain ⟨p1, p2⟩ := pmid i h1 h2
  obtain ⟨m1, m2⟩ := mmid i h1 h2
  refine ⟨?_, fun _ _ => ⟨p1, p2, m1, m2⟩⟩
  rw [m1, m2, p1, p2, hang, hsin, hcos]
  exact ⟨rfl, rfl⟩

/-- Witness for C12: eight samples, with the real sine and cosine. -/
theorem circle_direction_witness :
    ∃ tp tm, fghCircleTable Real.sin Real.cos Real.pi true 8 false = Except.ok tp ∧
      fghCircleTable Real.sin Real.cos Real.pi true (-8) false = Except.ok tm ∧
      ∀ i : Int, 0 ≤ i → i ≤ 8 →
        (tm.sint.cell i = -tp.sint.cell i ∧ tm.cost.cell i = tp.cost.cell i) ∧
        (0 < i → i < 8 →
          tp.sint.cell i = Real.sin (2 * Real.pi / ((8 : Int) : ℝ) * (i : ℝ)) ∧
          tp.cost.cell i = Real.cos (2 * Real.pi / ((8 : Int) : ℝ) * (i : ℝ)) ∧
          tm.sint.cell i = Real.sin (2 * Real.pi / ((-8 : Int) : ℝ) * (i : ℝ)) ∧
          tm.cost.cell i = Real.cos (2 * Real.pi / ((-8 : Int) : ℝ) * (i : ℝ))) :=
  circle_direction Real.sin Real.cos Real.pi 8 (by decide) (by decide) Real.sin_neg Real.cos_neg


/-! ## The Sierpinski sponge -/

theorem FilledFrom.zero_at {α : Type} (base : Int) (G : Nat → α) (b : Buffer α) :
    FilledFrom base G b b 0 :=
  ⟨rfl, by simp, fun q hq => absurd hq (Nat.not_lt_zero q), fun _ _ => rfl⟩

theorem FilledFrom.store_at {α : Type} {base : Int} {G : Nat → α} {old b : Buffer α} {m : Nat}
    (h : FilledFrom base G old b m) (p : Int) (x : α) (hp : p = base + (m : Int))
    (hx : G m = x) :
    FilledFrom base G old (b.store p x) (m + 1) := by
  obtain ⟨hsz, hst, hin, hout⟩ := h
  subst hp
  refine ⟨hsz, ?_, ?_, ?_⟩
  · simp [Buffer.store, hst, List.range_succ]
  · intro q hq
    by_cases hqm : q = m
    · subst hqm; simp [Buffer.store, hx]
    · have : base + (q : Int) ≠ base + (m : Int) := by omega
      simp only [Buffer.store_cell, if_neg this]
      exact hin q (by omega)
  · intro q hq
    have : q ≠ base + (m : Int) := by omega
    simp only [Buffer.store_cell, if_neg this]
    exact hout q (by omega)

theorem FilledFrom.append {α : Type} {base : Int} {G G' : Nat → α} {old b b' : Buffer α}
    {m k : Nat} (h : FilledFrom base G old b m) (h' : FilledFrom (base + (m : Int)) G' b b' k)
    (hG : ∀ q, q < k → G (m + q) = G' q) :
    FilledFrom base G old b' (m + k) := by
  obtain ⟨hsz, hst, hin, hout⟩ := h
  obtain ⟨hsz', hst', hin', hout'⟩ := h'
  refine ⟨hsz'.trans hsz, ?_, ?_, ?_⟩
  · rw [hst', hst, List.range_add, List.reverse_append, List.map_append, List.append_assoc]
    congr 1
    simp only [List.map_reverse, List.map_map]
    congr 1
    apply List.map_congr_left
    intro q _
    simp only [Function.comp]
    push_cast
    ring
  · intro q hq
    by_cases hqm : q < m
    · rw [hout' _ (Or.inl (by omega))]
      exact hin q hqm
    · have e : q = m + (q - m) := by omega
      have := hin' (q - m) (by omega)
      rw [e, hG _ (by omega), ← this]
      congr 1
      push_cast
      ring
  · intro p hp
    rw [hout' p (by push_cast at hp; omega)]
    exact hout p (by push_cast at hp; omega)

theorem FilledFrom.mem_stores_at {α : Type} {base : Int} {G : Nat → α} {old b : Buffer α} {m : Nat}
    (h : FilledFrom base G old b m) :
    ∃ W : List Int, b.stores = W ++ old.stores ∧ W.length = m ∧ W.Nodup ∧
      ∀ p : Int, p ∈ W ↔ base ≤ p ∧ p < base + (m : Int) := by
  refine ⟨_, h.2.1, by simp, ?_, ?_⟩
  · apply List.Nodup.map
    · intro a b hab
      simp only at hab
      omega
    · exact List.nodup_reverse.mpr (List.nodup_range m)
  · intro p
    simp only [List.mem_map, List.mem_reverse, List.mem_range]
    constructor
    · rintro ⟨q, hq, rfl⟩
      omega
    · rintro ⟨h1, h2⟩
      exact ⟨(p - base).toNat, by omega, by omega⟩
theorem spongeVertex_zero_slot (offset : Fin 3 → GLdouble) (scale : GLfloat) (m k : Nat)
    (hk : k < 3) :
    spongeVertex 0 offset scale (3 * m + k)
      = offset ⟨k, hk⟩ + scale * readArr tetrahedron_v
          ((3 * (readArr tetrahedron_vi (m : Int)).val + k : Nat) : Int) := by
  have d : (3 * m + k) / 3 = m := by omega
  have r : (3 * m + k) % 3 = k := by omega
  simp only [spongeVertex, d, r]

theorem spongeNormal_slot {i j k : Nat} (hi : i < 4) (hj : j < 3) (hk : k < 3) :
    spongeNormal (3 * (i * 3 + j) + k) = readArr tetrahedron_n ((3 * i + k : Nat) : Int) := by
  have a : (3 * (i * 3 + j) + k) % 36 = 3 * (i * 3 + j) + k := Nat.mod_eq_of_lt (by omega)
  have d : (3 * (i * 3 + j) + k) / 9 = i := by omega
  have r : (3 * (i * 3 + j) + k) % 3 = k := by omega
  simp only [spongeNormal, a, d, r]

theorem spongeFaceVertex_eq (offset : Fin 3 → GLdouble) (scale : GLfloat) (vertices normals : Int)
    {i j : Nat} (hi : i < 4) (hj : j < 3) (st : SpongeArrays) :
    spongeFaceVertex offset scale vertices normals i j st =
      { vertices :=
          ((st.vertices.store (vertices + ((3 * (i * 3 + j) : Nat) : Int))
              (spongeVertex 0 offset scale (3 * (i * 3 + j)))).store
            (vertices + ((3 * (i * 3 + j) + 1 : Nat) : Int))
              (spongeVertex 0 offset scale (3 * (i * 3 + j) + 1))).store
            (vertices + ((3 * (i * 3 + j) + 2 : Nat) : Int))
              (spongeVertex 0 offset scale (3 * (i * 3 + j) + 2))
        normals :=
          ((st.normals.store (normals + ((3 * (i * 3 + j) : Nat) : Int))
              (spongeNormal (3 * (i * 3 + j)))).store
            (normals + ((3 * (i * 3 + j) + 1 : Nat) : Int))
              (spongeNormal (3 * (i * 3 + j) + 1))).store
            (normals + ((3 * (i * 3 + j) + 2 : Nat) : Int))
              (spongeNormal (3 * (i * 3 + j) + 2)) } := by
  have hE : TETRAHEDRON_NUM_EDGE_PER_FACE = 3 := rfl
  obtain ⟨a1, a2, a3, a4, a5, a6, a7, a8⟩ :=
    slot_arith (F := 4) (E := 3) (by decide) hi hj
  obtain ⟨b1, b2, b3⟩ := byte_arith (readArr tetrahedron_vi ((i * 3 + j : Nat) : Int))
  have v0 := spongeVertex_zero_slot offset scale (i * 3 + j) 0 (by decide)
  have v1 := spongeVertex_zero_slot offset scale (i * 3 + j) 1 (by decide)
  have v2 := spongeVertex_zero_slot offset scale (i * 3 + j) 2 (by decide)
  have n0 := spongeNormal_slot hi hj (by decide : 0 < 3)
  have n1 := spongeNormal_slot hi hj (by decide : 1 < 3)
  have n2 := spongeNormal_slot hi hj (by decide : 2 < 3)
  simp only [Nat.add_zero] at v0 n0
  simp only [spongeFaceVertex, hE, a1, a2, a3, a4, a5, a6, a7, a8, b1, b2, b3, v0, v1, v2,
    n0, n1, n2]
  rfl

theorem sponge_base_filled (offset : Fin 3 → GLdouble) (scale : GLfloat) (vertices normals : Int)
    (st : SpongeArrays) :
    FilledFrom vertices (spongeVertex 0 offset scale) st.vertices
        (fghSierpinskiSpongeGenerate 0 offset scale vertices normals st).vertices 36 ∧
      FilledFrom normals spongeNormal st.normals
        (fghSierpinskiSpongeGenerate 0 offset scale vertices normals st).normals 36 := by
  rw [fghSierpinskiSpongeGenerate, if_pos rfl]
  have hF : TETRAHEDRON_NUM_FACES = 4 := rfl
  have hE : TETRAHEDRON_NUM_EDGE_PER_FACE = 3 := rfl
  rw [hF, hE]
  refine forLoop_inv _
    (fun i (t : SpongeArrays) =>
      FilledFrom vertices (spongeVertex 0 offset scale) st.vertices t.vertices (3 * (i * 3)) ∧
      FilledFrom normals spongeNormal st.normals t.normals (3 * (i * 3))) 4 st
    ⟨FilledFrom.zero_at _ _ _, FilledFrom.zero_at _ _ _⟩ ?_
  intro i t hi ⟨tv, tn⟩
  have hend : 3 * ((i + 1) * 3) = 3 * (i * 3 + 3) := by ring
  rw [hend]
  refine forLoop_inv _
    (fun j (u : SpongeArrays) =>
      FilledFrom vertices (spongeVertex 0 offset scale) st.vertices u.vertices (3 * (i * 3 + j)) ∧
      FilledFrom normals spongeNormal st.normals u.normals (3 * (i * 3 + j))) 3 t
    ⟨tv, tn⟩ ?_
  intro j u hj ⟨uv, un⟩
  have hnext : 3 * (i * 3 + (j + 1)) = 3 * (i * 3 + j) + 1 + 1 + 1 := by ring
  rw [spongeFaceVertex_eq offset scale vertices normals hi hj, hnext]
  exact ⟨((uv.store_at _ _ rfl rfl).store_at _ _ rfl rfl).store_at _ _ rfl rfl,
    ((un.store_at _ _ rfl rfl).store_at _ _ rfl rfl).store_at _ _ rfl rfl⟩
theorem ipow_four (L : Nat) (hL : L ≤ 15) : ipow 4 L = 4 ^ L := by
  have e1 : imul 4 4 = 16 := by decide
  have e2 : imul 16 16 = 256 := by decide
  have e3 : imul 256 256 = 65536 := by decide
  have u0 : toUnsigned 1 = 1 := by decide
  have u1 : toUnsigned 4 = 4 := by decide
  have u2 : toUnsigned 16 = 16 := by decide
  have u3 : toUnsigned 256 = 256 := by decide
  have u4 : toUnsigned 65536 = 65536 := by decide
  have p0 : ∀ x, ipow x 0 = 1 := fun x => by rw [ipow]; simp
  have p1 : ∀ x, ipow x 1 = toUnsigned x := fun x => by rw [ipow]; simp
  have pe : ∀ x y, 2 ≤ y → ipow x y
      = umul (toUnsigned (if y % 2 ≠ 0 then x else 1)) (ipow (imul x x) (y / 2)) := by
    intro x y hy
    rw [ipow, dif_neg (by omega), dif_neg (by omega)]
  interval_cases L
  · rw [p0]; rfl
  · rw [p1]; rfl
  all_goals
    simp [pe, p0, p1, e1, e2, e3, u0, u1, u2, u3, u4, umul]
theorem forLoop_congr {σ : Type} (f g : Nat → σ → σ) (n : Nat) (s : σ)
    (h : ∀ i, i < n → ∀ t, f i t = g i t) : forLoop f n s = forLoop g n s := by
  induction n with
  | zero => rfl
  | succ n ih =>
    simp only [forLoop]
    rw [ih (fun i hi => h i (by omega)), h n (by omega)]

theorem four_pow_le {L M : Nat} (h : L ≤ M) : 4 ^ L ≤ 4 ^ M :=
  Nat.pow_le_pow_right (by decide) h

theorem sponge_stride {L i : Nat} (hL : L ≤ 12) (hi : i < 4) :
    umul (ipow 4 (toUnsigned ((L : Int)))) TETRAHEDRON_VERT_ELEM_PER_OBJ = 36 * 4 ^ L ∧
    umul (toUnsigned (i : Int)) (36 * 4 ^ L) = i * (36 * 4 ^ L) := by
  have hp : 4 ^ L ≤ 4 ^ 12 := four_pow_le hL
  have hp12 : (4 : Nat) ^ 12 = 16777216 := by norm_num
  rw [hp12] at hp
  have hu : toUnsigned (L : Int) = L := by
    unfold toUnsigned
    rw [Int.emod_eq_of_lt (by omega) (by omega)]
    simp
  have hi' : toUnsigned (i : Int) = i := by
    unfold toUnsigned
    rw [Int.emod_eq_of_lt (by omega) (by omega)]
    simp
  have hE : TETRAHEDRON_VERT_ELEM_PER_OBJ = 36 := rfl
  have hb : i * (36 * 4 ^ L) ≤ 3 * (36 * 4 ^ L) := Nat.mul_le_mul_right _ (by omega)
  rw [hu, hi', ipow_four L (by omega), hE]
  unfold umul
  constructor
  · rw [Nat.mod_eq_of_lt (by omega)]
    ring
  · rw [Nat.mod_eq_of_lt (by omega)]

/-- One level of the recursion of the sponge generator, for at most 13 levels: the four
recursive calls, with the `i`-th pointer pair advanced by `i * 36 * 4^L` floats. -/
theorem sponge_rec_unfold (L : Nat) (hL : L ≤ 12) (offset : Fin 3 → GLdouble) (scale : GLfloat)
    (vertices normals : Int) (st : SpongeArrays) :
    fghSierpinskiSpongeGenerate ((L + 1 : Nat) : Int) offset scale vertices normals st
      = forLoop (fun i st =>
          fghSierpinskiSpongeGenerate (L : Int) (childOffset offset (scale / 2) i) (scale / 2)
            (vertices + ((i * (36 * 4 ^ L) : Nat) : Int))
            (normals + ((i * (36 * 4 ^ L) : Nat) : Int)) st) 4 st := by
  have hne : ((L + 1 : Nat) : Int) ≠ 0 := by omega
  have hpos : ((L + 1 : Nat) : Int) > 0 := by omega
  have hpred : ((L + 1 : Nat) : Int) - 1 = (L : Int) := by omega
  rw [fghSierpinskiSpongeGenerate, if_neg hne, dif_pos hpos]
  simp only [hpred]
  have hF : TETRAHEDRON_NUM_FACES = 4 := rfl
  rw [hF]
  apply forLoop_congr
  intro i hi t
  obtain ⟨s1, s2⟩ := sponge_stride hL hi
  obtain ⟨_, _, _, _, _, a6, a7, a8⟩ :=
    slot_arith (F := 4) (E := 3) (j := 0) (by decide) hi (by decide)
  simp only [s1, s2]
  refine congrArg (fun f => fghSierpinskiSpongeGenerate (L : Int) f (scale / 2)
    (vertices + ((i * (36 * 4 ^ L) : Nat) : Int)) (normals + ((i * (36 * 4 ^ L) : Nat) : Int)) t) ?_
  funext k
  fin_cases k
  · simp only [childOffset, a6]; rfl
  · simp only [childOffset, a6, a7]; rfl
  · simp only [childOffset, a6, a7, a8]; rfl
theorem spongeVertex_succ_slot (L : Nat) (offset : Fin 3 → GLdouble) (scale : GLfloat)
    {i q : Nat} (hq : q < 36 * 4 ^ L) :
    spongeVertex (L + 1) offset scale (i * (36 * 4 ^ L) + q)
      = spongeVertex L (childOffset offset (scale / 2) i) (scale / 2) q := by
  obtain ⟨d, r⟩ := index_of_slot (i := i) hq
  simp only [spongeVertex, d, r]

theorem spongeNormal_slice (S i q : Nat) (hS : 36 ∣ S) :
    spongeNormal (i * S + q) = spongeNormal q := by
  obtain ⟨c, rfl⟩ := hS
  have e : i * (36 * c) + q = q + 36 * (i * c) := by ring
  have e3 : q + 36 * (i * c) = q + 3 * (12 * (i * c)) := by ring
  have a : (i * (36 * c) + q) % 36 = q % 36 := by rw [e, Nat.add_mul_mod_self_left]
  have b : (i * (36 * c) + q) % 3 = q % 3 := by rw [e, e3, Nat.add_mul_mod_self_left]
  simp only [spongeNormal, a, b]

/-- The sponge generator for at most 13 levels fills the `36 * 4^L` floats after each
pointer, once each and in ascending order, and touches nothing else. -/
theorem sponge_filled (L : Nat) (hL : L ≤ 13) :
    ∀ (offset : Fin 3 → GLdouble) (scale : GLfloat) (vertices normals : Int) (st : SpongeArrays),
      FilledFrom vertices (spongeVertex L offset scale) st.vertices
        (fghSierpinskiSpongeGenerate (L : Int) offset scale vertices normals st).vertices
        (36 * 4 ^ L) ∧
      FilledFrom normals spongeNormal st.normals
        (fghSierpinskiSpongeGenerate (L : Int) offset scale vertices normals st).normals
        (36 * 4 ^ L) := by
  induction L with
  | zero =>
    intro offset scale vertices normals st
    exact sponge_base_filled offset scale vertices normals st
  | succ L ih =>
    intro offset scale vertices normals st
    have ih := ih (by omega)
    rw [sponge_rec_unfold L (by omega)]
    have hend : 36 * 4 ^ (L + 1) = 4 * (36 * 4 ^ L) := by ring
    rw [hend]
    refine forLoop_inv _
      (fun i (t : SpongeArrays) =>
        FilledFrom vertices (spongeVertex (L + 1) offset scale) st.vertices t.vertices
          (i * (36 * 4 ^ L)) ∧
        FilledFrom normals spongeNormal st.normals t.normals (i * (36 * 4 ^ L))) 4 st
      ⟨by simpa using FilledFrom.zero_at _ _ _, by simpa using FilledFrom.zero_at _ _ _⟩ ?_
    intro i t hi ⟨tv, tn⟩
    obtain ⟨cv, cn⟩ := ih (childOffset offset (scale / 2) i) (scale / 2)
      (vertices + ((i * (36 * 4 ^ L) : Nat) : Int)) (normals + ((i * (36 * 4 ^ L) : Nat) : Int)) t
    have hnext : (i + 1) * (36 * 4 ^ L) = i * (36 * 4 ^ L) + 36 * 4 ^ L := by ring
    rw [hnext]
    exact ⟨tv.append cv (fun q hq => spongeVertex_succ_slot L offset scale hq),
      tn.append cn (fun q _ => spongeNormal_slice _ i q (Dvd.intro _ rfl))⟩
/-- C13: for zero levels, every offset `o` and every scale `s`, the sponge generator
stores exactly 36 floats through each of its two pointers, one at each of the offsets
`0 .. 35` and each once, and these are, for face `f`, vertex `j` and coordinate `k`,
`vertices[3*(3*f+j)+k] = o[k] + s * tetrahedron_v[3*tetrahedron_vi[3*f+j]+k]` and
`normals[3*(3*f+j)+k] = tetrahedron_n[3*f+k]`. -/
theorem sponge_base_case (offset : Fin 3 → GLdouble) (scale : GLfloat) (vertices normals : Int)
    (st : SpongeArrays) :
    (∃ W : List Int,
      (fghSierpinskiSpongeGenerate 0 offset scale vertices normals st).vertices.stores
        = W ++ st.vertices.stores ∧
      W.length = 36 ∧ W.Nodup ∧ ∀ p : Int, p ∈ W ↔ vertices ≤ p ∧ p < vertices + 36) ∧
    (∃ W : List Int,
      (fghSierpinskiSpongeGenerate 0 offset scale vertices normals st).normals.stores
        = W ++ st.normals.stores ∧
      W.length = 36 ∧ W.Nodup ∧ ∀ p : Int, p ∈ W ↔ normals ≤ p ∧ p < normals + 36) ∧
    ∀ (f : Fin 4) (j : Fin 3) (k : Fin 3),
      (fghSierpinskiSpongeGenerate 0 offset scale vertices normals st).vertices.cell
          (vertices + ((3 * (3 * f.val + j.val) + k.val : Nat) : Int))
        = offset k + scale * readArr tetrahedron_v
            ((3 * (readArr tetrahedron_vi ((3 * f.val + j.val : Nat) : Int)).val + k.val : Nat) : Int) ∧
      (fghSierpinskiSpongeGenerate 0 offset scale vertices normals st).normals.cell
          (normals + ((3 * (3 * f.val + j.val) + k.val : Nat) : Int))
        = readArr tetrahedron_n ((3 * f.val + k.val : Nat) : Int) := by
  obtain ⟨hv, hn⟩ := sponge_base_filled offset scale vertices normals st
  refine ⟨hv.mem_stores_at, hn.mem_stores_at, ?_⟩
  intro f j k
  have hf := f.isLt
  have hj := j.isLt
  have hk := k.isLt
  have e : 3 * f.val + j.val = f.val * 3 + j.val := by ring
  rw [e, hv.2.2.1 _ (by omega), hn.2.2.1 _ (by omega),
    spongeVertex_zero_slot offset scale _ _ hk, spongeNormal_slot hf hj hk]
  exact ⟨rfl, rfl⟩
theorem sponge_fit {L : Nat} (hfit : 36 * 4 ^ L < 2147483648) : L ≤ 12 := by
  by_contra h
  have hp : 4 ^ 13 ≤ 4 ^ L := four_pow_le (by omega)
  have h13 : (4 : Nat) ^ 13 = 67108864 := by norm_num
  omega

/-- The run of `fghSierpinskiSponge` for `0 ≤ L ≤ 12` levels with a working allocator:
two arrays of `36 * 4^L` floats are allocated, handed to the generator through pointers to
their first cells, and drawn as `4 * 4^L` faces or `12 * 4^L` vertices. -/
theorem sponge_run (L : Nat) (hL : L ≤ 12) (offset : Fin 3 → GLdouble) (scale : GLfloat)
    (useWireMode : Bool) (w : World) (hm : w.mallocOk = true) :
    fghSierpinskiSponge (L : Int) offset scale useWireMode w
      = Except.ok
          { Initialised := w.Initialised, mallocOk := w.mallocOk, cache := w.cache,
            gl := w.gl ++
              (if useWireMode then
                fghDrawGeometryWire
                  (fghSierpinskiSpongeGenerate (L : Int) offset scale 0 0
                    { vertices := Buffer.fresh 0 (36 * 4 ^ L)
                      normals := Buffer.fresh 0 (36 * 4 ^ L) }).vertices
                  (fghSierpinskiSpongeGenerate (L : Int) offset scale 0 0
                    { vertices := Buffer.fresh 0 (36 * 4 ^ L)
                      normals := Buffer.fresh 0 (36 * 4 ^ L) }).normals
                  ((4 * 4 ^ L : Nat) : Int) 3
              else
                fghDrawGeometrySolid
                  (fghSierpinskiSpongeGenerate (L : Int) offset scale 0 0
                    { vertices := Buffer.fresh 0 (36 * 4 ^ L)
                      normals := Buffer.fresh 0 (36 * 4 ^ L) }).vertices
                  (fghSierpinskiSpongeGenerate (L : Int) offset scale 0 0
                    { vertices := Buffer.fresh 0 (36 * 4 ^ L)
                      normals := Buffer.fresh 0 (36 * 4 ^ L) }).normals
                  none ((12 * 4 ^ L : Nat) : Int) 3) } := by
  have hp : 4 ^ L ≤ 4 ^ 12 := four_pow_le hL
  have hp12 : (4 : Nat) ^ 12 = 16777216 := by norm_num
  rw [hp12] at hp
  have hpos : 0 < 4 ^ L := pow_pos (by decide) L
  have hu : toUnsigned (L : Int) = L := by
    unfold toUnsigned
    rw [Int.emod_eq_of_lt (by omega) (by omega)]
    simp
  have hneg : ¬ ((L : Int) < 0) := by omega
  have hT : wrapInt ((4 ^ L : Nat) : Int) = ((4 ^ L : Nat) : Int) :=
    wrapInt_of_range (by omega) (by omega)
  have hV : imul ((4 ^ L : Nat) : Int) ((TETRAHEDRON_VERT_PER_OBJ : Nat) : Int)
      = ((12 * 4 ^ L : Nat) : Int) := by
    have : TETRAHEDRON_VERT_PER_OBJ = 12 := rfl
    rw [this, imul_natCast (by omega), Nat.mul_comm]
  have hFc : imul ((4 ^ L : Nat) : Int) ((TETRAHEDRON_NUM_FACES : Nat) : Int)
      = ((4 * 4 ^ L : Nat) : Int) := by
    have : TETRAHEDRON_NUM_FACES = 4 := rfl
    rw [this, imul_natCast (by omega), Nat.mul_comm]
  have h3 : imul ((12 * 4 ^ L : Nat) : Int) 3 = ((36 * 4 ^ L : Nat) : Int) := by
    have : (3 : Int) = ((3 : Nat) : Int) := rfl
    rw [this, imul_natCast (by omega)]
    have e : 12 * 4 ^ L * 3 = 36 * 4 ^ L := by ring
    rw [e]
  have hne : ((4 ^ L : Nat) : Int) ≠ 0 := by omega
  have hnn : (0 : Int) ≤ ((36 * 4 ^ L : Nat) : Int) := Int.natCast_nonneg _
  have hE : ((TETRAHEDRON_NUM_EDGE_PER_FACE : Nat) : Int) = 3 := rfl
  unfold fghSierpinskiSponge
  simp only [hneg, if_false, hu, ipow_four L (by omega), hT, hV, hFc, h3, hne, ne_eq,
    not_false_eq_true, if_true, hm, hnn, decide_True, Bool.and_self, Int.toNat_ofNat, hE]
/-- C14: for every depth `L ≥ 0` with `36 * 4^L` below `2^31` and a working allocator,
`fghSierpinskiSponge` generates two arrays of `36 * 4^L` floats, that is `12 * 4^L`
vertices of `4 * 4^L` triangular faces of `4^L` tetrahedra; in solid mode it makes exactly
one non-indexed triangle submission of `12 * 4^L` vertices, in wire mode exactly
`4 * 4^L` line loops of 3 vertices each, the loop of face `f` starting at vertex `3 * f`;
for every negative depth it returns without allocating, generating or calling OpenGL. -/
theorem sponge_counts (L : Nat) (hfit : 36 * 4 ^ L < 2147483648) (offset : Fin 3 → GLdouble)
    (scale : GLfloat) (w : World) (hm : w.mallocOk = true) :
    (∃ vb nb : Buffer GLfloat,
      (vb.size = 36 * 4 ^ L ∧ nb.size = 36 * 4 ^ L ∧
        vb.stores.length = 36 * 4 ^ L ∧ nb.stores.length = 36 * 4 ^ L) ∧
      (∃ w1, fghSierpinskiSponge (L : Int) offset scale false w = Except.ok w1 ∧
        w1.gl = w.gl ++ fghDrawGeometrySolid vb nb none ((12 * 4 ^ L : Nat) : Int) 3 ∧
        submissions (fghDrawGeometrySolid vb nb none ((12 * 4 ^ L : Nat) : Int) 3)
          = [GLCall.glDrawArrays GLenum.GL_TRIANGLES 0 ((12 * 4 ^ L : Nat) : Int)]) ∧
      (∃ w1, fghSierpinskiSponge (L : Int) offset scale true w = Except.ok w1 ∧
        w1.gl = w.gl ++ fghDrawGeometryWire vb nb ((4 * 4 ^ L : Nat) : Int) 3 ∧
        submissions (fghDrawGeometryWire vb nb ((4 * 4 ^ L : Nat) : Int) 3)
          = (List.range (4 * 4 ^ L)).map
              (fun f : Nat => GLCall.glDrawArrays GLenum.GL_LINE_LOOP (3 * (f : Int)) 3))) ∧
    (∀ numLevels : Int, numLevels < 0 → ∀ useWireMode : Bool,
      fghSierpinskiSponge numLevels offset scale useWireMode w = Except.ok w) := by
  have hL : L ≤ 12 := sponge_fit hfit
  constructor
  · obtain ⟨fv, fn⟩ := sponge_filled L (by omega) offset scale 0 0
      { vertices := Buffer.fresh 0 (36 * 4 ^ L), normals := Buffer.fresh 0 (36 * 4 ^ L) }
    obtain ⟨Wv, sv, lv, _, _⟩ := fv.mem_stores_at
    obtain ⟨Wn, sn, ln, _, _⟩ := fn.mem_stores_at
    refine ⟨_, _, ⟨fv.1, fn.1, ?_, ?_⟩, ?_, ?_⟩
    · rw [sv]; simpa [Buffer.fresh] using lv
    · rw [sn]; simpa [Buffer.fresh] using ln
    · refine ⟨_, sponge_run L hL offset scale false w hm, rfl, ?_⟩
      rw [submissions_solid, if_pos rfl]
    · refine ⟨_, sponge_run L hL offset scale true w hm, rfl, ?_⟩
      rw [submissions_wire, Int.toNat_ofNat]
      apply List.map_congr_left
      intro f hf
      have hf' : f < 4 * 4 ^ L := List.mem_range.mp hf
      have e : imul (f : Int) 3 = 3 * (f : Int) := by
        rw [imul_of_range (by omega) (by omega)]
        ring
      rw [e]
  · intro numLevels hneg useWireMode
    unfold fghSierpinskiSponge
    simp only [hneg, if_true, ne_eq, not_true_eq_false, if_false]

/-- Witness for C14: two levels, 16 tetrahedra, 576 floats. -/
theorem sponge_counts_witness :
    (∃ vb nb : Buffer GLfloat,
      (vb.size = 36 * 4 ^ 2 ∧ nb.size = 36 * 4 ^ 2 ∧
        vb.stores.length = 36 * 4 ^ 2 ∧ nb.stores.length = 36 * 4 ^ 2) ∧
      (∃ w1, fghSierpinskiSponge ((2 : Nat) : Int) (fun _ => 0) 1 false (World.boot true true [])
          = Except.ok w1 ∧
        w1.gl = (World.boot true true []).gl
          ++ fghDrawGeometrySolid vb nb none ((12 * 4 ^ 2 : Nat) : Int) 3 ∧
        submissions (fghDrawGeometrySolid vb nb none ((12 * 4 ^ 2 : Nat) : Int) 3)
          = [GLCall.glDrawArrays GLenum.GL_TRIANGLES 0 ((12 * 4 ^ 2 : Nat) : Int)]) ∧
      (∃ w1, fghSierpinskiSponge ((2 : Nat) : Int) (fun _ => 0) 1 true (World.boot true true [])
          = Except.ok w1 ∧
        w1.gl = (World.boot true true []).gl
          ++ fghDrawGeometryWire vb nb ((4 * 4 ^ 2 : Nat) : Int) 3 ∧
        submissions (fghDrawGeometryWire vb nb ((4 * 4 ^ 2 : Nat) : Int) 3)
          = (List.range (4 * 4 ^ 2)).map
              (fun f : Nat => GLCall.glDrawArrays GLenum.GL_LINE_LOOP (3 * (f : Int)) 3))) ∧
    (∀ numLevels : Int, numLevels < 0 → ∀ useWireMode : Bool,
      fghSierpinskiSponge numLevels (fun _ => 0) 1 useWireMode (World.boot true true [])
        = Except.ok (World.boot true true [])) :=
  sponge_counts 2 (by decide) (fun _ => 0) 1 (World.boot true true []) rfl
/-- C15 (amended): for every depth `0 ≤ L ≤ 13` the sponge generator stores to each float
position in `[0, 36 * 4^L)` after its vertex pointer and after its normal pointer exactly
once and to no position outside; for `L ≤ 12` this is exactly the size
`fghSierpinskiSponge` allocates before it hands the generator pointers to the first
cells; for `0 < L ≤ 13` the generator is four recursive calls of depth `L - 1`, the
`i`-th of which stores to exactly the contiguous slice
`[i * 36 * 4^(L-1), (i+1) * 36 * 4^(L-1))`. -/
theorem sponge_layout (L : Nat) (hL : L ≤ 13) (offset : Fin 3 → GLdouble) (scale : GLfloat)
    (vertices normals : Int) (st : SpongeArrays) :
    (∃ Wv Wn : List Int,
      (fghSierpinskiSpongeGenerate (L : Int) offset scale vertices normals st).vertices.stores
        = Wv ++ st.vertices.stores ∧
      (fghSierpinskiSpongeGenerate (L : Int) offset scale vertices normals st).normals.stores
        = Wn ++ st.normals.stores ∧
      Wv.Nodup ∧ Wn.Nodup ∧
      (∀ p : Int, p ∈ Wv ↔ vertices ≤ p ∧ p < vertices + ((36 * 4 ^ L : Nat) : Int)) ∧
      (∀ p : Int, p ∈ Wn ↔ normals ≤ p ∧ p < normals + ((36 * 4 ^ L : Nat) : Int))) ∧
    (L ≤ 12 → ∀ (useWireMode : Bool) (w : World), w.mallocOk = true →
      ∃ w1 out, fghSierpinskiSponge (L : Int) offset scale useWireMode w = Except.ok w1 ∧
        out = fghSierpinskiSpongeGenerate (L : Int) offset scale 0 0
          { vertices := Buffer.fresh 0 (36 * 4 ^ L), normals := Buffer.fresh 0 (36 * 4 ^ L) } ∧
        w1.gl = w.gl ++
          (if useWireMode then
            fghDrawGeometryWire out.vertices out.normals ((4 * 4 ^ L : Nat) : Int) 3
          else
            fghDrawGeometrySolid out.vertices out.normals none ((12 * 4 ^ L : Nat) : Int) 3)) ∧
    (∀ K : Nat, L = K + 1 →
      fghSierpinskiSpongeGenerate (L : Int) offset scale vertices normals st
        = forLoop (fun i st =>
            fghSierpinskiSpongeGenerate (K : Int) (childOffset offset (scale / 2) i) (scale / 2)
              (vertices + ((i * (36 * 4 ^ K) : Nat) : Int))
              (normals + ((i * (36 * 4 ^ K) : Nat) : Int)) st) 4 st ∧
      ∀ (i : Nat) (t : SpongeArrays), ∃ Wv Wn : List Int,
        (fghSierpinskiSpongeGenerate (K : Int) (childOffset offset (scale / 2) i) (scale / 2)
            (vertices + ((i * (36 * 4 ^ K) : Nat) : Int))
            (normals + ((i * (36 * 4 ^ K) : Nat) : Int)) t).vertices.stores
          = Wv ++ t.vertices.stores ∧
        (fghSierpinskiSpongeGenerate (K : Int) (childOffset offset (scale / 2) i) (scale / 2)
            (vertices + ((i * (36 * 4 ^ K) : Nat) : Int))
            (normals + ((i * (36 * 4 ^ K) : Nat) : Int)) t).normals.stores
          = Wn ++ t.normals.stores ∧
        Wv.Nodup ∧ Wn.Nodup ∧
        (∀ p : Int, p ∈ Wv ↔ vertices + ((i * (36 * 4 ^ K) : Nat) : Int) ≤ p ∧
          p < vertices + (((i + 1) * (36 * 4 ^ K) : Nat) : Int)) ∧
        (∀ p : Int, p ∈ Wn ↔ normals + ((i * (36 * 4 ^ K) : Nat) : Int) ≤ p ∧
          p < normals + (((i + 1) * (36 * 4 ^ K) : Nat) : Int))) := by
  refine ⟨?_, ?_, ?_⟩
  · obtain ⟨fv, fn⟩ := sponge_filled L hL offset scale vertices normals st
    obtain ⟨Wv, sv, _, nv, mv⟩ := fv.mem_stores_at
    obtain ⟨Wn, sn, _, nn, mn⟩ := fn.mem_stores_at
    exact ⟨Wv, Wn, sv, sn, nv, nn, mv, mn⟩
  · intro h12 useWireMode w hm
    refine ⟨_, _, sponge_run L h12 offset scale useWireMode w hm, rfl, ?_⟩
    cases useWireMode <;> rfl
  · intro K hK
    subst hK
    refine ⟨sponge_rec_unfold K (by omega) offset scale vertices normals st, ?_⟩
    intro i t
    obtain ⟨fv, fn⟩ := sponge_filled K (by omega) (childOffset offset (scale / 2) i) (scale / 2)
      (vertices + ((i * (36 * 4 ^ K) : Nat) : Int)) (normals + ((i * (36 * 4 ^ K) : Nat) : Int)) t
    obtain ⟨Wv, sv, _, nv, mv⟩ := fv.mem_stores_at
    obtain ⟨Wn, sn, _, nn, mn⟩ := fn.mem_stores_at
    have e : (((i + 1) * (36 * 4 ^ K) : Nat) : Int)
        = ((i * (36 * 4 ^ K) : Nat) : Int) + ((36 * 4 ^ K : Nat) : Int) := by
      push_cast; ring
    refine ⟨Wv, Wn, sv, sn, nv, nn, ?_, ?_⟩
    · intro p
      rw [mv p, e, add_assoc]
    · intro p
      rw [mn p, e, add_assoc]

/-- Witness for C15: one level of recursion into newly allocated arrays of 144 floats. -/
theorem sponge_layout_witness :
    ∃ Wv Wn : List Int,
      (fghSierpinskiSpongeGenerate ((1 : Nat) : Int) (fun _ => 0) 1 0 0
          { vertices := Buffer.fresh 0 144, normals := Buffer.fresh 0 144 }).vertices.stores
        = Wv ++ [] ∧
      (fghSierpinskiSpongeGenerate ((1 : Nat) : Int) (fun _ => 0) 1 0 0
          { vertices := Buffer.fresh 0 144, normals := Buffer.fresh 0 144 }).normals.stores
        = Wn ++ [] ∧
      Wv.Nodup ∧ Wn.Nodup ∧
      (∀ p : Int, p ∈ Wv ↔ 0 ≤ p ∧ p < 0 + ((36 * 4 ^ 1 : Nat) : Int)) ∧
      (∀ p : Int, p ∈ Wn ↔ 0 ≤ p ∧ p < 0 + ((36 * 4 ^ 1 : Nat) : Int)) :=
  (sponge_layout 1 (by decide) (fun _ => 0) 1 0 0
    { vertices := Buffer.fresh 0 144, normals := Buffer.fresh 0 144 }).1
/-- At depth 14 the products `i * stride` of the sponge generator exceed `2^32`: the four
recursive calls of depth 13 receive the pointer offsets 0, 2415919104, 536870912 and
2952790016. -/
theorem sponge_depth14 (offset : Fin 3 → GLdouble) (scale : GLfloat) (vertices normals : Int)
    (st : SpongeArrays) :
    ∃ c0 c1 c2 c3 : Fin 3 → GLdouble,
      fghSierpinskiSpongeGenerate 14 offset scale vertices normals st
        = fghSierpinskiSpongeGenerate ((13 : Nat) : Int) c3 (scale / 2)
            (vertices + 2952790016) (normals + 2952790016)
          (fghSierpinskiSpongeGenerate ((13 : Nat) : Int) c2 (scale / 2)
            (vertices + 536870912) (normals + 536870912)
          (fghSierpinskiSpongeGenerate ((13 : Nat) : Int) c1 (scale / 2)
            (vertices + 2415919104) (normals + 2415919104)
          (fghSierpinskiSpongeGenerate ((13 : Nat) : Int) c0 (scale / 2)
            (vertices + 0) (normals + 0) st))) := by
  have hne : (14 : Int) ≠ 0 := by decide
  have hpos : (14 : Int) > 0 := by decide
  have hpred : (14 : Int) - 1 = ((13 : Nat) : Int) := by decide
  have hu : toUnsigned ((13 : Nat) : Int) = 13 := by decide
  have hs : umul (4 ^ 13) TETRAHEDRON_VERT_ELEM_PER_OBJ = 2415919104 := by
    have : TETRAHEDRON_VERT_ELEM_PER_OBJ = 36 := rfl
    rw [this]
    norm_num [umul]
  have h0 : ((umul (toUnsigned ((0 : Nat) : Int)) 2415919104 : Nat) : Int) = 0 := by
    norm_num [umul, toUnsigned]
  have h1 : ((umul (toUnsigned ((1 : Nat) : Int)) 2415919104 : Nat) : Int) = 2415919104 := by
    norm_num [umul, toUnsigned]
  have h2 : ((umul (toUnsigned ((2 : Nat) : Int)) 2415919104 : Nat) : Int) = 536870912 := by
    norm_num [umul, toUnsigned]
  have h3 : ((umul (toUnsigned ((3 : Nat) : Int)) 2415919104 : Nat) : Int) = 2952790016 := by
    norm_num [umul, toUnsigned]
  have hF : TETRAHEDRON_NUM_FACES = 4 := rfl
  rw [fghSierpinskiSpongeGenerate, if_neg hne, dif_pos hpos]
  simp only [hpred, hu, ipow_four 13 (by decide), hs, hF, forLoop, h0, h1, h2, h3]
  exact ⟨_, _, _, _, rfl⟩

/-- C15 fails as stated at depth 14, where `36 * 4^14 = 9663676416` floats are to be
written: the last of these positions is never stored to, and position 2415919104 is
stored to twice. -/
theorem sponge_layout_counterexample :
    (9663676415 : Int) < ((36 * 4 ^ 14 : Nat) : Int) ∧
    (9663676415 : Int) ∉
      (fghSierpinskiSpongeGenerate 14 (fun _ => 0) 1 0 0
        { vertices := Buffer.fresh 0 (36 * 4 ^ 14)
          normals := Buffer.fresh 0 (36 * 4 ^ 14) }).vertices.stores ∧
    (fghSierpinskiSpongeGenerate 14 (fun _ => 0) 1 0 0
        { vertices := Buffer.fresh 0 (36 * 4 ^ 14)
          normals := Buffer.fresh 0 (36 * 4 ^ 14) }).vertices.stores.count 2415919104 = 2 := by
  obtain ⟨c0, c1, c2, c3, h⟩ := sponge_depth14 (fun _ => 0) 1 0 0
    { vertices := Buffer.fresh 0 (36 * 4 ^ 14), normals := Buffer.fresh 0 (36 * 4 ^ 14) }
  rw [h]
  have hS : ((36 * 4 ^ 13 : Nat) : Int) = 2415919104 := by norm_num
  obtain ⟨W0, s0, _, n0, m0⟩ := (sponge_filled 13 (by decide) c0 (1 / 2) (0 + 0) (0 + 0)
    { vertices := Buffer.fresh 0 (36 * 4 ^ 14), normals := Buffer.fresh 0 (36 * 4 ^ 14) }).1.mem_stores_at
  obtain ⟨W1, s1, _, n1, m1⟩ := (sponge_filled 13 (by decide) c1 (1 / 2)
    (0 + 2415919104) (0 + 2415919104) _).1.mem_stores_at
  obtain ⟨W2, s2, _, n2, m2⟩ := (sponge_filled 13 (by decide) c2 (1 / 2)
    (0 + 536870912) (0 + 536870912) _).1.mem_stores_at
  obtain ⟨W3, s3, _, n3, m3⟩ := (sponge_filled 13 (by decide) c3 (1 / 2)
    (0 + 2952790016) (0 + 2952790016) _).1.mem_stores_at
  rw [s3, s2, s1, s0]
  simp only [hS] at m0 m1 m2 m3
  have e0 : ({ vertices := Buffer.fresh (0 : GLfloat) (36 * 4 ^ 14),
               normals := Buffer.fresh (0 : GLfloat) (36 * 4 ^ 14) } : SpongeArrays).vertices.stores
      = [] := rfl
  rw [e0]
  refine ⟨by norm_num, ?_, ?_⟩
  · simp only [List.mem_append, m0, m1, m2, m3, List.not_mem_nil, or_false]
    omega
  · have c3 : W3.count 2415919104 = 0 :=
      List.count_eq_zero_of_not_mem (fun hmem => by have := (m3 _).mp hmem; omega)
    have c2 : W2.count 2415919104 = 1 :=
      List.count_eq_one_of_mem n2 ((m2 _).mpr (by omega))
    have c1 : W1.count 2415919104 = 1 :=
      List.count_eq_one_of_mem n1 ((m1 _).mpr (by omega))
    have c0 : W0.count 2415919104 = 0 :=
      List.count_eq_zero_of_not_mem (fun hmem => by have := (m0 _).mp hmem; omega)
    simp only [List.count_append, c0, c1, c2, c3, List.count_nil]


/-! ## Immediate mode and the sphere -/

theorem forLoop_append {β : Type} (f : Nat → List β) (n : Nat) (l0 : List β) :
    forLoop (fun k l => l ++ f k) n l0 = l0 ++ (List.range n).flatMap f := by
  induction n with
  | zero => simp [forLoop]
  | succ n ih =>
    simp only [forLoop, ih, List.range_succ, List.flatMap_append, List.flatMap_singleton,
      List.append_assoc]

theorem forRange_append {β : Type} (lo hi : Int) (f : Int → List β) (l0 : List β) :
    forRange lo hi (fun j l => l ++ f j) l0
      = l0 ++ (List.range (hi - lo).toNat).flatMap (fun k : Nat => f (lo + (k : Int))) := by
  unfold forRange
  exact forLoop_append (fun k : Nat => f (lo + (k : Int))) _ l0

theorem forRangeIncl_append {β : Type} (lo hi : Int) (f : Int → List β) (l0 : List β) :
    forRangeIncl lo hi (fun j l => l ++ f j) l0
      = l0 ++ (List.range (hi + 1 - lo).toNat).flatMap (fun k : Nat => f (lo + (k : Int))) := by
  unfold forRangeIncl
  exact forRange_append lo (hi + 1) f l0

theorem forDown_append {β : Type} (hi lo : Int) (f : Int → List β) (l0 : List β) :
    forDown hi lo (fun j l => l ++ f j) l0
      = l0 ++ (List.range (hi - lo + 1).toNat).flatMap (fun k : Nat => f (hi - (k : Int))) := by
  unfold forDown
  exact forLoop_append (fun k : Nat => f (hi - (k : Int))) _ l0

/-- Items that each set the normal before their first vertex add their vertices to the
primitive being specified, whatever the normal was before. -/
theorem run_items_set {α J : Type} (js : List J) (item : J → List (GLImm α))
    (N : J → α × α × α) (V : J → List (Vertex α)) (mode : GLenum)
    (h : ∀ j n vs d, (item j).foldl GLState.step
        { normal := n, current := some { mode := mode, vertices := vs }, done := d }
      = { normal := N j, current := some { mode := mode, vertices := vs ++ V j }, done := d }) :
    ∀ n vs d, (js.flatMap item).foldl GLState.step
        { normal := n, current := some { mode := mode, vertices := vs }, done := d }
      = { normal := js.foldl (fun _ j => N j) n,
          current := some { mode := mode, vertices := vs ++ js.flatMap V }, done := d } := by
  induction js with
  | nil => intro n vs d; simp
  | cons j js ih =>
    intro n vs d
    simp only [List.flatMap_cons, List.foldl_append, h j n vs d, ih (N j) (vs ++ V j) d,
      List.append_assoc, List.foldl_cons]

/-- Items that issue vertices without touching the normal add their vertices, all with
the normal in force, to the primitive being specified. -/
theorem run_items_keep {α J : Type} (js : List J) (item : J → List (GLImm α))
    (V : α × α × α → J → List (Vertex α)) (mode : GLenum)
    (h : ∀ j n vs d, (item j).foldl GLState.step
        { normal := n, current := some { mode := mode, vertices := vs }, done := d }
      = { normal := n, current := some { mode := mode, vertices := vs ++ V n j }, done := d }) :
    ∀ n vs d, (js.flatMap item).foldl GLState.step
        { normal := n, current := some { mode := mode, vertices := vs }, done := d }
      = { normal := n, current := some { mode := mode, vertices := vs ++ js.flatMap (V n) },
          done := d } := by
  induction js with
  | nil => intro n vs d; simp
  | cons j js ih =>
    intro n vs d
    simp only [List.flatMap_cons, List.foldl_append, h j n vs d, ih n (vs ++ V n j) d,
      List.append_assoc]

/-- Blocks that each specify one complete primitive add their primitives, in order, to
the primitives completed. -/
theorem run_blocks {α B : Type} (bs : List B) (render : B → List (GLImm α))
    (N : α × α × α → B → α × α × α) (P : B → Primitive α)
    (h : ∀ b n d, (render b).foldl GLState.step { normal := n, current := none, done := d }
      = { normal := N n b, current := none, done := d ++ [P b] }) :
    ∀ n d, (bs.flatMap render).foldl GLState.step
        { normal := n, current := none, done := d }
      = { normal := bs.foldl N n, current := none, done := d ++ bs.map P } := by
  induction bs with
  | nil => intro n d; simp
  | cons b bs ih =>
    intro n d
    simp only [List.flatMap_cons, List.foldl_append, h b n d, ih (N n b) (d ++ [P b]),
      List.map_cons, List.append_assoc, List.singleton_append, List.foldl_cons]

theorem flatMap_unit {β γ : Type} (l : List β) (f : β → γ) :
    l.flatMap (fun x => [f x]) = l.map f := by
  induction l with
  | nil => rfl
  | cons a l ih => simp only [List.flatMap_cons, ih, List.map_cons, List.singleton_append]
theorem guard_ok (w : World) (name : String) (h : w.Initialised = true) :
    FREEGLUT_EXIT_IF_NOT_INITIALISED w name = Except.ok () := by
  simp [FREEGLUT_EXIT_IF_NOT_INITIALISED, h]

/-- The quad strips of `glutSolidSphere` in closed form: round `k` joins ring `k + 2` to
ring `k + 1`. -/
theorem sphere_strips_loop {α : Type} [Field α] (sint1 cost1 sint2 cost2 : Int → α) (radf : α)
    (slices : Int) (n : Nat) (hn : n ≤ 2147483645) (a0 a1 b0 b1 : α)
    (h0 : 1 ≤ n → a1 = cost2 1 ∧ b1 = sint2 1) (gl0 : List (GLImm α)) :
    (forLoop (fun k : Nat => solidSphereStack sint1 cost1 sint2 cost2 radf slices (1 + (k : Int)))
      n { z0 := a0, z1 := a1, r0 := b0, r1 := b1, gl := gl0 }).gl
      = gl0 ++ (List.range n).flatMap (fun k : Nat =>
          [GLImm.glBegin GLenum.GL_QUAD_STRIP]
          ++ (List.range (slices + 1 - 0).toNat).flatMap (fun j : Nat =>
              [GLImm.glNormal3d (cost1 (0 + (j : Int)) * sint2 ((k : Int) + 2))
                 (sint1 (0 + (j : Int)) * sint2 ((k : Int) + 2)) (cost2 ((k : Int) + 2)),
               GLImm.glVertex3d (cost1 (0 + (j : Int)) * sint2 ((k : Int) + 2) * radf)
                 (sint1 (0 + (j : Int)) * sint2 ((k : Int) + 2) * radf)
                 (cost2 ((k : Int) + 2) * radf),
               GLImm.glNormal3d (cost1 (0 + (j : Int)) * sint2 ((k : Int) + 1))
                 (sint1 (0 + (j : Int)) * sint2 ((k : Int) + 1)) (cost2 ((k : Int) + 1)),
               GLImm.glVertex3d (cost1 (0 + (j : Int)) * sint2 ((k : Int) + 1) * radf)
                 (sint1 (0 + (j : Int)) * sint2 ((k : Int) + 1) * radf)
                 (cost2 ((k : Int) + 1) * radf)])
          ++ [GLImm.glEnd]) ∧
    (forLoop (fun k : Nat => solidSphereStack sint1 cost1 sint2 cost2 radf slices (1 + (k : Int)))
      n { z0 := a0, z1 := a1, r0 := b0, r1 := b1, gl := gl0 }).z1 = (if n = 0 then a1 else cost2 ((n : Int) + 1)) ∧
    (forLoop (fun k : Nat => solidSphereStack sint1 cost1 sint2 cost2 radf slices (1 + (k : Int)))
      n { z0 := a0, z1 := a1, r0 := b0, r1 := b1, gl := gl0 }).r1 = (if n = 0 then b1 else sint2 ((n : Int) + 1)) := by
  refine forLoop_inv _
    (fun (k : Nat) (s : Locals α) =>
      s.gl = gl0 ++ (List.range k).flatMap (fun k : Nat =>
          [GLImm.glBegin GLenum.GL_QUAD_STRIP]
          ++ (List.range (slices + 1 - 0).toNat).flatMap (fun j : Nat =>
              [GLImm.glNormal3d (cost1 (0 + (j : Int)) * sint2 ((k : Int) + 2))
                 (sint1 (0 + (j : Int)) * sint2 ((k : Int) + 2)) (cost2 ((k : Int) + 2)),
               GLImm.glVertex3d (cost1 (0 + (j : Int)) * sint2 ((k : Int) + 2) * radf)
                 (sint1 (0 + (j : Int)) * sint2 ((k : Int) + 2) * radf)
                 (cost2 ((k : Int) + 2) * radf),
               GLImm.glNormal3d (cost1 (0 + (j : Int)) * sint2 ((k : Int) + 1))
                 (sint1 (0 + (j : Int)) * sint2 ((k : Int) + 1)) (cost2 ((k : Int) + 1)),
               GLImm.glVertex3d (cost1 (0 + (j : Int)) * sint2 ((k : Int) + 1) * radf)
                 (sint1 (0 + (j : Int)) * sint2 ((k : Int) + 1) * radf)
                 (cost2 ((k : Int) + 1) * radf)])
          ++ [GLImm.glEnd]) ∧
      s.z1 = (if k = 0 then a1 else cost2 ((k : Int) + 1)) ∧
      s.r1 = (if k = 0 then b1 else sint2 ((k : Int) + 1))) n _ ?_ ?_
  · simp
  · intro k s hk ⟨hgl, hz, hr⟩
    have e : iadd (1 + (k : Int)) 1 = (k : Int) + 2 := by
      rw [iadd_of_range (by omega) (by omega)]; ring
    have hz' : s.z1 = cost2 ((k : Int) + 1) := by
      by_cases hk0 : k = 0
      · rw [hz, if_pos hk0, (h0 (by omega)).1, hk0]; simp
      · rw [hz, if_neg hk0]
    have hr' : s.r1 = sint2 ((k : Int) + 1) := by
      by_cases hk0 : k = 0
      · rw [hr, if_pos hk0, (h0 (by omega)).2, hk0]; simp
      · rw [hr, if_neg hk0]
    have c : ((k + 1 : Nat) : Int) + 1 = (k : Int) + 2 := by push_cast; ring
    refine ⟨?_, ?_, ?_⟩
    · simp only [solidSphereStack, forRangeIncl_append, hgl, e, hz', hr', List.range_succ,
        List.flatMap_append, List.flatMap_singleton, List.append_assoc]
    · simp only [solidSphereStack, e, c, Nat.succ_ne_zero, if_false]
    · simp only [solidSphereStack, e, c, Nat.succ_ne_zero, if_false]
/-- The calls of `glutSolidSphere` in closed form, given its two circle tables. -/
theorem solidSphere_trace {α : Type} [Field α] (m : LibM α) (w : World) (radius : α)
    (slices stacks' : Int) (t1 t2 : CircleTable α) (hinit : w.Initialised = true)
    (h1 : fghCircleTable m.sinf m.cosf m.M_PI w.mallocOk (wrapInt (-slices)) false = Except.ok t1)
    (h2 : fghCircleTable m.sinf m.cosf m.M_PI w.mallocOk stacks' true = Except.ok t2)
    (hk : -2147483647 ≤ stacks' ∧ stacks' ≤ 2147483647) :
    glutSolidSphere m w radius slices stacks'
      = Except.ok
        ([GLImm.glBegin GLenum.GL_TRIANGLE_FAN, GLImm.glNormal3f 0 0 1,
            GLImm.glVertex3f 0 0 radius]
          ++ (List.range (slices - 0 + 1).toNat).flatMap (fun k : Nat =>
              [GLImm.glNormal3f
                 (t1.cost.cell (slices - (k : Int)) * t2.sint.cell (if stacks' > 0 then 1 else 0))
                 (t1.sint.cell (slices - (k : Int)) * t2.sint.cell (if stacks' > 0 then 1 else 0))
                 (t2.cost.cell (if stacks' > 0 then 1 else 0)),
               GLImm.glVertex3f
                 (t1.cost.cell (slices - (k : Int)) * t2.sint.cell (if stacks' > 0 then 1 else 0)
                   * radius)
                 (t1.sint.cell (slices - (k : Int)) * t2.sint.cell (if stacks' > 0 then 1 else 0)
                   * radius)
                 (t2.cost.cell (if stacks' > 0 then 1 else 0) * radius)])
          ++ [GLImm.glEnd]
          ++ (List.range (stacks' - 2).toNat).flatMap (fun k : Nat =>
              [GLImm.glBegin GLenum.GL_QUAD_STRIP]
              ++ (List.range (slices + 1 - 0).toNat).flatMap (fun j : Nat =>
                  [GLImm.glNormal3d (t1.cost.cell (0 + (j : Int)) * t2.sint.cell ((k : Int) + 2))
                     (t1.sint.cell (0 + (j : Int)) * t2.sint.cell ((k : Int) + 2))
                     (t2.cost.cell ((k : Int) + 2)),
                   GLImm.glVertex3d
                     (t1.cost.cell (0 + (j : Int)) * t2.sint.cell ((k : Int) + 2) * radius)
                     (t1.sint.cell (0 + (j : Int)) * t2.sint.cell ((k : Int) + 2) * radius)
                     (t2.cost.cell ((k : Int) + 2) * radius),
                   GLImm.glNormal3d (t1.cost.cell (0 + (j : Int)) * t2.sint.cell ((k : Int) + 1))
                     (t1.sint.cell (0 + (j : Int)) * t2.sint.cell ((k : Int) + 1))
                     (t2.cost.cell ((k : Int) + 1)),
                   GLImm.glVertex3d
                     (t1.cost.cell (0 + (j : Int)) * t2.sint.cell ((k : Int) + 1) * radius)
                     (t1.sint.cell (0 + (j : Int)) * t2.sint.cell ((k : Int) + 1) * radius)
                     (t2.cost.cell ((k : Int) + 1) * radius)])
              ++ [GLImm.glEnd])
          ++ [GLImm.glBegin GLenum.GL_TRIANGLE_FAN, GLImm.glNormal3d 0 0 (-1),
              GLImm.glVertex3d 0 0 (-radius)]
          ++ (List.range (slices + 1 - 0).toNat).flatMap (fun j : Nat =>
              [GLImm.glNormal3d
                 (t1.cost.cell (0 + (j : Int))
                   * t2.sint.cell (if 3 ≤ stacks' then stacks' - 1 else if stacks' > 0 then 1 else 0))
                 (t1.sint.cell (0 + (j : Int))
                   * t2.sint.cell (if 3 ≤ stacks' then stacks' - 1 else if stacks' > 0 then 1 else 0))
                 (t2.cost.cell (if 3 ≤ stacks' then stacks' - 1 else if stacks' > 0 then 1 else 0)),
               GLImm.glVertex3d
                 (t1.cost.cell (0 + (j : Int))
                   * t2.sint.cell (if 3 ≤ stacks' then stacks' - 1 else if stacks' > 0 then 1 else 0)
                   * radius)
                 (t1.sint.cell (0 + (j : Int))
                   * t2.sint.cell (if 3 ≤ stacks' then stacks' - 1 else if stacks' > 0 then 1 else 0)
                   * radius)
                 (t2.cost.cell (if 3 ≤ stacks' then stacks' - 1 else if stacks' > 0 then 1 else 0)
                   * radius)])
          ++ [GLImm.glEnd]) := by
  have hsub : isub stacks' 1 = stacks' - 1 := by
    unfold isub
    exact wrapInt_of_range (by omega) (by omega)
  have hcount : (stacks' - 1 - 1).toNat = (stacks' - 2).toNat := by
    congr 1; ring
  have L := sphere_strips_loop t1.sint.cell t1.cost.cell t2.sint.cell t2.cost.cell
    radius slices (stacks' - 2).toNat (by omega) 1 (t2.cost.cell (if stacks' > 0 then 1 else 0)) 0
    (t2.sint.cell (if stacks' > 0 then 1 else 0))
    (by
      intro hpos
      have : stacks' > 0 := by omega
      simp only [this, if_true]
      exact ⟨trivial, trivial⟩)
  have hfin : (if (stacks' - 2).toNat = 0 then (if stacks' > 0 then (1 : Int) else 0)
      else (((stacks' - 2).toNat : Nat) : Int) + 1)
      = (if 3 ≤ stacks' then stacks' - 1 else if stacks' > 0 then 1 else 0) := by
    by_cases h3 : 3 ≤ stacks'
    · have hne : (stacks' - 2).toNat ≠ 0 := by omega
      rw [if_neg hne, if_pos h3, Int.toNat_of_nonneg (by omega)]
      ring
    · have he : (stacks' - 2).toNat = 0 := by omega
      rw [if_pos he, if_neg h3]
  have hz : (if (stacks' - 2).toNat = 0 then t2.cost.cell (if stacks' > 0 then 1 else 0)
        else t2.cost.cell ((((stacks' - 2).toNat : Nat) : Int) + 1))
      = t2.cost.cell (if 3 ≤ stacks' then stacks' - 1 else if stacks' > 0 then 1 else 0) := by
    rw [← hfin]
    split <;> rfl
  have hr : (if (stacks' - 2).toNat = 0 then t2.sint.cell (if stacks' > 0 then 1 else 0)
        else t2.sint.cell ((((stacks' - 2).toNat : Nat) : Int) + 1))
      = t2.sint.cell (if 3 ≤ stacks' then stacks' - 1 else if stacks' > 0 then 1 else 0) := by
    rw [← hfin]
    split <;> rfl
  have lgl := fun gl0 => (L gl0).1
  have lz := fun gl0 => (L gl0).2.1.trans hz
  have lr := fun gl0 => (L gl0).2.2.trans hr
  unfold glutSolidSphere
  simp only [guard_ok w _ hinit, h1, h2, hsub]
  unfold forRange
  simp only [hcount, forRangeIncl_append, lgl, lz, lr, forDown_append, List.append_assoc]
/-- The primitives of `glutSolidSphere`, given its two circle tables: the fan around the
top, the quad strips between consecutive rings and the fan around the bottom. -/
theorem solidSphere_primitives {α : Type} [Field α] (m : LibM α) (w : World) (radius : α)
    (slices stacks' : Int) (t1 t2 : CircleTable α) (hinit : w.Initialised = true)
    (h1 : fghCircleTable m.sinf m.cosf m.M_PI w.mallocOk (wrapInt (-slices)) false = Except.ok t1)
    (h2 : fghCircleTable m.sinf m.cosf m.M_PI w.mallocOk stacks' true = Except.ok t2)
    (hk : -2147483647 ≤ stacks' ∧ stacks' ≤ 2147483647) :
    ∃ calls, glutSolidSphere m w radius slices stacks' = Except.ok calls ∧
      primitives calls
        = [{ mode := GLenum.GL_TRIANGLE_FAN
             vertices := { pos := (0, 0, radius), normal := (0, 0, 1) }
               :: (List.range (slices - 0 + 1).toNat).map (fun k : Nat =>
                    sphereVertex t1 t2 radius (if stacks' > 0 then 1 else 0) (slices - (k : Int))) }]
          ++ (List.range (stacks' - 2).toNat).map (fun k : Nat =>
              ({ mode := GLenum.GL_QUAD_STRIP
                 vertices := (List.range (slices + 1 - 0).toNat).flatMap (fun j : Nat =>
                    [sphereVertex t1 t2 radius ((k : Int) + 2) (0 + (j : Int)),
                     sphereVertex t1 t2 radius ((k : Int) + 1) (0 + (j : Int))]) } : Primitive α))
          ++ [{ mode := GLenum.GL_TRIANGLE_FAN
                vertices := { pos := (0, 0, -radius), normal := (0, 0, -1) }
                  :: (List.range (slices + 1 - 0).toNat).map (fun j : Nat =>
                      sphereVertex t1 t2 radius
                        (if 3 ≤ stacks' then stacks' - 1 else if stacks' > 0 then 1 else 0)
                        (0 + (j : Int))) }] := by
  refine ⟨_, solidSphere_trace m w radius slices stacks' t1 t2 hinit h1 h2 hk, ?_⟩
  have E1 := run_items_set (List.range (slices - 0 + 1).toNat)
    (fun k : Nat =>
      [GLImm.glNormal3f
         (t1.cost.cell (slices - (k : Int)) * t2.sint.cell (if stacks' > 0 then 1 else 0))
         (t1.sint.cell (slices - (k : Int)) * t2.sint.cell (if stacks' > 0 then 1 else 0))
         (t2.cost.cell (if stacks' > 0 then 1 else 0)),
       GLImm.glVertex3f
         (t1.cost.cell (slices - (k : Int)) * t2.sint.cell (if stacks' > 0 then 1 else 0) * radius)
         (t1.sint.cell (slices - (k : Int)) * t2.sint.cell (if stacks' > 0 then 1 else 0) * radius)
         (t2.cost.cell (if stacks' > 0 then 1 else 0) * radius)])
    (fun k : Nat => (sphereVertex t1 t2 radius (if stacks' > 0 then 1 else 0)
      (slices - (k : Int))).normal)
    (fun k : Nat => [sphereVertex t1 t2 radius (if stacks' > 0 then 1 else 0) (slices - (k : Int))])
    GLenum.GL_TRIANGLE_FAN
    (fun j n vs d => by simp [GLState.step, sphereVertex])
  have E2 := fun k : Nat => run_items_set (List.range (slices + 1 - 0).toNat)
    (fun j : Nat =>
      [GLImm.glNormal3d (t1.cost.cell (0 + (j : Int)) * t2.sint.cell ((k : Int) + 2))
         (t1.sint.cell (0 + (j : Int)) * t2.sint.cell ((k : Int) + 2))
         (t2.cost.cell ((k : Int) + 2)),
       GLImm.glVertex3d
         (t1.cost.cell (0 + (j : Int)) * t2.sint.cell ((k : Int) + 2) * radius)
         (t1.sint.cell (0 + (j : Int)) * t2.sint.cell ((k : Int) + 2) * radius)
         (t2.cost.cell ((k : Int) + 2) * radius),
       GLImm.glNormal3d (t1.cost.cell (0 + (j : Int)) * t2.sint.cell ((k : Int) + 1))
         (t1.sint.cell (0 + (j : Int)) * t2.sint.cell ((k : Int) + 1))
         (t2.cost.cell ((k : Int) + 1)),
       GLImm.glVertex3d
         (t1.cost.cell (0 + (j : Int)) * t2.sint.cell ((k : Int) + 1) * radius)
         (t1.sint.cell (0 + (j : Int)) * t2.sint.cell ((k : Int) + 1) * radius)
         (t2.cost.cell ((k : Int) + 1) * radius)])
    (fun j : Nat => (sphereVertex t1 t2 radius ((k : Int) + 1) (0 + (j : Int))).normal)
    (fun j : Nat =>
      [sphereVertex t1 t2 radius ((k : Int) + 2) (0 + (j : Int)),
       sphereVertex t1 t2 radius ((k : Int) + 1) (0 + (j : Int))])
    GLenum.GL_QUAD_STRIP
    (fun j n vs d => by simp [GLState.step, sphereVertex])
  have EB := run_blocks (List.range (stacks' - 2).toNat)
    (fun k : Nat =>
      [GLImm.glBegin GLenum.GL_QUAD_STRIP]
      ++ (List.range (slices + 1 - 0).toNat).flatMap (fun j : Nat =>
          [GLImm.glNormal3d (t1.cost.cell (0 + (j : Int)) * t2.sint.cell ((k : Int) + 2))
             (t1.sint.cell (0 + (j : Int)) * t2.sint.cell ((k : Int) + 2))
             (t2.cost.cell ((k : Int) + 2)),
           GLImm.glVertex3d
             (t1.cost.cell (0 + (j : Int)) * t2.sint.cell ((k : Int) + 2) * radius)
             (t1.sint.cell (0 + (j : Int)) * t2.sint.cell ((k : Int) + 2) * radius)
             (t2.cost.cell ((k : Int) + 2) * radius),
           GLImm.glNormal3d (t1.cost.cell (0 + (j : Int)) * t2.sint.cell ((k : Int) + 1))
             (t1.sint.cell (0 + (j : Int)) * t2.sint.cell ((k : Int) + 1))
             (t2.cost.cell ((k : Int) + 1)),
           GLImm.glVertex3d
             (t1.cost.cell (0 + (j : Int)) * t2.sint.cell ((k : Int) + 1) * radius)
             (t1.sint.cell (0 + (j : Int)) * t2.sint.cell ((k : Int) + 1) * radius)
             (t2.cost.cell ((k : Int) + 1) * radius)])
      ++ [GLImm.glEnd])
    (fun (n : α × α × α) (k : Nat) => (List.range (slices + 1 - 0).toNat).foldl
      (fun (_ : α × α × α) (j : Nat) =>
        (sphereVertex t1 t2 radius ((k : Int) + 1) (0 + (j : Int))).normal) n)
    (fun k : Nat =>
      ({ mode := GLenum.GL_QUAD_STRIP
         vertices := (List.range (slices + 1 - 0).toNat).flatMap (fun j : Nat =>
            [sphereVertex t1 t2 radius ((k : Int) + 2) (0 + (j : Int)),
             sphereVertex t1 t2 radius ((k : Int) + 1) (0 + (j : Int))]) } : Primitive α))
    (by
      intro k n d
      simp only [List.foldl_append, List.foldl_cons, List.foldl_nil, GLState.step, E2 k,
        List.nil_append])
  have E3 := run_items_set (List.range (slices + 1 - 0).toNat)
    (fun j : Nat =>
      [GLImm.glNormal3d
         (t1.cost.cell (0 + (j : Int))
           * t2.sint.cell (if 3 ≤ stacks' then stacks' - 1 else if stacks' > 0 then 1 else 0))
         (t1.sint.cell (0 + (j : Int))
           * t2.sint.cell (if 3 ≤ stacks' then stacks' - 1 else if stacks' > 0 then 1 else 0))
         (t2.cost.cell (if 3 ≤ stacks' then stacks' - 1 else if stacks' > 0 then 1 else 0)),
       GLImm.glVertex3d
         (t1.cost.cell (0 + (j : Int))
           * t2.sint.cell (if 3 ≤ stacks' then stacks' - 1 else if stacks' > 0 then 1 else 0)
           * radius)
         (t1.sint.cell (0 + (j : Int))
           * t2.sint.cell (if 3 ≤ stacks' then stacks' - 1 else if stacks' > 0 then 1 else 0)
           * radius)
         (t2.cost.cell (if 3 ≤ stacks' then stacks' - 1 else if stacks' > 0 then 1 else 0)
           * radius)])
    (fun j : Nat => (sphereVertex t1 t2 radius
      (if 3 ≤ stacks' then stacks' - 1 else if stacks' > 0 then 1 else 0) (0 + (j : Int))).normal)
    (fun j : Nat => [sphereVertex t1 t2 radius
      (if 3 ≤ stacks' then stacks' - 1 else if stacks' > 0 then 1 else 0) (0 + (j : Int))])
    GLenum.GL_TRIANGLE_FAN
    (fun j n vs d => by simp [GLState.step, sphereVertex])
  unfold primitives
  simp only [List.foldl_append, List.foldl_cons, List.foldl_nil, GLState.step, E1, EB, E3,
    List.nil_append]
  simp only [flatMap_unit, List.singleton_append, List.cons_append, List.nil_append]
theorem neg_slices {slices : Int} (hs : 0 ≤ slices) (hmax : slices ≤ 2147483646) :
    wrapInt (-slices) = -slices ∧ |(-slices)| ≤ 2147483646 := by
  refine ⟨wrapInt_of_range (by omega) (by omega), ?_⟩
  rw [abs_neg, abs_of_nonneg hs]
  exact hmax

theorem strip_lengths {β γ : Type} (l : List β) (f g : β → γ) :
    (l.flatMap (fun j => [f j, g j])).length = 2 * l.length := by
  induction l with
  | nil => rfl
  | cons a l ih =>
    simp only [List.flatMap_cons, List.length_append, ih, List.length_cons, List.length_nil]
    omega

theorem sum_const_map {β : Type} (l : List β) (c : Nat) :
    (l.map (fun _ => c)).sum = l.length * c := by
  induction l with
  | nil => simp
  | cons a l ih => simp only [List.map_cons, List.sum_cons, ih, List.length_cons]; ring

/-- C17: for every `slices ≥ 0` and every `stacks` for which the two circle tables can be
allocated, `glutSolidSphere` specifies, in this order, one triangle fan of `slices + 2`
vertices (the apex `(0, 0, radius)`, then the ring at entry 1 of the half-circle table
when `stacks > 0` and at entry 0 otherwise), then `max(stacks - 2, 0)` quad strips of
`2 * (slices + 1)` vertices each, the `i`-th one joining ring `i + 1` to ring `i`, then
one triangle fan of `slices + 2` vertices (the apex `(0, 0, -radius)`, then ring
`stacks - 1` when `stacks ≥ 2` and the ring of the first fan otherwise); together
`2 * (slices + 2) + 2 * (slices + 1) * max(stacks - 2, 0)` vertices. -/
theorem solid_sphere_structure {α : Type} [Field α] (m : LibM α) (w : World) (radius : α)
    (slices stacks' : Int) (hinit : w.Initialised = true) (hm : w.mallocOk = true)
    (hs : 0 ≤ slices) (hsmax : slices ≤ 2147483646) (hk : |stacks'| ≤ 2147483646) :
    ∃ t1 t2 calls,
      fghCircleTable m.sinf m.cosf m.M_PI w.mallocOk (-slices) false = Except.ok t1 ∧
      fghCircleTable m.sinf m.cosf m.M_PI w.mallocOk stacks' true = Except.ok t2 ∧
      glutSolidSphere m w radius slices stacks' = Except.ok calls ∧
      primitives calls
        = [{ mode := GLenum.GL_TRIANGLE_FAN
             vertices := { pos := (0, 0, radius), normal := (0, 0, 1) }
               :: (List.range (slices + 1).toNat).map (fun k : Nat =>
                    sphereVertex t1 t2 radius (if stacks' > 0 then 1 else 0) (slices - (k : Int))) }]
          ++ (List.range (stacks' - 2).toNat).map (fun k : Nat =>
              ({ mode := GLenum.GL_QUAD_STRIP
                 vertices := (List.range (slices + 1).toNat).flatMap (fun j : Nat =>
                    [sphereVertex t1 t2 radius ((k : Int) + 2) (j : Int),
                     sphereVertex t1 t2 radius ((k : Int) + 1) (j : Int)]) } : Primitive α))
          ++ [{ mode := GLenum.GL_TRIANGLE_FAN
                vertices := { pos := (0, 0, -radius), normal := (0, 0, -1) }
                  :: (List.range (slices + 1).toNat).map (fun j : Nat =>
                      sphereVertex t1 t2 radius
                        (if 2 ≤ stacks' then stacks' - 1 else if stacks' > 0 then 1 else 0)
                        (j : Int)) }] ∧
      ((((primitives calls).map (fun p => p.vertices.length)).sum : Nat) : Int)
        = 2 * (slices + 2) + 2 * (slices + 1) * max (stacks' - 2) 0 := by
  obtain ⟨hw, habs⟩ := neg_slices hs hsmax
  obtain ⟨t1, h1⟩ := circle_table_returns m.sinf m.cosf m.M_PI (-slices) false habs
  obtain ⟨t2, h2⟩ := circle_table_returns m.sinf m.cosf m.M_PI stacks' true hk
  have hk' : -2147483647 ≤ stacks' ∧ stacks' ≤ 2147483647 := by
    rcases abs_cases stacks' with ⟨e, _⟩ | ⟨e, _⟩ <;> omega
  have h1 : fghCircleTable m.sinf m.cosf m.M_PI w.mallocOk (-slices) false = Except.ok t1 := by
    rw [hm]; exact h1
  have h2 : fghCircleTable m.sinf m.cosf m.M_PI w.mallocOk stacks' true = Except.ok t2 := by
    rw [hm]; exact h2
  have h1' := h1
  rw [← hw] at h1'
  obtain ⟨calls, hc, hp⟩ := solidSphere_primitives m w radius slices stacks' t1 t2 hinit h1' h2 hk'
  have hidx : (if 3 ≤ stacks' then stacks' - 1 else if stacks' > 0 then 1 else 0)
      = (if 2 ≤ stacks' then stacks' - 1 else if stacks' > 0 then 1 else 0) := by
    by_cases h3 : 3 ≤ stacks'
    · rw [if_pos h3, if_pos (by omega)]
    · by_cases h2 : 2 ≤ stacks'
      · have : stacks' = 2 := by omega
        subst this
        decide
      · rw [if_neg h3, if_neg h2]
  simp only [sub_zero, zero_add, hidx] at hp
  refine ⟨t1, t2, calls, h1, h2, hc, hp, ?_⟩
  rw [hp]
  simp only [List.map_append, List.map_cons, List.map_nil, List.map_map, List.sum_append,
    List.sum_cons, List.sum_nil, List.length_cons, List.length_map, List.length_range,
    Function.comp_def, strip_lengths, sum_const_map]
  have hS : (((slices + 1).toNat : Nat) : Int) = slices + 1 := Int.toNat_of_nonneg (by omega)
  have hn : (((stacks' - 2).toNat : Nat) : Int) = max (stacks' - 2) 0 := by
    rw [Int.toNat_eq_max]
  push_cast
  rw [hS, hn]
  ring
/-- Witness for C17: four slices and three stacks give two fans of 6 vertices and one
strip of 10. -/
theorem solid_sphere_structure_witness :
    ∃ calls,
      glutSolidSphere
          ({ sinf := Real.sin, cosf := Real.cos, sqrtf := Real.sqrt, M_PI := Real.pi } : LibM ℝ)
          (World.boot true true []) 1 4 3 = Except.ok calls ∧
      (primitives calls).map (fun p => (p.mode, p.vertices.length))
        = [(GLenum.GL_TRIANGLE_FAN, 6), (GLenum.GL_QUAD_STRIP, 10), (GLenum.GL_TRIANGLE_FAN, 6)] := by
  obtain ⟨t1, t2, calls, _, _, hc, hp, _⟩ := solid_sphere_structure
    ({ sinf := Real.sin, cosf := Real.cos, sqrtf := Real.sqrt, M_PI := Real.pi } : LibM ℝ)
    (World.boot true true []) 1 4 3 rfl rfl (by decide) (by decide) (by decide)
  refine ⟨calls, hc, ?_⟩
  rw [hp]
  have e1 : ((4 : Int) + 1).toNat = 5 := by decide
  have e2 : ((3 : Int) - 2).toNat = 1 := by decide
  simp [e1, e2, List.range_succ]

/-- Every vertex of `glutSolidSphere` is one of the two apexes or the sphere vertex of an
entry `0 .. slices` of the full-circle table and an entry `0 .. |stacks|` of the
half-circle table. -/
theorem solidSphere_vertices {α : Type} [Field α] (m : LibM α) (w : World) (radius : α)
    (slices stacks' : Int) (t1 t2 : CircleTable α) (hinit : w.Initialised = true)
    (h1 : fghCircleTable m.sinf m.cosf m.M_PI w.mallocOk (wrapInt (-slices)) false = Except.ok t1)
    (h2 : fghCircleTable m.sinf m.cosf m.M_PI w.mallocOk stacks' true = Except.ok t2)
    (hk : -2147483647 ≤ stacks' ∧ stacks' ≤ 2147483647) :
    ∃ calls, glutSolidSphere m w radius slices stacks' = Except.ok calls ∧
      ∀ p, p ∈ primitives calls → ∀ v, v ∈ p.vertices →
        v = { pos := (0, 0, radius), normal := (0, 0, 1) } ∨
        v = { pos := (0, 0, -radius), normal := (0, 0, -1) } ∨
        ∃ k j : Int, 0 ≤ k ∧ k ≤ |stacks'| ∧ 0 ≤ j ∧ j ≤ slices ∧
          v = sphereVertex t1 t2 radius k j := by
  obtain ⟨calls, hc, hp⟩ := solidSphere_primitives m w radius slices stacks' t1 t2 hinit h1 h2 hk
  refine ⟨calls, hc, ?_⟩
  have habs := abs_nonneg stacks'
  have hle := le_abs_self stacks'
  intro p hpm v hv
  rw [hp] at hpm
  simp only [List.mem_append, List.mem_singleton, List.mem_map, List.mem_range] at hpm
  rcases hpm with (rfl | ⟨k, hkr, rfl⟩) | rfl
  · simp only [List.mem_cons, List.mem_map, List.mem_range] at hv
    rcases hv with rfl | ⟨j, hj, rfl⟩
    · exact Or.inl rfl
    · refine Or.inr (Or.inr ⟨_, _, ?_, ?_, ?_, ?_, rfl⟩)
      · split <;> omega
      · split <;> omega
      · omega
      · omega
  · simp only [List.mem_flatMap, List.mem_range, List.mem_cons, List.mem_singleton,
      List.not_mem_nil, or_false] at hv
    obtain ⟨j, hj, rfl | rfl⟩ := hv
    · exact Or.inr (Or.inr ⟨_, _, by omega, by omega, by omega, by omega, rfl⟩)
    · exact Or.inr (Or.inr ⟨_, _, by omega, by omega, by omega, by omega, rfl⟩)
  · simp only [List.mem_cons, List.mem_map, List.mem_range] at hv
    rcases hv with rfl | ⟨j, hj, rfl⟩
    · exact Or.inr (Or.inl rfl)
    · refine Or.inr (Or.inr ⟨_, _, ?_, ?_, ?_, ?_, rfl⟩)
      · split
        · omega
        · split <;> omega
      · split
        · omega
        · split <;> omega
      · omega
      · omega
/-- With a sine and a cosine whose squares add up to 1, every entry of a circle table is a
point of the unit circle. -/
theorem circle_unit {α : Type} [Field α] (sinf cosf : α → α) (M_PI : α) (mallocOk : Bool)
    (n : Int) (halfCircle : Bool) (hint : -2147483648 ≤ n ∧ n < 2147483648)
    (hpyth : ∀ x, sinf x ^ 2 + cosf x ^ 2 = 1) (t : CircleTable α)
    (ht : fghCircleTable sinf cosf M_PI mallocOk n halfCircle = Except.ok t) :
    ∀ i : Int, 0 ≤ i → i ≤ |n| → t.sint.cell i ^ 2 + t.cost.cell i ^ 2 = 1 := by
  obtain ⟨_, _, _, hmid, ⟨hf1, hf2⟩, hz⟩ :=
    circle_table_spec sinf cosf M_PI mallocOk n halfCircle hint t ht
  intro i h0 hn
  by_cases hl : i = |n|
  · rw [hl, hf1, hf2]
    split <;> ring
  by_cases hi : i = 0
  · have hne : n ≠ 0 := by
      intro h
      rw [h] at hl
      simp at hl
      exact hl hi
    obtain ⟨z1, z2⟩ := hz (Or.inl hne)
    rw [hi, z1, z2]
    ring
  obtain ⟨m1, m2⟩ := hmid i (by omega) (by omega)
  rw [m1, m2]
  exact hpyth _

theorem sphereVertex_on_sphere {α : Type} [Field α] (t1 t2 : CircleTable α) (radf : α)
    (k j : Int) (hj : t1.sint.cell j ^ 2 + t1.cost.cell j ^ 2 = 1)
    (hk : t2.sint.cell k ^ 2 + t2.cost.cell k ^ 2 = 1) :
    (sphereVertex t1 t2 radf k j).pos.1 ^ 2 + (sphereVertex t1 t2 radf k j).pos.2.1 ^ 2
      + (sphereVertex t1 t2 radf k j).pos.2.2 ^ 2 = radf ^ 2 := by
  simp only [sphereVertex]
  have e : (t1.cost.cell j * t2.sint.cell k * radf) ^ 2
      + (t1.sint.cell j * t2.sint.cell k * radf) ^ 2 + (t2.cost.cell k * radf) ^ 2
      = radf ^ 2 * ((t1.sint.cell j ^ 2 + t1.cost.cell j ^ 2) * t2.sint.cell k ^ 2
          + t2.cost.cell k ^ 2) := by ring
  rw [e, hj, one_mul, hk, mul_one]

/-- C18: with a sine and a cosine whose squares add up to 1, as in exact real arithmetic,
for every radius, every `slices ≥ 0` and every `stacks` for which the two circle tables
can be allocated, every vertex `(x, y, z)` specified by `glutSolidSphere` satisfies
`x^2 + y^2 + z^2 = radius^2`. -/
theorem sphere_on_sphere {α : Type} [Field α] (m : LibM α) (w : World) (radius : α)
    (slices stacks' : Int) (hinit : w.Initialised = true) (hm : w.mallocOk = true)
    (hs : 0 ≤ slices) (hsmax : slices ≤ 2147483646) (hk : |stacks'| ≤ 2147483646)
    (hpyth : ∀ x, m.sinf x ^ 2 + m.cosf x ^ 2 = 1) :
    ∃ calls, glutSolidSphere m w radius slices stacks' = Except.ok calls ∧
      ∀ p, p ∈ primitives calls → ∀ v, v ∈ p.vertices →
        v.pos.1 ^ 2 + v.pos.2.1 ^ 2 + v.pos.2.2 ^ 2 = radius ^ 2 := by
  obtain ⟨hw, habs⟩ := neg_slices hs hsmax
  obtain ⟨t1, h1⟩ := circle_table_returns m.sinf m.cosf m.M_PI (-slices) false habs
  obtain ⟨t2, h2⟩ := circle_table_returns m.sinf m.cosf m.M_PI stacks' true hk
  have hk' : -2147483647 ≤ stacks' ∧ stacks' ≤ 2147483647 := by
    rcases abs_cases stacks' with ⟨e, _⟩ | ⟨e, _⟩ <;> omega
  have h1' : fghCircleTable m.sinf m.cosf m.M_PI w.mallocOk (wrapInt (-slices)) false
      = Except.ok t1 := by
    rw [hm, hw]; exact h1
  have h2' : fghCircleTable m.sinf m.cosf m.M_PI w.mallocOk stacks' true = Except.ok t2 := by
    rw [hm]; exact h2
  have u1 := circle_unit m.sinf m.cosf m.M_PI true (-slices) false (by omega) hpyth t1 h1
  have u2 := circle_unit m.sinf m.cosf m.M_PI true stacks' true (by omega) hpyth t2 h2
  rw [abs_neg, abs_of_nonneg hs] at u1
  obtain ⟨calls, hc, hv⟩ := solidSphere_vertices m w radius slices stacks' t1 t2 hinit h1' h2' hk'
  refine ⟨calls, hc, ?_⟩
  intro p hp v hvm
  rcases hv p hp v hvm with rfl | rfl | ⟨k, j, k0, k1, j0, j1, rfl⟩
  · simp
  · simp
  · exact sphereVertex_on_sphere t1 t2 radius k j (u1 j j0 j1) (u2 k k0 k1)

/-- Witness for C18: the real sine and cosine, radius 2, eight slices and six stacks. -/
theorem sphere_on_sphere_witness :
    ∃ calls,
      glutSolidSphere
          ({ sinf := Real.sin, cosf := Real.cos, sqrtf := Real.sqrt, M_PI := Real.pi } : LibM ℝ)
          (World.boot true true []) 2 8 6 = Except.ok calls ∧
      ∀ p, p ∈ primitives calls → ∀ v, v ∈ p.vertices →
        v.pos.1 ^ 2 + v.pos.2.1 ^ 2 + v.pos.2.2 ^ 2 = (2 : ℝ) ^ 2 :=
  sphere_on_sphere
    ({ sinf := Real.sin, cosf := Real.cos, sqrtf := Real.sqrt, M_PI := Real.pi } : LibM ℝ)
    (World.boot true true []) 2 8 6 rfl rfl (by decide) (by decide) (by decide)
    Real.sin_sq_add_cos_sq


/-! ## The wire sphere -/

/-- The calls of `glutWireSphere` in closed form, given its two circle tables. -/
theorem wireSphere_trace {α : Type} [Field α] (m : LibM α) (w : World) (radius : α)
    (slices stacks' : Int) (t1 t2 : CircleTable α) (hinit : w.Initialised = true)
    (h1 : fghCircleTable m.sinf m.cosf m.M_PI w.mallocOk (wrapInt (-slices)) false = Except.ok t1)
    (h2 : fghCircleTable m.sinf m.cosf m.M_PI w.mallocOk stacks' true = Except.ok t2) :
    glutWireSphere m w radius slices stacks'
      = Except.ok
        ((List.range (stacks' - 1).toNat).flatMap (fun k : Nat =>
            [GLImm.glBegin GLenum.GL_LINE_LOOP]
            ++ (List.range (slices + 1 - 0).toNat).flatMap (fun j : Nat =>
                [GLImm.glNormal3f (t1.cost.cell (0 + (j : Int))) (t1.sint.cell (0 + (j : Int)))
                   (t2.cost.cell (1 + (k : Int))),
                 GLImm.glVertex3f
                   (t1.cost.cell (0 + (j : Int)) * t2.sint.cell (1 + (k : Int)) * radius)
                   (t1.sint.cell (0 + (j : Int)) * t2.sint.cell (1 + (k : Int)) * radius)
                   (t2.cost.cell (1 + (k : Int)) * radius)])
            ++ [GLImm.glEnd])
          ++ (List.range (slices - 0).toNat).flatMap (fun i : Nat =>
            [GLImm.glBegin GLenum.GL_LINE_STRIP]
            ++ (List.range (stacks' + 1 - 0).toNat).flatMap (fun j : Nat =>
                [GLImm.glNormal3f
                   (t1.cost.cell (0 + (i : Int)) * t2.sint.cell (0 + (j : Int)))
                   (t1.sint.cell (0 + (i : Int)) * t2.sint.cell (0 + (j : Int)))
                   (t2.cost.cell (0 + (j : Int))),
                 GLImm.glVertex3f
                   (t1.cost.cell (0 + (i : Int)) * t2.sint.cell (0 + (j : Int)) * radius)
                   (t1.sint.cell (0 + (i : Int)) * t2.sint.cell (0 + (j : Int)) * radius)
                   (t2.cost.cell (0 + (j : Int)) * radius)])
            ++ [GLImm.glEnd])) := by
  unfold glutWireSphere
  simp only [guard_ok w _ hinit, h1, h2, forRangeIncl_append, List.append_assoc,
    forRange_append, List.nil_append]

/-- The primitives of `glutWireSphere`, given its two circle tables: one line loop for
each ring `1 .. stacks - 1`, then one line strip for each angle entry `0 .. slices - 1`. -/
theorem wireSphere_primitives {α : Type} [Field α] (m : LibM α) (w : World) (radius : α)
    (slices stacks' : Int) (t1 t2 : CircleTable α) (hinit : w.Initialised = true)
    (h1 : fghCircleTable m.sinf m.cosf m.M_PI w.mallocOk (wrapInt (-slices)) false = Except.ok t1)
    (h2 : fghCircleTable m.sinf m.cosf m.M_PI w.mallocOk stacks' true = Except.ok t2) :
    ∃ calls, glutWireSphere m w radius slices stacks' = Except.ok calls ∧
      primitives calls
        = (List.range (stacks' - 1).toNat).map (fun k : Nat =>
            ({ mode := GLenum.GL_LINE_LOOP
               vertices := (List.range (slices + 1 - 0).toNat).map (fun j : Nat =>
                  wireStackVertex t1 t2 radius (1 + (k : Int)) (0 + (j : Int))) } : Primitive α))
          ++ (List.range (slices - 0).toNat).map (fun i : Nat =>
            ({ mode := GLenum.GL_LINE_STRIP
               vertices := (List.range (stacks' + 1 - 0).toNat).map (fun j : Nat =>
                  sphereVertex t1 t2 radius (0 + (j : Int)) (0 + (i : Int))) } : Primitive α)) := by
  refine ⟨_, wireSphere_trace m w radius slices stacks' t1 t2 hinit h1 h2, ?_⟩
  have E1 := fun k : Nat => run_items_set (List.range (slices + 1 - 0).toNat)
    (fun j : Nat =>
      [GLImm.glNormal3f (t1.cost.cell (0 + (j : Int))) (t1.sint.cell (0 + (j : Int)))
         (t2.cost.cell (1 + (k : Int))),
       GLImm.glVertex3f
         (t1.cost.cell (0 + (j : Int)) * t2.sint.cell (1 + (k : Int)) * radius)
         (t1.sint.cell (0 + (j : Int)) * t2.sint.cell (1 + (k : Int)) * radius)
         (t2.cost.cell (1 + (k : Int)) * radius)])
    (fun j : Nat => (wireStackVertex t1 t2 radius (1 + (k : Int)) (0 + (j : Int))).normal)
    (fun j : Nat => [wireStackVertex t1 t2 radius (1 + (k : Int)) (0 + (j : Int))])
    GLenum.GL_LINE_LOOP
    (fun j n vs d => by simp [GLState.step, wireStackVertex])
  have B1 := run_blocks (List.range (stacks' - 1).toNat)
    (fun k : Nat =>
      [GLImm.glBegin GLenum.GL_LINE_LOOP]
      ++ (List.range (slices + 1 - 0).toNat).flatMap (fun j : Nat =>
          [GLImm.glNormal3f (t1.cost.cell (0 + (j : Int))) (t1.sint.cell (0 + (j : Int)))
             (t2.cost.cell (1 + (k : Int))),
           GLImm.glVertex3f
             (t1.cost.cell (0 + (j : Int)) * t2.sint.cell (1 + (k : Int)) * radius)
             (t1.sint.cell (0 + (j : Int)) * t2.sint.cell (1 + (k : Int)) * radius)
             (t2.cost.cell (1 + (k : Int)) * radius)])
      ++ [GLImm.glEnd])
    (fun (n : α × α × α) (k : Nat) => (List.range (slices + 1 - 0).toNat).foldl
      (fun (_ : α × α × α) (j : Nat) =>
        (wireStackVertex t1 t2 radius (1 + (k : Int)) (0 + (j : Int))).normal) n)
    (fun k : Nat =>
      ({ mode := GLenum.GL_LINE_LOOP
         vertices := (List.range (slices + 1 - 0).toNat).map (fun j : Nat =>
            wireStackVertex t1 t2 radius (1 + (k : Int)) (0 + (j : Int))) } : Primitive α))
    (by
      intro k n d
      simp only [List.foldl_append, List.foldl_cons, List.foldl_nil, GLState.step, E1 k,
        List.nil_append, flatMap_unit])
  have E2 := fun i : Nat => run_items_set (List.range (stacks' + 1 - 0).toNat)
    (fun j : Nat =>
      [GLImm.glNormal3f
         (t1.cost.cell (0 + (i : Int)) * t2.sint.cell (0 + (j : Int)))
         (t1.sint.cell (0 + (i : Int)) * t2.sint.cell (0 + (j : Int)))
         (t2.cost.cell (0 + (j : Int))),
       GLImm.glVertex3f
         (t1.cost.cell (0 + (i : Int)) * t2.sint.cell (0 + (j : Int)) * radius)
         (t1.sint.cell (0 + (i : Int)) * t2.sint.cell (0 + (j : Int)) * radius)
         (t2.cost.cell (0 + (j : Int)) * radius)])
    (fun j : Nat => (sphereVertex t1 t2 radius (0 + (j : Int)) (0 + (i : Int))).normal)
    (fun j : Nat => [sphereVertex t1 t2 radius (0 + (j : Int)) (0 + (i : Int))])
    GLenum.GL_LINE_STRIP
    (fun j n vs d => by simp [GLState.step, sphereVertex])
  have B2 := run_blocks (List.range (slices - 0).toNat)
    (fun i : Nat =>
      [GLImm.glBegin GLenum.GL_LINE_STRIP]
      ++ (List.range (stacks' + 1 - 0).toNat).flatMap (fun j : Nat =>
          [GLImm.glNormal3f
             (t1.cost.cell (0 + (i : Int)) * t2.sint.cell (0 + (j : Int)))
             (t1.sint.cell (0 + (i : Int)) * t2.sint.cell (0 + (j : Int)))
             (t2.cost.cell (0 + (j : Int))),
           GLImm.glVertex3f
             (t1.cost.cell (0 + (i : Int)) * t2.sint.cell (0 + (j : Int)) * radius)
             (t1.sint.cell (0 + (i : Int)) * t2.sint.cell (0 + (j : Int)) * radius)
             (t2.cost.cell (0 + (j : Int)) * radius)])
      ++ [GLImm.glEnd])
    (fun (n : α × α × α) (i : Nat) => (List.range (stacks' + 1 - 0).toNat).foldl
      (fun (_ : α × α × α) (j : Nat) =>
        (sphereVertex t1 t2 radius (0 + (j : Int)) (0 + (i : Int))).normal) n)
    (fun i : Nat =>
      ({ mode := GLenum.GL_LINE_STRIP
         vertices := (List.range (stacks' + 1 - 0).toNat).map (fun j : Nat =>
            sphereVertex t1 t2 radius (0 + (j : Int)) (0 + (i : Int))) } : Primitive α))
    (by
      intro i n d
      simp only [List.foldl_append, List.foldl_cons, List.foldl_nil, GLState.step, E2 i,
        List.nil_append, flatMap_unit])
  unfold primitives
  simp only [List.foldl_append, B1, B2, List.nil_append]
/-- C19 fails in the stack loops of `glutWireSphere`: with the real sine and cosine,
radius 2, one slice and three stacks, the first vertex of the first line loop is issued
at `(√3, 0, 1)` under the normal `(1, 0, 1/2)`, so its x-coordinate is not the
x-coordinate of the normal times the radius; every vertex of the line strips of the same
call is its normal times the radius. -/
theorem wire_sphere_stack_normal :
    ∃ calls p v,
      glutWireSphere
          ({ sinf := Real.sin, cosf := Real.cos, sqrtf := Real.sqrt, M_PI := Real.pi } : LibM ℝ)
          (World.boot true true []) 2 1 3 = Except.ok calls ∧
      (primitives calls)[0]? = some p ∧ p.mode = GLenum.GL_LINE_LOOP ∧
      p.vertices[0]? = some v ∧
      v.normal = (1, 0, 1 / 2) ∧ v.pos = (Real.sqrt 3, 0, 1) ∧
      v.pos.1 ≠ v.normal.1 * 2 ∧
      ∀ q, q ∈ primitives calls → q.mode = GLenum.GL_LINE_STRIP → ∀ u, u ∈ q.vertices →
        u.pos = (u.normal.1 * 2, u.normal.2.1 * 2, u.normal.2.2 * 2) := by
  obtain ⟨t1, h1⟩ := circle_table_returns Real.sin Real.cos Real.pi (-1) false (by decide)
  obtain ⟨t2, h2⟩ := circle_table_returns Real.sin Real.cos Real.pi 3 true (by decide)
  have hw : wrapInt (-1) = -1 := by decide
  obtain ⟨calls, hc, hp⟩ := wireSphere_primitives
    ({ sinf := Real.sin, cosf := Real.cos, sqrtf := Real.sqrt, M_PI := Real.pi } : LibM ℝ)
    (World.boot true true []) 2 1 3 t1 t2 rfl (by rw [hw]; exact h1) h2
  obtain ⟨_, _, _, _, _, z1⟩ :=
    circle_table_spec Real.sin Real.cos Real.pi true (-1) false (by decide) t1 h1
  obtain ⟨_, _, _, mid2, _, _⟩ :=
    circle_table_spec Real.sin Real.cos Real.pi true 3 true (by decide) t2 h2
  obtain ⟨c0, c1⟩ := z1 (Or.inl (by decide))
  obtain ⟨s21, c21⟩ := mid2 1 (by decide) (by decide)
  have ang : (if true = true then (1 : ℝ) else 2) * Real.pi / ((3 : Int) : ℝ) * ((1 : Int) : ℝ)
      = Real.pi / 3 := by
    simp
  rw [ang] at s21 c21
  rw [Real.sin_pi_div_three] at s21
  rw [Real.cos_pi_div_three] at c21
  have e1 : ((3 : Int) - 1).toNat = 2 := by decide
  have e2 : ((1 : Int) + 1 - 0).toNat = 2 := by decide
  have e3 : ((1 : Int) - 0).toNat = 1 := by decide
  have e4 : ((3 : Int) + 1 - 0).toNat = 4 := by decide
  have hsqrt : Real.sqrt 3 ≠ 2 := by
    intro h
    have h3 : Real.sqrt 3 * Real.sqrt 3 = 3 := Real.mul_self_sqrt (by norm_num)
    rw [h] at h3
    norm_num at h3
  rw [e1, e2, e3, e4] at hp
  refine ⟨calls,
    { mode := GLenum.GL_LINE_LOOP
      vertices := [wireStackVertex t1 t2 2 1 0, wireStackVertex t1 t2 2 1 1] },
    wireStackVertex t1 t2 2 1 0, hc, ?_, rfl, ?_, ?_, ?_, ?_, ?_⟩
  · rw [hp]
    simp [List.range_succ]
  · simp [List.range_succ]
  · simp only [wireStackVertex, c0, c1, c21]
  · simp only [wireStackVertex, c0, c1, c21, s21]
    norm_num
  · simp only [wireStackVertex, c0, c1, s21]
    norm_num
    exact hsqrt
  · intro q hq hmode u hu
    rw [hp] at hq
    simp only [List.mem_append, List.mem_map, List.mem_range] at hq
    rcases hq with ⟨k, _, rfl⟩ | ⟨i, _, rfl⟩
    · cases hmode
    · simp only [List.mem_map, List.mem_range] at hu
      obtain ⟨j, _, rfl⟩ := hu
      rfl

/-! ## The solid cylinder -/

/-- The quad strips of `glutSolidCylinder` in closed form: round `k` goes from boundary
`k` to boundary `k + 1`. -/
theorem cylinder_strips_loop {α : Type} [Field α] (sint cost : Int → α) (radf height zStep : α)
    (slices stacks' : Int) (n : Nat) (hn : (n : Int) = max stacks' 0) (gl0 : List (GLImm α)) :
    (forLoop (fun k : Nat =>
        solidCylinderStack sint cost radf height zStep slices stacks' (1 + (k : Int)))
      n { z0 := 0, z1 := zStep, gl := gl0 }).gl
      = gl0 ++ (List.range n).flatMap (fun k : Nat =>
          [GLImm.glBegin GLenum.GL_QUAD_STRIP]
          ++ (List.range (slices + 1 - 0).toNat).flatMap (fun j : Nat =>
              [GLImm.glNormal3f (cost (0 + (j : Int))) (sint (0 + (j : Int))) 0,
               GLImm.glVertex3f (cost (0 + (j : Int)) * radf) (sint (0 + (j : Int)) * radf)
                 (cylinderZ height zStep stacks' k),
               GLImm.glVertex3f (cost (0 + (j : Int)) * radf) (sint (0 + (j : Int)) * radf)
                 (cylinderZ height zStep stacks' (k + 1))])
          ++ [GLImm.glEnd]) := by
  have key := forLoop_inv
    (fun k : Nat => solidCylinderStack sint cost radf height zStep slices stacks' (1 + (k : Int)))
    (fun (k : Nat) (s : CylinderLocals α) =>
      s.gl = gl0 ++ (List.range k).flatMap (fun k : Nat =>
          [GLImm.glBegin GLenum.GL_QUAD_STRIP]
          ++ (List.range (slices + 1 - 0).toNat).flatMap (fun j : Nat =>
              [GLImm.glNormal3f (cost (0 + (j : Int))) (sint (0 + (j : Int))) 0,
               GLImm.glVertex3f (cost (0 + (j : Int)) * radf) (sint (0 + (j : Int)) * radf)
                 (cylinderZ height zStep stacks' k),
               GLImm.glVertex3f (cost (0 + (j : Int)) * radf) (sint (0 + (j : Int)) * radf)
                 (cylinderZ height zStep stacks' (k + 1))])
          ++ [GLImm.glEnd]) ∧
      (k < n → s.z0 = (k : α) * zStep ∧ s.z1 = ((k : α) + 1) * zStep))
    n { z0 := 0, z1 := zStep, gl := gl0 } ?_ ?_
  · exact key.1
  · refine ⟨by simp, fun _ => ?_⟩
    simp
  · intro k s hk ⟨hgl, hz⟩
    obtain ⟨hz0, hz1⟩ := hz hk
    have hst : stacks' = (n : Int) := by omega
    have hZk : cylinderZ height zStep stacks' k = s.z0 := by
      have hne : ((k : Nat) : Int) ≠ stacks' := by omega
      simp only [cylinderZ, if_neg hne, hz0]
    have hZk1 : cylinderZ height zStep stacks' (k + 1)
        = (if 1 + (k : Int) = stacks' then height else s.z1) := by
      simp only [cylinderZ]
      by_cases hl : (1 : Int) + (k : Int) = stacks'
      · have hl' : ((k + 1 : Nat) : Int) = stacks' := by omega
        rw [if_pos hl, if_pos hl']
      · have hl' : ((k + 1 : Nat) : Int) ≠ stacks' := by omega
        rw [if_neg hl, if_neg hl', hz1]
        push_cast
        ring
    refine ⟨?_, ?_⟩
    · simp only [solidCylinderStack, forRangeIncl_append, hgl, hZk, hZk1, List.range_succ,
        List.flatMap_append, List.flatMap_singleton, List.append_assoc]
    · intro hk1
      have hl : ¬ ((1 : Int) + (k : Int) = stacks') := by omega
      simp only [solidCylinderStack, if_neg hl, hz1]
      constructor
      · push_cast; ring
      · push_cast; ring
theorem forRangeIncl_eq {σ : Type} (lo hi : Int) (body : Int → σ → σ) (s : σ) :
    forRangeIncl lo hi body s
      = forLoop (fun k : Nat => body (lo + (k : Int))) (hi + 1 - lo).toNat s := rfl

/-- The calls of `glutSolidCylinder` in closed form, given its circle table, for `stacks`
other than `2^31 - 1`. -/
theorem solidCylinder_trace {α : Type} [Field α] (m : LibM α) (w : World) (radius height : α)
    (slices stacks' : Int) (t : CircleTable α) (hinit : w.Initialised = true)
    (h1 : fghCircleTable m.sinf m.cosf m.M_PI w.mallocOk (wrapInt (-slices)) false = Except.ok t)
    (hmax : stacks' ≠ 2147483647) :
    glutSolidCylinder m w radius height slices stacks'
      = Except.ok
        ([GLImm.glBegin GLenum.GL_TRIANGLE_FAN, GLImm.glNormal3f 0 0 (-1), GLImm.glVertex3f 0 0 0]
          ++ (List.range (slices + 1 - 0).toNat).flatMap (fun j : Nat =>
              [GLImm.glVertex3f (t.cost.cell (0 + (j : Int)) * radius)
                 (t.sint.cell (0 + (j : Int)) * radius) 0])
          ++ [GLImm.glEnd]
          ++ [GLImm.glBegin GLenum.GL_TRIANGLE_FAN, GLImm.glNormal3f 0 0 1,
              GLImm.glVertex3f 0 0 height]
          ++ (List.range (slices - 0 + 1).toNat).flatMap (fun k : Nat =>
              [GLImm.glVertex3f (t.cost.cell (slices - (k : Int)) * radius)
                 (t.sint.cell (slices - (k : Int)) * radius) height])
          ++ [GLImm.glEnd]
          ++ (List.range stacks'.toNat).flatMap (fun k : Nat =>
              [GLImm.glBegin GLenum.GL_QUAD_STRIP]
              ++ (List.range (slices + 1 - 0).toNat).flatMap (fun j : Nat =>
                  [GLImm.glNormal3f (t.cost.cell (0 + (j : Int))) (t.sint.cell (0 + (j : Int))) 0,
                   GLImm.glVertex3f (t.cost.cell (0 + (j : Int)) * radius)
                     (t.sint.cell (0 + (j : Int)) * radius)
                     (cylinderZ height
                       (height / (((if stacks' > 0 then stacks' else 1) : Int) : α)) stacks' k),
                   GLImm.glVertex3f (t.cost.cell (0 + (j : Int)) * radius)
                     (t.sint.cell (0 + (j : Int)) * radius)
                     (cylinderZ height
                       (height / (((if stacks' > 0 then stacks' else 1) : Int) : α)) stacks'
                       (k + 1))])
              ++ [GLImm.glEnd])) := by
  have hcount : (stacks' + 1 - 1).toNat = stacks'.toNat := by
    congr 1; ring
  have L := cylinder_strips_loop t.sint.cell t.cost.cell radius height
    (height / (((if stacks' > 0 then stacks' else 1) : Int) : α)) slices stacks' stacks'.toNat
    (by rw [Int.toNat_eq_max])
  unfold glutSolidCylinder
  simp only [guard_ok w _ hinit, h1, forRangeIncl_append, forDown_append, if_neg hmax]
  simp only [forRangeIncl_eq, hcount, L, List.append_assoc]
/-- The primitives of `glutSolidCylinder`, given its circle table, for `stacks` other than
`2^31 - 1`: the fan of the base, the fan of the top and one quad strip for each stack. -/
theorem solidCylinder_primitives {α : Type} [Field α] (m : LibM α) (w : World)
    (radius height : α) (slices stacks' : Int) (t : CircleTable α) (hinit : w.Initialised = true)
    (h1 : fghCircleTable m.sinf m.cosf m.M_PI w.mallocOk (wrapInt (-slices)) false = Except.ok t)
    (hmax : stacks' ≠ 2147483647) :
    ∃ calls, glutSolidCylinder m w radius height slices stacks' = Except.ok calls ∧
      primitives calls
        = [{ mode := GLenum.GL_TRIANGLE_FAN
             vertices := { pos := (0, 0, 0), normal := (0, 0, -1) }
               :: (List.range (slices + 1 - 0).toNat).map (fun j : Nat =>
                    capVertex t radius (0 + (j : Int)) 0 (-1)) },
           { mode := GLenum.GL_TRIANGLE_FAN
             vertices := { pos := (0, 0, height), normal := (0, 0, 1) }
               :: (List.range (slices - 0 + 1).toNat).map (fun k : Nat =>
                    capVertex t radius (slices - (k : Int)) height 1) }]
          ++ (List.range stacks'.toNat).map (fun k : Nat =>
              ({ mode := GLenum.GL_QUAD_STRIP
                 vertices := (List.range (slices + 1 - 0).toNat).flatMap (fun j : Nat =>
                    [cylinderVertex t radius (0 + (j : Int))
                       (cylinderZ height
                         (height / (((if stacks' > 0 then stacks' else 1) : Int) : α)) stacks' k),
                     cylinderVertex t radius (0 + (j : Int))
                       (cylinderZ height
                         (height / (((if stacks' > 0 then stacks' else 1) : Int) : α)) stacks'
                         (k + 1))]) } : Primitive α)) := by
  refine ⟨_, solidCylinder_trace m w radius height slices stacks' t hinit h1 hmax, ?_⟩
  have E1 := run_items_keep (List.range (slices + 1 - 0).toNat)
    (fun j : Nat =>
      [GLImm.glVertex3f (t.cost.cell (0 + (j : Int)) * radius)
         (t.sint.cell (0 + (j : Int)) * radius) 0])
    (fun (n : α × α × α) (j : Nat) =>
      [({ pos := (t.cost.cell (0 + (j : Int)) * radius, t.sint.cell (0 + (j : Int)) * radius, 0)
          normal := n } : Vertex α)])
    GLenum.GL_TRIANGLE_FAN
    (fun j n vs d => by simp [GLState.step])
  have E2 := run_items_keep (List.range (slices - 0 + 1).toNat)
    (fun k : Nat =>
      [GLImm.glVertex3f (t.cost.cell (slices - (k : Int)) * radius)
         (t.sint.cell (slices - (k : Int)) * radius) height])
    (fun (n : α × α × α) (k : Nat) =>
      [({ pos := (t.cost.cell (slices - (k : Int)) * radius,
                  t.sint.cell (slices - (k : Int)) * radius, height)
          normal := n } : Vertex α)])
    GLenum.GL_TRIANGLE_FAN
    (fun j n vs d => by simp [GLState.step])
  have E3 := fun k : Nat => run_items_set (List.range (slices + 1 - 0).toNat)
    (fun j : Nat =>
      [GLImm.glNormal3f (t.cost.cell (0 + (j : Int))) (t.sint.cell (0 + (j : Int))) 0,
       GLImm.glVertex3f (t.cost.cell (0 + (j : Int)) * radius)
         (t.sint.cell (0 + (j : Int)) * radius)
         (cylinderZ height
           (height / (((if stacks' > 0 then stacks' else 1) : Int) : α)) stacks' k),
       GLImm.glVertex3f (t.cost.cell (0 + (j : Int)) * radius)
         (t.sint.cell (0 + (j : Int)) * radius)
         (cylinderZ height
           (height / (((if stacks' > 0 then stacks' else 1) : Int) : α)) stacks'
           (k + 1))])
    (fun j : Nat => (t.cost.cell (0 + (j : Int)), t.sint.cell (0 + (j : Int)), (0 : α)))
    (fun j : Nat =>
      [cylinderVertex t radius (0 + (j : Int))
         (cylinderZ height
           (height / (((if stacks' > 0 then stacks' else 1) : Int) : α)) stacks' k),
       cylinderVertex t radius (0 + (j : Int))
         (cylinderZ height
           (height / (((if stacks' > 0 then stacks' else 1) : Int) : α)) stacks'
           (k + 1))])
    GLenum.GL_QUAD_STRIP
    (fun j n vs d => by simp [GLState.step, cylinderVertex])
  have EB := run_blocks (List.range stacks'.toNat)
    (fun k : Nat =>
      [GLImm.glBegin GLenum.GL_QUAD_STRIP]
      ++ (List.range (slices + 1 - 0).toNat).flatMap (fun j : Nat =>
          [GLImm.glNormal3f (t.cost.cell (0 + (j : Int))) (t.sint.cell (0 + (j : Int))) 0,
           GLImm.glVertex3f (t.cost.cell (0 + (j : Int)) * radius)
             (t.sint.cell (0 + (j : Int)) * radius)
             (cylinderZ height
               (height / (((if stacks' > 0 then stacks' else 1) : Int) : α)) stacks' k),
           GLImm.glVertex3f (t.cost.cell (0 + (j : Int)) * radius)
             (t.sint.cell (0 + (j : Int)) * radius)
             (cylinderZ height
               (height / (((if stacks' > 0 then stacks' else 1) : Int) : α)) stacks'
               (k + 1))])
      ++ [GLImm.glEnd])
    (fun (n : α × α × α) (_ : Nat) => (List.range (slices + 1 - 0).toNat).foldl
      (fun (_ : α × α × α) (j : Nat) =>
        (t.cost.cell (0 + (j : Int)), t.sint.cell (0 + (j : Int)), (0 : α))) n)
    (fun k : Nat =>
      ({ mode := GLenum.GL_QUAD_STRIP
         vertices := (List.range (slices + 1 - 0).toNat).flatMap (fun j : Nat =>
            [cylinderVertex t radius (0 + (j : Int))
               (cylinderZ height
                 (height / (((if stacks' > 0 then stacks' else 1) : Int) : α)) stacks' k),
             cylinderVertex t radius (0 + (j : Int))
               (cylinderZ height
                 (height / (((if stacks' > 0 then stacks' else 1) : Int) : α)) stacks'
                 (k + 1))]) } : Primitive α))
    (by
      intro k n d
      simp only [List.foldl_append, List.foldl_cons, List.foldl_nil, GLState.step, E3 k,
        List.nil_append])
  unfold primitives
  simp only [List.foldl_append, List.foldl_cons, List.foldl_nil, GLState.step, E1, E2, EB,
    List.nil_append]
  simp only [flatMap_unit, List.singleton_append, List.cons_append, List.nil_append, capVertex]
/-- C20 (amended): for every `slices ≥ 0` whose circle table can be allocated and every
`stacks` from 1 to `2^31 - 2`, `glutSolidCylinder` returns and specifies two triangle fans
of `slices + 2` vertices, the first with every vertex at `z = 0` and the second with
every vertex at `z = height`, followed by exactly `stacks` quad strips of `2 * (slices + 1)` vertices; strip `k` goes
from boundary `k` to boundary `k + 1`, boundary 0 being `z = 0` and the last boundary
being `height` itself; every vertex of a strip is at `(x, y) = radius * (cos_j, sin_j)`
for an entry `j` of the circle table, under the normal `(cos_j, sin_j, 0)`, so that
`x^2 + y^2 = radius^2` when the squares of sine and cosine add up to 1. -/
theorem solid_cylinder_structure {α : Type} [Field α] (m : LibM α) (w : World)
    (radius height : α) (slices stacks' : Int) (hinit : w.Initialised = true)
    (hm : w.mallocOk = true) (hs : 0 ≤ slices) (hsmax : slices ≤ 2147483646)
    (hk : 1 ≤ stacks') (hkmax : stacks' ≤ 2147483646) :
    ∃ t calls,
      fghCircleTable m.sinf m.cosf m.M_PI w.mallocOk (-slices) false = Except.ok t ∧
      glutSolidCylinder m w radius height slices stacks' = Except.ok calls ∧
      primitives calls
        = [{ mode := GLenum.GL_TRIANGLE_FAN
             vertices := { pos := (0, 0, 0), normal := (0, 0, -1) }
               :: (List.range (slices + 1).toNat).map (fun j : Nat =>
                    capVertex t radius (j : Int) 0 (-1)) },
           { mode := GLenum.GL_TRIANGLE_FAN
             vertices := { pos := (0, 0, height), normal := (0, 0, 1) }
               :: (List.range (slices + 1).toNat).map (fun k : Nat =>
                    capVertex t radius (slices - (k : Int)) height 1) }]
          ++ (List.range stacks'.toNat).map (fun k : Nat =>
              ({ mode := GLenum.GL_QUAD_STRIP
                 vertices := (List.range (slices + 1).toNat).flatMap (fun j : Nat =>
                    [cylinderVertex t radius (j : Int)
                       (cylinderZ height (height / ((stacks' : Int) : α)) stacks' k),
                     cylinderVertex t radius (j : Int)
                       (cylinderZ height (height / ((stacks' : Int) : α)) stacks' (k + 1))]) }
                : Primitive α)) ∧
      (primitives calls).map (fun p => (p.mode, p.vertices.length))
        = [(GLenum.GL_TRIANGLE_FAN, (slices + 1).toNat + 1),
           (GLenum.GL_TRIANGLE_FAN, (slices + 1).toNat + 1)]
          ++ List.replicate stacks'.toNat (GLenum.GL_QUAD_STRIP, 2 * (slices + 1).toNat) ∧
      cylinderZ height (height / ((stacks' : Int) : α)) stacks' 0 = 0 ∧
      cylinderZ height (height / ((stacks' : Int) : α)) stacks' stacks'.toNat = height ∧
      ((∀ x, m.sinf x ^ 2 + m.cosf x ^ 2 = 1) → ∀ (j : Int) (z : α), 0 ≤ j → j ≤ slices →
        (cylinderVertex t radius j z).pos.1 ^ 2 + (cylinderVertex t radius j z).pos.2.1 ^ 2
          = radius ^ 2) := by
  obtain ⟨hw, habs⟩ := neg_slices hs hsmax
  obtain ⟨t, h1⟩ := circle_table_returns m.sinf m.cosf m.M_PI (-slices) false habs
  have h1' : fghCircleTable m.sinf m.cosf m.M_PI w.mallocOk (wrapInt (-slices)) false
      = Except.ok t := by
    rw [hm, hw]; exact h1
  have h1m : fghCircleTable m.sinf m.cosf m.M_PI w.mallocOk (-slices) false = Except.ok t := by
    rw [hm]; exact h1
  obtain ⟨calls, hc, hp⟩ :=
    solidCylinder_primitives m w radius height slices stacks' t hinit h1' (by omega)
  have hpos : stacks' > 0 := by omega
  simp only [sub_zero, zero_add, hpos, if_true] at hp
  refine ⟨t, calls, h1m, hc, hp, ?_, ?_, ?_, ?_⟩
  · rw [hp]
    simp only [List.map_append, List.map_cons, List.map_nil, List.map_map, List.length_cons,
      List.length_map, List.length_range, Function.comp_def, strip_lengths, List.map_const',
      List.cons_append, List.nil_append]
  · have hne : ((0 : Nat) : Int) ≠ stacks' := by omega
    simp only [cylinderZ, if_neg hne]
    simp
  · have he : ((stacks'.toNat : Nat) : Int) = stacks' := Int.toNat_of_nonneg (by omega)
    simp only [cylinderZ, if_pos he]
  · intro hpyth j z j0 j1
    have u := circle_unit m.sinf m.cosf m.M_PI true (-slices) false (by omega) hpyth t h1
    rw [abs_neg, abs_of_nonneg hs] at u
    have uj := u j j0 j1
    simp only [cylinderVertex]
    have e : (t.cost.cell j * radius) ^ 2 + (t.sint.cell j * radius) ^ 2
        = radius ^ 2 * (t.sint.cell j ^ 2 + t.cost.cell j ^ 2) := by ring
    rw [e, uj, mul_one]

/-- Witness for C20: the real sine and cosine, six slices and three stacks. -/
theorem solid_cylinder_structure_witness :
    ∃ calls,
      glutSolidCylinder
          ({ sinf := Real.sin, cosf := Real.cos, sqrtf := Real.sqrt, M_PI := Real.pi } : LibM ℝ)
          (World.boot true true []) 1 5 6 3 = Except.ok calls ∧
      (primitives calls).map (fun p => (p.mode, p.vertices.length))
        = [(GLenum.GL_TRIANGLE_FAN, 8), (GLenum.GL_TRIANGLE_FAN, 8), (GLenum.GL_QUAD_STRIP, 14),
           (GLenum.GL_QUAD_STRIP, 14), (GLenum.GL_QUAD_STRIP, 14)] := by
  obtain ⟨t, calls, _, hc, _, hn, _⟩ := solid_cylinder_structure
    ({ sinf := Real.sin, cosf := Real.cos, sqrtf := Real.sqrt, M_PI := Real.pi } : LibM ℝ)
    (World.boot true true []) 1 5 6 3 rfl rfl (by decide) (by decide) (by decide) (by decide)
  refine ⟨calls, hc, ?_⟩
  rw [hn]
  have e1 : ((6 : Int) + 1).toNat = 7 := by decide
  have e2 : (3 : Int).toNat = 3 := by decide
  rw [e1, e2]
  rfl

/-- For `stacks = 2^31 - 1` a call of `glutSolidCylinder` that has its circle table does
not return: the loop over the stacks does not end. -/
theorem solidCylinder_noReturn {α : Type} [Field α] (m : LibM α) (w : World)
    (radius height : α) (slices : Int) (t : CircleTable α) (hinit : w.Initialised = true)
    (h1 : fghCircleTable m.sinf m.cosf m.M_PI w.mallocOk (wrapInt (-slices)) false = Except.ok t) :
    glutSolidCylinder m w radius height slices 2147483647 = Except.error Abort.noReturn := by
  unfold glutSolidCylinder
  simp only [guard_ok w _ hinit, h1, if_true]

/-- C20 fails as stated for `stacks = 2^31 - 1`, which is a `stacks ≥ 1`: with the real
functions and six slices the call does not return, the counter `i` of the loop
`for (i = 1; i <= stacks; i++)` being an `int` that never passes `2^31 - 1`, so that the
quad strips are not `stacks` in number and the call has no list of calls as its result. -/
theorem solid_cylinder_structure_counterexample :
    (1 : Int) ≤ 2147483647 ∧
    glutSolidCylinder
        ({ sinf := Real.sin, cosf := Real.cos, sqrtf := Real.sqrt, M_PI := Real.pi } : LibM ℝ)
        (World.boot true true []) 1 5 6 2147483647 = Except.error Abort.noReturn ∧
    ∀ calls,
      glutSolidCylinder
          ({ sinf := Real.sin, cosf := Real.cos, sqrtf := Real.sqrt, M_PI := Real.pi } : LibM ℝ)
          (World.boot true true []) 1 5 6 2147483647 ≠ Except.ok calls := by
  obtain ⟨t, h1⟩ := circle_table_returns Real.sin Real.cos Real.pi (-6) false (by decide)
  have hw : wrapInt (-6) = -6 := by decide
  have h := solidCylinder_noReturn
    ({ sinf := Real.sin, cosf := Real.cos, sqrtf := Real.sqrt, M_PI := Real.pi } : LibM ℝ)
    (World.boot true true []) 1 5 6 t rfl (by rw [hw]; exact h1)
  refine ⟨by decide, h, ?_⟩
  intro calls hc
  rw [h] at hc
  cases hc


/-! ## Arguments below 1 -/

theorem forRange_empty {σ : Type} (lo hi : Int) (body : Int → σ → σ) (s : σ) (h : hi ≤ lo) :
    forRange lo hi body s = s := by
  unfold forRange
  have : (hi - lo).toNat = 0 := by omega
  rw [this]
  rfl

/-- In `glutSolidCone` every `stacks` argument below 1 other than `-2^31` has the effect
of 1: the steps are computed with the divisor 1 and no quad strip is drawn. -/
theorem solidCone_stacks {α : Type} [Field α] (m : LibM α) (w : World) (base height : α)
    (slices v : Int) (hlo : -2147483648 < v) (hv : v < 1) :
    glutSolidCone m w base height slices v = glutSolidCone m w base height slices 1 := by
  have hsub : isub v 1 = v - 1 := by
    unfold isub
    exact wrapInt_of_range (by omega) (by omega)
  have hsub1 : isub 1 1 = 0 := by decide
  have hnp : ¬ (v > 0) := by omega
  have h1 : ((1 : Int) > 0) := by decide
  unfold glutSolidCone
  simp only [hsub, hsub1, hnp, h1, if_true, if_false,
    forRange_empty 0 (v - 1) _ _ (by omega), forRange_empty 0 0 _ _ (le_refl 0)]

/-- In `glutSolidSphere` the `stacks` argument 0 has the effect of 1: in both cases the
two fans use the last entry `(0, -1)` of the half-circle table and no quad strip is
drawn. -/
theorem solidSphere_stacks_zero {α : Type} [Field α] (m : LibM α) (w : World) (radius : α)
    (slices : Int) :
    glutSolidSphere m w radius slices 0 = glutSolidSphere m w radius slices 1 := by
  by_cases hinit : w.Initialised = true
  swap
  · unfold glutSolidSphere
    simp only [FREEGLUT_EXIT_IF_NOT_INITIALISED, hinit, Bool.false_eq_true, if_false]
  by_cases hm : w.mallocOk = true
  swap
  · have hf : ∀ n h, fghCircleTable m.sinf m.cosf m.M_PI w.mallocOk n h
        = Except.error (Abort.outOfMemory "Failed to allocate memory in fghCircleTable") := by
      intro n h
      unfold fghCircleTable
      simp [hm]
    unfold glutSolidSphere
    simp only [hf]
  cases h1 : fghCircleTable m.sinf m.cosf m.M_PI w.mallocOk (wrapInt (-slices)) false with
  | error e =>
    unfold glutSolidSphere
    simp only [guard_ok w _ hinit, h1]
  | ok t1 =>
    obtain ⟨t2, h2⟩ := circle_table_returns m.sinf m.cosf m.M_PI 0 true (by decide)
    obtain ⟨t3, h3⟩ := circle_table_returns m.sinf m.cosf m.M_PI 1 true (by decide)
    obtain ⟨_, _, _, _, ⟨a1, a2⟩, _⟩ :=
      circle_table_spec m.sinf m.cosf m.M_PI true 0 true (by decide) t2 h2
    obtain ⟨_, _, _, _, ⟨b1, b2⟩, _⟩ :=
      circle_table_spec m.sinf m.cosf m.M_PI true 1 true (by decide) t3 h3
    have e0 : |(0 : Int)| = 0 := by decide
    have e1 : |(1 : Int)| = 1 := by decide
    rw [e0] at a1 a2
    rw [e1] at b1 b2
    simp only [if_true] at a2 b2
    have h2 : fghCircleTable m.sinf m.cosf m.M_PI w.mallocOk 0 true = Except.ok t2 := by
      rw [hm]; exact h2
    have h3 : fghCircleTable m.sinf m.cosf m.M_PI w.mallocOk 1 true = Except.ok t3 := by
      rw [hm]; exact h3
    rw [solidSphere_trace m w radius slices 0 t1 t2 hinit h1 h2 (by decide),
      solidSphere_trace m w radius slices 1 t1 t3 hinit h1 h3 (by decide)]
    have c0 : ((0 : Int) - 2).toNat = 0 := by decide
    have c1 : ((1 : Int) - 2).toNat = 0 := by decide
    have i0 : ¬ ((0 : Int) > 0) := by decide
    have i1 : ((1 : Int) > 0) := by decide
    have j0 : ¬ ((3 : Int) ≤ 0) := by decide
    have j1 : ¬ ((3 : Int) ≤ 1) := by decide
    simp only [c0, c1, i0, i1, j0, j1, if_true, if_false, a1, a2, b1, b2, List.range_zero,
      List.flatMap_nil]
/-- C16 (amended): in `glutSolidCone` a `stacks` argument `v < 1` (above `-2^31`) is
clamped to 1, that is, the calls made are those made for `stacks = 1` with all other
arguments equal; the same holds in `glutSolidSphere` for `stacks = 0`. -/
theorem quadric_clamping {α : Type} [Field α] (m : LibM α) (w : World) (x y : α)
    (slices v : Int) (hlo : -2147483648 < v) (hv : v < 1) :
    glutSolidCone m w x y slices v = glutSolidCone m w x y slices 1 ∧
    glutSolidSphere m w x slices 0 = glutSolidSphere m w x slices 1 :=
  ⟨solidCone_stacks m w x y slices v hlo hv, solidSphere_stacks_zero m w x slices⟩

/-- Witness for C16: a cone of 8 slices with `stacks = -3`, over the reals. -/
theorem quadric_clamping_witness :
    glutSolidCone
        ({ sinf := Real.sin, cosf := Real.cos, sqrtf := Real.sqrt, M_PI := Real.pi } : LibM ℝ)
        (World.boot true true []) 1 2 8 (-3)
      = glutSolidCone
        ({ sinf := Real.sin, cosf := Real.cos, sqrtf := Real.sqrt, M_PI := Real.pi } : LibM ℝ)
        (World.boot true true []) 1 2 8 1 ∧
    glutSolidSphere
        ({ sinf := Real.sin, cosf := Real.cos, sqrtf := Real.sqrt, M_PI := Real.pi } : LibM ℝ)
        (World.boot true true []) 1 8 0
      = glutSolidSphere
        ({ sinf := Real.sin, cosf := Real.cos, sqrtf := Real.sqrt, M_PI := Real.pi } : LibM ℝ)
        (World.boot true true []) 1 8 1 :=
  quadric_clamping
    ({ sinf := Real.sin, cosf := Real.cos, sqrtf := Real.sqrt, M_PI := Real.pi } : LibM ℝ)
    (World.boot true true []) 1 2 8 (-3) (by decide) (by decide)

/-- C16 fails as stated: in an initialised program, over the rationals, the primitives
emitted for a `slices` or `stacks` argument of 0 differ from those emitted for 1 in the
number of primitives or of their vertices, for `slices` in all six functions and for
`stacks` in `glutWireSphere`, `glutWireCone`, `glutSolidCylinder` and `glutWireCylinder`
(the results give the mode and the vertex count of each primitive); and in
`glutSolidSphere` the ring of the first fan lies at `z = 1` for `stacks = -1` and at
`z = -1` for `stacks = 1`. -/
theorem quadric_clamping_counterexample :
    (emitted (glutSolidSphere
        ({ sinf := fun x => x, cosf := fun x => x, sqrtf := fun x => x, M_PI := 3 } : LibM ℚ)
        (World.boot true true []) 1 0 1)
      = Except.ok [(GLenum.GL_TRIANGLE_FAN, 2), (GLenum.GL_TRIANGLE_FAN, 2)] ∧
     emitted (glutSolidSphere
        ({ sinf := fun x => x, cosf := fun x => x, sqrtf := fun x => x, M_PI := 3 } : LibM ℚ)
        (World.boot true true []) 1 1 1)
      = Except.ok [(GLenum.GL_TRIANGLE_FAN, 3), (GLenum.GL_TRIANGLE_FAN, 3)]) ∧
    (emitted (glutWireSphere
        ({ sinf := fun x => x, cosf := fun x => x, sqrtf := fun x => x, M_PI := 3 } : LibM ℚ)
        (World.boot true true []) 1 0 1)
      = Except.ok [] ∧
     emitted (glutWireSphere
        ({ sinf := fun x => x, cosf := fun x => x, sqrtf := fun x => x, M_PI := 3 } : LibM ℚ)
        (World.boot true true []) 1 1 1)
      = Except.ok [(GLenum.GL_LINE_STRIP, 2)] ∧
     emitted (glutWireSphere
        ({ sinf := fun x => x, cosf := fun x => x, sqrtf := fun x => x, M_PI := 3 } : LibM ℚ)
        (World.boot true true []) 1 1 0)
      = Except.ok [(GLenum.GL_LINE_STRIP, 1)]) ∧
    (emitted (glutSolidCone
        ({ sinf := fun x => x, cosf := fun x => x, sqrtf := fun x => x, M_PI := 3 } : LibM ℚ)
        (World.boot true true []) 1 1 0 1)
      = Except.ok [(GLenum.GL_TRIANGLE_FAN, 2), (GLenum.GL_TRIANGLES, 0)] ∧
     emitted (glutSolidCone
        ({ sinf := fun x => x, cosf := fun x => x, sqrtf := fun x => x, M_PI := 3 } : LibM ℚ)
        (World.boot true true []) 1 1 1 1)
      = Except.ok [(GLenum.GL_TRIANGLE_FAN, 3), (GLenum.GL_TRIANGLES, 3)]) ∧
    (emitted (glutWireCone
        ({ sinf := fun x => x, cosf := fun x => x, sqrtf := fun x => x, M_PI := 3 } : LibM ℚ)
        (World.boot true true []) 1 1 0 1)
      = Except.ok [(GLenum.GL_LINE_LOOP, 0), (GLenum.GL_LINES, 0)] ∧
     emitted (glutWireCone
        ({ sinf := fun x => x, cosf := fun x => x, sqrtf := fun x => x, M_PI := 3 } : LibM ℚ)
        (World.boot true true []) 1 1 1 1)
      = Except.ok [(GLenum.GL_LINE_LOOP, 1), (GLenum.GL_LINES, 2)] ∧
     emitted (glutWireCone
        ({ sinf := fun x => x, cosf := fun x => x, sqrtf := fun x => x, M_PI := 3 } : LibM ℚ)
        (World.boot true true []) 1 1 1 0)
      = Except.ok [(GLenum.GL_LINES, 2)]) ∧
    (emitted (glutSolidCylinder
        ({ sinf := fun x => x, cosf := fun x => x, sqrtf := fun x => x, M_PI := 3 } : LibM ℚ)
        (World.boot true true []) 1 1 0 1)
      = Except.ok [(GLenum.GL_TRIANGLE_FAN, 2), (GLenum.GL_TRIANGLE_FAN, 2),
          (GLenum.GL_QUAD_STRIP, 2)] ∧
     emitted (glutSolidCylinder
        ({ sinf := fun x => x, cosf := fun x => x, sqrtf := fun x => x, M_PI := 3 } : LibM ℚ)
        (World.boot true true []) 1 1 1 1)
      = Except.ok [(GLenum.GL_TRIANGLE_FAN, 3), (GLenum.GL_TRIANGLE_FAN, 3),
          (GLenum.GL_QUAD_STRIP, 4)] ∧
     emitted (glutSolidCylinder
        ({ sinf := fun x => x, cosf := fun x => x, sqrtf := fun x => x, M_PI := 3 } : LibM ℚ)
        (World.boot true true []) 1 1 1 0)
      = Except.ok [(GLenum.GL_TRIANGLE_FAN, 3), (GLenum.GL_TRIANGLE_FAN, 3)]) ∧
    (emitted (glutWireCylinder
        ({ sinf := fun x => x, cosf := fun x => x, sqrtf := fun x => x, M_PI := 3 } : LibM ℚ)
        (World.boot true true []) 1 1 0 1)
      = Except.ok [(GLenum.GL_LINE_LOOP, 0), (GLenum.GL_LINE_LOOP, 0), (GLenum.GL_LINES, 0)] ∧
     emitted (glutWireCylinder
        ({ sinf := fun x => x, cosf := fun x => x, sqrtf := fun x => x, M_PI := 3 } : LibM ℚ)
        (World.boot true true []) 1 1 1 1)
      = Except.ok [(GLenum.GL_LINE_LOOP, 1), (GLenum.GL_LINE_LOOP, 1), (GLenum.GL_LINES, 2)] ∧
     emitted (glutWireCylinder
        ({ sinf := fun x => x, cosf := fun x => x, sqrtf := fun x => x, M_PI := 3 } : LibM ℚ)
        (World.boot true true []) 1 1 1 0)
      = Except.ok [(GLenum.GL_LINE_LOOP, 1), (GLenum.GL_LINES, 2)]) ∧
    (∃ calls calls',
      glutSolidSphere
        ({ sinf := fun x => x, cosf := fun x => x, sqrtf := fun x => x, M_PI := 3 } : LibM ℚ)
        (World.boot true true []) 1 0 (-1) = Except.ok calls ∧
      glutSolidSphere
        ({ sinf := fun x => x, cosf := fun x => x, sqrtf := fun x => x, M_PI := 3 } : LibM ℚ)
        (World.boot true true []) 1 0 1 = Except.ok calls' ∧
      (((primitives calls)[0]?).bind (fun p => p.vertices[1]?)).map (fun v => v.pos.2.2)
        = some (1 : ℚ) ∧
      (((primitives calls')[0]?).bind (fun p => p.vertices[1]?)).map (fun v => v.pos.2.2)
        = some (-1 : ℚ)) := by
  refine ⟨⟨rfl, rfl⟩, ⟨rfl, rfl, rfl⟩, ⟨rfl, rfl⟩, ⟨rfl, rfl, rfl⟩, ⟨rfl, rfl, rfl⟩,
    ⟨rfl, rfl, rfl⟩, ?_⟩
  obtain ⟨t1, h1⟩ := circle_table_returns (fun x : ℚ => x) (fun x : ℚ => x) 3 0 false
    (by decide)
  obtain ⟨t2, h2⟩ := circle_table_returns (fun x : ℚ => x) (fun x : ℚ => x) 3 (-1) true
    (by decide)
  obtain ⟨t3, h3⟩ := circle_table_returns (fun x : ℚ => x) (fun x : ℚ => x) 3 1 true
    (by decide)
  have hw : wrapInt (-0) = 0 := by decide
  obtain ⟨calls, hc, hp⟩ := solidSphere_primitives
    ({ sinf := fun x => x, cosf := fun x => x, sqrtf := fun x => x, M_PI := 3 } : LibM ℚ)
    (World.boot true true []) 1 0 (-1) t1 t2 rfl (by rw [hw]; exact h1) h2 (by decide)
  obtain ⟨calls', hc', hp'⟩ := solidSphere_primitives
    ({ sinf := fun x => x, cosf := fun x => x, sqrtf := fun x => x, M_PI := 3 } : LibM ℚ)
    (World.boot true true []) 1 0 1 t1 t3 rfl (by rw [hw]; exact h1) h3 (by decide)
  obtain ⟨_, _, _, _, _, z2⟩ :=
    circle_table_spec (fun x : ℚ => x) (fun x : ℚ => x) 3 true (-1) true (by decide) t2 h2
  obtain ⟨_, _, _, _, ⟨_, f3⟩, _⟩ :=
    circle_table_spec (fun x : ℚ => x) (fun x : ℚ => x) 3 true 1 true (by decide) t3 h3
  obtain ⟨_, c20⟩ := z2 (Or.inl (by decide))
  have e1 : |(1 : Int)| = 1 := by decide
  rw [e1] at f3
  simp only [if_true] at f3
  have n1 : ((0 : Int) - 0 + 1).toNat = 1 := by decide
  have i0 : ¬ ((-1 : Int) > 0) := by decide
  have i1 : ((1 : Int) > 0) := by decide
  rw [n1] at hp hp'
  simp only [i0, i1, if_true, if_false] at hp hp'
  refine ⟨calls, calls', hc, hc', ?_, ?_⟩
  · rw [hp]
    simp [sphereVertex, c20]
  · rw [hp']
    simp [sphereVertex, f3]

/-! ## The catalog as a set of surfaces -/

/-- C26: for each of the six cataloged solids and each face `f`, with `v0`, `v1`, `v2` the
first three vertices of the face in table order and `n` the stated normal of the face
(literals read as exact decimals), `((v1 - v0) x (v2 - v0)) . n` is strictly positive, so
the face is listed counter-clockwise seen from the side its normal points to, and
`n . v0` is strictly positive, so that side is the one away from the origin. -/
theorem catalog_winding (s : Shape) (f : Nat) (hf : f < s.tables.NUM_FACES) :
    0 < dot3 (cross3 (sub3 (s.tables.corner f 1) (s.tables.corner f 0))
                (sub3 (s.tables.corner f 2) (s.tables.corner f 0))) (s.tables.faceNormal f) ∧
    0 < dot3 (s.tables.faceNormal f) (s.tables.corner f 0) := by
  have key : ∀ s : Shape, ∀ f, f < s.tables.NUM_FACES →
      0 < dot3 (cross3 (sub3 (s.tables.corner f 1) (s.tables.corner f 0))
                  (sub3 (s.tables.corner f 2) (s.tables.corner f 0))) (s.tables.faceNormal f) ∧
      0 < dot3 (s.tables.faceNormal f) (s.tables.corner f 0) := by
    intro s
    cases s <;> decide!
  exact key s f hf

/-- Witness for C26: face 0 of the cube, `(0.5, 0.5, 0.5)`, `(-0.5, 0.5, 0.5)`,
`(-0.5, -0.5, 0.5)` under the normal `(0, 0, 1)`. -/
theorem catalog_winding_witness :
    0 < dot3 (cross3 (sub3 (Shape.cube.tables.corner 0 1) (Shape.cube.tables.corner 0 0))
                (sub3 (Shape.cube.tables.corner 0 2) (Shape.cube.tables.corner 0 0)))
          (Shape.cube.tables.faceNormal 0) ∧
    0 < dot3 (Shape.cube.tables.faceNormal 0) (Shape.cube.tables.corner 0 0) :=
  catalog_winding Shape.cube 0 (by decide)

/-- C28: for each of the six cataloged solids the directed edges of all faces are pairwise
distinct; for every directed edge `(a, b)` of a face the reversed edge `(b, a)` occurs
exactly once among all directed edges, and not in that face; every vertex number below
the vertex count starts an edge; and with `E` half the number of directed edges (12, 30,
30, 12, 24 and 6 undirected edges), `V - E + F = 2`. -/
theorem catalog_closed (s : Shape) :
    s.tables.edges.Nodup ∧
    (∀ f, f < s.tables.NUM_FACES → ∀ e ∈ s.tables.faceEdges f,
      s.tables.edges.count (e.2, e.1) = 1 ∧ (e.2, e.1) ∉ s.tables.faceEdges f) ∧
    (∀ v, v < s.tables.NUM_VERT → ∃ e ∈ s.tables.edges, e.1 = v) ∧
    s.tables.edges.length =
      2 * (match s with
        | .cube => 12 | .dodecahedron => 30 | .icosahedron => 30
        | .octahedron => 12 | .rhombicdodecahedron => 24 | .tetrahedron => 6) ∧
    s.tables.NUM_VERT + s.tables.NUM_FACES = s.tables.edges.length / 2 + 2 := by
  cases s <;> decide!

/-- C29: for the cube, the rhombic dodecahedron and the dodecahedron (the three solids
whose cache has an index array, `F` faces of `E` vertices), the generate routine returns
with an index array in which, for every face `f < F` and every entry `e` of the
decomposition table, the value `f*E + decomp[e]` computed in `int` is the mathematical
one, is at most `F*E - 1` (23, 47 and 59) and so below 256, is stored unchanged by the
conversion to an unsigned byte, and as stored index is below the number `F*E` of entries of
the flat vertex and normal arrays, all three floats of the entry lying inside the arrays. -/
theorem generated_indices_fit (s : Shape)
    (hs : s = Shape.cube ∨ s = Shape.rhombicdodecahedron ∨ s = Shape.dodecahedron) :
    s.tables.decomposed = true ∧
    s.tables.NUM_FACES * s.tables.NUM_EDGE_PER_FACE - 1 =
      (match s with
        | .cube => 23 | .rhombicdodecahedron => 47 | .dodecahedron => 59 | _ => 0) ∧
    ∃ c idx samps, fghShapeGenerate s.tables (ShapeCache.static s.tables) = some c ∧
      c.vertIdxs = some idx ∧ decompOf s.tables.NUM_EDGE_PER_FACE = some samps ∧
      c.verts.size = 3 * (s.tables.NUM_FACES * s.tables.NUM_EDGE_PER_FACE) ∧
      c.norms.size = 3 * (s.tables.NUM_FACES * s.tables.NUM_EDGE_PER_FACE) ∧
      ∀ f e : Nat, f < s.tables.NUM_FACES → e < samps.length →
        iadd (imul (f : Int) (s.tables.NUM_EDGE_PER_FACE : Int))
            ((readArr samps (e : Int)).val : Int)
          = ((f * s.tables.NUM_EDGE_PER_FACE + (readArr samps (e : Int)).val : Nat) : Int) ∧
        f * s.tables.NUM_EDGE_PER_FACE + (readArr samps (e : Int)).val
          ≤ s.tables.NUM_FACES * s.tables.NUM_EDGE_PER_FACE - 1 ∧
        f * s.tables.NUM_EDGE_PER_FACE + (readArr samps (e : Int)).val < 256 ∧
        (toGLubyte ((f * s.tables.NUM_EDGE_PER_FACE + (readArr samps (e : Int)).val : Nat) : Int)).val
          = f * s.tables.NUM_EDGE_PER_FACE + (readArr samps (e : Int)).val ∧
        (idx.cell ((f * samps.length + e : Nat) : Int)).val
          = f * s.tables.NUM_EDGE_PER_FACE + (readArr samps (e : Int)).val ∧
        (idx.cell ((f * samps.length + e : Nat) : Int)).val
          < s.tables.NUM_FACES * s.tables.NUM_EDGE_PER_FACE ∧
        3 * (idx.cell ((f * samps.length + e : Nat) : Int)).val + 2 < c.verts.size ∧
        3 * (idx.cell ((f * samps.length + e : Nat) : Int)).val + 2 < c.norms.size := by
  obtain ⟨c, hc, _, hv, hn, _, hsome⟩ := shapeGenerate_static s
  have hd : ∃ samps, decompOf s.tables.NUM_EDGE_PER_FACE = some samps := by
    rcases hs with h | h | h <;> subst h <;> exact ⟨_, rfl⟩
  obtain ⟨samps, hsamps⟩ := hd
  obtain ⟨idx, hidx, hf⟩ := hsome samps hsamps
  obtain ⟨hlen, hlt, _⟩ := decomp_entries _ samps hsamps
  have hE : s.tables.NUM_EDGE_PER_FACE = 4 ∨ s.tables.NUM_EDGE_PER_FACE = 5 := by
    rcases hs with h | h | h <;> subst h <;> decide
  have hF : s.tables.NUM_FACES ≤ 12 := by
    rcases hs with h | h | h <;> subst h <;> decide
  have hTRI : s.tables.VERT_PER_OBJ_TRI = s.tables.NUM_FACES * samps.length := by
    rcases hs with h | h | h <;> subst h <;> cases hsamps <;> rfl
  have hN : s.tables.VERT_ELEM_PER_OBJ = 3 * (s.tables.NUM_FACES * s.tables.NUM_EDGE_PER_FACE) := by
    rcases hs with h | h | h <;> subst h <;> rfl
  refine ⟨by rcases hs with h | h | h <;> subst h <;> rfl,
    by rcases hs with h | h | h <;> subst h <;> rfl,
    c, idx, samps, hc, hidx, hsamps, by rw [hv.1, ← hN]; rfl, by rw [hn.1, ← hN]; rfl, ?_⟩
  have hsz : c.verts.size = 3 * (s.tables.NUM_FACES * s.tables.NUM_EDGE_PER_FACE) := by
    rw [hv.1, ← hN]; rfl
  have hsz' : c.norms.size = 3 * (s.tables.NUM_FACES * s.tables.NUM_EDGE_PER_FACE) := by
    rw [hn.1, ← hN]; rfl
  intro f e hfF he
  have hdE := hlt e he
  generalize hdv : (readArr samps (e : Int)).val = d at hdE ⊢
  generalize s.tables.NUM_EDGE_PER_FACE = E at hE hdE hf hsz hsz' ⊢
  generalize s.tables.NUM_FACES = F at hF hfF hTRI hf hsz hsz' ⊢
  have hfE : f * E + d < F * E := by
    have := Nat.mul_le_mul_right E (Nat.succ_le_of_lt hfF)
    rw [Nat.succ_mul] at this
    omega
  have hFE : F * E ≤ 60 := by
    have := Nat.mul_le_mul_right E hF
    have := Nat.mul_le_mul_left 12 (show E ≤ 5 by omega)
    omega
  have hq : f * samps.length + e < s.tables.VERT_PER_OBJ_TRI := by
    rw [hTRI]
    have := Nat.mul_le_mul_right samps.length (Nat.succ_le_of_lt hfF)
    rw [Nat.succ_mul] at this
    omega
  have hcell := hf.2.2.1 (f * samps.length + e) hq
  obtain ⟨dq, dr⟩ := index_of_slot (i := f) he
  have hval : (idx.cell ((f * samps.length + e : Nat) : Int)).val = f * E + d := by
    rw [hcell]
    simp only [expandedIndex, dq, dr, hdv]
    exact toGLubyte_natCast (by omega)
  have hm : imul (f : Int) (E : Int) = ((f * E : Nat) : Int) := by
    unfold imul
    have h0 : (0 : Int) ≤ (f : Int) * (E : Int) := by positivity
    rw [wrapInt_of_range (by linarith) (by
      have : ((f * E : Nat) : Int) < 2147483648 := by omega
      push_cast at this
      exact this)]
    push_cast
    rfl
  refine ⟨?_, by omega, by omega, toGLubyte_natCast (by omega), hval, by omega, by omega, by omega⟩
  rw [hm]
  unfold iadd
  rw [wrapInt_of_range (by omega) (by omega)]
  push_cast
  rfl

/-- Witness for C29: the cube, 6 faces of 4 vertices with 6 indices each. -/
theorem generated_indices_fit_witness :
    ∃ c idx, fghShapeGenerate Shape.cube.tables (ShapeCache.static Shape.cube.tables) = some c ∧
      c.vertIdxs = some idx ∧
      ∀ f e : Nat, f < 6 → e < 6 →
        (idx.cell ((f * 6 + e : Nat) : Int)).val = f * 4 + (readArr vert4Decomp (e : Int)).val ∧
        (idx.cell ((f * 6 + e : Nat) : Int)).val < 24 := by
  obtain ⟨_, _, c, idx, samps, hc, hidx, hsamps, _, _, h⟩ :=
    generated_indices_fit Shape.cube (Or.inl rfl)
  cases hsamps
  refine ⟨c, idx, hc, hidx, ?_⟩
  intro f e hf he
  obtain ⟨_, _, _, _, h5, h6, _⟩ := h f e hf he
  exact ⟨h5, h6⟩

/-- C30 fails on two of the six tables: the stated face normals of the cube, the
dodecahedron, the octahedron and the tetrahedron have squared length within `1e-6` of 1
(exactly 1 for the cube), but every face normal of the icosahedron has squared length
within `1e-6` of `0.916718427`, and the normals of the rhombic dodecahedron have squared
length 1 for the faces 4 to 7 and within `1e-6` of `1/2` for the faces 0 to 3 and 8 to 11,
so that the faces of this solid are not lit with normals of the same length; these are the
normals the generate routine copies into the flat normal array handed to OpenGL, for
example `(0.353553390594, 0.353553390594, 0.5)` for the first vertex of the rhombic
dodecahedron. -/
theorem catalog_normal_lengths :
    (∀ f, f < 6 → Shape.cube.tables.normalSq f = 1) ∧
    (∀ f, f < 12 → |Shape.dodecahedron.tables.normalSq f - 1| ≤ 1 / 1000000) ∧
    (∀ f, f < 8 → |Shape.octahedron.tables.normalSq f - 1| ≤ 1 / 1000000) ∧
    (∀ f, f < 4 → |Shape.tetrahedron.tables.normalSq f - 1| ≤ 1 / 1000000) ∧
    (∀ f, f < 20 → |Shape.icosahedron.tables.normalSq f - 0.916718427| ≤ 1 / 1000000 ∧
      ¬ |Shape.icosahedron.tables.normalSq f - 1| ≤ 1 / 1000000) ∧
    (∀ f, f < 12 → (4 ≤ f ∧ f < 8 → Shape.rhombicdodecahedron.tables.normalSq f = 1) ∧
      (f < 4 ∨ 8 ≤ f → |Shape.rhombicdodecahedron.tables.normalSq f - 1 / 2| ≤ 1 / 1000000 ∧
        ¬ |Shape.rhombicdodecahedron.tables.normalSq f - 1| ≤ 1 / 1000000)) ∧
    ∃ g, fghShapeGenerate Shape.rhombicdodecahedron.tables
        (ShapeCache.static Shape.rhombicdodecahedron.tables) = some g ∧
      (g.norms.cell 0, g.norms.cell 1, g.norms.cell 2)
        = Shape.rhombicdodecahedron.tables.faceNormal 0 ∧
      Shape.rhombicdodecahedron.tables.faceNormal 0 = (0.353553390594, 0.353553390594, 0.5) := by
  refine ⟨by decide!, by decide!, by decide!, by decide!, by decide!, by decide!, ?_⟩
  obtain ⟨g, hg, _, _, hn, _, _⟩ := shapeGenerate_static Shape.rhombicdodecahedron
  refine ⟨g, hg, ?_, by decide!⟩
  have h0 := hn.2.2.1 0 (by decide)
  have h1 := hn.2.2.1 1 (by decide)
  have h2 := hn.2.2.1 2 (by decide)
  simp only [Nat.cast_zero, Nat.cast_one, Nat.cast_ofNat] at h0 h1 h2
  rw [h0, h1, h2]
  rfl

/-! ## The closed form of the sponge -/

theorem pathIndex_lt (L : Nat) : ∀ p : Nat → Fin 4, pathIndex L p < 4 ^ L := by
  induction L with
  | zero => intro p; simp [pathIndex]
  | succ L ih =>
    intro p
    have h := ih (fun k => p (k + 1))
    have hp := (p 0).isLt
    have hm : (p 0).val * 4 ^ L ≤ 3 * 4 ^ L := Nat.mul_le_mul_right _ (by omega)
    have e : 4 ^ (L + 1) = 3 * 4 ^ L + 4 ^ L := by ring
    simp only [pathIndex]
    omega

/-- One level of the recursion in terms of the closed form: the offset reached through
the path `p` in `L + 1` levels is the one reached in `L` levels through the rest of the
path from the offset of child `p 0`, at the halved scale. -/
theorem pathOffset_succ (o : Fin 3 → GLdouble) (s : GLfloat) (L : Nat) (p : Nat → Fin 4) :
    pathOffset o s (L + 1) p
      = pathOffset (childOffset o (s / 2) (p 0).val) (s / 2) L (fun k => p (k + 1)) := by
  funext c
  simp only [pathOffset, childOffset, List.range_succ_eq_map, List.map_cons, List.sum_cons,
    List.map_map, Function.comp_def]
  have e : ∀ k : Nat, s / 2 / 2 ^ (k + 1) = s / 2 ^ (k + 1 + 1) := by
    intro k
    rw [pow_succ (2 : ℚ) (k + 1), div_div, mul_comm]
  simp only [e, zero_add, pow_one, Nat.succ_eq_add_one]
  ring

theorem spongeVertex_path (L : Nat) :
    ∀ (o : Fin 3 → GLdouble) (s : GLfloat) (p : Nat → Fin 4) (q : Nat), q < 36 →
      spongeVertex L o s (36 * pathIndex L p + q)
        = spongeVertex 0 (pathOffset o s L p) (s / 2 ^ L) q := by
  induction L with
  | zero =>
    intro o s p q _
    have e : pathOffset o s 0 p = o := by
      funext c
      simp [pathOffset]
    simp only [pathIndex, e, pow_zero, div_one, Nat.mul_zero, Nat.zero_add]
  | succ L ih =>
    intro o s p q hq
    have hlt := pathIndex_lt L (fun k => p (k + 1))
    have hidx : 36 * pathIndex (L + 1) p + q
        = (p 0).val * (36 * 4 ^ L) + (36 * pathIndex L (fun k => p (k + 1)) + q) := by
      simp only [pathIndex]
      ring
    have hs : s / 2 / 2 ^ L = s / 2 ^ (L + 1) := by
      rw [pow_succ (2 : ℚ) L, div_div, mul_comm]
    rw [hidx, spongeVertex_succ_slot L o s (by omega), ih _ _ _ q hq, ← pathOffset_succ, hs]

/-- C27 (amended): for every depth `0 ≤ L ≤ 13`, offset `o`, scale `s` and path
`p 0, ..., p (L-1)` of child numbers in `{0, 1, 2, 3}`, the 36 floats starting at position
`36 * (p 0 * 4^(L-1) + ... + p (L-1) * 4^0)` after the vertex pointer are those that the
generator stores for zero levels at offset `o + sum over k = 1 .. L of (s / 2^k) * v_(p (k-1))`
and scale `s / 2^L`, `v_i` being catalog vertex `i` of the tetrahedron, and the 36 floats
at the same position after the normal pointer are the face normals stored for zero
levels; the offset obeys the recursion: one more level halves the scale and adds the
halved scale times the vertex chosen to the parent offset. -/
theorem sponge_closed_form (L : Nat) (hL : L ≤ 13) (offset : Fin 3 → GLdouble) (scale : GLfloat)
    (vertices normals : Int) (st st0 : SpongeArrays) (p : Nat → Fin 4) (q : Nat) (hq : q < 36) :
    (fghSierpinskiSpongeGenerate (L : Int) offset scale vertices normals st).vertices.cell
        (vertices + ((36 * pathIndex L p + q : Nat) : Int))
      = (fghSierpinskiSpongeGenerate 0 (pathOffset offset scale L p) (scale / 2 ^ L) 0 0
          st0).vertices.cell (q : Int) ∧
    (fghSierpinskiSpongeGenerate (L : Int) offset scale vertices normals st).normals.cell
        (normals + ((36 * pathIndex L p + q : Nat) : Int))
      = (fghSierpinskiSpongeGenerate 0 (pathOffset offset scale L p) (scale / 2 ^ L) 0 0
          st0).normals.cell (q : Int) ∧
    (fghSierpinskiSpongeGenerate (L : Int) offset scale vertices normals st).vertices.cell
        (vertices + ((36 * pathIndex L p + q : Nat) : Int))
      = pathOffset offset scale L p ⟨q % 3, Nat.mod_lt _ (by decide)⟩
        + scale / 2 ^ L * readArr tetrahedron_v
            ((3 * (readArr tetrahedron_vi ((q / 3 : Nat) : Int)).val + q % 3 : Nat) : Int) ∧
    (fghSierpinskiSpongeGenerate (L : Int) offset scale vertices normals st).normals.cell
        (normals + ((36 * pathIndex L p + q : Nat) : Int))
      = readArr tetrahedron_n ((3 * (q / 9) + q % 3 : Nat) : Int) ∧
    (∀ c : Fin 3, pathOffset offset scale 0 p c = offset c) ∧
    (∀ K : Nat, pathOffset offset scale (K + 1) p
      = pathOffset (childOffset offset (scale / 2) (p 0).val) (scale / 2) K
          (fun k => p (k + 1))) := by
  obtain ⟨fv, fn⟩ := sponge_filled L hL offset scale vertices normals st
  obtain ⟨bv, bn⟩ := sponge_base_filled (pathOffset offset scale L p) (scale / 2 ^ L) 0 0 st0
  have hlt := pathIndex_lt L p
  have hin : 36 * pathIndex L p + q < 36 * 4 ^ L := by omega
  have hv := fv.2.2.1 _ hin
  have hn := fn.2.2.1 _ hin
  have hbv := bv.2.2.1 q hq
  have hbn := bn.2.2.1 q hq
  rw [zero_add] at hbv hbn
  have hnq : spongeNormal (36 * pathIndex L p + q) = spongeNormal q := by
    rw [Nat.mul_comm 36]
    exact spongeNormal_slice 36 _ q (dvd_refl 36)
  have hq36 : q % 36 = q := Nat.mod_eq_of_lt hq
  refine ⟨?_, ?_, ?_, ?_, ?_, fun K => pathOffset_succ offset scale K p⟩
  · rw [hv, hbv, spongeVertex_path L offset scale p q hq]
  · rw [hn, hbn, hnq]
  · rw [hv, spongeVertex_path L offset scale p q hq]
    rfl
  · rw [hn, hnq]
    simp only [spongeNormal, hq36]
  · intro c
    simp [pathOffset]

/-- Witness for C27: two levels, the path `(1, 2)` leading to tetrahedron `1 * 4 + 2 = 6`,
whose first float, at position 216, is the x-coordinate
`1/2 * v_1.x + 1/4 * v_2.x + 1/4 * v_1.x = -0.333333333333` of vertex 1 of that
tetrahedron. -/
theorem sponge_closed_form_witness :
    (fghSierpinskiSpongeGenerate ((2 : Nat) : Int) (fun _ => 0) 1 0 0
        { vertices := Buffer.fresh 0 576, normals := Buffer.fresh 0 576 }).vertices.cell
        (0 + ((36 * pathIndex 2 (fun k => if k = 0 then 1 else 2) + 0 : Nat) : Int))
      = -0.333333333333 ∧
    36 * pathIndex 2 (fun k => if k = 0 then 1 else 2) + 0 = 216 := by
  refine ⟨?_, by decide⟩
  rw [(sponge_closed_form 2 (by decide) (fun _ => 0) 1 0 0
    { vertices := Buffer.fresh 0 576, normals := Buffer.fresh 0 576 }
    { vertices := Buffer.fresh 0 576, normals := Buffer.fresh 0 576 }
    (fun k => if k = 0 then 1 else 2) 0 (by decide)).2.2.1]
  decide!

/-- C27 fails as stated at depth 14: for the path `(3, ..., 3)` the block is to start at
float position `36 * (4^14 - 1) = 9663676380` and to hold, as its first float, the
x-coordinate `-0.333333333333` of vertex 1 of the last tetrahedron (offset 0, scale 1),
but in arrays that held zeros the float at that position is still 0: no recursive call
of depth 13 reaches beyond position 5368709119. -/
theorem sponge_closed_form_counterexample :
    36 * pathIndex 14 (fun _ => 3) + 0 = 9663676380 ∧
    (fghSierpinskiSpongeGenerate 14 (fun _ => 0) 1 0 0
        { vertices := Buffer.fresh 0 (36 * 4 ^ 14)
          normals := Buffer.fresh 0 (36 * 4 ^ 14) }).vertices.cell
        (0 + ((36 * pathIndex 14 (fun _ => 3) + 0 : Nat) : Int)) = 0 ∧
    pathOffset (fun _ => 0) 1 14 (fun _ => 3) ⟨0 % 3, Nat.mod_lt _ (by decide)⟩
        + 1 / 2 ^ 14 * readArr tetrahedron_v
            ((3 * (readArr tetrahedron_vi ((0 / 3 : Nat) : Int)).val + 0 % 3 : Nat) : Int)
      = -0.333333333333 ∧
    (fghSierpinskiSpongeGenerate 14 (fun _ => 0) 1 0 0
        { vertices := Buffer.fresh 0 (36 * 4 ^ 14)
          normals := Buffer.fresh 0 (36 * 4 ^ 14) }).vertices.cell
        (0 + ((36 * pathIndex 14 (fun _ => 3) + 0 : Nat) : Int))
      ≠ pathOffset (fun _ => 0) 1 14 (fun _ => 3) ⟨0 % 3, Nat.mod_lt _ (by decide)⟩
        + 1 / 2 ^ 14 * readArr tetrahedron_v
            ((3 * (readArr tetrahedron_vi ((0 / 3 : Nat) : Int)).val + 0 % 3 : Nat) : Int) := by
  have hidx : 36 * pathIndex 14 (fun _ => 3) + 0 = 9663676380 := by decide
  have hclaim : pathOffset (fun _ => 0) 1 14 (fun _ => 3) ⟨0 % 3, Nat.mod_lt _ (by decide)⟩
        + 1 / 2 ^ 14 * readArr tetrahedron_v
            ((3 * (readArr tetrahedron_vi ((0 / 3 : Nat) : Int)).val + 0 % 3 : Nat) : Int)
      = -0.333333333333 := by decide!
  suffices hcell : (fghSierpinskiSpongeGenerate 14 (fun _ => 0) 1 0 0
        { vertices := Buffer.fresh 0 (36 * 4 ^ 14)
          normals := Buffer.fresh 0 (36 * 4 ^ 14) }).vertices.cell
        (0 + ((36 * pathIndex 14 (fun _ => 3) + 0 : Nat) : Int)) = 0 by
    refine ⟨hidx, hcell, hclaim, ?_⟩
    rw [hcell, hclaim]
    norm_num
  rw [hidx]
  obtain ⟨c0, c1, c2, c3, h⟩ := sponge_depth14 (fun _ => 0) 1 0 0
    { vertices := Buffer.fresh 0 (36 * 4 ^ 14), normals := Buffer.fresh 0 (36 * 4 ^ 14) }
  rw [h]
  have hS : ((36 * 4 ^ 13 : Nat) : Int) = 2415919104 := by norm_num
  have o0 := (sponge_filled 13 (by decide) c0 (1 / 2) (0 + 0) (0 + 0)
    { vertices := Buffer.fresh 0 (36 * 4 ^ 14), normals := Buffer.fresh 0 (36 * 4 ^ 14) }).1.2.2.2
  have o1 := fun st => (sponge_filled 13 (by decide) c1 (1 / 2)
    (0 + 2415919104) (0 + 2415919104) st).1.2.2.2
  have o2 := fun st => (sponge_filled 13 (by decide) c2 (1 / 2)
    (0 + 536870912) (0 + 536870912) st).1.2.2.2
  have o3 := fun st => (sponge_filled 13 (by decide) c3 (1 / 2)
    (0 + 2952790016) (0 + 2952790016) st).1.2.2.2
  simp only [hS] at o0 o1 o2 o3
  rw [o3 _ _ (Or.inr (by norm_num)), o2 _ _ (Or.inr (by norm_num)),
    o1 _ _ (Or.inr (by norm_num)), o0 _ (Or.inr (by norm_num))]
  rfl

/-! ## The solid cone -/

theorem forRange_eq {σ : Type} (lo hi : Int) (body : Int → σ → σ) (s : σ) :
    forRange lo hi body s = forLoop (fun k : Nat => body (lo + (k : Int))) (hi - lo).toNat s := rfl

/-- The quad strips of `glutSolidCone` in closed form: round `k` goes from ring `k` to
ring `k + 1`. -/
theorem cone_strips_loop {α : Type} [Field α] (sint cost : Int → α)
    (base zStep rStep cosn sinn : α) (slices : Int) (n : Nat) (gl0 : List (GLImm α)) :
    (forLoop (fun _ : Nat => solidConeStack sint cost zStep rStep cosn sinn slices)
      n { z0 := 0, z1 := zStep, r0 := base, r1 := base - rStep, gl := gl0 }).gl
      = gl0 ++ (List.range n).flatMap (fun k : Nat =>
          [GLImm.glBegin GLenum.GL_QUAD_STRIP]
          ++ (List.range (slices + 1 - 0).toNat).flatMap (fun j : Nat =>
              [GLImm.glNormal3f (cost (0 + (j : Int)) * cosn) (sint (0 + (j : Int)) * cosn) sinn,
               GLImm.glVertex3f (cost (0 + (j : Int)) * coneR base rStep k)
                 (sint (0 + (j : Int)) * coneR base rStep k) (coneZ zStep k),
               GLImm.glVertex3f (cost (0 + (j : Int)) * coneR base rStep (k + 1))
                 (sint (0 + (j : Int)) * coneR base rStep (k + 1)) (coneZ zStep (k + 1))])
          ++ [GLImm.glEnd]) ∧
    (forLoop (fun _ : Nat => solidConeStack sint cost zStep rStep cosn sinn slices)
      n { z0 := 0, z1 := zStep, r0 := base, r1 := base - rStep, gl := gl0 }).z0
      = coneZ zStep n ∧
    (forLoop (fun _ : Nat => solidConeStack sint cost zStep rStep cosn sinn slices)
      n { z0 := 0, z1 := zStep, r0 := base, r1 := base - rStep, gl := gl0 }).r0
      = coneR base rStep n := by
  have key := forLoop_inv
    (fun _ : Nat => solidConeStack sint cost zStep rStep cosn sinn slices)
    (fun (k : Nat) (s : Locals α) =>
      s.gl = gl0 ++ (List.range k).flatMap (fun k : Nat =>
          [GLImm.glBegin GLenum.GL_QUAD_STRIP]
          ++ (List.range (slices + 1 - 0).toNat).flatMap (fun j : Nat =>
              [GLImm.glNormal3f (cost (0 + (j : Int)) * cosn) (sint (0 + (j : Int)) * cosn) sinn,
               GLImm.glVertex3f (cost (0 + (j : Int)) * coneR base rStep k)
                 (sint (0 + (j : Int)) * coneR base rStep k) (coneZ zStep k),
               GLImm.glVertex3f (cost (0 + (j : Int)) * coneR base rStep (k + 1))
                 (sint (0 + (j : Int)) * coneR base rStep (k + 1)) (coneZ zStep (k + 1))])
          ++ [GLImm.glEnd]) ∧
      s.z0 = coneZ zStep k ∧ s.z1 = coneZ zStep (k + 1) ∧
      s.r0 = coneR base rStep k ∧ s.r1 = coneR base rStep (k + 1))
    n { z0 := 0, z1 := zStep, r0 := base, r1 := base - rStep, gl := gl0 } ?_ ?_
  · exact ⟨key.1, key.2.1, key.2.2.2.1⟩
  · refine ⟨by simp, ?_, ?_, ?_, ?_⟩ <;> simp [coneZ, coneR]
  · intro k s _ ⟨hgl, hz0, hz1, hr0, hr1⟩
    refine ⟨?_, ?_, ?_, ?_, ?_⟩
    · simp only [solidConeStack, forRangeIncl_append, hgl, hz0, hz1, hr0, hr1, List.range_succ,
        List.flatMap_append, List.flatMap_singleton, List.append_assoc]
    · simp only [solidConeStack, hz1]
    · simp only [solidConeStack, hz1, coneZ]
      push_cast; ring
    · simp only [solidConeStack, hr1]
    · simp only [solidConeStack, hr1, coneR]
      push_cast; ring

/-- The calls of `glutSolidCone` in closed form, given its circle table. -/
theorem solidCone_trace {α : Type} [Field α] (m : LibM α) (w : World) (base height : α)
    (slices stacks' : Int) (t : CircleTable α) (hinit : w.Initialised = true)
    (h1 : fghCircleTable m.sinf m.cosf m.M_PI w.mallocOk (wrapInt (-slices)) false = Except.ok t) :
    glutSolidCone m w base height slices stacks'
      = Except.ok
        ([GLImm.glBegin GLenum.GL_TRIANGLE_FAN, GLImm.glNormal3f 0 0 (-1), GLImm.glVertex3f 0 0 0]
          ++ (List.range (slices + 1 - 0).toNat).flatMap (fun j : Nat =>
              [GLImm.glVertex3f (t.cost.cell (0 + (j : Int)) * base)
                 (t.sint.cell (0 + (j : Int)) * base) 0])
          ++ [GLImm.glEnd]
          ++ (List.range (isub stacks' 1 - 0).toNat).flatMap (fun k : Nat =>
              [GLImm.glBegin GLenum.GL_QUAD_STRIP]
              ++ (List.range (slices + 1 - 0).toNat).flatMap (fun j : Nat =>
                  [GLImm.glNormal3f
                     (t.cost.cell (0 + (j : Int))
                       * (height / m.sqrtf (height * height + base * base)))
                     (t.sint.cell (0 + (j : Int))
                       * (height / m.sqrtf (height * height + base * base)))
                     (base / m.sqrtf (height * height + base * base)),
                   GLImm.glVertex3f
                     (t.cost.cell (0 + (j : Int)) * coneR base
                       (base / (((if stacks' > 0 then stacks' else 1) : Int) : α)) k)
                     (t.sint.cell (0 + (j : Int)) * coneR base
                       (base / (((if stacks' > 0 then stacks' else 1) : Int) : α)) k)
                     (coneZ (height / (((if stacks' > 0 then stacks' else 1) : Int) : α)) k),
                   GLImm.glVertex3f
                     (t.cost.cell (0 + (j : Int)) * coneR base
                       (base / (((if stacks' > 0 then stacks' else 1) : Int) : α)) (k + 1))
                     (t.sint.cell (0 + (j : Int)) * coneR base
                       (base / (((if stacks' > 0 then stacks' else 1) : Int) : α)) (k + 1))
                     (coneZ (height / (((if stacks' > 0 then stacks' else 1) : Int) : α))
                       (k + 1))])
              ++ [GLImm.glEnd])
          ++ [GLImm.glBegin GLenum.GL_TRIANGLES,
              GLImm.glNormal3f (t.cost.cell 0 * (base / m.sqrtf (height * height + base * base)))
                (t.sint.cell 0 * (base / m.sqrtf (height * height + base * base)))
                (height / m.sqrtf (height * height + base * base))]
          ++ (List.range (slices - 0).toNat).flatMap (fun j : Nat =>
              [GLImm.glVertex3f
                 (t.cost.cell (iadd (0 + (j : Int)) 0) * coneR base
                   (base / (((if stacks' > 0 then stacks' else 1) : Int) : α))
                   (isub stacks' 1 - 0).toNat)
                 (t.sint.cell (iadd (0 + (j : Int)) 0) * coneR base
                   (base / (((if stacks' > 0 then stacks' else 1) : Int) : α))
                   (isub stacks' 1 - 0).toNat)
                 (coneZ (height / (((if stacks' > 0 then stacks' else 1) : Int) : α))
                   (isub stacks' 1 - 0).toNat),
               GLImm.glVertex3f 0 0 height,
               GLImm.glNormal3f
                 (t.cost.cell (iadd (0 + (j : Int)) 1)
                   * (base / m.sqrtf (height * height + base * base)))
                 (t.sint.cell (iadd (0 + (j : Int)) 1)
                   * (base / m.sqrtf (height * height + base * base)))
                 (height / m.sqrtf (height * height + base * base)),
               GLImm.glVertex3f
                 (t.cost.cell (iadd (0 + (j : Int)) 1) * coneR base
                   (base / (((if stacks' > 0 then stacks' else 1) : Int) : α))
                   (isub stacks' 1 - 0).toNat)
                 (t.sint.cell (iadd (0 + (j : Int)) 1) * coneR base
                   (base / (((if stacks' > 0 then stacks' else 1) : Int) : α))
                   (isub stacks' 1 - 0).toNat)
                 (coneZ (height / (((if stacks' > 0 then stacks' else 1) : Int) : α))
                   (isub stacks' 1 - 0).toNat)])
          ++ [GLImm.glEnd]) := by
  have L := cone_strips_loop t.sint.cell t.cost.cell base
    (height / (((if stacks' > 0 then stacks' else 1) : Int) : α))
    (base / (((if stacks' > 0 then stacks' else 1) : Int) : α))
    (height / m.sqrtf (height * height + base * base))
    (base / m.sqrtf (height * height + base * base)) slices (isub stacks' 1 - 0).toNat
  unfold glutSolidCone
  simp only [guard_ok w _ hinit, h1, forRangeIncl_append, forRange_append]
  simp only [forRange_eq, fun gl0 => (L gl0).1, fun gl0 => (L gl0).2.1, fun gl0 => (L gl0).2.2,
    List.append_assoc]

/-- Items of which the `j`-th starts under the normal `Nf j` and leaves the normal
`Nf (j + 1)` add their vertices to the primitive being specified. -/
theorem run_items_indexed {α : Type} (item : Nat → List (GLImm α)) (Nf : Nat → α × α × α)
    (V : Nat → List (Vertex α)) (mode : GLenum)
    (h : ∀ j vs d, (item j).foldl GLState.step
        { normal := Nf j, current := some { mode := mode, vertices := vs }, done := d }
      = { normal := Nf (j + 1), current := some { mode := mode, vertices := vs ++ V j },
          done := d }) :
    ∀ k vs d, ((List.range k).flatMap item).foldl GLState.step
        { normal := Nf 0, current := some { mode := mode, vertices := vs }, done := d }
      = { normal := Nf k,
          current := some { mode := mode, vertices := vs ++ (List.range k).flatMap V },
          done := d } := by
  intro k
  induction k with
  | zero => intro vs d; simp
  | succ k ih =>
    intro vs d
    simp only [List.range_succ, List.flatMap_append, List.flatMap_singleton, List.foldl_append,
      ih vs d, h k, List.append_assoc]

/-- The primitives of `glutSolidCone`, given its circle table: the fan of the base, one
quad strip for each stack but the last, and the triangles of the last stack. -/
theorem solidCone_primitives {α : Type} [Field α] (m : LibM α) (w : World)
    (base height : α) (slices stacks' : Int) (t : CircleTable α) (hinit : w.Initialised = true)
    (h1 : fghCircleTable m.sinf m.cosf m.M_PI w.mallocOk (wrapInt (-slices)) false = Except.ok t)
    (hs : 0 ≤ slices) (hsmax : slices ≤ 2147483646) :
    ∃ calls, glutSolidCone m w base height slices stacks' = Except.ok calls ∧
      primitives calls
        = [{ mode := GLenum.GL_TRIANGLE_FAN
             vertices := { pos := (0, 0, 0), normal := (0, 0, -1) }
               :: (List.range (slices + 1 - 0).toNat).map (fun j : Nat =>
                    coneVertex t base 0 (0 + (j : Int)) (0, 0, -1)) }]
          ++ (List.range (isub stacks' 1 - 0).toNat).map (fun k : Nat =>
              ({ mode := GLenum.GL_QUAD_STRIP
                 vertices := (List.range (slices + 1 - 0).toNat).flatMap (fun j : Nat =>
                    [coneVertex t
                       (coneR base (base / (((if stacks' > 0 then stacks' else 1) : Int) : α)) k)
                       (coneZ (height / (((if stacks' > 0 then stacks' else 1) : Int) : α)) k)
                       (0 + (j : Int))
                       (coneStripNormal t (height / m.sqrtf (height * height + base * base))
                         (base / m.sqrtf (height * height + base * base)) (0 + (j : Int))),
                     coneVertex t
                       (coneR base (base / (((if stacks' > 0 then stacks' else 1) : Int) : α))
                         (k + 1))
                       (coneZ (height / (((if stacks' > 0 then stacks' else 1) : Int) : α))
                         (k + 1))
                       (0 + (j : Int))
                       (coneStripNormal t (height / m.sqrtf (height * height + base * base))
                         (base / m.sqrtf (height * height + base * base)) (0 + (j : Int)))]) }
                : Primitive α))
          ++ [{ mode := GLenum.GL_TRIANGLES
                vertices := (List.range (slices - 0).toNat).flatMap (fun j : Nat =>
                  [coneVertex t
                     (coneR base (base / (((if stacks' > 0 then stacks' else 1) : Int) : α))
                       (isub stacks' 1 - 0).toNat)
                     (coneZ (height / (((if stacks' > 0 then stacks' else 1) : Int) : α))
                       (isub stacks' 1 - 0).toNat)
                     (j : Int)
                     (coneApexNormal t (height / m.sqrtf (height * height + base * base))
                       (base / m.sqrtf (height * height + base * base)) (j : Int)),
                   { pos := (0, 0, height)
                     normal := coneApexNormal t
                       (height / m.sqrtf (height * height + base * base))
                       (base / m.sqrtf (height * height + base * base)) (j : Int) },
                   coneVertex t
                     (coneR base (base / (((if stacks' > 0 then stacks' else 1) : Int) : α))
                       (isub stacks' 1 - 0).toNat)
                     (coneZ (height / (((if stacks' > 0 then stacks' else 1) : Int) : α))
                       (isub stacks' 1 - 0).toNat)
                     ((j : Int) + 1)
                     (coneApexNormal t (height / m.sqrtf (height * height + base * base))
                       (base / m.sqrtf (height * height + base * base)) ((j : Int) + 1))]) }] := by
  refine ⟨_, solidCone_trace m w base height slices stacks' t hinit h1, ?_⟩
  generalize (height / (((if stacks' > 0 then stacks' else 1) : Int) : α)) = zStep
  generalize (base / (((if stacks' > 0 then stacks' else 1) : Int) : α)) = rStep
  generalize (height / m.sqrtf (height * height + base * base)) = cosn
  generalize (base / m.sqrtf (height * height + base * base)) = sinn
  generalize (isub stacks' 1 - 0).toNat = n
  have E1 := run_items_keep (List.range (slices + 1 - 0).toNat)
    (fun j : Nat =>
      [GLImm.glVertex3f (t.cost.cell (0 + (j : Int)) * base)
         (t.sint.cell (0 + (j : Int)) * base) 0])
    (fun (nn : α × α × α) (j : Nat) => [coneVertex t base 0 (0 + (j : Int)) nn])
    GLenum.GL_TRIANGLE_FAN
    (fun j nn vs d => by simp [GLState.step, coneVertex])
  have E3 := fun k : Nat => run_items_set (List.range (slices + 1 - 0).toNat)
    (fun j : Nat =>
      [GLImm.glNormal3f (t.cost.cell (0 + (j : Int)) * cosn) (t.sint.cell (0 + (j : Int)) * cosn)
         sinn,
       GLImm.glVertex3f (t.cost.cell (0 + (j : Int)) * coneR base rStep k)
         (t.sint.cell (0 + (j : Int)) * coneR base rStep k) (coneZ zStep k),
       GLImm.glVertex3f (t.cost.cell (0 + (j : Int)) * coneR base rStep (k + 1))
         (t.sint.cell (0 + (j : Int)) * coneR base rStep (k + 1)) (coneZ zStep (k + 1))])
    (fun j : Nat => coneStripNormal t cosn sinn (0 + (j : Int)))
    (fun j : Nat =>
      [coneVertex t (coneR base rStep k) (coneZ zStep k) (0 + (j : Int))
         (coneStripNormal t cosn sinn (0 + (j : Int))),
       coneVertex t (coneR base rStep (k + 1)) (coneZ zStep (k + 1)) (0 + (j : Int))
         (coneStripNormal t cosn sinn (0 + (j : Int)))])
    GLenum.GL_QUAD_STRIP
    (fun j nn vs d => by simp [GLState.step, coneVertex, coneStripNormal])
  have EB := run_blocks (List.range n)
    (fun k : Nat =>
      [GLImm.glBegin GLenum.GL_QUAD_STRIP]
      ++ (List.range (slices + 1 - 0).toNat).flatMap (fun j : Nat =>
          [GLImm.glNormal3f (t.cost.cell (0 + (j : Int)) * cosn)
             (t.sint.cell (0 + (j : Int)) * cosn) sinn,
           GLImm.glVertex3f (t.cost.cell (0 + (j : Int)) * coneR base rStep k)
             (t.sint.cell (0 + (j : Int)) * coneR base rStep k) (coneZ zStep k),
           GLImm.glVertex3f (t.cost.cell (0 + (j : Int)) * coneR base rStep (k + 1))
             (t.sint.cell (0 + (j : Int)) * coneR base rStep (k + 1)) (coneZ zStep (k + 1))])
      ++ [GLImm.glEnd])
    (fun (nn : α × α × α) (_ : Nat) => (List.range (slices + 1 - 0).toNat).foldl
      (fun (_ : α × α × α) (j : Nat) => coneStripNormal t cosn sinn (0 + (j : Int))) nn)
    (fun k : Nat =>
      ({ mode := GLenum.GL_QUAD_STRIP
         vertices := (List.range (slices + 1 - 0).toNat).flatMap (fun j : Nat =>
            [coneVertex t (coneR base rStep k) (coneZ zStep k) (0 + (j : Int))
               (coneStripNormal t cosn sinn (0 + (j : Int))),
             coneVertex t (coneR base rStep (k + 1)) (coneZ zStep (k + 1)) (0 + (j : Int))
               (coneStripNormal t cosn sinn (0 + (j : Int)))]) } : Primitive α))
    (by
      intro k nn d
      simp only [List.foldl_append, List.foldl_cons, List.foldl_nil, GLState.step, E3 k,
        List.nil_append])
  have hidx : ∀ j : Nat, j < (slices - 0).toNat →
      iadd (0 + (j : Int)) 0 = (j : Int) ∧ iadd (0 + (j : Int)) 1 = (j : Int) + 1 := by
    intro j hj
    constructor
    · rw [iadd_of_range (by omega) (by omega)]; ring
    · rw [iadd_of_range (by omega) (by omega)]; ring
  have hitems : (List.range (slices - 0).toNat).flatMap (fun j : Nat =>
        [GLImm.glVertex3f (t.cost.cell (iadd (0 + (j : Int)) 0) * coneR base rStep n)
           (t.sint.cell (iadd (0 + (j : Int)) 0) * coneR base rStep n) (coneZ zStep n),
         GLImm.glVertex3f 0 0 height,
         GLImm.glNormal3f (t.cost.cell (iadd (0 + (j : Int)) 1) * sinn)
           (t.sint.cell (iadd (0 + (j : Int)) 1) * sinn) cosn,
         GLImm.glVertex3f (t.cost.cell (iadd (0 + (j : Int)) 1) * coneR base rStep n)
           (t.sint.cell (iadd (0 + (j : Int)) 1) * coneR base rStep n) (coneZ zStep n)])
      = (List.range (slices - 0).toNat).flatMap (fun j : Nat =>
        [GLImm.glVertex3f (t.cost.cell (j : Int) * coneR base rStep n)
           (t.sint.cell (j : Int) * coneR base rStep n) (coneZ zStep n),
         GLImm.glVertex3f 0 0 height,
         GLImm.glNormal3f (t.cost.cell ((j : Int) + 1) * sinn)
           (t.sint.cell ((j : Int) + 1) * sinn) cosn,
         GLImm.glVertex3f (t.cost.cell ((j : Int) + 1) * coneR base rStep n)
           (t.sint.cell ((j : Int) + 1) * coneR base rStep n) (coneZ zStep n)]) := by
    apply List.flatMap_congr
    intro j hj
    obtain ⟨e0, e1⟩ := hidx j (List.mem_range.mp hj)
    rw [e0, e1]
  have E4 := run_items_indexed
    (fun j : Nat =>
      [GLImm.glVertex3f (t.cost.cell (j : Int) * coneR base rStep n)
         (t.sint.cell (j : Int) * coneR base rStep n) (coneZ zStep n),
       GLImm.glVertex3f 0 0 height,
       GLImm.glNormal3f (t.cost.cell ((j : Int) + 1) * sinn)
         (t.sint.cell ((j : Int) + 1) * sinn) cosn,
       GLImm.glVertex3f (t.cost.cell ((j : Int) + 1) * coneR base rStep n)
         (t.sint.cell ((j : Int) + 1) * coneR base rStep n) (coneZ zStep n)])
    (fun j : Nat => coneApexNormal t cosn sinn (j : Int))
    (fun j : Nat =>
      [coneVertex t (coneR base rStep n) (coneZ zStep n) (j : Int)
         (coneApexNormal t cosn sinn (j : Int)),
       { pos := (0, 0, height), normal := coneApexNormal t cosn sinn (j : Int) },
       coneVertex t (coneR base rStep n) (coneZ zStep n) ((j : Int) + 1)
         (coneApexNormal t cosn sinn ((j : Int) + 1))])
    GLenum.GL_TRIANGLES
    (fun j vs d => by
      simp [GLState.step, coneVertex, coneApexNormal])
  have hN0 : (t.cost.cell 0 * sinn, t.sint.cell 0 * sinn, cosn)
      = coneApexNormal t cosn sinn ((0 : Nat) : Int) := rfl
  unfold primitives
  rw [hitems]
  simp only [List.foldl_append, List.foldl_cons, List.foldl_nil, GLState.step, E1, EB, hN0, E4,
    List.nil_append]
  simp only [flatMap_unit, List.singleton_append, List.cons_append, List.nil_append,
    List.append_assoc, coneVertex]

/-- C22: for every `slices ≥ 0` whose circle table can be allocated and every
`stacks ≥ 1`, `glutSolidCone` specifies one triangle fan of `slices + 2` vertices, the
centre `(0, 0, 0)` and the ring of radius `base` at `z = 0`, then exactly `stacks - 1` quad
strips of `2 * (slices + 1)` vertices, strip `k` joining ring `k` to ring `k + 1`, then
one `GL_TRIANGLES` primitive of `slices` triangles, each made of two neighbouring points
of ring `stacks - 1` with the apex `(0, 0, height)` between them; in exact arithmetic ring
`k` lies at `z = k * height / stacks` and has radius `base * (1 - k / stacks)`, and ring
`stacks - 1` lies at `z = height * (stacks - 1) / stacks` and has radius `base / stacks`. -/
theorem solid_cone_structure {α : Type} [Field α] [CharZero α] (m : LibM α) (w : World)
    (base height : α) (slices stacks' : Int) (hinit : w.Initialised = true)
    (hm : w.mallocOk = true) (hs : 0 ≤ slices) (hsmax : slices ≤ 2147483646)
    (hk : 1 ≤ stacks') (hkmax : stacks' ≤ 2147483647) :
    ∃ t calls,
      fghCircleTable m.sinf m.cosf m.M_PI w.mallocOk (-slices) false = Except.ok t ∧
      glutSolidCone m w base height slices stacks' = Except.ok calls ∧
      primitives calls
        = [{ mode := GLenum.GL_TRIANGLE_FAN
             vertices := { pos := (0, 0, 0), normal := (0, 0, -1) }
               :: (List.range (slices + 1).toNat).map (fun j : Nat =>
                    coneVertex t base 0 (j : Int) (0, 0, -1)) }]
          ++ (List.range (stacks' - 1).toNat).map (fun k : Nat =>
              ({ mode := GLenum.GL_QUAD_STRIP
                 vertices := (List.range (slices + 1).toNat).flatMap (fun j : Nat =>
                    [coneVertex t (coneR base (base / ((stacks' : Int) : α)) k)
                       (coneZ (height / ((stacks' : Int) : α)) k) (j : Int)
                       (coneStripNormal t (height / m.sqrtf (height * height + base * base))
                         (base / m.sqrtf (height * height + base * base)) (j : Int)),
                     coneVertex t (coneR base (base / ((stacks' : Int) : α)) (k + 1))
                       (coneZ (height / ((stacks' : Int) : α)) (k + 1)) (j : Int)
                       (coneStripNormal t (height / m.sqrtf (height * height + base * base))
                         (base / m.sqrtf (height * height + base * base)) (j : Int))]) }
                : Primitive α))
          ++ [{ mode := GLenum.GL_TRIANGLES
                vertices := (List.range slices.toNat).flatMap (fun j : Nat =>
                  [coneVertex t (coneR base (base / ((stacks' : Int) : α)) (stacks' - 1).toNat)
                     (coneZ (height / ((stacks' : Int) : α)) (stacks' - 1).toNat) (j : Int)
                     (coneApexNormal t (height / m.sqrtf (height * height + base * base))
                       (base / m.sqrtf (height * height + base * base)) (j : Int)),
                   { pos := (0, 0, height)
                     normal := coneApexNormal t
                       (height / m.sqrtf (height * height + base * base))
                       (base / m.sqrtf (height * height + base * base)) (j : Int) },
                   coneVertex t (coneR base (base / ((stacks' : Int) : α)) (stacks' - 1).toNat)
                     (coneZ (height / ((stacks' : Int) : α)) (stacks' - 1).toNat)
                     ((j : Int) + 1)
                     (coneApexNormal t (height / m.sqrtf (height * height + base * base))
                       (base / m.sqrtf (height * height + base * base)) ((j : Int) + 1))]) }] ∧
      (primitives calls).map (fun p => (p.mode, p.vertices.length))
        = [(GLenum.GL_TRIANGLE_FAN, (slices + 1).toNat + 1)]
          ++ List.replicate (stacks' - 1).toNat (GLenum.GL_QUAD_STRIP, 2 * (slices + 1).toNat)
          ++ [(GLenum.GL_TRIANGLES, 3 * slices.toNat)] ∧
      (∀ k : Nat,
        coneZ (height / ((stacks' : Int) : α)) k = (k : α) * height / ((stacks' : Int) : α) ∧
        coneR base (base / ((stacks' : Int) : α)) k
          = base * (1 - (k : α) / ((stacks' : Int) : α))) ∧
      coneZ (height / ((stacks' : Int) : α)) (stacks' - 1).toNat
        = height * (((stacks' : Int) : α) - 1) / ((stacks' : Int) : α) ∧
      coneR base (base / ((stacks' : Int) : α)) (stacks' - 1).toNat
        = base / ((stacks' : Int) : α) := by
  obtain ⟨hw, habs⟩ := neg_slices hs hsmax
  obtain ⟨t, h1⟩ := circle_table_returns m.sinf m.cosf m.M_PI (-slices) false habs
  have h1' : fghCircleTable m.sinf m.cosf m.M_PI w.mallocOk (wrapInt (-slices)) false
      = Except.ok t := by
    rw [hm, hw]; exact h1
  have h1m : fghCircleTable m.sinf m.cosf m.M_PI w.mallocOk (-slices) false = Except.ok t := by
    rw [hm]; exact h1
  obtain ⟨calls, hc, hp⟩ :=
    solidCone_primitives m w base height slices stacks' t hinit h1' hs hsmax
  have hpos : stacks' > 0 := by omega
  have hsub : isub stacks' 1 = stacks' - 1 := by
    unfold isub
    exact wrapInt_of_range (by omega) (by omega)
  simp only [hsub, sub_zero, zero_add, hpos, if_true] at hp
  have hne : ((stacks' : Int) : α) ≠ 0 := Int.cast_ne_zero.mpr (by omega)
  have hcast : (((stacks' - 1).toNat : Nat) : α) = ((stacks' : Int) : α) - 1 := by
    have e : (((stacks' - 1).toNat : Nat) : Int) = stacks' - 1 := Int.toNat_of_nonneg (by omega)
    have e' : ((((stacks' - 1).toNat : Nat) : Int) : α) = ((stacks' - 1 : Int) : α) := by rw [e]
    push_cast at e'
    exact e'
  refine ⟨t, calls, h1m, hc, hp, ?_, ?_, ?_, ?_⟩
  · rw [hp]
    simp only [List.map_append, List.map_cons, List.map_nil, List.map_map, List.length_cons,
      List.length_map, List.length_range, Function.comp_def, strip_lengths, List.map_const',
      List.cons_append, List.nil_append]
    have e3 : ∀ l : List Nat, (l.flatMap (fun j : Nat =>
        [coneVertex t (coneR base (base / ((stacks' : Int) : α)) (stacks' - 1).toNat)
           (coneZ (height / ((stacks' : Int) : α)) (stacks' - 1).toNat) (j : Int)
           (coneApexNormal t (height / m.sqrtf (height * height + base * base))
             (base / m.sqrtf (height * height + base * base)) (j : Int)),
         ({ pos := (0, 0, height)
            normal := coneApexNormal t
              (height / m.sqrtf (height * height + base * base))
              (base / m.sqrtf (height * height + base * base)) (j : Int) } : Vertex α),
         coneVertex t (coneR base (base / ((stacks' : Int) : α)) (stacks' - 1).toNat)
           (coneZ (height / ((stacks' : Int) : α)) (stacks' - 1).toNat)
           ((j : Int) + 1)
           (coneApexNormal t (height / m.sqrtf (height * height + base * base))
             (base / m.sqrtf (height * height + base * base)) ((j : Int) + 1))])).length
        = 3 * l.length := by
      intro l
      induction l with
      | nil => rfl
      | cons a l ih =>
        simp only [List.flatMap_cons, List.length_append, ih, List.length_cons, List.length_nil]
        omega
    rw [e3, List.length_range]
  · intro k
    simp only [coneZ, coneR]
    constructor
    · ring
    · ring
  · simp only [coneZ, hcast]
    ring
  · simp only [coneR, hcast]
    field_simp
    ring

/-- Witness for C22: the real sine and cosine, base 1, height 2, six slices and three
stacks. -/
theorem solid_cone_structure_witness :
    ∃ calls,
      glutSolidCone
          ({ sinf := Real.sin, cosf := Real.cos, sqrtf := Real.sqrt, M_PI := Real.pi } : LibM ℝ)
          (World.boot true true []) 1 2 6 3 = Except.ok calls ∧
      (primitives calls).map (fun p => (p.mode, p.vertices.length))
        = [(GLenum.GL_TRIANGLE_FAN, 8), (GLenum.GL_QUAD_STRIP, 14), (GLenum.GL_QUAD_STRIP, 14),
           (GLenum.GL_TRIANGLES, 18)] := by
  obtain ⟨t, calls, _, hc, _, hn, _⟩ := solid_cone_structure
    ({ sinf := Real.sin, cosf := Real.cos, sqrtf := Real.sqrt, M_PI := Real.pi } : LibM ℝ)
    (World.boot true true []) 1 2 6 3 rfl rfl (by decide) (by decide) (by decide) (by decide)
  refine ⟨calls, hc, ?_⟩
  rw [hn]
  have e1 : ((6 : Int) + 1).toNat = 7 := by decide
  have e2 : ((3 : Int) - 1).toNat = 2 := by decide
  have e3 : (6 : Int).toNat = 6 := by decide
  rw [e1, e2, e3]
  rfl

/-- C21 fails in the last stack of `glutSolidCone`: with the real functions, base 3,
height 4, one slice and two stacks, the quad strip issues the point `(3, 0, 0)` of slice 0
under the normal `(4/5, 0, 3/5)`, which is perpendicular to the side of the cone, and the
triangle of the last stack issues the point `(3/2, 0, 2)` of the same slice under the
normal `(3/5, 0, 4/5)`: the factors `cosn` and `sinn` are exchanged. -/
theorem cone_apex_normal :
    ∃ calls,
      glutSolidCone
          ({ sinf := Real.sin, cosf := Real.cos, sqrtf := Real.sqrt, M_PI := Real.pi } : LibM ℝ)
          (World.boot true true []) 3 4 1 2 = Except.ok calls ∧
      ((primitives calls)[1]?).map (fun p => p.mode) = some GLenum.GL_QUAD_STRIP ∧
      (((primitives calls)[1]?).bind (fun p => p.vertices[0]?)).map (fun v => (v.pos, v.normal))
        = some (((3 : ℝ), (0 : ℝ), (0 : ℝ)), ((4 / 5 : ℝ), (0 : ℝ), (3 / 5 : ℝ))) ∧
      ((primitives calls)[2]?).map (fun p => p.mode) = some GLenum.GL_TRIANGLES ∧
      (((primitives calls)[2]?).bind (fun p => p.vertices[0]?)).map (fun v => (v.pos, v.normal))
        = some (((3 / 2 : ℝ), (0 : ℝ), (2 : ℝ)), ((3 / 5 : ℝ), (0 : ℝ), (4 / 5 : ℝ))) ∧
      ((4 / 5 : ℝ), (0 : ℝ), (3 / 5 : ℝ)) ≠ ((3 / 5 : ℝ), (0 : ℝ), (4 / 5 : ℝ)) := by
  obtain ⟨t, h1⟩ := circle_table_returns Real.sin Real.cos Real.pi (-1) false (by decide)
  have hw : wrapInt (-1) = -1 := by decide
  obtain ⟨calls, hc, hp⟩ := solidCone_primitives
    ({ sinf := Real.sin, cosf := Real.cos, sqrtf := Real.sqrt, M_PI := Real.pi } : LibM ℝ)
    (World.boot true true []) 3 4 1 2 t rfl (by rw [hw]; exact h1) (by decide) (by decide)
  obtain ⟨_, _, _, _, _, z1⟩ :=
    circle_table_spec Real.sin Real.cos Real.pi true (-1) false (by decide) t h1
  obtain ⟨c0, c1⟩ := z1 (Or.inl (by decide))
  have hsq : Real.sqrt (4 * 4 + 3 * 3) = 5 := by
    have e : (4 : ℝ) * 4 + 3 * 3 = 5 ^ 2 := by norm_num
    rw [e, Real.sqrt_sq (by norm_num)]
  have e1 : (isub 2 1 - 0).toNat = 1 := by decide
  have e2 : ((1 : Int) + 1 - 0).toNat = 2 := by decide
  have e3 : ((1 : Int) - 0).toNat = 1 := by decide
  have i2 : ((2 : Int) > 0) := by decide
  rw [e1, e2, e3] at hp
  simp only [i2, if_true, hsq] at hp
  refine ⟨calls, hc, ?_, ?_, ?_, ?_, ?_⟩
  · rw [hp]
    simp [List.range_succ]
  · rw [hp]
    simp [List.range_succ, coneVertex, coneStripNormal, coneR, coneZ, c0, c1]
  · rw [hp]
    simp [List.range_succ]
  · rw [hp]
    simp [List.range_succ, coneVertex, coneApexNormal, coneR, coneZ, c0, c1]
    norm_num
  · intro h
    have h' := congrArg Prod.fst h
    norm_num at h'

/-! ## The torus -/

theorem torus_slot {n j i k : Nat} (hi : i < n) (hk : k < 3) :
    (3 * (j * n + i) + k) / 3 / n = j ∧ (3 * (j * n + i) + k) / 3 % n = i ∧
      (3 * (j * n + i) + k) % 3 = k := by
  have h3 : (3 * (j * n + i) + k) / 3 = j * n + i := by omega
  obtain ⟨d, r⟩ := index_of_slot (i := j) hi
  rw [h3]
  exact ⟨d, r, by omega⟩

theorem torus_offset {n R j i : Nat} (hfit : 3 * (R * n) ≤ 2147483647) (hj : j < R)
    (hi : i < n) :
    imul 3 (iadd (imul (0 + (j : Int)) (n : Int)) (0 + (i : Int)))
      = ((3 * (j * n + i) : Nat) : Int) := by
  obtain ⟨hb, _⟩ := face_slot_bounds hj hi
  have hjn : j * n ≤ j * n + i := Nat.le_add_right _ _
  have h3 : ((3 : Nat) : Int) = 3 := rfl
  rw [zero_add, zero_add, imul_natCast (by omega), iadd_natCast (by omega), ← h3,
    imul_natCast (by omega)]

theorem angleSum_eq {α : Type} [Field α] (d : α) (k : Nat) : angleSum d k = (k : α) * d := by
  induction k with
  | zero => simp [angleSum]
  | succ k ih =>
    simp only [angleSum, ih]
    push_cast
    ring

/-- The sample loops of the torus functions fill the two arrays in ascending order with the
samples of `R` rings of `n` sides. -/
theorem torus_samples_filled {α : Type} [Field α] (m : LibM α) (iradius oradius dpsi dphi : α)
    (n R : Nat) (hfit : 3 * (R * n) ≤ 2147483647) (vertex normal : Buffer α) (phi0 : α) :
    FilledTo (torusVertexFloat m iradius oradius dpsi dphi n) vertex
      (forRange 0 (R : Int) (torusRing m iradius oradius dpsi dphi (n : Int))
        { vertex := vertex, normal := normal, phi := phi0, psi := 0 }).vertex (3 * (R * n)) ∧
    FilledTo (torusNormalFloat m iradius oradius dpsi dphi n) normal
      (forRange 0 (R : Int) (torusRing m iradius oradius dpsi dphi (n : Int))
        { vertex := vertex, normal := normal, phi := phi0, psi := 0 }).normal (3 * (R * n)) := by
  have hR : ((R : Int) - 0).toNat = R := by omega
  have hn : ((n : Int) - 0).toNat = n := by omega
  rw [forRange_eq, hR]
  have key := forLoop_inv
    (fun k : Nat => torusRing m iradius oradius dpsi dphi (n : Int) (0 + (k : Int)))
    (fun (j : Nat) (s : TorusLocals α) =>
      FilledTo (torusVertexFloat m iradius oradius dpsi dphi n) vertex s.vertex (3 * (j * n)) ∧
      FilledTo (torusNormalFloat m iradius oradius dpsi dphi n) normal s.normal (3 * (j * n)) ∧
      s.psi = angleSum dpsi j)
    R { vertex := vertex, normal := normal, phi := phi0, psi := 0 } ?_ ?_
  · exact ⟨key.1, key.2.1⟩
  · refine ⟨?_, ?_, rfl⟩
    · simpa using FilledTo.zero _ vertex
    · simpa using FilledTo.zero _ normal
  · intro j s hj ⟨sv, sn, spsi⟩
    simp only [torusRing]
    rw [forRange_eq, hn]
    have inner := forLoop_inv
      (fun k : Nat => torusSample m iradius oradius dphi (n : Int) (m.cosf s.psi) (m.sinf s.psi)
        (0 + (j : Int)) (0 + (k : Int)))
      (fun (i : Nat) (u : TorusLocals α) =>
        FilledTo (torusVertexFloat m iradius oradius dpsi dphi n) vertex u.vertex
          (3 * (j * n + i)) ∧
        FilledTo (torusNormalFloat m iradius oradius dpsi dphi n) normal u.normal
          (3 * (j * n + i)) ∧
        u.phi = angleSum dphi i)
      n { vertex := s.vertex, normal := s.normal, phi := 0, psi := s.psi } ?_ ?_
    · have e : 3 * (j * n + n) = 3 * ((j + 1) * n) := by ring
      rw [e] at inner
      exact ⟨inner.1, inner.2.1, by rw [spsi]; rfl⟩
    · exact ⟨sv, sn, rfl⟩
    · intro i u hi ⟨uv, un, uphi⟩
      have hoff := torus_offset hfit hj hi
      obtain ⟨a0, b0, c0⟩ := torus_slot (j := j) hi (by decide : 0 < 3)
      obtain ⟨a1, b1, c1⟩ := torus_slot (j := j) hi (by decide : 1 < 3)
      obtain ⟨a2, b2, c2⟩ := torus_slot (j := j) hi (by decide : 2 < 3)
      have hnext : 3 * (j * n + (i + 1)) = 3 * (j * n + i) + 1 + 1 + 1 := by ring
      have p0 : ((3 * (j * n + i) : Nat) : Int) + 0 = ((3 * (j * n + i) : Nat) : Int) := by simp
      have p1 : ((3 * (j * n + i) : Nat) : Int) + 1 = ((3 * (j * n + i) + 1 : Nat) : Int) := by
        push_cast; ring
      have p2 : ((3 * (j * n + i) : Nat) : Int) + 2 = ((3 * (j * n + i) + 1 + 1 : Nat) : Int) := by
        push_cast; ring
      simp only [torusSample, hoff, p0, p1, p2, hnext]
      refine ⟨((uv.store _ ?_).store _ ?_).store _ ?_, ((un.store _ ?_).store _ ?_).store _ ?_,
        by rw [uphi]; rfl⟩
      · simp only [Nat.add_zero] at a0 b0 c0
        simp only [torusVertexFloat, a0, b0, c0, torusVertex, torusPos, coord, spsi, uphi, if_true]
      · simp only [torusVertexFloat, a1, b1, c1, torusVertex, torusPos, coord, spsi, uphi]
        simp
      · simp only [Nat.add_assoc]
        simp only [torusVertexFloat, a2, b2, c2, torusVertex, torusPos, coord, spsi, uphi]
        simp
      · simp only [Nat.add_zero] at a0 b0 c0
        simp only [torusNormalFloat, a0, b0, c0, torusVertex, torusNormal, coord, spsi, uphi,
          if_true]
      · simp only [torusNormalFloat, a1, b1, c1, torusVertex, torusNormal, coord, spsi, uphi]
        simp
      · simp only [Nat.add_assoc]
        simp only [torusNormalFloat, a2, b2, c2, torusVertex, torusNormal, coord, spsi, uphi]
        simp

theorem flatMap_congr_range {β : Type} (n : Nat) (f g : Nat → List β)
    (h : ∀ i, i < n → f i = g i) : (List.range n).flatMap f = (List.range n).flatMap g := by
  apply List.flatMap_congr
  intro i hi
  exact h i (List.mem_range.mp hi)

/-- The calls of `glutWireTorus` in closed form, for counts of at least 1 whose arrays
can be allocated: the two arrays hold the samples of `R` rings of `n` sides, and each
line loop reads them at the offsets of its samples. -/
theorem wireTorus_trace {α : Type} [Field α] (m : LibM α) (w : World) (iradius oradius : α)
    (n R : Nat) (hn : 1 ≤ n) (hR : 1 ≤ R) (hfit : 3 * (R * n) ≤ 2147483647)
    (hinit : w.Initialised = true) (hm : w.mallocOk = true) :
    ∃ V N : Buffer α,
      FilledTo (torusVertexFloat m iradius oradius (2 * m.M_PI / (((R : Nat) : Int) : α))
          (-2 * m.M_PI / (((n : Nat) : Int) : α)) n)
        (Buffer.fresh 0 (3 * (R * n))) V (3 * (R * n)) ∧
      FilledTo (torusNormalFloat m iradius oradius (2 * m.M_PI / (((R : Nat) : Int) : α))
          (-2 * m.M_PI / (((n : Nat) : Int) : α)) n)
        (Buffer.fresh 0 (3 * (R * n))) N (3 * (R * n)) ∧
      glutWireTorus m w iradius oradius (n : Int) (R : Int)
        = Except.ok (wireTorusCalls V N n R) := by
  have hn1 : ¬ ((n : Int) < 1) := by omega
  have hR1 : ¬ ((R : Int) < 1) := by omega
  have hRn : R * n ≤ 3 * (R * n) := by omega
  have hn3 : 3 * n ≤ 3 * (R * n) := by
    have := Nat.mul_le_mul_right n hR
    omega
  have h3 : ((3 : Nat) : Int) = 3 := rfl
  have hcount : imul (imul 3 (n : Int)) (R : Int) = ((3 * (R * n) : Nat) : Int) := by
    rw [← h3, imul_natCast (by omega), imul_natCast (by
      have e : 3 * n * R = 3 * (R * n) := by ring
      omega)]
    congr 1
    ring
  have hcond : (w.mallocOk && decide (0 ≤ ((3 * (R * n) : Nat) : Int))) = true := by
    rw [hm, Bool.true_and]
    exact decide_eq_true (Int.ofNat_nonneg _)
  obtain ⟨fv, fn⟩ := torus_samples_filled m iradius oradius
    (2 * m.M_PI / (((R : Nat) : Int) : α)) (-2 * m.M_PI / (((n : Nat) : Int) : α)) n R hfit
    (Buffer.fresh 0 (3 * (R * n))) (Buffer.fresh 0 (3 * (R * n))) 0
  refine ⟨_, _, fv, fn, ?_⟩
  have hRt : ((R : Int) - 0).toNat = R := by omega
  have hnt : ((n : Int) - 0).toNat = n := by omega
  unfold glutWireTorus wireTorusCalls sampleOffset
  simp only [guard_ok w _ hinit, hn1, hR1, if_false, hcount, hcond, if_true, Int.toNat_ofNat,
    forRange_append, hRt, hnt, List.append_assoc]

/-- The vertex read from the filled arrays at the offset of sample `(j, i)` is the sample
of ring `j` and side `i`. -/
theorem array_sample {α : Type} [Field α] (m : LibM α) (iradius oradius dpsi dphi : α)
    (n R : Nat) (hfit : 3 * (R * n) ≤ 2147483647) (V N oldV oldN : Buffer α)
    (fv : FilledTo (torusVertexFloat m iradius oradius dpsi dphi n) oldV V (3 * (R * n)))
    (fn : FilledTo (torusNormalFloat m iradius oradius dpsi dphi n) oldN N (3 * (R * n)))
    {j i : Nat} (hj : j < R) (hi : i < n) :
    arrayVertex V N (imul 3 (iadd (imul (0 + (j : Int)) (n : Int)) (0 + (i : Int))))
      = torusVertex m iradius oradius dpsi dphi j i := by
  obtain ⟨hb, _⟩ := face_slot_bounds hj hi
  obtain ⟨a0, b0, c0⟩ := torus_slot (j := j) hi (by decide : 0 < 3)
  obtain ⟨a1, b1, c1⟩ := torus_slot (j := j) hi (by decide : 1 < 3)
  obtain ⟨a2, b2, c2⟩ := torus_slot (j := j) hi (by decide : 2 < 3)
  have p1 : ((3 * (j * n + i) : Nat) : Int) + 1 = ((3 * (j * n + i) + 1 : Nat) : Int) := by
    push_cast; ring
  have p2 : ((3 * (j * n + i) : Nat) : Int) + 2 = ((3 * (j * n + i) + 2 : Nat) : Int) := by
    push_cast; ring
  have v0 := fv.2.2.1 (3 * (j * n + i)) (by omega)
  have v1 := fv.2.2.1 (3 * (j * n + i) + 1) (by omega)
  have v2 := fv.2.2.1 (3 * (j * n + i) + 2) (by omega)
  have n0 := fn.2.2.1 (3 * (j * n + i)) (by omega)
  have n1 := fn.2.2.1 (3 * (j * n + i) + 1) (by omega)
  have n2 := fn.2.2.1 (3 * (j * n + i) + 2) (by omega)
  simp only [Nat.add_zero] at a0 b0 c0
  rw [torus_offset hfit hj hi]
  simp only [arrayVertex, p1, p2, v0, v1, v2, n0, n1, n2, torusVertexFloat, torusNormalFloat,
    a0, b0, c0, a1, b1, c1, a2, b2, c2, coord]
  simp

/-- The vertex read from the filled arrays at the offset that the loops compute for
sample `(j, i)` is the sample of ring `j` and side `i`. -/
theorem array_sample_offset {α : Type} [Field α] (m : LibM α) (iradius oradius dpsi dphi : α)
    (n R : Nat) (hfit : 3 * (R * n) ≤ 2147483647) (V N oldV oldN : Buffer α)
    (fv : FilledTo (torusVertexFloat m iradius oradius dpsi dphi n) oldV V (3 * (R * n)))
    (fn : FilledTo (torusNormalFloat m iradius oradius dpsi dphi n) oldN N (3 * (R * n)))
    {j i : Nat} (hj : j < R) (hi : i < n) :
    sampleOffset (n : Int) j i = ((3 * (j * n + i) : Nat) : Int) ∧
    arrayVertex V N (sampleOffset (n : Int) j i) = torusVertex m iradius oradius dpsi dphi j i :=
  ⟨torus_offset hfit hj hi,
   array_sample m iradius oradius dpsi dphi n R hfit V N oldV oldN fv fn hj hi⟩

/-- The primitives of the calls expected of `glutWireTorus`, read from filled arrays: one
line loop for each side through the samples of all rings, then one line loop for each
ring through the samples of all sides. -/
theorem wireTorus_primitives {α : Type} [Field α] (m : LibM α) (iradius oradius dpsi dphi : α)
    (n R : Nat) (hfit : 3 * (R * n) ≤ 2147483647) (V N oldV oldN : Buffer α)
    (fv : FilledTo (torusVertexFloat m iradius oradius dpsi dphi n) oldV V (3 * (R * n)))
    (fn : FilledTo (torusNormalFloat m iradius oradius dpsi dphi n) oldN N (3 * (R * n))) :
    primitives (wireTorusCalls V N n R)
      = (List.range n).map (fun i : Nat =>
          ({ mode := GLenum.GL_LINE_LOOP
             vertices := (List.range R).map (fun j : Nat =>
               torusVertex m iradius oradius dpsi dphi j i) } : Primitive α))
        ++ (List.range R).map (fun j : Nat =>
          ({ mode := GLenum.GL_LINE_LOOP
             vertices := (List.range n).map (fun i : Nat =>
               torusVertex m iradius oradius dpsi dphi j i) } : Primitive α)) := by
  have E1 := fun i : Nat => run_items_set (List.range R)
    (fun j : Nat =>
      [GLImm.glNormal3fv N (sampleOffset (n : Int) j i),
       GLImm.glVertex3fv V (sampleOffset (n : Int) j i)])
    (fun j : Nat => (arrayVertex V N (sampleOffset (n : Int) j i)).normal)
    (fun j : Nat => [arrayVertex V N (sampleOffset (n : Int) j i)])
    GLenum.GL_LINE_LOOP
    (fun j nn vs d => by simp [GLState.step, arrayVertex])
  have E2 := fun j : Nat => run_items_set (List.range n)
    (fun i : Nat =>
      [GLImm.glNormal3fv N (sampleOffset (n : Int) j i),
       GLImm.glVertex3fv V (sampleOffset (n : Int) j i)])
    (fun i : Nat => (arrayVertex V N (sampleOffset (n : Int) j i)).normal)
    (fun i : Nat => [arrayVertex V N (sampleOffset (n : Int) j i)])
    GLenum.GL_LINE_LOOP
    (fun i nn vs d => by simp [GLState.step, arrayVertex])
  have B1 := run_blocks (List.range n)
    (fun i : Nat =>
      [GLImm.glBegin GLenum.GL_LINE_LOOP]
      ++ (List.range R).flatMap (fun j : Nat =>
          [GLImm.glNormal3fv N (sampleOffset (n : Int) j i),
           GLImm.glVertex3fv V (sampleOffset (n : Int) j i)])
      ++ [GLImm.glEnd])
    (fun (nn : α × α × α) (i : Nat) => (List.range R).foldl
      (fun (_ : α × α × α) (j : Nat) =>
        (arrayVertex V N (sampleOffset (n : Int) j i)).normal) nn)
    (fun i : Nat =>
      ({ mode := GLenum.GL_LINE_LOOP
         vertices := (List.range R).map (fun j : Nat =>
           arrayVertex V N (sampleOffset (n : Int) j i)) } : Primitive α))
    (by
      intro i nn d
      simp only [List.foldl_append, List.foldl_cons, List.foldl_nil, GLState.step, E1 i,
        List.nil_append, flatMap_unit])
  have B2 := run_blocks (List.range R)
    (fun j : Nat =>
      [GLImm.glBegin GLenum.GL_LINE_LOOP]
      ++ (List.range n).flatMap (fun i : Nat =>
          [GLImm.glNormal3fv N (sampleOffset (n : Int) j i),
           GLImm.glVertex3fv V (sampleOffset (n : Int) j i)])
      ++ [GLImm.glEnd])
    (fun (nn : α × α × α) (j : Nat) => (List.range n).foldl
      (fun (_ : α × α × α) (i : Nat) =>
        (arrayVertex V N (sampleOffset (n : Int) j i)).normal) nn)
    (fun j : Nat =>
      ({ mode := GLenum.GL_LINE_LOOP
         vertices := (List.range n).map (fun i : Nat =>
           arrayVertex V N (sampleOffset (n : Int) j i)) } : Primitive α))
    (by
      intro j nn d
      simp only [List.foldl_append, List.foldl_cons, List.foldl_nil, GLState.step, E2 j,
        List.nil_append, flatMap_unit])
  have S := fun (j i : Nat) (hj : j < R) (hi : i < n) =>
    (array_sample_offset m iradius oradius dpsi dphi n R hfit V N _ _ fv fn hj hi).2
  have M1 : (List.range n).map (fun i : Nat =>
        ({ mode := GLenum.GL_LINE_LOOP
           vertices := (List.range R).map (fun j : Nat =>
             arrayVertex V N (sampleOffset (n : Int) j i)) } : Primitive α))
      = (List.range n).map (fun i : Nat =>
        ({ mode := GLenum.GL_LINE_LOOP
           vertices := (List.range R).map (fun j : Nat =>
             torusVertex m iradius oradius dpsi dphi j i) } : Primitive α)) := by
    apply List.map_congr_left
    intro i hi
    have e : (List.range R).map (fun j : Nat => arrayVertex V N (sampleOffset (n : Int) j i))
        = (List.range R).map (fun j : Nat => torusVertex m iradius oradius dpsi dphi j i) := by
      apply List.map_congr_left
      intro j hj
      exact S j i (List.mem_range.mp hj) (List.mem_range.mp hi)
    rw [e]
  have M2 : (List.range R).map (fun j : Nat =>
        ({ mode := GLenum.GL_LINE_LOOP
           vertices := (List.range n).map (fun i : Nat =>
             arrayVertex V N (sampleOffset (n : Int) j i)) } : Primitive α))
      = (List.range R).map (fun j : Nat =>
        ({ mode := GLenum.GL_LINE_LOOP
           vertices := (List.range n).map (fun i : Nat =>
             torusVertex m iradius oradius dpsi dphi j i) } : Primitive α)) := by
    apply List.map_congr_left
    intro j hj
    have e : (List.range n).map (fun i : Nat => arrayVertex V N (sampleOffset (n : Int) j i))
        = (List.range n).map (fun i : Nat => torusVertex m iradius oradius dpsi dphi j i) := by
      apply List.map_congr_left
      intro i hi
      exact S j i (List.mem_range.mp hj) (List.mem_range.mp hi)
    rw [e]
  unfold primitives wireTorusCalls
  simp only [List.foldl_append, List.foldl_cons, List.foldl_nil, GLState.step, B1, B2,
    List.nil_append]
  rw [M1, M2]

/-- The two count arguments of `glutWireTorus` are replaced by 1 where they are below 1. -/
theorem wireTorus_clamp {α : Type} [Field α] (m : LibM α) (w : World) (iradius oradius : α)
    (nSides nRings : Int) :
    glutWireTorus m w iradius oradius nSides nRings
      = glutWireTorus m w iradius oradius (max nSides 1) (max nRings 1) := by
  have h1 : ∀ x : Int, (if max x 1 < 1 then 1 else max x 1) = (if x < 1 then 1 else x) := by
    intro x
    split_ifs <;> omega
  unfold glutWireTorus
  simp only [h1]

theorem filled_fresh_stores {α : Type} {G : Nat → α} {b : Buffer α} {fill : α} {size k : Nat}
    (h : FilledTo G (Buffer.fresh fill size) b k) :
    b.size = size ∧ b.stores.Nodup ∧ b.stores.length = k ∧
      ∀ p : Int, p ∈ b.stores ↔ 0 ≤ p ∧ p < (k : Int) := by
  refine ⟨h.1, h.nodup_stores rfl, ?_, h.mem_stores rfl⟩
  rw [h.2.1]
  simp [Buffer.fresh]

/-- C23: `glutWireTorus` treats every `nSides < 1` and every `nRings < 1` as 1: its result
for such a value is its result for 1; and in an initialised program whose allocations
succeed, with `n` and `R` the clamped values of `nSides` and `nRings` (and `3 * n * R` an
`int`), it stores to each of the `3 * n * R` floats of its vertex array and of its normal
array once, which are the `R * n` samples, and specifies first `n` line loops of `R`
vertices, loop `i` visiting the samples `(j, i)` for `j = 0 .. R-1`, then `R` line loops
of `n` vertices, loop `j` visiting the samples `(j, i)` for `i = 0 .. n-1`. -/
theorem wire_torus_loops {α : Type} [Field α] (m : LibM α) (w : World) (iradius oradius : α)
    (nSides nRings : Int) (hinit : w.Initialised = true) (hm : w.mallocOk = true)
    (hfit : 3 * (max nRings 1 * max nSides 1) ≤ 2147483647) :
    (nSides < 1 → glutWireTorus m w iradius oradius nSides nRings
      = glutWireTorus m w iradius oradius 1 nRings) ∧
    (nRings < 1 → glutWireTorus m w iradius oradius nSides nRings
      = glutWireTorus m w iradius oradius nSides 1) ∧
    ∃ V N : Buffer α,
      glutWireTorus m w iradius oradius nSides nRings
        = Except.ok (wireTorusCalls V N (max nSides 1).toNat (max nRings 1).toNat) ∧
      V.size = 3 * ((max nRings 1).toNat * (max nSides 1).toNat) ∧ V.stores.Nodup ∧
      V.stores.length = 3 * ((max nRings 1).toNat * (max nSides 1).toNat) ∧
      (∀ p : Int, p ∈ V.stores ↔
        0 ≤ p ∧ p < ((3 * ((max nRings 1).toNat * (max nSides 1).toNat) : Nat) : Int)) ∧
      N.size = 3 * ((max nRings 1).toNat * (max nSides 1).toNat) ∧ N.stores.Nodup ∧
      N.stores.length = 3 * ((max nRings 1).toNat * (max nSides 1).toNat) ∧
      (∀ p : Int, p ∈ N.stores ↔
        0 ≤ p ∧ p < ((3 * ((max nRings 1).toNat * (max nSides 1).toNat) : Nat) : Int)) ∧
      primitives (wireTorusCalls V N (max nSides 1).toNat (max nRings 1).toNat)
        = (List.range (max nSides 1).toNat).map (fun i : Nat =>
            ({ mode := GLenum.GL_LINE_LOOP
               vertices := (List.range (max nRings 1).toNat).map (fun j : Nat =>
                 torusVertex m iradius oradius (2 * m.M_PI / ((max nRings 1 : Int) : α))
                   (-2 * m.M_PI / ((max nSides 1 : Int) : α)) j i) } : Primitive α))
          ++ (List.range (max nRings 1).toNat).map (fun j : Nat =>
            ({ mode := GLenum.GL_LINE_LOOP
               vertices := (List.range (max nSides 1).toNat).map (fun i : Nat =>
                 torusVertex m iradius oradius (2 * m.M_PI / ((max nRings 1 : Int) : α))
                   (-2 * m.M_PI / ((max nSides 1 : Int) : α)) j i) } : Primitive α)) := by
  have c0 := wireTorus_clamp m w iradius oradius nSides nRings
  refine ⟨?_, ?_, ?_⟩
  · intro h
    have e : max nSides 1 = max 1 1 := by
      rw [max_eq_right (by omega), max_self]
    rw [c0, wireTorus_clamp m w iradius oradius 1 nRings, e]
  · intro h
    have e : max nRings 1 = max 1 1 := by
      rw [max_eq_right (by omega), max_self]
    rw [c0, wireTorus_clamp m w iradius oradius nSides 1, e]
  · have hn : ((max nSides 1).toNat : Int) = max nSides 1 :=
      Int.toNat_of_nonneg (by omega)
    have hR : ((max nRings 1).toNat : Int) = max nRings 1 :=
      Int.toNat_of_nonneg (by omega)
    have hfit' : 3 * ((max nRings 1).toNat * (max nSides 1).toNat) ≤ 2147483647 := by
      have e : ((3 * ((max nRings 1).toNat * (max nSides 1).toNat) : Nat) : Int)
          = 3 * (max nRings 1 * max nSides 1) := by
        push_cast
        rw [hn, hR]
      omega
    obtain ⟨V, N, fv, fn, hc⟩ := wireTorus_trace m w iradius oradius (max nSides 1).toNat
      (max nRings 1).toNat (by omega) (by omega) hfit' hinit hm
    rw [hn, hR] at hc fv fn
    obtain ⟨v1, v2, v3, v4⟩ := filled_fresh_stores fv
    obtain ⟨n1, n2, n3, n4⟩ := filled_fresh_stores fn
    refine ⟨V, N, by rw [c0]; exact hc, v1, v2, v3, v4, n1, n2, n3, n4, ?_⟩
    exact wireTorus_primitives m iradius oradius _ _ _ _ hfit' V N _ _ fv fn

/-- Witness for C23: the real sine and cosine, `nSides = 0` (treated as 1) and three
rings: one line loop of three vertices, then three line loops of one vertex. -/
theorem wire_torus_loops_witness :
    ∃ V N : Buffer ℝ,
      glutWireTorus
          ({ sinf := Real.sin, cosf := Real.cos, sqrtf := Real.sqrt, M_PI := Real.pi } : LibM ℝ)
          (World.boot true true []) 1 2 0 3 = Except.ok (wireTorusCalls V N 1 3) ∧
      V.stores.length = 9 ∧
      (primitives (wireTorusCalls V N 1 3)).map (fun p => (p.mode, p.vertices.length))
        = [(GLenum.GL_LINE_LOOP, 3), (GLenum.GL_LINE_LOOP, 1), (GLenum.GL_LINE_LOOP, 1),
           (GLenum.GL_LINE_LOOP, 1)] := by
  obtain ⟨_, _, V, N, hc, _, _, hl, _, _, _, _, _, hp⟩ := wire_torus_loops
    ({ sinf := Real.sin, cosf := Real.cos, sqrtf := Real.sqrt, M_PI := Real.pi } : LibM ℝ)
    (World.boot true true []) 1 2 0 3 rfl rfl (by decide)
  have e1 : (max (0 : Int) 1).toNat = 1 := by decide
  have e2 : (max (3 : Int) 1).toNat = 3 := by decide
  rw [e1, e2] at hc hl hp
  refine ⟨V, N, hc, hl, ?_⟩
  rw [hp]
  rfl

/-- Items that add vertices which do not depend on the normal in force before them add
their vertices to the primitive being specified. -/
theorem run_items_any {α J : Type} (js : List J) (item : J → List (GLImm α))
    (Nf : α × α × α → J → α × α × α) (V : J → List (Vertex α)) (mode : GLenum)
    (h : ∀ j n vs d, (item j).foldl GLState.step
        { normal := n, current := some { mode := mode, vertices := vs }, done := d }
      = { normal := Nf n j, current := some { mode := mode, vertices := vs ++ V j },
          done := d }) :
    ∀ n vs d, (js.flatMap item).foldl GLState.step
        { normal := n, current := some { mode := mode, vertices := vs }, done := d }
      = { normal := js.foldl Nf n,
          current := some { mode := mode, vertices := vs ++ js.flatMap V }, done := d } := by
  induction js with
  | nil => intro n vs d; simp
  | cons j js ih =>
    intro n vs d
    simp only [List.flatMap_cons, List.foldl_append, h j n vs d, ih (Nf n j) (vs ++ V j) d,
      List.append_assoc, List.foldl_cons]

/-- The calls of `glutSolidTorus` in closed form, for counts of at least 1 whose arrays
can be allocated: the two arrays hold the samples of `R + 1` rings of `n + 1` sides. -/
theorem solidTorus_trace {α : Type} [Field α] (m : LibM α) (w : World) (iradius oradius : α)
    (n R : Nat) (hn : 1 ≤ n) (hR : 1 ≤ R) (hfit : 3 * ((R + 1) * (n + 1)) ≤ 2147483647)
    (hinit : w.Initialised = true) (hm : w.mallocOk = true) :
    ∃ V N : Buffer α,
      FilledTo (torusVertexFloat m iradius oradius (2 * m.M_PI / (((R : Nat) : Int) : α))
          (-2 * m.M_PI / (((n : Nat) : Int) : α)) (n + 1))
        (Buffer.fresh 0 (3 * ((R + 1) * (n + 1)))) V (3 * ((R + 1) * (n + 1))) ∧
      FilledTo (torusNormalFloat m iradius oradius (2 * m.M_PI / (((R : Nat) : Int) : α))
          (-2 * m.M_PI / (((n : Nat) : Int) : α)) (n + 1))
        (Buffer.fresh 0 (3 * ((R + 1) * (n + 1)))) N (3 * ((R + 1) * (n + 1))) ∧
      glutSolidTorus m w iradius oradius (n : Int) (R : Int)
        = Except.ok (solidTorusCalls V N n R) := by
  have hn1 : ¬ ((n : Int) < 1) := by omega
  have hR1 : ¬ ((R : Int) < 1) := by omega
  have hmul : (R + 1) * (n + 1) = R * n + R + n + 1 := by ring
  have hRn : R * n ≤ R * n + R + n := by omega
  have h1 : ((1 : Nat) : Int) = 1 := rfl
  have h3 : ((3 : Nat) : Int) = 3 := rfl
  have hni : iadd (n : Int) 1 = ((n + 1 : Nat) : Int) := by
    rw [← h1, iadd_natCast (by omega)]
  have hRi : iadd (R : Int) 1 = ((R + 1 : Nat) : Int) := by
    rw [← h1, iadd_natCast (by omega)]
  have hns : isub ((n + 1 : Nat) : Int) 1 = (n : Int) := by
    unfold isub
    rw [wrapInt_of_range (by omega) (by omega)]
    push_cast; ring
  have hRs : isub ((R + 1 : Nat) : Int) 1 = (R : Int) := by
    unfold isub
    rw [wrapInt_of_range (by omega) (by omega)]
    push_cast; ring
  have hcount : imul (imul 3 ((n + 1 : Nat) : Int)) ((R + 1 : Nat) : Int)
      = ((3 * ((R + 1) * (n + 1)) : Nat) : Int) := by
    have e : 3 * (n + 1) * (R + 1) = 3 * ((R + 1) * (n + 1)) := by ring
    rw [← h3, imul_natCast (by omega), imul_natCast (by omega), e]
  have hcond : (w.mallocOk && decide (0 ≤ ((3 * ((R + 1) * (n + 1)) : Nat) : Int))) = true := by
    rw [hm, Bool.true_and]
    exact decide_eq_true (Int.ofNat_nonneg _)
  obtain ⟨fv, fn⟩ := torus_samples_filled m iradius oradius
    (2 * m.M_PI / (((R : Nat) : Int) : α)) (-2 * m.M_PI / (((n : Nat) : Int) : α)) (n + 1) (R + 1)
    hfit (Buffer.fresh 0 (3 * ((R + 1) * (n + 1)))) (Buffer.fresh 0 (3 * ((R + 1) * (n + 1)))) 0
  refine ⟨_, _, fv, fn, ?_⟩
  have hRt : ((R : Int) - 0).toNat = R := by omega
  have hnt : ((n : Int) - 0).toNat = n := by omega
  unfold glutSolidTorus solidTorusCalls sampleOffset
  simp only [guard_ok w _ hinit, hn1, hR1, if_false, hni, hRi, hns, hRs, hcount, hcond, if_true,
    Int.toNat_ofNat, forRange_append, hRt, hnt, List.append_assoc, List.cons_append,
    List.nil_append]

/-- The vertex read from the filled arrays at the offset `3 * (j * n + i)` is the sample
of ring `j` and side `i`. -/
theorem array_sample_at {α : Type} [Field α] (m : LibM α) (iradius oradius dpsi dphi : α)
    (n R : Nat) (hfit : 3 * (R * n) ≤ 2147483647) (V N oldV oldN : Buffer α)
    (fv : FilledTo (torusVertexFloat m iradius oradius dpsi dphi n) oldV V (3 * (R * n)))
    (fn : FilledTo (torusNormalFloat m iradius oradius dpsi dphi n) oldN N (3 * (R * n)))
    {j i : Nat} (hj : j < R) (hi : i < n) :
    arrayVertex V N ((3 * (j * n + i) : Nat) : Int)
      = torusVertex m iradius oradius dpsi dphi j i := by
  rw [← torus_offset hfit hj hi]
  exact array_sample m iradius oradius dpsi dphi n R hfit V N oldV oldN fv fn hj hi

/-- The four offsets that the quad of cell `(i, j)` reads, for arrays of `n + 1` samples
to the ring. -/
theorem quad_offsets {n R j i : Nat} (hfit : 3 * ((R + 1) * (n + 1)) ≤ 2147483647)
    (hj : j < R) (hi : i < n) :
    sampleOffset ((n + 1 : Nat) : Int) j i = ((3 * (j * (n + 1) + i) : Nat) : Int) ∧
    sampleOffset ((n + 1 : Nat) : Int) j i + 3 = ((3 * (j * (n + 1) + (i + 1)) : Nat) : Int) ∧
    sampleOffset ((n + 1 : Nat) : Int) j i + imul 3 ((n + 1 : Nat) : Int) + 3
      = ((3 * ((j + 1) * (n + 1) + (i + 1)) : Nat) : Int) ∧
    sampleOffset ((n + 1 : Nat) : Int) j i + imul 3 ((n + 1 : Nat) : Int)
      = ((3 * ((j + 1) * (n + 1) + i) : Nat) : Int) := by
  have h3 : ((3 : Nat) : Int) = 3 := rfl
  have hmul : (R + 1) * (n + 1) = R * n + R + n + 1 := by ring
  have hRn : R * n ≤ R * n + R + n := by omega
  have e0 : sampleOffset ((n + 1 : Nat) : Int) j i = ((3 * (j * (n + 1) + i) : Nat) : Int) :=
    torus_offset hfit (by omega) (by omega)
  have e1 : imul 3 ((n + 1 : Nat) : Int) = ((3 * (n + 1) : Nat) : Int) := by
    rw [← h3, imul_natCast (by omega)]
  rw [e0, e1]
  refine ⟨rfl, ?_, ?_, ?_⟩ <;> (push_cast; ring)

/-- The eight calls of one quad add its four corners, read from the arrays. -/
theorem quad_item {α : Type} (V N : Buffer α) (a b c e : Int) (nn : α × α × α)
    (vs : List (Vertex α)) (d : List (Primitive α)) :
    ([GLImm.glNormal3fv N a, GLImm.glVertex3fv V a, GLImm.glNormal3fv N b,
      GLImm.glVertex3fv V b, GLImm.glNormal3fv N c, GLImm.glVertex3fv V c,
      GLImm.glNormal3fv N e, GLImm.glVertex3fv V e] : List (GLImm α)).foldl GLState.step
        { normal := nn, current := some { mode := GLenum.GL_QUADS, vertices := vs }, done := d }
      = { normal := (arrayVertex V N e).normal
          current := some { mode := GLenum.GL_QUADS
                            vertices := vs ++ [arrayVertex V N a, arrayVertex V N b,
                              arrayVertex V N c, arrayVertex V N e] }
          done := d } := by
  simp only [List.foldl_cons, List.foldl_nil, GLState.step, arrayVertex, List.append_assoc,
    List.singleton_append, List.cons_append, List.nil_append]

/-- The primitive of the calls expected of `glutSolidTorus`, read from filled arrays of
`R + 1` rings of `n + 1` sides: one `GL_QUADS` primitive with, for each cell `(i, j)`, the
samples `(j, i)`, `(j, i+1)`, `(j+1, i+1)` and `(j+1, i)`. -/
theorem solidTorus_primitives {α : Type} [Field α] (m : LibM α)
    (iradius oradius dpsi dphi : α) (n R : Nat) (hfit : 3 * ((R + 1) * (n + 1)) ≤ 2147483647)
    (V N oldV oldN : Buffer α)
    (fv : FilledTo (torusVertexFloat m iradius oradius dpsi dphi (n + 1)) oldV V
      (3 * ((R + 1) * (n + 1))))
    (fn : FilledTo (torusNormalFloat m iradius oradius dpsi dphi (n + 1)) oldN N
      (3 * ((R + 1) * (n + 1)))) :
    primitives (solidTorusCalls V N n R)
      = [{ mode := GLenum.GL_QUADS
           vertices := (List.range n).flatMap (fun i : Nat =>
             (List.range R).flatMap (fun j : Nat =>
               [torusVertex m iradius oradius dpsi dphi j i,
                torusVertex m iradius oradius dpsi dphi j (i + 1),
                torusVertex m iradius oradius dpsi dphi (j + 1) (i + 1),
                torusVertex m iradius oradius dpsi dphi (j + 1) i])) }] := by
  have E := fun i : Nat => run_items_set (List.range R)
    (fun j : Nat =>
      [GLImm.glNormal3fv N (sampleOffset ((n + 1 : Nat) : Int) j i),
       GLImm.glVertex3fv V (sampleOffset ((n + 1 : Nat) : Int) j i),
       GLImm.glNormal3fv N (sampleOffset ((n + 1 : Nat) : Int) j i + 3),
       GLImm.glVertex3fv V (sampleOffset ((n + 1 : Nat) : Int) j i + 3),
       GLImm.glNormal3fv N
         (sampleOffset ((n + 1 : Nat) : Int) j i + imul 3 ((n + 1 : Nat) : Int) + 3),
       GLImm.glVertex3fv V
         (sampleOffset ((n + 1 : Nat) : Int) j i + imul 3 ((n + 1 : Nat) : Int) + 3),
       GLImm.glNormal3fv N
         (sampleOffset ((n + 1 : Nat) : Int) j i + imul 3 ((n + 1 : Nat) : Int)),
       GLImm.glVertex3fv V
         (sampleOffset ((n + 1 : Nat) : Int) j i + imul 3 ((n + 1 : Nat) : Int))])
    (fun j : Nat => (arrayVertex V N
      (sampleOffset ((n + 1 : Nat) : Int) j i + imul 3 ((n + 1 : Nat) : Int))).normal)
    (fun j : Nat =>
      [arrayVertex V N (sampleOffset ((n + 1 : Nat) : Int) j i),
       arrayVertex V N (sampleOffset ((n + 1 : Nat) : Int) j i + 3),
       arrayVertex V N
         (sampleOffset ((n + 1 : Nat) : Int) j i + imul 3 ((n + 1 : Nat) : Int) + 3),
       arrayVertex V N
         (sampleOffset ((n + 1 : Nat) : Int) j i + imul 3 ((n + 1 : Nat) : Int))])
    GLenum.GL_QUADS
    (fun j nn vs d => quad_item V N _ _ _ _ nn vs d)
  have O := run_items_any (List.range n)
    (fun i : Nat => (List.range R).flatMap (fun j : Nat =>
      [GLImm.glNormal3fv N (sampleOffset ((n + 1 : Nat) : Int) j i),
       GLImm.glVertex3fv V (sampleOffset ((n + 1 : Nat) : Int) j i),
       GLImm.glNormal3fv N (sampleOffset ((n + 1 : Nat) : Int) j i + 3),
       GLImm.glVertex3fv V (sampleOffset ((n + 1 : Nat) : Int) j i + 3),
       GLImm.glNormal3fv N
         (sampleOffset ((n + 1 : Nat) : Int) j i + imul 3 ((n + 1 : Nat) : Int) + 3),
       GLImm.glVertex3fv V
         (sampleOffset ((n + 1 : Nat) : Int) j i + imul 3 ((n + 1 : Nat) : Int) + 3),
       GLImm.glNormal3fv N
         (sampleOffset ((n + 1 : Nat) : Int) j i + imul 3 ((n + 1 : Nat) : Int)),
       GLImm.glVertex3fv V
         (sampleOffset ((n + 1 : Nat) : Int) j i + imul 3 ((n + 1 : Nat) : Int))]))
    (fun (nn : α × α × α) (i : Nat) => (List.range R).foldl
      (fun (_ : α × α × α) (j : Nat) => (arrayVertex V N
        (sampleOffset ((n + 1 : Nat) : Int) j i + imul 3 ((n + 1 : Nat) : Int))).normal) nn)
    (fun i : Nat => (List.range R).flatMap (fun j : Nat =>
      [arrayVertex V N (sampleOffset ((n + 1 : Nat) : Int) j i),
       arrayVertex V N (sampleOffset ((n + 1 : Nat) : Int) j i + 3),
       arrayVertex V N
         (sampleOffset ((n + 1 : Nat) : Int) j i + imul 3 ((n + 1 : Nat) : Int) + 3),
       arrayVertex V N
         (sampleOffset ((n + 1 : Nat) : Int) j i + imul 3 ((n + 1 : Nat) : Int))]))
    GLenum.GL_QUADS
    (fun i nn vs d => E i nn vs d)
  have M : (List.range n).flatMap (fun i : Nat => (List.range R).flatMap (fun j : Nat =>
        [arrayVertex V N (sampleOffset ((n + 1 : Nat) : Int) j i),
         arrayVertex V N (sampleOffset ((n + 1 : Nat) : Int) j i + 3),
         arrayVertex V N
           (sampleOffset ((n + 1 : Nat) : Int) j i + imul 3 ((n + 1 : Nat) : Int) + 3),
         arrayVertex V N
           (sampleOffset ((n + 1 : Nat) : Int) j i + imul 3 ((n + 1 : Nat) : Int))]))
      = (List.range n).flatMap (fun i : Nat => (List.range R).flatMap (fun j : Nat =>
        [torusVertex m iradius oradius dpsi dphi j i,
         torusVertex m iradius oradius dpsi dphi j (i + 1),
         torusVertex m iradius oradius dpsi dphi (j + 1) (i + 1),
         torusVertex m iradius oradius dpsi dphi (j + 1) i])) := by
    apply flatMap_congr_range
    intro i hi
    apply flatMap_congr_range
    intro j hj
    obtain ⟨o0, o1, o2, o3⟩ := quad_offsets hfit hj hi
    rw [o2, o3, o1, o0,
      array_sample_at m iradius oradius dpsi dphi (n + 1) (R + 1) hfit V N oldV oldN fv fn
        (by omega : j < R + 1) (by omega : i < n + 1),
      array_sample_at m iradius oradius dpsi dphi (n + 1) (R + 1) hfit V N oldV oldN fv fn
        (by omega : j < R + 1) (by omega : i + 1 < n + 1),
      array_sample_at m iradius oradius dpsi dphi (n + 1) (R + 1) hfit V N oldV oldN fv fn
        (by omega : j + 1 < R + 1) (by omega : i + 1 < n + 1),
      array_sample_at m iradius oradius dpsi dphi (n + 1) (R + 1) hfit V N oldV oldN fv fn
        (by omega : j + 1 < R + 1) (by omega : i < n + 1)]
  unfold primitives solidTorusCalls
  simp only [List.foldl_append, List.foldl_cons, List.foldl_nil, GLState.step, O,
    List.nil_append]
  rw [M]

/-- The two count arguments of `glutSolidTorus` are replaced by 1 where they are below 1. -/
theorem solidTorus_clamp {α : Type} [Field α] (m : LibM α) (w : World) (iradius oradius : α)
    (nSides nRings : Int) :
    glutSolidTorus m w iradius oradius nSides nRings
      = glutSolidTorus m w iradius oradius (max nSides 1) (max nRings 1) := by
  have h1 : ∀ x : Int, (if max x 1 < 1 then 1 else max x 1) = (if x < 1 then 1 else x) := by
    intro x
    split_ifs <;> omega
  unfold glutSolidTorus
  simp only [h1]

theorem quads_length {γ : Type} (n R : Nat) (f : Nat → Nat → γ) (g : Nat → Nat → γ)
    (h : Nat → Nat → γ) (k : Nat → Nat → γ) :
    ((List.range n).flatMap (fun i : Nat => (List.range R).flatMap (fun j : Nat =>
      [f j i, g j i, h j i, k j i]))).length = 4 * (n * R) := by
  have inner : ∀ (i : Nat) (l : List Nat),
      (l.flatMap (fun j : Nat => [f j i, g j i, h j i, k j i])).length = 4 * l.length := by
    intro i l
    induction l with
    | nil => rfl
    | cons a l ih =>
      simp only [List.flatMap_cons, List.length_append, ih, List.length_cons, List.length_nil]
      omega
  have outer : ∀ l : List Nat,
      (l.flatMap (fun i : Nat => (List.range R).flatMap (fun j : Nat =>
        [f j i, g j i, h j i, k j i]))).length = 4 * (l.length * R) := by
    intro l
    induction l with
    | nil => simp
    | cons a l ih =>
      simp only [List.flatMap_cons, List.length_append, ih, inner, List.length_range,
        List.length_cons]
      ring
  rw [outer, List.length_range]

/-- C25 (amended): `glutSolidTorus` treats `nSides < 1` and `nRings < 1` as 1; in an
initialised program whose allocations succeed, with `n` and `R` the clamped values (and
`3 * (n + 1) * (R + 1)` an `int`), it stores to each of the `3 * (R + 1) * (n + 1)` floats
of its two arrays once, a grid of `R + 1` rings of `n + 1` sides, and specifies one
`GL_QUADS` primitive of `4 * n * R` vertices, the quad of cell `(i, j)` being the stored
samples `(j, i)`, `(j, i+1)`, `(j+1, i+1)`, `(j+1, i)` of that grid, with no reduction of
ring or side numbers; the samples of ring `R` and of side `n`, which the quads of the last
ring and the last side use, are those of ring 0 and side 0 when sine and cosine take at
`2π` and `-2π` the values they take at 0. -/
theorem solid_torus_grid {α : Type} [Field α] [CharZero α] (m : LibM α) (w : World)
    (iradius oradius : α) (nSides nRings : Int) (hinit : w.Initialised = true)
    (hm : w.mallocOk = true)
    (hfit : 3 * ((max nRings 1 + 1) * (max nSides 1 + 1)) ≤ 2147483647) :
    (nSides < 1 → glutSolidTorus m w iradius oradius nSides nRings
      = glutSolidTorus m w iradius oradius 1 nRings) ∧
    (nRings < 1 → glutSolidTorus m w iradius oradius nSides nRings
      = glutSolidTorus m w iradius oradius nSides 1) ∧
    ∃ V N : Buffer α,
      glutSolidTorus m w iradius oradius nSides nRings
        = Except.ok (solidTorusCalls V N (max nSides 1).toNat (max nRings 1).toNat) ∧
      V.size = 3 * (((max nRings 1).toNat + 1) * ((max nSides 1).toNat + 1)) ∧
      V.stores.Nodup ∧
      V.stores.length = 3 * (((max nRings 1).toNat + 1) * ((max nSides 1).toNat + 1)) ∧
      (∀ p : Int, p ∈ V.stores ↔ 0 ≤ p ∧
        p < ((3 * (((max nRings 1).toNat + 1) * ((max nSides 1).toNat + 1)) : Nat) : Int)) ∧
      N.size = 3 * (((max nRings 1).toNat + 1) * ((max nSides 1).toNat + 1)) ∧
      N.stores.Nodup ∧
      N.stores.length = 3 * (((max nRings 1).toNat + 1) * ((max nSides 1).toNat + 1)) ∧
      (∀ p : Int, p ∈ N.stores ↔ 0 ≤ p ∧
        p < ((3 * (((max nRings 1).toNat + 1) * ((max nSides 1).toNat + 1)) : Nat) : Int)) ∧
      primitives (solidTorusCalls V N (max nSides 1).toNat (max nRings 1).toNat)
        = [{ mode := GLenum.GL_QUADS
             vertices := (List.range (max nSides 1).toNat).flatMap (fun i : Nat =>
               (List.range (max nRings 1).toNat).flatMap (fun j : Nat =>
                 [torusVertex m iradius oradius (2 * m.M_PI / ((max nRings 1 : Int) : α))
                    (-2 * m.M_PI / ((max nSides 1 : Int) : α)) j i,
                  torusVertex m iradius oradius (2 * m.M_PI / ((max nRings 1 : Int) : α))
                    (-2 * m.M_PI / ((max nSides 1 : Int) : α)) j (i + 1),
                  torusVertex m iradius oradius (2 * m.M_PI / ((max nRings 1 : Int) : α))
                    (-2 * m.M_PI / ((max nSides 1 : Int) : α)) (j + 1) (i + 1),
                  torusVertex m iradius oradius (2 * m.M_PI / ((max nRings 1 : Int) : α))
                    (-2 * m.M_PI / ((max nSides 1 : Int) : α)) (j + 1) i])) }] ∧
      (primitives (solidTorusCalls V N (max nSides 1).toNat (max nRings 1).toNat)).map
          (fun p => (p.mode, p.vertices.length))
        = [(GLenum.GL_QUADS, 4 * ((max nSides 1).toNat * (max nRings 1).toNat))] ∧
      (m.cosf (2 * m.M_PI) = m.cosf 0 → m.sinf (2 * m.M_PI) = m.sinf 0 →
        m.cosf (-2 * m.M_PI) = m.cosf 0 → m.sinf (-2 * m.M_PI) = m.sinf 0 →
        ∀ j i : Nat,
          torusVertex m iradius oradius (2 * m.M_PI / ((max nRings 1 : Int) : α))
              (-2 * m.M_PI / ((max nSides 1 : Int) : α)) (max nRings 1).toNat i
            = torusVertex m iradius oradius (2 * m.M_PI / ((max nRings 1 : Int) : α))
              (-2 * m.M_PI / ((max nSides 1 : Int) : α)) 0 i ∧
          torusVertex m iradius oradius (2 * m.M_PI / ((max nRings 1 : Int) : α))
              (-2 * m.M_PI / ((max nSides 1 : Int) : α)) j (max nSides 1).toNat
            = torusVertex m iradius oradius (2 * m.M_PI / ((max nRings 1 : Int) : α))
              (-2 * m.M_PI / ((max nSides 1 : Int) : α)) j 0) := by
  have c0 := solidTorus_clamp m w iradius oradius nSides nRings
  refine ⟨?_, ?_, ?_⟩
  · intro h
    have e : max nSides 1 = max 1 1 := by
      rw [max_eq_right (by omega), max_self]
    rw [c0, solidTorus_clamp m w iradius oradius 1 nRings, e]
  · intro h
    have e : max nRings 1 = max 1 1 := by
      rw [max_eq_right (by omega), max_self]
    rw [c0, solidTorus_clamp m w iradius oradius nSides 1, e]
  · have hn : ((max nSides 1).toNat : Int) = max nSides 1 :=
      Int.toNat_of_nonneg (by omega)
    have hR : ((max nRings 1).toNat : Int) = max nRings 1 :=
      Int.toNat_of_nonneg (by omega)
    have hfit' : 3 * (((max nRings 1).toNat + 1) * ((max nSides 1).toNat + 1))
        ≤ 2147483647 := by
      have e : ((3 * (((max nRings 1).toNat + 1) * ((max nSides 1).toNat + 1)) : Nat) : Int)
          = 3 * ((max nRings 1 + 1) * (max nSides 1 + 1)) := by
        push_cast
        rw [hn, hR]
      omega
    obtain ⟨V, N, fv, fn, hc⟩ := solidTorus_trace m w iradius oradius (max nSides 1).toNat
      (max nRings 1).toNat (by omega) (by omega) hfit' hinit hm
    rw [hn, hR] at hc fv fn
    obtain ⟨v1, v2, v3, v4⟩ := filled_fresh_stores fv
    obtain ⟨n1, n2, n3, n4⟩ := filled_fresh_stores fn
    have hp := solidTorus_primitives m iradius oradius _ _ _ _ hfit' V N _ _ fv fn
    refine ⟨V, N, by rw [c0]; exact hc, v1, v2, v3, v4, n1, n2, n3, n4, hp, ?_, ?_⟩
    · rw [hp]
      simp only [List.map_cons, List.map_nil, quads_length]
    · intro hc2 hs2 hc2' hs2' j i
      have hRne : ((max nRings 1 : Int) : α) ≠ 0 := Int.cast_ne_zero.mpr (by omega)
      have hnne : ((max nSides 1 : Int) : α) ≠ 0 := Int.cast_ne_zero.mpr (by omega)
      have hRc : (((max nRings 1).toNat : Nat) : α) = ((max nRings 1 : Int) : α) := by
        have e := congrArg (Int.cast : Int → α) hR
        rwa [Int.cast_natCast] at e
      have hnc : (((max nSides 1).toNat : Nat) : α) = ((max nSides 1 : Int) : α) := by
        have e := congrArg (Int.cast : Int → α) hn
        rwa [Int.cast_natCast] at e
      have a1 : angleSum (2 * m.M_PI / ((max nRings 1 : Int) : α)) (max nRings 1).toNat
          = 2 * m.M_PI := by
        rw [angleSum_eq, hRc, mul_comm, div_mul_cancel₀ _ hRne]
      have a2 : angleSum (-2 * m.M_PI / ((max nSides 1 : Int) : α)) (max nSides 1).toNat
          = -2 * m.M_PI := by
        rw [angleSum_eq, hnc, mul_comm, div_mul_cancel₀ _ hnne]
      constructor
      · simp only [torusVertex, torusPos, torusNormal, a1, angleSum, hc2, hs2]
      · simp only [torusVertex, torusPos, torusNormal, a2, angleSum, hc2', hs2']

/-- Witness for C25: the real sine and cosine, `nSides = 0` (treated as 1) and three
rings: arrays of `3 * 4 * 2 = 24` floats and one primitive of 12 vertices, three quads. -/
theorem solid_torus_grid_witness :
    ∃ V N : Buffer ℝ,
      glutSolidTorus
          ({ sinf := Real.sin, cosf := Real.cos, sqrtf := Real.sqrt, M_PI := Real.pi } : LibM ℝ)
          (World.boot true true []) 1 2 0 3 = Except.ok (solidTorusCalls V N 1 3) ∧
      V.stores.length = 24 ∧
      (primitives (solidTorusCalls V N 1 3)).map (fun p => (p.mode, p.vertices.length))
        = [(GLenum.GL_QUADS, 12)] := by
  obtain ⟨_, _, V, N, hc, _, _, hl, _, _, _, _, _, _, hp, _⟩ := solid_torus_grid
    ({ sinf := Real.sin, cosf := Real.cos, sqrtf := Real.sqrt, M_PI := Real.pi } : LibM ℝ)
    (World.boot true true []) 1 2 0 3 rfl rfl (by decide)
  have e1 : (max (0 : Int) 1).toNat = 1 := by decide
  have e2 : (max (3 : Int) 1).toNat = 3 := by decide
  rw [e1, e2] at hc hl hp
  exact ⟨V, N, hc, hl, hp⟩

/-- C25 fails as stated for one side and one ring: the grid has not `1 x 1` but `2 x 2`
samples, 12 floats being stored to each array, and the one quad reads its four corners
at the offsets 0, 3, 9 and 6, four different samples, where ring and side numbers taken
modulo 1 would give the sample at offset 0 four times. -/
theorem solid_torus_grid_counterexample :
    ∃ V N : Buffer ℝ,
      glutSolidTorus
          ({ sinf := Real.sin, cosf := Real.cos, sqrtf := Real.sqrt, M_PI := Real.pi } : LibM ℝ)
          (World.boot true true []) 1 2 1 1 = Except.ok (solidTorusCalls V N 1 1) ∧
      solidTorusCalls V N 1 1
        = [GLImm.glPushMatrix, GLImm.glBegin GLenum.GL_QUADS,
           GLImm.glNormal3fv N 0, GLImm.glVertex3fv V 0,
           GLImm.glNormal3fv N 3, GLImm.glVertex3fv V 3,
           GLImm.glNormal3fv N 9, GLImm.glVertex3fv V 9,
           GLImm.glNormal3fv N 6, GLImm.glVertex3fv V 6,
           GLImm.glEnd, GLImm.glPopMatrix] ∧
      V.stores.length = 12 ∧ V.stores.length ≠ 3 * (1 * 1) ∧
      (9 : Int) ∈ V.stores ∧ ¬ ((9 : Int) < ((3 * (1 * 1) : Nat) : Int)) := by
  obtain ⟨V, N, fv, _, hc⟩ := solidTorus_trace
    ({ sinf := Real.sin, cosf := Real.cos, sqrtf := Real.sqrt, M_PI := Real.pi } : LibM ℝ)
    (World.boot true true []) 1 2 1 1 (le_refl 1) (le_refl 1) (by decide) rfl rfl
  obtain ⟨_, _, v3, v4⟩ := filled_fresh_stores fv
  have hl : V.stores.length = 12 := v3
  refine ⟨V, N, hc, rfl, hl, by rw [hl]; decide, (v4 9).mpr (by decide), by decide⟩

/-- The floats of sample `(j, i)` in the filled arrays. -/
theorem array_cells {α : Type} [Field α] (m : LibM α) (iradius oradius dpsi dphi : α)
    (n R : Nat) (V N oldV oldN : Buffer α)
    (fv : FilledTo (torusVertexFloat m iradius oradius dpsi dphi n) oldV V (3 * (R * n)))
    (fn : FilledTo (torusNormalFloat m iradius oradius dpsi dphi n) oldN N (3 * (R * n)))
    {j i k : Nat} (hj : j < R) (hi : i < n) (hk : k < 3) :
    V.cell ((3 * (j * n + i) + k : Nat) : Int)
      = coord (torusPos m iradius oradius (angleSum dpsi j) (angleSum dphi i)) k ∧
    N.cell ((3 * (j * n + i) + k : Nat) : Int)
      = coord (torusNormal m (angleSum dpsi j) (angleSum dphi i)) k := by
  obtain ⟨hb, _⟩ := face_slot_bounds hj hi
  obtain ⟨a, b, c⟩ := torus_slot (j := j) hi hk
  rw [fv.2.2.1 _ (by omega), fn.2.2.1 _ (by omega)]
  simp only [torusVertexFloat, torusNormalFloat, a, b, c, torusVertex, and_self]

/-- C24: in an initialised program whose allocations succeed, for `n ≥ 1` sides and
`R ≥ 1` rings, the arrays that `glutWireTorus` hands to OpenGL hold, for every ring
`j < R` and side `i < n`, at the floats `3 * (j * n + i) + k` the coordinates `k` of the
position `((R' + r cos phi_i) cos psi_j, (R' + r cos phi_i) sin psi_j, r sin phi_i)` and of
the normal `(cos phi_i cos psi_j, cos phi_i sin psi_j, sin phi_i)`, with `R'` the outer and
`r` the inner radius, `psi_j` the `j`-fold sum of the step `2π / R` and `phi_i` the
`i`-fold sum of the step `-2π / n`; the arrays of `glutSolidTorus` hold the same for every
ring `j ≤ R` and side `i ≤ n`, at the floats `3 * (j * (n + 1) + i) + k`; and for every
pair of angles the position less `(R' cos psi, R' sin psi, 0)` is `r` times the normal. -/
theorem torus_sample_formula {α : Type} [Field α] (m : LibM α) (w : World)
    (iradius oradius : α) (n R : Nat) (hn : 1 ≤ n) (hR : 1 ≤ R)
    (hinit : w.Initialised = true) (hm : w.mallocOk = true)
    (hfit : 3 * ((R + 1) * (n + 1)) ≤ 2147483647) :
    (∃ V N : Buffer α,
      glutWireTorus m w iradius oradius (n : Int) (R : Int)
        = Except.ok (wireTorusCalls V N n R) ∧
      ∀ j i k : Nat, j < R → i < n → k < 3 →
        V.cell ((3 * (j * n + i) + k : Nat) : Int)
          = coord (torusPos m iradius oradius
              (angleSum (2 * m.M_PI / (((R : Nat) : Int) : α)) j)
              (angleSum (-2 * m.M_PI / (((n : Nat) : Int) : α)) i)) k ∧
        N.cell ((3 * (j * n + i) + k : Nat) : Int)
          = coord (torusNormal m
              (angleSum (2 * m.M_PI / (((R : Nat) : Int) : α)) j)
              (angleSum (-2 * m.M_PI / (((n : Nat) : Int) : α)) i)) k) ∧
    (∃ V N : Buffer α,
      glutSolidTorus m w iradius oradius (n : Int) (R : Int)
        = Except.ok (solidTorusCalls V N n R) ∧
      ∀ j i k : Nat, j ≤ R → i ≤ n → k < 3 →
        V.cell ((3 * (j * (n + 1) + i) + k : Nat) : Int)
          = coord (torusPos m iradius oradius
              (angleSum (2 * m.M_PI / (((R : Nat) : Int) : α)) j)
              (angleSum (-2 * m.M_PI / (((n : Nat) : Int) : α)) i)) k ∧
        N.cell ((3 * (j * (n + 1) + i) + k : Nat) : Int)
          = coord (torusNormal m
              (angleSum (2 * m.M_PI / (((R : Nat) : Int) : α)) j)
              (angleSum (-2 * m.M_PI / (((n : Nat) : Int) : α)) i)) k) ∧
    (∀ psi phi : α,
      torusPos m iradius oradius psi phi
        = ((oradius + iradius * m.cosf phi) * m.cosf psi,
           (oradius + iradius * m.cosf phi) * m.sinf psi, iradius * m.sinf phi) ∧
      torusNormal m psi phi
        = (m.cosf phi * m.cosf psi, m.cosf phi * m.sinf psi, m.sinf phi) ∧
      (torusPos m iradius oradius psi phi).1 - oradius * m.cosf psi
        = iradius * (torusNormal m psi phi).1 ∧
      (torusPos m iradius oradius psi phi).2.1 - oradius * m.sinf psi
        = iradius * (torusNormal m psi phi).2.1 ∧
      (torusPos m iradius oradius psi phi).2.2 - 0
        = iradius * (torusNormal m psi phi).2.2) ∧
    (∀ (d : α) (k : Nat), angleSum d 0 = 0 ∧ angleSum d (k + 1) = angleSum d k + d ∧
      angleSum d k = (k : α) * d) := by
  have hle : (R + 1) * (n + 1) = R * n + R + n + 1 := by ring
  have hfitw : 3 * (R * n) ≤ 2147483647 := by omega
  obtain ⟨V, N, fv, fn, hc⟩ := wireTorus_trace m w iradius oradius n R hn hR hfitw hinit hm
  obtain ⟨V', N', fv', fn', hc'⟩ := solidTorus_trace m w iradius oradius n R hn hR hfit hinit hm
  refine ⟨⟨V, N, hc, ?_⟩, ⟨V', N', hc', ?_⟩, ?_, ?_⟩
  · intro j i k hj hi hk
    exact array_cells m iradius oradius _ _ n R V N _ _ fv fn hj hi hk
  · intro j i k hj hi hk
    exact array_cells m iradius oradius _ _ (n + 1) (R + 1) V' N' _ _ fv' fn'
      (by omega) (by omega) hk
  · intro psi phi
    simp only [torusPos, torusNormal]
    refine ⟨?_, ?_, ?_, ?_, ?_⟩
    · simp only [Prod.mk.injEq]
      refine ⟨by ring, by ring, by ring⟩
    · simp only [Prod.mk.injEq]
      refine ⟨by ring, by ring, trivial⟩
    · ring
    · ring
    · ring
  · intro d k
    exact ⟨rfl, rfl, angleSum_eq d k⟩

/-- Witness for C24: the real sine and cosine, inner radius 1, outer radius 2, four sides
and six rings; the first float of sample `(0, 0)` of the wire torus is `2 + 1 = 3`. -/
theorem torus_sample_formula_witness :
    ∃ V N : Buffer ℝ,
      glutWireTorus
          ({ sinf := Real.sin, cosf := Real.cos, sqrtf := Real.sqrt, M_PI := Real.pi } : LibM ℝ)
          (World.boot true true []) 1 2 ((4 : Nat) : Int) ((6 : Nat) : Int)
        = Except.ok (wireTorusCalls V N 4 6) ∧
      V.cell ((3 * (0 * 4 + 0) + 0 : Nat) : Int) = 3 := by
  obtain ⟨⟨V, N, hc, hcell⟩, _⟩ := torus_sample_formula
    ({ sinf := Real.sin, cosf := Real.cos, sqrtf := Real.sqrt, M_PI := Real.pi } : LibM ℝ)
    (World.boot true true []) 1 2 4 6 (by decide) (by decide) rfl rfl (by decide)
  refine ⟨V, N, hc, ?_⟩
  rw [(hcell 0 0 0 (by decide) (by decide) (by decide)).1]
  simp [coord, torusPos, angleSum]
  norm_num

/-! ## The integer power -/

theorem ipow_zero (x : Int) : ipow x 0 = 1 := by rw [ipow]; simp

theorem ipow_one (x : Int) : ipow x 1 = toUnsigned x := by rw [ipow]; simp

theorem ipow_step (x : Int) (y : Nat) (hy : 2 ≤ y) :
    ipow x y = umul (toUnsigned (if y % 2 ≠ 0 then x else 1)) (ipow (imul x x) (y / 2)) := by
  rw [ipow, dif_neg (by omega), dif_neg (by omega)]

theorem toUnsigned_cast (a : Int) : ((toUnsigned a : Nat) : Int) = a % 4294967296 := by
  unfold toUnsigned
  exact Int.toNat_of_nonneg (Int.emod_nonneg _ (by decide))

theorem toUnsigned_congr {a b : Int} (h : a % 4294967296 = b % 4294967296) :
    toUnsigned a = toUnsigned b := by
  unfold toUnsigned
  rw [h]

theorem toUnsigned_wrapInt (z : Int) : toUnsigned (wrapInt z) = toUnsigned z := by
  apply toUnsigned_congr
  unfold wrapInt
  omega

theorem umul_toUnsigned (a b : Int) : umul (toUnsigned a) (toUnsigned b) = toUnsigned (a * b) := by
  have h : (((umul (toUnsigned a) (toUnsigned b) : Nat)) : Int) = ((toUnsigned (a * b) : Nat) : Int) := by
    unfold umul
    rw [Int.natCast_mod, Int.natCast_mul, toUnsigned_cast, toUnsigned_cast, toUnsigned_cast]
    push_cast
    exact (Int.mul_emod a b 4294967296).symm
  exact_mod_cast h

theorem toUnsigned_pow_congr {a b : Int} (h : a % 4294967296 = b % 4294967296) (k : Nat) :
    toUnsigned (a ^ k) = toUnsigned (b ^ k) := by
  apply toUnsigned_congr
  have h' : a ≡ b [ZMOD 4294967296] := h
  exact h'.pow k

theorem pow_split (x : Int) (y : Nat) :
    (if y % 2 ≠ 0 then x else 1) * (x * x) ^ (y / 2) = x ^ y := by
  have hy : y = 2 * (y / 2) + y % 2 := (Nat.div_add_mod y 2).symm
  have e : (x * x) ^ (y / 2) = x ^ (2 * (y / 2)) := by
    rw [← pow_two, ← pow_mul]
  rw [e]
  rcases Nat.mod_two_eq_zero_or_one y with h | h
  · rw [h] at hy
    simp only [h, ne_eq, not_true_eq_false, if_false, one_mul]
    rw [← hy.trans (Nat.add_zero _)]
  · rw [h] at hy
    simp only [h, ne_eq, one_ne_zero, not_false_eq_true, if_true]
    conv_rhs => rw [hy]
    rw [pow_succ, mul_comm]

/-- The value of `ipow` is the power `x ^ y` reduced to an `unsigned int`. -/
theorem ipow_eq (x : Int) (y : Nat) : ipow x y = toUnsigned (x ^ y) := by
  induction y using Nat.strong_induction_on generalizing x with
  | _ y ih =>
    by_cases h0 : y = 0
    · subst h0
      rw [ipow_zero]
      rfl
    by_cases h1 : y = 1
    · subst h1
      rw [ipow_one, pow_one]
    rw [ipow_step x y (by omega), ih (y / 2) (by omega), umul_toUnsigned]
    have e : toUnsigned ((imul x x) ^ (y / 2)) = toUnsigned ((x * x) ^ (y / 2)) := by
      apply toUnsigned_pow_congr
      have := toUnsigned_wrapInt (x * x)
      unfold toUnsigned at this
      unfold imul
      have h1 := Int.emod_nonneg (wrapInt (x * x)) (by decide : (4294967296 : Int) ≠ 0)
      have h2 := Int.emod_nonneg (x * x) (by decide : (4294967296 : Int) ≠ 0)
      omega
    rw [← umul_toUnsigned, e, umul_toUnsigned, pow_split]

theorem ipowChecked_zero (x : Int) : ipowChecked x 0 = some 1 := by rw [ipowChecked]; simp

theorem ipowChecked_one (x : Int) : ipowChecked x 1 = some (toUnsigned x) := by
  rw [ipowChecked]; simp

theorem ipowChecked_step (x : Int) (y : Nat) (hy : 2 ≤ y) :
    ipowChecked x y
      = if -2147483648 ≤ x * x ∧ x * x ≤ 2147483647 then
          match ipowChecked (x * x) (y / 2) with
          | none => none
          | some r =>
            if toUnsigned (if y % 2 ≠ 0 then x else 1) * r < 4294967296 then
              some (toUnsigned (if y % 2 ≠ 0 then x else 1) * r)
            else none
        else none := by
  rw [ipowChecked, dif_neg (by omega), dif_neg (by omega)]

/-- Where no product overflows, `ipow` returns what the checked function returns. -/
theorem ipowChecked_sound (x : Int) (y v : Nat) (h : ipowChecked x y = some v) :
    ipow x y = v := by
  induction y using Nat.strong_induction_on generalizing x v with
  | _ y ih =>
    by_cases h0 : y = 0
    · subst h0
      rw [ipowChecked_zero] at h
      rw [ipow_zero]
      exact Option.some.inj h
    by_cases h1 : y = 1
    · subst h1
      rw [ipowChecked_one] at h
      rw [ipow_one]
      exact Option.some.inj h
    rw [ipowChecked_step x y (by omega)] at h
    by_cases hsq : -2147483648 ≤ x * x ∧ x * x ≤ 2147483647
    swap
    · rw [if_neg hsq] at h
      cases h
    rw [if_pos hsq] at h
    cases hr : ipowChecked (x * x) (y / 2) with
    | none => rw [hr] at h; cases h
    | some r =>
      rw [hr] at h
      simp only at h
      by_cases hp : toUnsigned (if y % 2 ≠ 0 then x else 1) * r < 4294967296
      swap
      · rw [if_neg hp] at h
        cases h
      rw [if_pos hp] at h
      have hi : imul x x = x * x := by
        unfold imul
        exact wrapInt_of_range hsq.1 (by omega)
      rw [ipow_step x y (by omega), hi, ih (y / 2) (by omega) (x * x) r hr]
      unfold umul
      rw [Nat.mod_eq_of_lt hp]
      exact Option.some.inj h

theorem toUnsigned_of_range {x : Int} (h0 : 0 ≤ x) (h1 : x < 4294967296) :
    ((toUnsigned x : Nat) : Int) = x := by
  rw [toUnsigned_cast]
  exact Int.emod_eq_of_lt h0 h1

/-- Where no product overflows and `x` is not negative, the checked function returns the
power `x ^ y`. -/
theorem ipowChecked_value (x : Int) (y v : Nat) (hx : 0 ≤ x) (hx' : x ≤ 2147483647)
    (h : ipowChecked x y = some v) : (v : Int) = x ^ y := by
  induction y using Nat.strong_induction_on generalizing x v with
  | _ y ih =>
    by_cases h0 : y = 0
    · subst h0
      rw [ipowChecked_zero] at h
      rw [← Option.some.inj h]
      simp
    by_cases h1 : y = 1
    · subst h1
      rw [ipowChecked_one] at h
      rw [← Option.some.inj h, pow_one]
      exact toUnsigned_of_range hx (by omega)
    rw [ipowChecked_step x y (by omega)] at h
    by_cases hsq : -2147483648 ≤ x * x ∧ x * x ≤ 2147483647
    swap
    · rw [if_neg hsq] at h
      cases h
    rw [if_pos hsq] at h
    cases hr : ipowChecked (x * x) (y / 2) with
    | none => rw [hr] at h; cases h
    | some r =>
      rw [hr] at h
      simp only at h
      by_cases hp : toUnsigned (if y % 2 ≠ 0 then x else 1) * r < 4294967296
      swap
      · rw [if_neg hp] at h
        cases h
      rw [if_pos hp] at h
      have hr' := ih (y / 2) (by omega) (x * x) r (mul_nonneg hx hx) hsq.2 hr
      have hf : ((toUnsigned (if y % 2 ≠ 0 then x else 1) : Nat) : Int)
          = (if y % 2 ≠ 0 then x else 1) := by
        apply toUnsigned_of_range
        · split_ifs <;> omega
        · split_ifs <;> omega
      rw [← Option.some.inj h, Int.natCast_mul, hf, hr', pow_split]

/-- Every squaring that `ipow` computes goes into the result: where `x` is not negative
and the power `x ^ y` is in the range of `int`, no product overflows. -/
theorem ipowChecked_of_fit (x : Int) (y : Nat) (hx : 0 ≤ x) (hfit : x ^ y ≤ 2147483647) :
    ipowChecked x y = some (x ^ y).toNat := by
  induction y using Nat.strong_induction_on generalizing x with
  | _ y ih =>
    by_cases h0 : y = 0
    · subst h0
      rw [ipowChecked_zero]
      simp
    by_cases h1 : y = 1
    · subst h1
      rw [pow_one] at hfit
      rw [ipowChecked_one, pow_one]
      unfold toUnsigned
      rw [Int.emod_eq_of_lt hx (by omega)]
    have hsplit := pow_split x y
    have hpos : 0 ≤ (x * x) ^ (y / 2) := pow_nonneg (mul_nonneg hx hx) _
    have hy2 : 1 ≤ y / 2 := by omega
    -- the square is at most the power
    have hsq : x * x ≤ x ^ y := by
      rcases eq_or_lt_of_le hx with hz | hz
      · rw [← hz]
        simp
      · have h1x : (1 : Int) ≤ x := hz
        rw [← pow_two]
        exact pow_le_pow_right₀ h1x (by omega)
    have hrec : (x * x) ^ (y / 2) ≤ x ^ y := by
      rcases eq_or_lt_of_le hx with hz | hz
      · rw [← hz]
        simp
        rw [zero_pow (by omega), zero_pow (by omega)]
      · have h1x : (1 : Int) ≤ x := hz
        rw [← pow_two, ← pow_mul]
        exact pow_le_pow_right₀ h1x (by omega)
    have hxx : 0 ≤ x * x := mul_nonneg hx hx
    have hxle : x ≤ 2147483647 := by nlinarith
    rw [ipowChecked_step x y (by omega), if_pos ⟨by omega, by omega⟩,
      ih (y / 2) (by omega) (x * x) hxx (by omega)]
    have hf : ((toUnsigned (if y % 2 ≠ 0 then x else 1) : Nat) : Int)
        = (if y % 2 ≠ 0 then x else 1) := by
      apply toUnsigned_of_range
      · split_ifs <;> omega
      · split_ifs <;> omega
    have hprod : ((toUnsigned (if y % 2 ≠ 0 then x else 1) * ((x * x) ^ (y / 2)).toNat : Nat) : Int)
        = x ^ y := by
      rw [Int.natCast_mul, hf, Int.toNat_of_nonneg hpos, hsplit]
    have hlt : toUnsigned (if y % 2 ≠ 0 then x else 1) * ((x * x) ^ (y / 2)).toNat < 4294967296 := by
      have : ((toUnsigned (if y % 2 ≠ 0 then x else 1) * ((x * x) ^ (y / 2)).toNat : Nat) : Int)
          < 4294967296 := by
        rw [hprod]; omega
      exact_mod_cast this
    simp only [hlt, if_true]
    congr 1
    have := congrArg Int.toNat hprod
    rwa [Int.toNat_natCast] at this

/-- C32: `ipow` is a total function whose recursion goes from an exponent `y ≥ 2` to the
smaller exponent `y / 2 ≥ 1` and stops at 0 and 1; its value is the power `x ^ y` reduced
to an `unsigned int`; where no product overflows (the checked function returns a value)
`ipow` returns that value, which for `x ≥ 0` is the power `x ^ y` itself; no squaring is
computed that does not go into the result, so that no product overflows whenever `x ≥ 0`
and `x ^ y` itself is in the range of `int`; and `ipow(4, L) = 4 ^ L`, without overflow,
for every `L ≤ 15`, also after the conversion to `int` that the tetrahedron count makes. -/
theorem ipow_power :
    (∀ x : Int, ipow x 0 = 1 ∧ ipow x 1 = toUnsigned x) ∧
    (∀ (x : Int) (y : Nat), 2 ≤ y →
      y / 2 < y ∧ 1 ≤ y / 2 ∧
      ipow x y = umul (toUnsigned (if y % 2 ≠ 0 then x else 1)) (ipow (imul x x) (y / 2))) ∧
    (∀ (x : Int) (y : Nat), ipow x y = toUnsigned (x ^ y)) ∧
    (∀ (x : Int) (y v : Nat), ipowChecked x y = some v →
      ipow x y = v ∧ (0 ≤ x → x ≤ 2147483647 → (v : Int) = x ^ y)) ∧
    (∀ (x : Int) (y : Nat), 0 ≤ x → x ^ y ≤ 2147483647 →
      ipowChecked x y = some (x ^ y).toNat ∧ ((ipow x y : Nat) : Int) = x ^ y) ∧
    (∀ L : Nat, L ≤ 15 →
      ipowChecked 4 L = some (4 ^ L) ∧ ipow 4 L = 4 ^ L ∧
      wrapInt ((ipow 4 (toUnsigned (L : Int)) : Nat) : Int) = 4 ^ L) := by
  have fit : ∀ (x : Int) (y : Nat), 0 ≤ x → x ^ y ≤ 2147483647 →
      ipowChecked x y = some (x ^ y).toNat ∧ ((ipow x y : Nat) : Int) = x ^ y := by
    intro x y hx hfit
    have hc := ipowChecked_of_fit x y hx hfit
    refine ⟨hc, ?_⟩
    rw [ipowChecked_sound x y _ hc]
    exact Int.toNat_of_nonneg (pow_nonneg hx y)
  refine ⟨fun x => ⟨ipow_zero x, ipow_one x⟩, ?_, ipow_eq, ?_, fit, ?_⟩
  · intro x y hy
    exact ⟨by omega, by omega, ipow_step x y hy⟩
  · intro x y v h
    exact ⟨ipowChecked_sound x y v h, fun hx hx' => ipowChecked_value x y v hx hx' h⟩
  · intro L hL
    have hp : (4 : Nat) ^ L ≤ 4 ^ 15 := four_pow_le hL
    have hp15 : (4 : Nat) ^ 15 = 1073741824 := by norm_num
    rw [hp15] at hp
    have hcast : ((4 : Int) ^ L) = (((4 ^ L : Nat)) : Int) := by push_cast; rfl
    have hfit : (4 : Int) ^ L ≤ 2147483647 := by
      rw [hcast]
      omega
    obtain ⟨hc, hv⟩ := fit 4 L (by decide) hfit
    have ht : ((4 : Int) ^ L).toNat = 4 ^ L := by
      rw [hcast, Int.toNat_natCast]
    rw [ht] at hc
    have hi : ipow 4 L = 4 ^ L := ipowChecked_sound 4 L _ hc
    have hu : toUnsigned (L : Int) = L := by
      unfold toUnsigned
      rw [Int.emod_eq_of_lt (by omega) (by omega)]
      simp
    refine ⟨hc, hi, ?_⟩
    rw [hu, hi, wrapInt_of_range (by omega) (by omega)]
    push_cast
    rfl

/-! ## Reads and stores inside the arrays -/

theorem read_ok {α : Type} (b : Buffer α) (i : Int) (h0 : 0 ≤ i) (h1 : i < (b.size : Int)) :
    b.read i = Except.ok (b.cell i) := by
  unfold Buffer.read
  rw [if_pos ⟨h0, h1⟩]

theorem forLoopChecked_ok {σ : Type} (bodyC : Nat → σ → Except Abort σ) (body : Nat → σ → σ)
    (n : Nat) (s : σ) (h : ∀ k, k < n → ∀ t, bodyC k t = Except.ok (body k t)) :
    forLoopChecked bodyC n s = Except.ok (forLoop body n s) := by
  induction n with
  | zero => rfl
  | succ n ih =>
    simp only [forLoopChecked, forLoop]
    rw [ih (fun k hk => h k (by omega))]
    exact h n (by omega) _

theorem forRangeChecked_ok {σ : Type} (lo hi : Int) (bodyC : Int → σ → Except Abort σ)
    (body : Int → σ → σ) (s : σ)
    (h : ∀ i, lo ≤ i → i < hi → ∀ t, bodyC i t = Except.ok (body i t)) :
    forRangeChecked lo hi bodyC s = Except.ok (forRange lo hi body s) := by
  unfold forRangeChecked forRange
  apply forLoopChecked_ok
  intro k hk t
  exact h _ (by omega) (by omega) t

theorem forRangeInclChecked_ok {σ : Type} (lo hi : Int) (bodyC : Int → σ → Except Abort σ)
    (body : Int → σ → σ) (s : σ)
    (h : ∀ i, lo ≤ i → i ≤ hi → ∀ t, bodyC i t = Except.ok (body i t)) :
    forRangeInclChecked lo hi bodyC s = Except.ok (forRangeIncl lo hi body s) := by
  unfold forRangeInclChecked forRangeIncl
  apply forRangeChecked_ok
  intro i h1 h2 t
  exact h i h1 (by omega) t

theorem forDownChecked_ok {σ : Type} (hi lo : Int) (bodyC : Int → σ → Except Abort σ)
    (body : Int → σ → σ) (s : σ)
    (h : ∀ i, lo ≤ i → i ≤ hi → ∀ t, bodyC i t = Except.ok (body i t)) :
    forDownChecked hi lo bodyC s = Except.ok (forDown hi lo body s) := by
  unfold forDownChecked forDown
  apply forLoopChecked_ok
  intro k hk t
  exact h _ (by omega) (by omega) t

/-- The entries `0 .. |n|` of a table returned by `fghCircleTable` for the count `n` can be
read: the table has `|n| + 1` entries. -/
theorem circle_reads {α : Type} [Field α] (sinf cosf : α → α) (M_PI : α) (mallocOk : Bool)
    (n : Int) (halfCircle : Bool) (hint : -2147483648 ≤ n ∧ n < 2147483648)
    (t : CircleTable α)
    (ht : fghCircleTable sinf cosf M_PI mallocOk n halfCircle = Except.ok t) :
    |n| ≤ 2147483646 ∧ (t.sint.size : Int) = |n| + 1 ∧ (t.cost.size : Int) = |n| + 1 ∧
    ∀ j : Int, 0 ≤ j → j ≤ |n| →
      t.cost.read j = Except.ok (t.cost.cell j) ∧ t.sint.read j = Except.ok (t.sint.cell j) := by
  obtain ⟨hb, ⟨hs, hc⟩, _⟩ := circle_table_spec sinf cosf M_PI mallocOk n halfCircle hint t ht
  refine ⟨hb, hs, hc, ?_⟩
  intro j h0 h1
  exact ⟨read_ok _ _ h0 (by omega), read_ok _ _ h0 (by omega)⟩

/-- The table that the quadric functions ask for with the count `-slices`: where it is
returned, `slices` is above `-2^31` and the entries `0 .. slices` can be read. -/
theorem slices_reads {α : Type} [Field α] (sinf cosf : α → α) (M_PI : α) (mallocOk : Bool)
    (slices : Int) (hs : -2147483648 ≤ slices ∧ slices < 2147483648) (t : CircleTable α)
    (ht : fghCircleTable sinf cosf M_PI mallocOk (wrapInt (-slices)) false = Except.ok t) :
    |slices| ≤ 2147483646 ∧ (t.sint.size : Int) = |slices| + 1 ∧
    (t.cost.size : Int) = |slices| + 1 ∧
    ∀ j : Int, 0 ≤ j → j ≤ slices →
      t.cost.read j = Except.ok (t.cost.cell j) ∧ t.sint.read j = Except.ok (t.sint.cell j) := by
  have hw : -2147483648 ≤ wrapInt (-slices) ∧ wrapInt (-slices) < 2147483648 := by
    unfold wrapInt
    omega
  obtain ⟨hb, h1, h2, hr⟩ := circle_reads sinf cosf M_PI mallocOk _ false hw t ht
  have habs : |wrapInt (-slices)| = |slices| := by
    by_cases hmin : slices = -2147483648
    · exfalso
      rw [hmin] at hb
      revert hb
      decide
    · rw [wrapInt_of_range (by omega) (by omega), abs_neg]
  rw [habs] at hb h1 h2 hr
  refine ⟨hb, h1, h2, ?_⟩
  intro j h0 hj
  exact hr j h0 (le_trans hj (le_abs_self slices))

/-- A loop `for (j = 0; j <= slices; j++)` whose body reads `cost[j]` and `sint[j]` and makes
calls with them. -/
theorem pair_loop_incl {α : Type} (t : CircleTable α) (slices : Int)
    (hr : ∀ j : Int, 0 ≤ j → j ≤ slices →
      t.cost.read j = Except.ok (t.cost.cell j) ∧ t.sint.read j = Except.ok (t.sint.cell j))
    (f : α → α → List (GLImm α)) (gl0 : List (GLImm α)) :
    forRangeInclChecked 0 slices
        (fun j gl => do
          let c ← t.cost.read j
          let sn ← t.sint.read j
          pure (gl ++ f c sn)) gl0
      = Except.ok (forRangeIncl 0 slices
          (fun j gl => gl ++ f (t.cost.cell j) (t.sint.cell j)) gl0) := by
  apply forRangeInclChecked_ok
  intro j h0 h1 gl
  rw [(hr j h0 h1).1, (hr j h0 h1).2]
  rfl

/-- A loop `for (j = 0; j < slices; j++)` whose body reads `cost[j]` and `sint[j]` and makes
calls with them. -/
theorem pair_loop {α : Type} (t : CircleTable α) (slices : Int)
    (hr : ∀ j : Int, 0 ≤ j → j ≤ slices →
      t.cost.read j = Except.ok (t.cost.cell j) ∧ t.sint.read j = Except.ok (t.sint.cell j))
    (f : α → α → List (GLImm α)) (gl0 : List (GLImm α)) :
    forRangeChecked 0 slices
        (fun j gl => do
          let c ← t.cost.read j
          let sn ← t.sint.read j
          pure (gl ++ f c sn)) gl0
      = Except.ok (forRange 0 slices
          (fun j gl => gl ++ f (t.cost.cell j) (t.sint.cell j)) gl0) := by
  apply forRangeChecked_ok
  intro j h0 h1 gl
  rw [(hr j h0 (by omega)).1, (hr j h0 (by omega)).2]
  rfl

/-- A loop `for (j = slices; j >= 0; j--)` whose body reads `cost[j]` and `sint[j]` and makes
calls with them. -/
theorem pair_loop_down {α : Type} (t : CircleTable α) (slices : Int)
    (hr : ∀ j : Int, 0 ≤ j → j ≤ slices →
      t.cost.read j = Except.ok (t.cost.cell j) ∧ t.sint.read j = Except.ok (t.sint.cell j))
    (f : α → α → List (GLImm α)) (gl0 : List (GLImm α)) :
    forDownChecked slices 0
        (fun j gl => do
          let c ← t.cost.read j
          let sn ← t.sint.read j
          pure (gl ++ f c sn)) gl0
      = Except.ok (forDown slices 0
          (fun j gl => gl ++ f (t.cost.cell j) (t.sint.cell j)) gl0) := by
  apply forDownChecked_ok
  intro j h0 h1 gl
  rw [(hr j h0 h1).1, (hr j h0 h1).2]
  rfl

theorem ok_bind {ε β γ : Type} (a : β) (f : β → Except ε γ) :
    (Except.ok a >>= f) = f a := rfl

theorem solidSphereStack_checked {α : Type} [Field α] (t1 t2 : CircleTable α) (radf : α)
    (slices stacks' : Int)
    (hr1 : ∀ j : Int, 0 ≤ j → j ≤ slices →
      t1.cost.read j = Except.ok (t1.cost.cell j) ∧ t1.sint.read j = Except.ok (t1.sint.cell j))
    (hr2 : ∀ j : Int, 0 ≤ j → j ≤ |stacks'| →
      t2.cost.read j = Except.ok (t2.cost.cell j) ∧ t2.sint.read j = Except.ok (t2.sint.cell j))
    (hb : |stacks'| ≤ 2147483646) (i : Int) (h1 : 1 ≤ i) (h2 : i < stacks' - 1) (s : Locals α) :
    solidSphereStackChecked t1 t2 radf slices i s
      = Except.ok (solidSphereStack t1.sint.cell t1.cost.cell t2.sint.cell t2.cost.cell radf
          slices i s) := by
  have habs := le_abs_self stacks'
  have hi : iadd i 1 = i + 1 := iadd_of_range (by omega) (by omega)
  have r := hr2 (i + 1) (by omega) (by omega)
  unfold solidSphereStackChecked solidSphereStack
  rw [hi, r.1, r.2]
  simp only [ok_bind, pair_loop_incl t1 slices hr1]
  rfl

/-- The reads of `glutSolidSphere` are inside its tables: with the reads checked the
function does what it does without the check. -/
theorem solidSphere_checked {α : Type} [Field α] (m : LibM α) (w : World) (radius : α)
    (slices stacks' : Int) (hs : -2147483648 ≤ slices ∧ slices < 2147483648)
    (hk : -2147483648 ≤ stacks' ∧ stacks' < 2147483648) :
    glutSolidSphereChecked m w radius slices stacks' = glutSolidSphere m w radius slices stacks' := by
  unfold glutSolidSphereChecked glutSolidSphere
  cases h0 : FREEGLUT_EXIT_IF_NOT_INITIALISED w "glutSolidSphere" with
  | error e => rfl
  | ok u =>
    cases h1 : fghCircleTable m.sinf m.cosf m.M_PI w.mallocOk (wrapInt (-slices)) false with
    | error e => rfl
    | ok t1 =>
      cases h2 : fghCircleTable m.sinf m.cosf m.M_PI w.mallocOk stacks' true with
      | error e => rfl
      | ok t2 =>
        obtain ⟨_, _, _, hr1⟩ := slices_reads m.sinf m.cosf m.M_PI w.mallocOk slices hs t1 h1
        obtain ⟨hb, _, _, hr2⟩ := circle_reads m.sinf m.cosf m.M_PI w.mallocOk stacks' true hk t2 h2
        have habs := le_abs_self stacks'
        have hneg := neg_abs_le stacks'
        have hsub : isub stacks' 1 = stacks' - 1 := wrapInt_of_range (by omega) (by omega)
        have hidx : 0 ≤ (if stacks' > 0 then (1 : Int) else 0) ∧
            (if stacks' > 0 then (1 : Int) else 0) ≤ |stacks'| := by
          split_ifs <;> omega
        have r := hr2 _ hidx.1 hidx.2
        simp only []
        rw [r.1, r.2]
        simp only [ok_bind, pair_loop_incl t1 slices hr1, pair_loop_down t1 slices hr1, hsub,
          forRangeChecked_ok 1 (stacks' - 1) _
            (solidSphereStack t1.sint.cell t1.cost.cell t2.sint.cell t2.cost.cell radius slices) _
            (fun i a b s => solidSphereStack_checked t1 t2 radius slices stacks' hr1 hr2 hb i a b s)]
        rfl

/-- The reads of `glutWireSphere` are inside its tables. -/
theorem wireSphere_checked {α : Type} [Field α] (m : LibM α) (w : World) (radius : α)
    (slices stacks' : Int) (hs : -2147483648 ≤ slices ∧ slices < 2147483648)
    (hk : -2147483648 ≤ stacks' ∧ stacks' < 2147483648) :
    glutWireSphereChecked m w radius slices stacks' = glutWireSphere m w radius slices stacks' := by
  unfold glutWireSphereChecked glutWireSphere
  cases h0 : FREEGLUT_EXIT_IF_NOT_INITIALISED w "glutWireSphere" with
  | error e => rfl
  | ok u =>
    cases h1 : fghCircleTable m.sinf m.cosf m.M_PI w.mallocOk (wrapInt (-slices)) false with
    | error e => rfl
    | ok t1 =>
      cases h2 : fghCircleTable m.sinf m.cosf m.M_PI w.mallocOk stacks' true with
      | error e => rfl
      | ok t2 =>
        obtain ⟨_, _, _, hr1⟩ := slices_reads m.sinf m.cosf m.M_PI w.mallocOk slices hs t1 h1
        obtain ⟨hb, _, _, hr2⟩ := circle_reads m.sinf m.cosf m.M_PI w.mallocOk stacks' true hk t2 h2
        have habs := le_abs_self stacks'
        have L1 := forRangeChecked_ok 1 stacks'
          (fun i gl => do
            let z ← t2.cost.read i
            let r ← t2.sint.read i
            let gl := gl ++ [GLImm.glBegin GLenum.GL_LINE_LOOP]
            let gl ← forRangeInclChecked 0 slices
              (fun j gl => do
                let x ← t1.cost.read j
                let y ← t1.sint.read j
                pure (gl ++ [GLImm.glNormal3f x y z,
                             GLImm.glVertex3f (x * r * radius) (y * r * radius) (z * radius)])) gl
            pure (gl ++ [GLImm.glEnd]))
          (fun i gl =>
            let z := t2.cost.cell i
            let r := t2.sint.cell i
            let gl := gl ++ [GLImm.glBegin GLenum.GL_LINE_LOOP]
            let gl := forRangeIncl 0 slices
              (fun j gl =>
                let x := t1.cost.cell j
                let y := t1.sint.cell j
                gl ++ [GLImm.glNormal3f x y z,
                       GLImm.glVertex3f (x * r * radius) (y * r * radius) (z * radius)]) gl
            gl ++ [GLImm.glEnd]) []
          (by
            intro i a b gl
            have r := hr2 i (by omega) (by omega)
            simp only []
            rw [r.1, r.2]
            simp only [ok_bind, pair_loop_incl t1 slices hr1]
            rfl)
        have L2 := fun gl0 => forRangeChecked_ok 0 slices
          (fun i gl => do
            let gl := gl ++ [GLImm.glBegin GLenum.GL_LINE_STRIP]
            let gl ← forRangeInclChecked 0 stacks'
              (fun j gl => do
                let c1 ← t1.cost.read i
                let s2 ← t2.sint.read j
                let s1 ← t1.sint.read i
                let c2 ← t2.cost.read j
                let x := c1 * s2
                let y := s1 * s2
                let z := c2
                pure (gl ++ [GLImm.glNormal3f x y z,
                             GLImm.glVertex3f (x * radius) (y * radius) (z * radius)])) gl
            pure (gl ++ [GLImm.glEnd]))
          (fun i gl =>
            let gl := gl ++ [GLImm.glBegin GLenum.GL_LINE_STRIP]
            let gl := forRangeIncl 0 stacks'
              (fun j gl =>
                let x := t1.cost.cell i * t2.sint.cell j
                let y := t1.sint.cell i * t2.sint.cell j
                let z := t2.cost.cell j
                gl ++ [GLImm.glNormal3f x y z,
                       GLImm.glVertex3f (x * radius) (y * radius) (z * radius)]) gl
            gl ++ [GLImm.glEnd]) gl0
          (by
            intro i a b gl
            have ri := hr1 i a (by omega)
            have inner := forRangeInclChecked_ok 0 stacks'
              (fun j gl => do
                let c1 ← t1.cost.read i
                let s2 ← t2.sint.read j
                let s1 ← t1.sint.read i
                let c2 ← t2.cost.read j
                let x := c1 * s2
                let y := s1 * s2
                let z := c2
                pure (gl ++ [GLImm.glNormal3f x y z,
                             GLImm.glVertex3f (x * radius) (y * radius) (z * radius)]))
              (fun j gl =>
                let x := t1.cost.cell i * t2.sint.cell j
                let y := t1.sint.cell i * t2.sint.cell j
                let z := t2.cost.cell j
                gl ++ [GLImm.glNormal3f x y z,
                       GLImm.glVertex3f (x * radius) (y * radius) (z * radius)])
              (gl ++ [GLImm.glBegin GLenum.GL_LINE_STRIP])
              (by
                intro j c d gl'
                have rj := hr2 j c (by omega)
                simp only []
                rw [ri.1, ri.2, rj.1, rj.2]
                rfl)
            simp only []
            rw [inner]
            rfl)
        simp only []
        rw [L1]
        simp only [ok_bind]
        rw [L2]
        rfl

theorem solidConeStack_checked {α : Type} [Field α] (t : CircleTable α)
    (zStep rStep cosn sinn : α) (slices : Int)
    (hr : ∀ j : Int, 0 ≤ j → j ≤ slices →
      t.cost.read j = Except.ok (t.cost.cell j) ∧ t.sint.read j = Except.ok (t.sint.cell j))
    (s : Locals α) :
    solidConeStackChecked t zStep rStep cosn sinn slices s
      = Except.ok (solidConeStack t.sint.cell t.cost.cell zStep rStep cosn sinn slices s) := by
  unfold solidConeStackChecked solidConeStack
  simp only [ok_bind, pair_loop_incl t slices hr]
  rfl

/-- The reads of `glutSolidCone` are inside its table. -/
theorem solidCone_checked {α : Type} [Field α] (m : LibM α) (w : World) (base height : α)
    (slices stacks' : Int) (hs : -2147483648 ≤ slices ∧ slices < 2147483648) :
    glutSolidConeChecked m w base height slices stacks'
      = glutSolidCone m w base height slices stacks' := by
  unfold glutSolidConeChecked glutSolidCone
  cases h0 : FREEGLUT_EXIT_IF_NOT_INITIALISED w "glutSolidCone" with
  | error e => rfl
  | ok u =>
    cases h1 : fghCircleTable m.sinf m.cosf m.M_PI w.mallocOk (wrapInt (-slices)) false with
    | error e => rfl
    | ok t =>
      obtain ⟨hb, hsz, _, hr⟩ := slices_reads m.sinf m.cosf m.M_PI w.mallocOk slices hs t h1
      have habs := le_abs_self slices
      have h0a := abs_nonneg slices
      have r0 : t.cost.read 0 = Except.ok (t.cost.cell 0) ∧
          t.sint.read 0 = Except.ok (t.sint.cell 0) :=
        ⟨read_ok _ _ (le_refl 0) (by omega), read_ok _ _ (le_refl 0) (by omega)⟩
      have L := fun (r z : α) (gl0 : List (GLImm α)) => forRangeChecked_ok 0 slices
        (fun j gl => do
          let ca ← t.cost.read (iadd j 0)
          let sa ← t.sint.read (iadd j 0)
          let cb ← t.cost.read (iadd j 1)
          let sb ← t.sint.read (iadd j 1)
          pure (gl ++
            [GLImm.glVertex3f (ca * r) (sa * r) z,
             GLImm.glVertex3f 0 0 height,
             GLImm.glNormal3f
               (cb * (base / m.sqrtf (height * height + base * base)))
               (sb * (base / m.sqrtf (height * height + base * base)))
               (height / m.sqrtf (height * height + base * base)),
             GLImm.glVertex3f (cb * r) (sb * r) z]))
        (fun j gl => gl ++
          [GLImm.glVertex3f (t.cost.cell (iadd j 0) * r) (t.sint.cell (iadd j 0) * r) z,
           GLImm.glVertex3f 0 0 height,
           GLImm.glNormal3f
             (t.cost.cell (iadd j 1) * (base / m.sqrtf (height * height + base * base)))
             (t.sint.cell (iadd j 1) * (base / m.sqrtf (height * height + base * base)))
             (height / m.sqrtf (height * height + base * base)),
           GLImm.glVertex3f (t.cost.cell (iadd j 1) * r) (t.sint.cell (iadd j 1) * r) z]) gl0
        (by
          intro j a b gl
          have e0 : iadd j 0 = j := by
            have e := @iadd_of_range j 0 (by omega) (by omega)
            omega
          have e1 : iadd j 1 = j + 1 := iadd_of_range (by omega) (by omega)
          have ra := hr j a (by omega)
          have rb := hr (j + 1) (by omega) (by omega)
          simp only []
          rw [e0, e1, ra.1, ra.2, rb.1, rb.2]
          rfl)
      simp only []
      rw [r0.1, r0.2]
      simp only [ok_bind, pair_loop_incl t slices hr,
        forRangeChecked_ok 0 (isub stacks' 1) _
          (fun _ s => solidConeStack t.sint.cell t.cost.cell
            (height / (((if stacks' > 0 then stacks' else 1) : Int) : α))
            (base / (((if stacks' > 0 then stacks' else 1) : Int) : α))
            (height / m.sqrtf (height * height + base * base))
            (base / m.sqrtf (height * height + base * base)) slices s) _
          (fun _ _ _ s => solidConeStack_checked t _ _ _ _ slices hr s), L]
      rfl

theorem wireConeStack_checked {α : Type} [Field α] (t : CircleTable α)
    (zStep rStep cosn sinn : α) (slices : Int)
    (hr : ∀ j : Int, 0 ≤ j → j ≤ slices →
      t.cost.read j = Except.ok (t.cost.cell j) ∧ t.sint.read j = Except.ok (t.sint.cell j))
    (s : WireLocals α) :
    wireConeStackChecked t zStep rStep cosn sinn slices s
      = Except.ok (wireConeStack t.sint.cell t.cost.cell zStep rStep cosn sinn slices s) := by
  unfold wireConeStackChecked wireConeStack
  simp only [ok_bind, pair_loop t slices hr]
  rfl

/-- The reads of `glutWireCone` are inside its table. -/
theorem wireCone_checked {α : Type} [Field α] (m : LibM α) (w : World) (base height : α)
    (slices stacks' : Int) (hs : -2147483648 ≤ slices ∧ slices < 2147483648) :
    glutWireConeChecked m w base height slices stacks'
      = glutWireCone m w base height slices stacks' := by
  unfold glutWireConeChecked glutWireCone
  cases h0 : FREEGLUT_EXIT_IF_NOT_INITIALISED w "glutWireCone" with
  | error e => rfl
  | ok u =>
    cases h1 : fghCircleTable m.sinf m.cosf m.M_PI w.mallocOk (wrapInt (-slices)) false with
    | error e => rfl
    | ok t =>
      obtain ⟨_, _, _, hr⟩ := slices_reads m.sinf m.cosf m.M_PI w.mallocOk slices hs t h1
      simp only [ok_bind, pair_loop t slices hr,
        forRangeChecked_ok 0 stacks' _
          (fun _ s => wireConeStack t.sint.cell t.cost.cell
            (height / (((if stacks' > 0 then stacks' else 1) : Int) : α))
            (base / (((if stacks' > 0 then stacks' else 1) : Int) : α))
            (height / m.sqrtf (height * height + base * base))
            (base / m.sqrtf (height * height + base * base)) slices s) _
          (fun _ _ _ s => wireConeStack_checked t _ _ _ _ slices hr s)]
      rfl

theorem solidCylinderStack_checked {α : Type} [Field α] (t : CircleTable α)
    (radf height zStep : α) (slices stacks' : Int)
    (hr : ∀ j : Int, 0 ≤ j → j ≤ slices →
      t.cost.read j = Except.ok (t.cost.cell j) ∧ t.sint.read j = Except.ok (t.sint.cell j))
    (i : Int) (s : CylinderLocals α) :
    solidCylinderStackChecked t radf height zStep slices stacks' i s
      = Except.ok (solidCylinderStack t.sint.cell t.cost.cell radf height zStep slices stacks'
          i s) := by
  unfold solidCylinderStackChecked solidCylinderStack
  simp only [ok_bind, pair_loop_incl t slices hr]
  rfl

/-- The reads of `glutSolidCylinder` are inside its table. -/
theorem solidCylinder_checked {α : Type} [Field α] (m : LibM α) (w : World)
    (radius height : α) (slices stacks' : Int)
    (hs : -2147483648 ≤ slices ∧ slices < 2147483648) :
    glutSolidCylinderChecked m w radius height slices stacks'
      = glutSolidCylinder m w radius height slices stacks' := by
  unfold glutSolidCylinderChecked glutSolidCylinder
  cases h0 : FREEGLUT_EXIT_IF_NOT_INITIALISED w "glutSolidCylinder" with
  | error e => rfl
  | ok u =>
    cases h1 : fghCircleTable m.sinf m.cosf m.M_PI w.mallocOk (wrapInt (-slices)) false with
    | error e => rfl
    | ok t =>
      obtain ⟨_, _, _, hr⟩ := slices_reads m.sinf m.cosf m.M_PI w.mallocOk slices hs t h1
      by_cases hmax : stacks' = 2147483647
      · simp only [ok_bind, pair_loop_incl t slices hr, pair_loop_down t slices hr, if_pos hmax]
      · simp only [ok_bind, pair_loop_incl t slices hr, pair_loop_down t slices hr, if_neg hmax,
          forRangeInclChecked_ok 1 stacks' _
            (solidCylinderStack t.sint.cell t.cost.cell radius height
              (height / (((if stacks' > 0 then stacks' else 1) : Int) : α)) slices stacks') _
            (fun i _ _ s => solidCylinderStack_checked t _ _ _ slices stacks' hr i s)]
        rfl

theorem wireCylinderStack_checked {α : Type} [Field α] (t : CircleTable α)
    (radf height zStep : α) (slices stacks' : Int)
    (hr : ∀ j : Int, 0 ≤ j → j ≤ slices →
      t.cost.read j = Except.ok (t.cost.cell j) ∧ t.sint.read j = Except.ok (t.sint.cell j))
    (i : Int) (s : WireCylinderLocals α) :
    wireCylinderStackChecked t radf height zStep slices stacks' i s
      = Except.ok (wireCylinderStack t.sint.cell t.cost.cell radf height zStep slices stacks'
          i s) := by
  unfold wireCylinderStackChecked wireCylinderStack
  simp only [ok_bind, pair_loop t slices hr]
  rfl

/-- The reads of `glutWireCylinder` are inside its table. -/
theorem wireCylinder_checked {α : Type} [Field α] (m : LibM α) (w : World)
    (radius height : α) (slices stacks' : Int)
    (hs : -2147483648 ≤ slices ∧ slices < 2147483648) :
    glutWireCylinderChecked m w radius height slices stacks'
      = glutWireCylinder m w radius height slices stacks' := by
  unfold glutWireCylinderChecked glutWireCylinder
  cases h0 : FREEGLUT_EXIT_IF_NOT_INITIALISED w "glutWireCylinder" with
  | error e => rfl
  | ok u =>
    cases h1 : fghCircleTable m.sinf m.cosf m.M_PI w.mallocOk (wrapInt (-slices)) false with
    | error e => rfl
    | ok t =>
      obtain ⟨_, _, _, hr⟩ := slices_reads m.sinf m.cosf m.M_PI w.mallocOk slices hs t h1
      by_cases hmax : stacks' = 2147483647
      · simp only [if_pos hmax]
      · simp only [ok_bind, pair_loop t slices hr, if_neg hmax,
          forRangeInclChecked_ok 0 stacks' _
            (wireCylinderStack t.sint.cell t.cost.cell radius height
              (height / (((if stacks' > 0 then stacks' else 1) : Int) : α)) slices stacks') _
            (fun i _ _ s => wireCylinderStack_checked t _ _ _ slices stacks' hr i s)]
        rfl

theorem stores_inside_of_filled {α : Type} {G : Nat → α} {b : Buffer α} {fill : α} {size : Nat}
    (h : FilledTo G (Buffer.fresh fill size) b size) : b.size = size ∧ b.storesInside = true := by
  obtain ⟨h1, _, _, h4⟩ := filled_fresh_stores h
  refine ⟨h1, ?_⟩
  unfold Buffer.storesInside
  rw [List.all_eq_true]
  intro p hp
  rw [h1]
  exact decide_eq_true ((h4 p).mp hp)

/-- Every call expected of `glutWireTorus` reads inside arrays of `3 * R * n` floats. -/
theorem wireTorusCalls_inside {α : Type} (V N : Buffer α) (n R : Nat)
    (hfit : 3 * (R * n) ≤ 2147483647) (hV : V.size = 3 * (R * n)) (hN : N.size = 3 * (R * n)) :
    ∀ c ∈ wireTorusCalls V N n R, c.readsInside = true := by
  have key : ∀ j i : Nat, j < R → i < n →
      (GLImm.glNormal3fv N (sampleOffset (n : Int) j i)).readsInside = true ∧
      (GLImm.glVertex3fv V (sampleOffset (n : Int) j i)).readsInside = true := by
    intro j i hj hi
    obtain ⟨hb, _⟩ := face_slot_bounds hj hi
    have ho : sampleOffset (n : Int) j i = ((3 * (j * n + i) : Nat) : Int) :=
      torus_offset hfit hj hi
    simp only [GLImm.readsInside, ho, hV, hN, decide_eq_true_eq]
    omega
  intro c hc
  unfold wireTorusCalls at hc
  simp only [List.mem_append, List.mem_flatMap, List.mem_range, List.mem_cons,
    List.mem_singleton, List.not_mem_nil, or_false] at hc
  rcases hc with ((rfl | ⟨i, hi, (rfl | ⟨j, hj, (rfl | rfl)⟩) | rfl⟩) |
    ⟨j, hj, (rfl | ⟨i, hi, (rfl | rfl)⟩) | rfl⟩) | rfl
  · rfl
  · rfl
  · exact (key j i hj hi).1
  · exact (key j i hj hi).2
  · rfl
  · rfl
  · exact (key j i hj hi).1
  · exact (key j i hj hi).2
  · rfl
  · rfl

/-- A call that reads the three floats of sample `q` reads inside an array of `T` samples
where `q < T`. -/
theorem reads_inside_at {α : Type} (B : Buffer α) (q T : Nat) (hB : B.size = 3 * T)
    (h : q < T) :
    (GLImm.glNormal3fv B ((3 * q : Nat) : Int)).readsInside = true ∧
    (GLImm.glVertex3fv B ((3 * q : Nat) : Int)).readsInside = true := by
  have h1 : (0 : Int) ≤ ((3 * q : Nat) : Int) ∧
      ((3 * q : Nat) : Int) + 2 < ((3 * T : Nat) : Int) := by
    constructor <;> omega
  simp only [GLImm.readsInside, hB, decide_eq_true_eq]
  exact ⟨h1, h1⟩

/-- Every call expected of `glutSolidTorus` reads inside arrays of `3 * (R + 1) * (n + 1)`
floats, the corner at `offset + 3 * nSides + 3` included. -/
theorem solidTorusCalls_inside {α : Type} (V N : Buffer α) (n R : Nat)
    (hfit : 3 * ((R + 1) * (n + 1)) ≤ 2147483647) (hV : V.size = 3 * ((R + 1) * (n + 1)))
    (hN : N.size = 3 * ((R + 1) * (n + 1))) :
    ∀ c ∈ solidTorusCalls V N n R, c.readsInside = true := by
  have key : ∀ (B : Buffer α) (j i : Nat), B.size = 3 * ((R + 1) * (n + 1)) → j < R → i < n →
      ((GLImm.glNormal3fv B (sampleOffset ((n + 1 : Nat) : Int) j i)).readsInside = true ∧
       (GLImm.glVertex3fv B (sampleOffset ((n + 1 : Nat) : Int) j i)).readsInside = true) ∧
      ((GLImm.glNormal3fv B (sampleOffset ((n + 1 : Nat) : Int) j i + 3)).readsInside = true ∧
       (GLImm.glVertex3fv B (sampleOffset ((n + 1 : Nat) : Int) j i + 3)).readsInside = true) ∧
      ((GLImm.glNormal3fv B (sampleOffset ((n + 1 : Nat) : Int) j i
          + imul 3 ((n + 1 : Nat) : Int) + 3)).readsInside = true ∧
       (GLImm.glVertex3fv B (sampleOffset ((n + 1 : Nat) : Int) j i
          + imul 3 ((n + 1 : Nat) : Int) + 3)).readsInside = true) ∧
      ((GLImm.glNormal3fv B (sampleOffset ((n + 1 : Nat) : Int) j i
          + imul 3 ((n + 1 : Nat) : Int))).readsInside = true ∧
       (GLImm.glVertex3fv B (sampleOffset ((n + 1 : Nat) : Int) j i
          + imul 3 ((n + 1 : Nat) : Int))).readsInside = true) := by
    intro B j i hB hj hi
    obtain ⟨o0, o1, o2, o3⟩ := quad_offsets hfit hj hi
    obtain ⟨b0, _⟩ := face_slot_bounds (Nat.lt_succ_of_lt hj) (Nat.lt_succ_of_lt hi)
    obtain ⟨b1, _⟩ := face_slot_bounds (Nat.lt_succ_of_lt hj) (Nat.succ_lt_succ hi)
    obtain ⟨b2, _⟩ := face_slot_bounds (Nat.succ_lt_succ hj) (Nat.succ_lt_succ hi)
    obtain ⟨b3, _⟩ := face_slot_bounds (Nat.succ_lt_succ hj) (Nat.lt_succ_of_lt hi)
    rw [o2, o3, o1, o0]
    exact ⟨reads_inside_at B _ _ hB b0, reads_inside_at B _ _ hB b1,
      reads_inside_at B _ _ hB b2, reads_inside_at B _ _ hB b3⟩
  intro c hc
  unfold solidTorusCalls at hc
  simp only [List.mem_append, List.mem_flatMap, List.mem_range, List.mem_cons,
    List.mem_singleton, List.not_mem_nil, or_false] at hc
  rcases hc with ((rfl | rfl) | ⟨i, hi, j, hj, h⟩) | (rfl | rfl)
  · rfl
  · rfl
  · obtain ⟨⟨k0, _⟩, ⟨k1, _⟩, ⟨k2, _⟩, ⟨k3, _⟩⟩ := key N j i hN hj hi
    obtain ⟨⟨_, l0⟩, ⟨_, l1⟩, ⟨_, l2⟩, ⟨_, l3⟩⟩ := key V j i hV hj hi
    rcases h with rfl | rfl | rfl | rfl | rfl | rfl | rfl | rfl
    · exact k0
    · exact l0
    · exact k1
    · exact l1
    · exact k2
    · exact l2
    · exact k3
    · exact l3
  · rfl
  · rfl

/-- One round of the sample loops keeps the sizes of the two arrays and every store made
before it. -/
theorem torusRing_keeps {α : Type} [Field α] (m : LibM α) (iradius oradius dpsi dphi : α)
    (nSides j : Int) (s : TorusLocals α) :
    (torusRing m iradius oradius dpsi dphi nSides j s).vertex.size = s.vertex.size ∧
    (torusRing m iradius oradius dpsi dphi nSides j s).normal.size = s.normal.size ∧
    (∀ p : Int, p ∈ s.vertex.stores →
      p ∈ (torusRing m iradius oradius dpsi dphi nSides j s).vertex.stores) ∧
    (∀ p : Int, p ∈ s.normal.stores →
      p ∈ (torusRing m iradius oradius dpsi dphi nSides j s).normal.stores) := by
  simp only [torusRing]
  rw [forRange_eq]
  have key := forLoop_inv
    (fun k : Nat => torusSample m iradius oradius dphi nSides (m.cosf s.psi) (m.sinf s.psi) j
      (0 + (k : Int)))
    (fun (_ : Nat) (u : TorusLocals α) =>
      u.vertex.size = s.vertex.size ∧ u.normal.size = s.normal.size ∧
      (∀ p : Int, p ∈ s.vertex.stores → p ∈ u.vertex.stores) ∧
      (∀ p : Int, p ∈ s.normal.stores → p ∈ u.normal.stores))
    (nSides - 0).toNat { vertex := s.vertex, normal := s.normal, phi := 0, psi := s.psi }
    ⟨rfl, rfl, fun _ h => h, fun _ h => h⟩
    (by
      intro i u _ ⟨h1, h2, h3, h4⟩
      refine ⟨h1, h2, ?_, ?_⟩
      · intro p hp
        simp only [torusSample, Buffer.store, List.mem_cons]
        exact Or.inr (Or.inr (Or.inr (h3 p hp)))
      · intro p hp
        simp only [torusSample, Buffer.store, List.mem_cons]
        exact Or.inr (Or.inr (Or.inr (h4 p hp))))
  exact key

/-- The sample loops keep the sizes of the two arrays and every store of their first
round. -/
theorem torus_rings_keep {α : Type} [Field α] (m : LibM α) (iradius oradius dpsi dphi : α)
    (nSides : Int) (R : Nat) (hR : 1 ≤ R) (s : TorusLocals α) :
    (forRange 0 (R : Int) (torusRing m iradius oradius dpsi dphi nSides) s).vertex.size
      = s.vertex.size ∧
    (forRange 0 (R : Int) (torusRing m iradius oradius dpsi dphi nSides) s).normal.size
      = s.normal.size ∧
    ∀ p : Int, p ∈ (torusRing m iradius oradius dpsi dphi nSides 0 s).vertex.stores →
      p ∈ (forRange 0 (R : Int) (torusRing m iradius oradius dpsi dphi nSides) s).vertex.stores := by
  have hRt : ((R : Int) - 0).toNat = R := by omega
  rw [forRange_eq, hRt]
  have key := forLoop_inv
    (fun k : Nat => torusRing m iradius oradius dpsi dphi nSides (0 + (k : Int)))
    (fun (k : Nat) (u : TorusLocals α) =>
      u.vertex.size = s.vertex.size ∧ u.normal.size = s.normal.size ∧ (k = 0 → u = s) ∧
      (1 ≤ k → ∀ p : Int, p ∈ (torusRing m iradius oradius dpsi dphi nSides 0 s).vertex.stores →
        p ∈ u.vertex.stores))
    R s ⟨rfl, rfl, fun _ => rfl, fun h => absurd h (by decide)⟩
    (by
      intro k u _ ⟨h1, h1', h0, h2⟩
      obtain ⟨k1, k2, k3, _⟩ := torusRing_keeps m iradius oradius dpsi dphi nSides
        (0 + (k : Int)) u
      refine ⟨by rw [k1, h1], by rw [k2, h1'], fun h => absurd h (Nat.succ_ne_zero k), ?_⟩
      intro _ p hp
      by_cases hk : k = 0
      · rw [h0 hk, hk]
        simpa using hp
      · exact k3 p (h2 (by omega) p hp))
  exact ⟨key.1, key.2.1, key.2.2.2 hR⟩

/-- The result of `glutWireTorus` for counts of at least 1 whose element count, as the
`int` it is computed in, is not negative: the calls expected, on the arrays that the
sample loops leave. -/
theorem wireTorus_unfold {α : Type} [Field α] (m : LibM α) (w : World) (iradius oradius : α)
    (n R : Nat) (hn : 1 ≤ n) (hR : 1 ≤ R) (hinit : w.Initialised = true)
    (hm : w.mallocOk = true) (hc : 0 ≤ imul (imul 3 (n : Int)) (R : Int)) :
    glutWireTorus m w iradius oradius (n : Int) (R : Int)
      = Except.ok (wireTorusCalls
          (forRange 0 (R : Int) (torusRing m iradius oradius
              (2 * m.M_PI / (((R : Nat) : Int) : α)) (-2 * m.M_PI / (((n : Nat) : Int) : α))
              (n : Int))
            { vertex := Buffer.fresh 0 (imul (imul 3 (n : Int)) (R : Int)).toNat
              normal := Buffer.fresh 0 (imul (imul 3 (n : Int)) (R : Int)).toNat
              phi := 0, psi := 0 }).vertex
          (forRange 0 (R : Int) (torusRing m iradius oradius
              (2 * m.M_PI / (((R : Nat) : Int) : α)) (-2 * m.M_PI / (((n : Nat) : Int) : α))
              (n : Int))
            { vertex := Buffer.fresh 0 (imul (imul 3 (n : Int)) (R : Int)).toNat
              normal := Buffer.fresh 0 (imul (imul 3 (n : Int)) (R : Int)).toNat
              phi := 0, psi := 0 }).normal n R) := by
  have hn1 : ¬ ((n : Int) < 1) := by omega
  have hR1 : ¬ ((R : Int) < 1) := by omega
  have hcond : (w.mallocOk && decide (0 ≤ imul (imul 3 (n : Int)) (R : Int))) = true := by
    rw [hm, Bool.true_and]
    exact decide_eq_true hc
  have hRt : ((R : Int) - 0).toNat = R := by omega
  have hnt : ((n : Int) - 0).toNat = n := by omega
  unfold glutWireTorus wireTorusCalls sampleOffset
  simp only [guard_ok w _ hinit, hn1, hR1, if_false, hcond, if_true,
    forRange_append, hRt, hnt, List.append_assoc]

theorem first_ring_store {α : Type} [Field α] (m : LibM α) (iradius oradius dpsi dphi : α)
    (s : TorusLocals α) :
    (2 : Int) ∈ (torusRing m iradius oradius dpsi dphi ((1 : Nat) : Int) 0 s).vertex.stores := by
  have e1 : (((1 : Nat) : Int) - 0).toNat = 1 := by decide
  have e2 : imul 3 (iadd (imul 0 ((1 : Nat) : Int)) (0 + ((0 : Nat) : Int))) + 2 = 2 := by decide
  simp only [torusRing]
  rw [forRange_eq, e1]
  simp only [forLoop, torusSample, Buffer.store, e2, List.mem_cons, true_or]

/-- For one side and a count of rings at which `3 * nSides * nRings` is 2 as an `int`,
`glutWireTorus` stores to the float 2 of arrays of 2 floats. -/
theorem wireTorus_overflow {α : Type} [Field α] (m : LibM α) (w : World) (iradius oradius : α)
    (R : Nat) (hR : 1 ≤ R) (hinit : w.Initialised = true) (hm : w.mallocOk = true)
    (hc : imul (imul 3 ((1 : Nat) : Int)) (R : Int) = 2) :
    ∃ V N : Buffer α,
      glutWireTorus m w iradius oradius ((1 : Nat) : Int) (R : Int)
        = Except.ok (wireTorusCalls V N 1 R) ∧
      V.size = 2 ∧ N.size = 2 ∧ (2 : Int) ∈ V.stores := by
  have hu := wireTorus_unfold m w iradius oradius 1 R (le_refl 1) hR hinit hm
    (by rw [hc]; decide)
  rw [hc] at hu
  obtain ⟨k1, k2, k3⟩ := torus_rings_keep m iradius oradius
    (2 * m.M_PI / (((R : Nat) : Int) : α)) (-2 * m.M_PI / (((1 : Nat) : Int) : α))
    ((1 : Nat) : Int) R hR
    { vertex := Buffer.fresh 0 (2 : Int).toNat, normal := Buffer.fresh 0 (2 : Int).toNat,
      phi := 0, psi := 0 }
  exact ⟨_, _, hu, k1, k2, k3 2 (first_ring_store m iradius oradius _ _ _)⟩

/-- In an initialised program, for counts of at least 1 whose array can be allocated, every
float that `glutWireTorus` stores to or hands to OpenGL lies inside the `3 * R * n` floats
allocated. -/
theorem wireTorus_accesses {α : Type} [Field α] (m : LibM α) (w : World) (iradius oradius : α)
    (n R : Nat) (hn : 1 ≤ n) (hR : 1 ≤ R) (hinit : w.Initialised = true)
    (hm : w.mallocOk = true) (hfit : 3 * (R * n) ≤ 2147483647) :
    ∃ V N : Buffer α,
      glutWireTorus m w iradius oradius (n : Int) (R : Int)
        = Except.ok (wireTorusCalls V N n R) ∧
      V.size = 3 * (R * n) ∧ N.size = 3 * (R * n) ∧
      V.storesInside = true ∧ N.storesInside = true ∧
      ∀ c ∈ wireTorusCalls V N n R, c.readsInside = true := by
  obtain ⟨V, N, fv, fn, hc⟩ := wireTorus_trace m w iradius oradius n R hn hR hfit hinit hm
  obtain ⟨v1, v2⟩ := stores_inside_of_filled fv
  obtain ⟨n1, n2⟩ := stores_inside_of_filled fn
  exact ⟨V, N, hc, v1, n1, v2, n2, wireTorusCalls_inside V N n R hfit v1 n1⟩

/-- In an initialised program, for counts of at least 1 whose array can be allocated, every
float that `glutSolidTorus` stores to or hands to OpenGL lies inside the
`3 * (R + 1) * (n + 1)` floats allocated. -/
theorem solidTorus_accesses {α : Type} [Field α] (m : LibM α) (w : World) (iradius oradius : α)
    (n R : Nat) (hn : 1 ≤ n) (hR : 1 ≤ R) (hinit : w.Initialised = true)
    (hm : w.mallocOk = true) (hfit : 3 * ((R + 1) * (n + 1)) ≤ 2147483647) :
    ∃ V N : Buffer α,
      glutSolidTorus m w iradius oradius (n : Int) (R : Int)
        = Except.ok (solidTorusCalls V N n R) ∧
      V.size = 3 * ((R + 1) * (n + 1)) ∧ N.size = 3 * ((R + 1) * (n + 1)) ∧
      V.storesInside = true ∧ N.storesInside = true ∧
      ∀ c ∈ solidTorusCalls V N n R, c.readsInside = true := by
  obtain ⟨V, N, fv, fn, hc⟩ := solidTorus_trace m w iradius oradius n R hn hR hfit hinit hm
  obtain ⟨v1, v2⟩ := stores_inside_of_filled fv
  obtain ⟨n1, n2⟩ := stores_inside_of_filled fn
  exact ⟨V, N, hc, v1, n1, v2, n2, solidTorusCalls_inside V N n R hfit v1 n1⟩

theorem solidSphere_returns {α : Type} [Field α] (m : LibM α) (w : World) (radius : α)
    (slices stacks' : Int) (t1 t2 : CircleTable α) (hinit : w.Initialised = true)
    (h1 : fghCircleTable m.sinf m.cosf m.M_PI w.mallocOk (wrapInt (-slices)) false = Except.ok t1)
    (h2 : fghCircleTable m.sinf m.cosf m.M_PI w.mallocOk stacks' true = Except.ok t2) :
    ∃ calls, glutSolidSphere m w radius slices stacks' = Except.ok calls := by
  unfold glutSolidSphere
  simp only [guard_ok w _ hinit, h1, h2]
  exact ⟨_, rfl⟩

theorem wireSphere_returns {α : Type} [Field α] (m : LibM α) (w : World) (radius : α)
    (slices stacks' : Int) (t1 t2 : CircleTable α) (hinit : w.Initialised = true)
    (h1 : fghCircleTable m.sinf m.cosf m.M_PI w.mallocOk (wrapInt (-slices)) false = Except.ok t1)
    (h2 : fghCircleTable m.sinf m.cosf m.M_PI w.mallocOk stacks' true = Except.ok t2) :
    ∃ calls, glutWireSphere m w radius slices stacks' = Except.ok calls := by
  unfold glutWireSphere
  simp only [guard_ok w _ hinit, h1, h2]
  exact ⟨_, rfl⟩

theorem solidCone_returns {α : Type} [Field α] (m : LibM α) (w : World) (base height : α)
    (slices stacks' : Int) (t : CircleTable α) (hinit : w.Initialised = true)
    (h1 : fghCircleTable m.sinf m.cosf m.M_PI w.mallocOk (wrapInt (-slices)) false = Except.ok t) :
    ∃ calls, glutSolidCone m w base height slices stacks' = Except.ok calls := by
  unfold glutSolidCone
  simp only [guard_ok w _ hinit, h1]
  exact ⟨_, rfl⟩

theorem wireCone_returns {α : Type} [Field α] (m : LibM α) (w : World) (base height : α)
    (slices stacks' : Int) (t : CircleTable α) (hinit : w.Initialised = true)
    (h1 : fghCircleTable m.sinf m.cosf m.M_PI w.mallocOk (wrapInt (-slices)) false = Except.ok t) :
    ∃ calls, glutWireCone m w base height slices stacks' = Except.ok calls := by
  unfold glutWireCone
  simp only [guard_ok w _ hinit, h1]
  exact ⟨_, rfl⟩

theorem solidCylinder_returns {α : Type} [Field α] (m : LibM α) (w : World) (radius height : α)
    (slices stacks' : Int) (t : CircleTable α) (hinit : w.Initialised = true)
    (h1 : fghCircleTable m.sinf m.cosf m.M_PI w.mallocOk (wrapInt (-slices)) false = Except.ok t)
    (hmax : stacks' ≠ 2147483647) :
    ∃ calls, glutSolidCylinder m w radius height slices stacks' = Except.ok calls := by
  unfold glutSolidCylinder
  simp only [guard_ok w _ hinit, h1, if_neg hmax]
  exact ⟨_, rfl⟩

theorem wireCylinder_returns {α : Type} [Field α] (m : LibM α) (w : World) (radius height : α)
    (slices stacks' : Int) (t : CircleTable α) (hinit : w.Initialised = true)
    (h1 : fghCircleTable m.sinf m.cosf m.M_PI w.mallocOk (wrapInt (-slices)) false = Except.ok t)
    (hmax : stacks' ≠ 2147483647) :
    ∃ calls, glutWireCylinder m w radius height slices stacks' = Except.ok calls := by
  unfold glutWireCylinder
  simp only [guard_ok w _ hinit, h1, if_neg hmax]
  exact ⟨_, rfl⟩

/-- C31 (amended): in an initialised program whose allocations succeed, for `slices` and
`stacks` of magnitude at most `2^31 - 2`, the circle tables of the six quadric functions
are built with `|slices| + 1` and `|stacks| + 1` entries, and each of the functions, run
with every read of a table entry checked to have its index in `[0, |n|]`, returns the calls
it makes without the check; and for `nSides`, `nRings` whose clamped values `n`, `R` have
the element count in the range of `int`, `glutWireTorus` allocates `3 * n * R` floats and
`glutSolidTorus` `3 * (n + 1) * (R + 1)` floats to each array, every store goes to one of
them, and every call reads three floats inside them, the corner at
`offset + 3 * nSides + 3` of the quad loop included. -/
theorem quadric_accesses_inside {α : Type} [Field α] (m : LibM α) (w : World)
    (radius base height iradius oradius : α) (slices stacks' nSides nRings : Int)
    (hinit : w.Initialised = true) (hm : w.mallocOk = true)
    (hs : -2147483646 ≤ slices ∧ slices ≤ 2147483646)
    (hk : -2147483646 ≤ stacks' ∧ stacks' ≤ 2147483646) :
    (∃ t1 t2 : CircleTable α,
      fghCircleTable m.sinf m.cosf m.M_PI w.mallocOk (wrapInt (-slices)) false = Except.ok t1 ∧
      fghCircleTable m.sinf m.cosf m.M_PI w.mallocOk stacks' true = Except.ok t2 ∧
      (t1.sint.size : Int) = |slices| + 1 ∧ (t1.cost.size : Int) = |slices| + 1 ∧
      (t2.sint.size : Int) = |stacks'| + 1 ∧ (t2.cost.size : Int) = |stacks'| + 1) ∧
    (∃ calls, glutSolidSphereChecked m w radius slices stacks' = Except.ok calls ∧
      glutSolidSphere m w radius slices stacks' = Except.ok calls) ∧
    (∃ calls, glutWireSphereChecked m w radius slices stacks' = Except.ok calls ∧
      glutWireSphere m w radius slices stacks' = Except.ok calls) ∧
    (∃ calls, glutSolidConeChecked m w base height slices stacks' = Except.ok calls ∧
      glutSolidCone m w base height slices stacks' = Except.ok calls) ∧
    (∃ calls, glutWireConeChecked m w base height slices stacks' = Except.ok calls ∧
      glutWireCone m w base height slices stacks' = Except.ok calls) ∧
    (∃ calls, glutSolidCylinderChecked m w radius height slices stacks' = Except.ok calls ∧
      glutSolidCylinder m w radius height slices stacks' = Except.ok calls) ∧
    (∃ calls, glutWireCylinderChecked m w radius height slices stacks' = Except.ok calls ∧
      glutWireCylinder m w radius height slices stacks' = Except.ok calls) ∧
    (3 * (max nRings 1 * max nSides 1) ≤ 2147483647 →
     ∃ V N : Buffer α,
      glutWireTorus m w iradius oradius nSides nRings
        = Except.ok (wireTorusCalls V N (max nSides 1).toNat (max nRings 1).toNat) ∧
      V.size = 3 * ((max nRings 1).toNat * (max nSides 1).toNat) ∧
      N.size = 3 * ((max nRings 1).toNat * (max nSides 1).toNat) ∧
      V.storesInside = true ∧ N.storesInside = true ∧
      ∀ c ∈ wireTorusCalls V N (max nSides 1).toNat (max nRings 1).toNat,
        c.readsInside = true) ∧
    (3 * ((max nRings 1 + 1) * (max nSides 1 + 1)) ≤ 2147483647 →
     ∃ V N : Buffer α,
      glutSolidTorus m w iradius oradius nSides nRings
        = Except.ok (solidTorusCalls V N (max nSides 1).toNat (max nRings 1).toNat) ∧
      V.size = 3 * (((max nRings 1).toNat + 1) * ((max nSides 1).toNat + 1)) ∧
      N.size = 3 * (((max nRings 1).toNat + 1) * ((max nSides 1).toNat + 1)) ∧
      V.storesInside = true ∧ N.storesInside = true ∧
      ∀ c ∈ solidTorusCalls V N (max nSides 1).toNat (max nRings 1).toNat,
        c.readsInside = true) := by
  have hsr : -2147483648 ≤ slices ∧ slices < 2147483648 := ⟨by omega, by omega⟩
  have hkr : -2147483648 ≤ stacks' ∧ stacks' < 2147483648 := ⟨by omega, by omega⟩
  have hw : wrapInt (-slices) = -slices := wrapInt_of_range (by omega) (by omega)
  have ha1 : |wrapInt (-slices)| ≤ 2147483646 := by
    rw [hw, abs_neg]
    exact abs_le.mpr hs
  have ha2 : |stacks'| ≤ 2147483646 := abs_le.mpr hk
  obtain ⟨t1, h1'⟩ := circle_table_returns m.sinf m.cosf m.M_PI (wrapInt (-slices)) false ha1
  obtain ⟨t2, h2'⟩ := circle_table_returns m.sinf m.cosf m.M_PI stacks' true ha2
  have h1 : fghCircleTable m.sinf m.cosf m.M_PI w.mallocOk (wrapInt (-slices)) false
      = Except.ok t1 := by
    rw [hm]
    exact h1'
  have h2 : fghCircleTable m.sinf m.cosf m.M_PI w.mallocOk stacks' true = Except.ok t2 := by
    rw [hm]
    exact h2'
  obtain ⟨_, s1, s2, _⟩ := slices_reads m.sinf m.cosf m.M_PI w.mallocOk slices hsr t1 h1
  obtain ⟨_, s3, s4, _⟩ := circle_reads m.sinf m.cosf m.M_PI w.mallocOk stacks' true hkr t2 h2
  obtain ⟨c1, e1⟩ := solidSphere_returns m w radius slices stacks' t1 t2 hinit h1 h2
  obtain ⟨c2, e2⟩ := wireSphere_returns m w radius slices stacks' t1 t2 hinit h1 h2
  obtain ⟨c3, e3⟩ := solidCone_returns m w base height slices stacks' t1 hinit h1
  obtain ⟨c4, e4⟩ := wireCone_returns m w base height slices stacks' t1 hinit h1
  obtain ⟨c5, e5⟩ := solidCylinder_returns m w radius height slices stacks' t1 hinit h1
    (by omega)
  obtain ⟨c6, e6⟩ := wireCylinder_returns m w radius height slices stacks' t1 hinit h1
    (by omega)
  have hn : ((max nSides 1).toNat : Int) = max nSides 1 := Int.toNat_of_nonneg (by omega)
  have hR : ((max nRings 1).toNat : Int) = max nRings 1 := Int.toNat_of_nonneg (by omega)
  refine ⟨⟨t1, t2, h1, h2, s1, s2, s3, s4⟩,
    ⟨c1, by rw [solidSphere_checked m w radius slices stacks' hsr hkr]; exact e1, e1⟩,
    ⟨c2, by rw [wireSphere_checked m w radius slices stacks' hsr hkr]; exact e2, e2⟩,
    ⟨c3, by rw [solidCone_checked m w base height slices stacks' hsr]; exact e3, e3⟩,
    ⟨c4, by rw [wireCone_checked m w base height slices stacks' hsr]; exact e4, e4⟩,
    ⟨c5, by rw [solidCylinder_checked m w radius height slices stacks' hsr]; exact e5, e5⟩,
    ⟨c6, by rw [wireCylinder_checked m w radius height slices stacks' hsr]; exact e6, e6⟩,
    ?_, ?_⟩
  · intro hfit
    have hfit' : 3 * ((max nRings 1).toNat * (max nSides 1).toNat) ≤ 2147483647 := by
      have e : ((3 * ((max nRings 1).toNat * (max nSides 1).toNat) : Nat) : Int)
          = 3 * (max nRings 1 * max nSides 1) := by
        push_cast
        rw [hn, hR]
      omega
    obtain ⟨V, N, hc, q⟩ := wireTorus_accesses m w iradius oradius (max nSides 1).toNat
      (max nRings 1).toNat (by omega) (by omega) hinit hm hfit'
    rw [hn, hR] at hc
    exact ⟨V, N, by rw [wireTorus_clamp]; exact hc, q⟩
  · intro hfit
    have hfit' : 3 * (((max nRings 1).toNat + 1) * ((max nSides 1).toNat + 1))
        ≤ 2147483647 := by
      have e : ((3 * (((max nRings 1).toNat + 1) * ((max nSides 1).toNat + 1)) : Nat) : Int)
          = 3 * ((max nRings 1 + 1) * (max nSides 1 + 1)) := by
        push_cast
        rw [hn, hR]
      omega
    obtain ⟨V, N, hc, q⟩ := solidTorus_accesses m w iradius oradius (max nSides 1).toNat
      (max nRings 1).toNat (by omega) (by omega) hinit hm hfit'
    rw [hn, hR] at hc
    exact ⟨V, N, by rw [solidTorus_clamp]; exact hc, q⟩

/-- Witness for C31: the real sine and cosine, four slices and three stacks, `nSides = 0`
(treated as 1) and three rings: the checked sphere returns, the array of the wire torus
has 9 floats and that of the solid torus 24. -/
theorem quadric_accesses_inside_witness :
    (∃ calls, glutSolidSphereChecked
        ({ sinf := Real.sin, cosf := Real.cos, sqrtf := Real.sqrt, M_PI := Real.pi } : LibM ℝ)
        (World.boot true true []) 1 4 3 = Except.ok calls) ∧
    (∃ V N : Buffer ℝ,
      glutWireTorus
          ({ sinf := Real.sin, cosf := Real.cos, sqrtf := Real.sqrt, M_PI := Real.pi } : LibM ℝ)
          (World.boot true true []) 1 2 0 3 = Except.ok (wireTorusCalls V N 1 3) ∧
      V.size = 9 ∧ V.storesInside = true) ∧
    (∃ V N : Buffer ℝ,
      glutSolidTorus
          ({ sinf := Real.sin, cosf := Real.cos, sqrtf := Real.sqrt, M_PI := Real.pi } : LibM ℝ)
          (World.boot true true []) 1 2 0 3 = Except.ok (solidTorusCalls V N 1 3) ∧
      V.size = 24 ∧ V.storesInside = true) := by
  obtain ⟨_, ⟨c1, e1, _⟩, _, _, _, _, _, hw, hs⟩ := quadric_accesses_inside
    ({ sinf := Real.sin, cosf := Real.cos, sqrtf := Real.sqrt, M_PI := Real.pi } : LibM ℝ)
    (World.boot true true []) 1 1 2 1 2 4 3 0 3 rfl rfl (by decide) (by decide)
  obtain ⟨V, N, hc, v1, _, v3, _, _⟩ := hw (by decide)
  obtain ⟨V', N', hc', v1', _, v3', _, _⟩ := hs (by decide)
  have a1 : (max (0 : Int) 1).toNat = 1 := by decide
  have a2 : (max (3 : Int) 1).toNat = 3 := by decide
  rw [a1, a2] at hc v1 hc' v1'
  exact ⟨⟨c1, e1⟩, ⟨V, N, hc, v1, v3⟩, ⟨V', N', hc', v1', v3'⟩⟩

/-- C31 fails for the torus where the element count overflows: for one side and
1431655766 rings the count `3 * nSides * nRings` is 4294967298, which is 2 as an `int`;
the arrays are allocated with 2 floats, the first sample is stored to the floats 0, 1
and 2, and the first call of the first line loop reads these three floats. -/
theorem quadric_accesses_inside_counterexample :
    ∃ V N : Buffer ℝ,
      glutWireTorus
          ({ sinf := Real.sin, cosf := Real.cos, sqrtf := Real.sqrt, M_PI := Real.pi } : LibM ℝ)
          (World.boot true true []) 1 2 1 1431655766
        = Except.ok (wireTorusCalls V N 1 1431655766) ∧
      imul (imul 3 1) 1431655766 = 2 ∧ V.size = 2 ∧ N.size = 2 ∧
      (2 : Int) ∈ V.stores ∧ V.storesInside = false ∧
      GLImm.glVertex3fv V 0 ∈ wireTorusCalls V N 1 1431655766 ∧
      (GLImm.glVertex3fv V 0).readsInside = false := by
  obtain ⟨V, N, hu, hV, hN, hmem⟩ := wireTorus_overflow
    ({ sinf := Real.sin, cosf := Real.cos, sqrtf := Real.sqrt, M_PI := Real.pi } : LibM ℝ)
    (World.boot true true []) 1 2 1431655766 (by decide) rfl rfl (by decide)
  simp only [Nat.cast_ofNat, Nat.cast_one] at hu
  refine ⟨V, N, hu, by decide, hV, hN, hmem, ?_, ?_, ?_⟩
  · unfold Buffer.storesInside
    rw [List.all_eq_false]
    refine ⟨2, hmem, ?_⟩
    rw [hV]
    decide
  · have ho : sampleOffset ((1 : Nat) : Int) 0 0 = 0 := by decide
    unfold wireTorusCalls
    apply List.mem_append_left
    apply List.mem_append_left
    apply List.mem_append_right
    rw [List.mem_flatMap]
    refine ⟨0, List.mem_range.mpr (by decide), ?_⟩
    apply List.mem_append_left
    apply List.mem_append_right
    rw [List.mem_flatMap]
    refine ⟨0, List.mem_range.mpr (by decide), ?_⟩
    rw [ho]
    exact List.mem_cons_of_mem _ (List.mem_singleton.mpr rfl)
  · simp only [GLImm.readsInside, hV]
    decide

end FreeGLUT
